import Mathlib

/-! The compiled-pipeline cache of the OpenGL backend.

A shallow embedding of `src/util/opengl_pipeline.cpp`: the program cache, the
vertex-array cache, the pipeline objects that hold references into both, and
the on-disk pipeline cache (blobs, index records, footer). Of
`src/core/gpu/opengl_device.cpp` it embeds UnbindPipeline, the texture region
copies and the ring of timestamp queries.

Conventions of the embedding:

* the device is an explicit state record; every member function takes the
  state and returns the new state together with its result;
* a function returns `none` where the C++ aborts (a failed `Assert`) or
  dereferences a null `FILE*`;
* results of the excluded collaborators (the GL driver, the C file functions)
  are arguments of the operation that consumes them;
* GL calls that matter to the cache are recorded, newest first, in `calls`;
* a std::unordered_map is an association list: `find`, assignment through the
  iterator and `erase(it)` act on the first entry with the key, `emplace` inserts
  only when the key is absent, and iteration follows the list;
* a write that fails leaves the content of the file as it was.
-/

/-! ## Bytes and object representations -/

abbrev Byte := Fin 256

/-- Little-endian object representation of an unsigned integer, `w` bytes wide
(the value is truncated to the width, as a C++ conversion does). -/
def leBytes : Nat → Nat → List Byte
  | 0, _ => []
  | w + 1, n => ⟨n % 256, Nat.mod_lt n (by decide)⟩ :: leBytes w (n / 256)

/-- Value of a little-endian byte sequence. -/
def leNat : List Byte → Nat
  | [] => 0
  | b :: bs => b.val + 256 * leNat bs

/-- The content of a fixed-size byte array: the given bytes, cut or zero-filled
to exactly `n` bytes. -/
def fixedBytes (n : Nat) (bs : List Byte) : { l : List Byte // l.length = n } :=
  ⟨(bs ++ List.replicate n 0).take n, by simp⟩

/-- sizeof(PipelineDiskCacheFooter), by the static_assert of the source. -/
def FOOTER_SIZE : Nat := 4 * 2 + 128 * 3

/-- sizeof(PipelineDiskCacheIndexEntry), by the static_assert of the source. -/
def INDEX_ENTRY_SIZE : Nat := 128

/-- sizeof(ProgramCacheKey): the index entry has no padding and four u32 after the key. -/
def PROGRAM_KEY_SIZE : Nat := 112

/-- Modelled from the spec: opengl_pipeline.h is not among the sources. The
vertex-array key holds MAX_VERTEX_ATTRIBUTES attribute words, a stride and a
count; six attributes make the 112-byte program key add up. -/
def MAX_VERTEX_ATTRIBUTES : Nat := 6

/-- Modelled from the spec: the shader fingerprint GPUShaderCache::CacheIndexKey
(its header is not among the sources), as its 40-byte object representation.
Keys are compared with memcmp, so a key is identified with its bytes. -/
abbrev CacheIndexKey := { bs : List Byte // bs.length = 40 }

/-- One GPUPipeline::VertexAttribute: a 32-bit word (`va.key`). -/
abbrev VertexAttribute := { bs : List Byte // bs.length = 4 }

/-- Modelled from the spec: OpenGLPipeline::VertexArrayCacheKey as its 32-byte
object representation: the attribute array, then the stride, then the count.
`operator==` is memcmp over the whole struct. -/
abbrev VertexArrayCacheKey := { bs : List Byte // bs.length = 32 }

/-- OpenGLPipeline::ProgramCacheKey: vertex shader key, fragment shader key and
vertex-array key. `operator==` is memcmp, here structural equality. -/
structure ProgramCacheKey where
  vs_key : CacheIndexKey
  fs_key : CacheIndexKey
  va_key : VertexArrayCacheKey
deriving DecidableEq

/-- The 112 bytes that memcpy copies out of a key. -/
def ProgramCacheKey.bytes (k : ProgramCacheKey) : List Byte :=
  k.vs_key.val ++ k.fs_key.val ++ k.va_key.val

/-- The key that fread stores from 112 bytes of the file. -/
def ProgramCacheKey.ofBytes (bs : List Byte) : ProgramCacheKey :=
  { vs_key := fixedBytes 40 (bs.take 40)
    fs_key := fixedBytes 40 ((bs.drop 40).take 40)
    va_key := fixedBytes 32 ((bs.drop 80).take 32) }

/-- OpenGLPipeline::ProgramCacheItem. The reference count is an integer so that
its sign is a property of the code and not of the type. -/
structure ProgramCacheItem where
  program_id : Nat
  reference_count : Int
  file_format : Nat
  file_offset : Nat
  file_uncompressed_size : Nat
  file_compressed_size : Nat
deriving DecidableEq

/-- OpenGLPipeline::VertexArrayCacheItem. -/
structure VertexArrayCacheItem where
  vao_id : Nat
  reference_count : Int
deriving DecidableEq

/-- The part of GPUPipeline::GraphicsConfig that the cache reads: the keys of the
two shaders (`GetKey()`), the attributes of the input layout and its stride. -/
structure GraphicsConfig where
  vertex_shader : CacheIndexKey
  fragment_shader : CacheIndexKey
  vertex_attributes : List VertexAttribute
  vertex_stride : Nat
deriving DecidableEq

/-- An OpenGLPipeline object: `addr` stands for its address (`this`). -/
structure OpenGLPipeline where
  addr : Nat
  m_key : ProgramCacheKey
  m_program : Nat
  m_vao : Nat
deriving DecidableEq

/-- OpenGLPipeline::GetProgramCacheKey. The Assert on the attribute count aborts
(`none`). memset clears the attribute array, memcpy copies the active
attributes over its start; the stride is copied only when there are attributes. -/
def GetProgramCacheKey (plconfig : GraphicsConfig) : Option ProgramCacheKey :=
  if plconfig.vertex_attributes.length ≤ MAX_VERTEX_ATTRIBUTES then
    let num_vertex_attributes := plconfig.vertex_attributes.length % 2 ^ 32
    let vertex_attributes : List Byte :=
      if num_vertex_attributes > 0 then
        (plconfig.vertex_attributes.take num_vertex_attributes).flatMap (fun va => va.val)
      else []
    let vertex_attribute_stride :=
      if num_vertex_attributes > 0 then plconfig.vertex_stride else 0
    some
      { vs_key := plconfig.vertex_shader
        fs_key := plconfig.fragment_shader
        va_key := fixedBytes 32
          ((fixedBytes (4 * MAX_VERTEX_ATTRIBUTES) vertex_attributes).val
            ++ leBytes 4 vertex_attribute_stride ++ leBytes 4 num_vertex_attributes) }
  else none

/-! ## The maps (std::unordered_map) as association lists -/

/-- Map lookup: `m.find(key)`, the mapped value of the first entry with the key. -/
def mapFind {K V : Type} [DecidableEq K] : List (K × V) → K → Option V
  | [], _ => none
  | (k, v) :: m, key => if k = key then some v else mapFind m key

/-- Assignment through the iterator returned by `find`: the first entry with the
key is changed. -/
def mapModify {K V : Type} [DecidableEq K] : List (K × V) → K → (V → V) → List (K × V)
  | [], _, _ => []
  | (k, v) :: m, key, f => if k = key then (k, f v) :: m else (k, v) :: mapModify m key f

/-- Erasure through the iterator, `m.erase(it)`: the first entry with the key is removed. -/
def mapErase {K V : Type} [DecidableEq K] : List (K × V) → K → List (K × V)
  | [], _ => []
  | (k, v) :: m, key => if k = key then m else (k, v) :: mapErase m key

/-- Insertion, `m.emplace(key, value)`: nothing is inserted when the key is present. -/
def mapEmplace {K V : Type} [DecidableEq K] (m : List (K × V)) (key : K) (v : V) :
    List (K × V) :=
  match mapFind m key with
  | some _ => m
  | none => m ++ [(key, v)]

/-! ## The C file functions -/

/-- The call `fread(buf, n, 1, f)` at position `pos`: one object of `n` bytes is read
when `n > 0` and the bytes are there. -/
def fread (file : List Byte) (pos n : Nat) : Option (List Byte) :=
  if 0 < n ∧ pos + n ≤ file.length then some ((file.drop pos).take n) else none

/-- The call `fwrite(buf, n, 1, f)` at position `pos` of a file opened for update: the
bytes replace what is there and extend the file; a gap before `pos` reads as zeros. -/
def fwrite (file : List Byte) (pos : Nat) (data : List Byte) : List Byte :=
  file.take pos ++ List.replicate (pos - file.length) 0 ++ data ++ file.drop (pos + data.length)

/-- Modelled from the spec: StringUtil::Strlcpy (common/string_util.h is not among
the sources). Copies the C string `src` (its bytes up to the first NUL) into the
array `dst` of `size` bytes, cutting it to `size - 1` bytes, and terminates it;
the bytes of `dst` after the terminator keep what they held. -/
def Strlcpy (dst : List Byte) (src : List Byte) (size : Nat) : List Byte :=
  let str := (src.takeWhile (fun b => b ≠ 0)).take (size - 1)
  (fixedBytes size (str ++ [0] ++ (fixedBytes size dst).val.drop (str.length + 1))).val

/-- Whether `std::strncmp(a, b, n) == 0`: the two arrays agree up to the first NUL,
within `n` bytes. -/
def strncmpEqual : List Byte → List Byte → Nat → Bool
  | _, _, 0 => true
  | a :: as, b :: bs, n + 1 =>
      if a ≠ b then false else if a = 0 then true else strncmpEqual as bs n
  | [], [], _ + 1 => true
  | _, _, _ + 1 => false

/-! ## The disk format -/

/-- PipelineDiskCacheFooter. -/
structure PipelineDiskCacheFooter where
  version : Nat
  num_programs : Nat
  driver_vendor : List Byte
  driver_renderer : List Byte
  driver_version : List Byte
deriving DecidableEq

/-- PipelineDiskCacheIndexEntry. -/
structure PipelineDiskCacheIndexEntry where
  key : ProgramCacheKey
  format : Nat
  offset : Nat
  uncompressed_size : Nat
  compressed_size : Nat
deriving DecidableEq

/-- The 392 bytes that fwrite writes for a footer. -/
def PipelineDiskCacheFooter.bytes (f : PipelineDiskCacheFooter) : List Byte :=
  leBytes 4 f.version ++ leBytes 4 f.num_programs ++ (fixedBytes 128 f.driver_vendor).val
    ++ (fixedBytes 128 f.driver_renderer).val ++ (fixedBytes 128 f.driver_version).val

/-- The footer that fread stores from 392 bytes. -/
def PipelineDiskCacheFooter.ofBytes (bs : List Byte) : PipelineDiskCacheFooter :=
  { version := leNat (bs.take 4)
    num_programs := leNat ((bs.drop 4).take 4)
    driver_vendor := (bs.drop 8).take 128
    driver_renderer := (bs.drop 136).take 128
    driver_version := (bs.drop 264).take 128 }

/-- The 128 bytes that fwrite writes for an index entry. -/
def PipelineDiskCacheIndexEntry.bytes (e : PipelineDiskCacheIndexEntry) : List Byte :=
  e.key.bytes ++ leBytes 4 e.format ++ leBytes 4 e.offset ++ leBytes 4 e.uncompressed_size
    ++ leBytes 4 e.compressed_size

/-- The index entry that fread stores from 128 bytes. -/
def PipelineDiskCacheIndexEntry.ofBytes (bs : List Byte) : PipelineDiskCacheIndexEntry :=
  { key := ProgramCacheKey.ofBytes (bs.take 112)
    format := leNat ((bs.drop 112).take 4)
    offset := leNat ((bs.drop 116).take 4)
    uncompressed_size := leNat ((bs.drop 120).take 4)
    compressed_size := leNat ((bs.drop 124).take 4) }

/-! ## The device state and its collaborators -/

/-- The calls on the excluded collaborators that the cache properties speak of. -/
inductive Call where
  | CompileProgram
  | CreateProgramFromPipelineCache
  | CreateVAO
  | glUseProgram (program : Nat)
  | glDeleteProgram (program : Nat)
  | glBindVertexArray (vao : Nat)
  | glDeleteVertexArrays (vao : Nat)
deriving DecidableEq

/-- What the process environment fixes for a whole session: the version of the shader
cache, the three glGetString results, the binding-layout switch of the shader
generator, and the two zstd functions (a failure is `none`). -/
structure Environment where
  version : Nat
  gl_vendor : List Byte
  gl_renderer : List Byte
  gl_version : List Byte
  UseGLSLBindingLayout : Bool
  ZSTD_compress : List Byte → Option (List Byte)
  ZSTD_decompress : List Byte → Nat → Option (List Byte)

/-- The members of OpenGLDevice that the pipeline cache uses. The open cache file is
its content (`none` is the null pointer); `m_pipeline_disk_cache_data_end` is a u32. -/
structure OpenGLDevice where
  m_program_cache : List (ProgramCacheKey × ProgramCacheItem)
  m_vao_cache : List (VertexArrayCacheKey × VertexArrayCacheItem)
  m_pipeline_disk_cache_file : Option (List Byte)
  m_pipeline_disk_cache_filename : String
  m_pipeline_disk_cache_data_end : Nat
  m_pipeline_disk_cache_changed : Bool
  m_last_program : Nat
  m_last_vao : Nat
  m_current_pipeline : Option Nat
  calls : List Call
deriving DecidableEq

/-- A device right after construction: empty caches, no cache file. -/
def OpenGLDevice.empty : OpenGLDevice :=
  { m_program_cache := []
    m_vao_cache := []
    m_pipeline_disk_cache_file := none
    m_pipeline_disk_cache_filename := ""
    m_pipeline_disk_cache_data_end := 0
    m_pipeline_disk_cache_changed := false
    m_last_program := 0
    m_last_vao := 0
    m_current_pipeline := none
    calls := [] }

/-- What the collaborators answer during one LookupProgramCache. -/
structure LookupOutcome where
  /-- FSeek64 and fread of the blob meet no I/O error -/
  read_ok : Bool
  /-- glCreateProgram in CreateProgramFromPipelineCache -/
  binary_program : Nat
  /-- glGetError after it reports an error -/
  create_error : Bool
  /-- GL_LINK_STATUS after glProgramBinary is GL_TRUE -/
  link_ok : Bool
  /-- fopen in DiscardPipelineCache succeeds -/
  reopen_ok : Bool
  /-- the result of CompileProgram, 0 when compiling or linking fails -/
  compiled : Nat
  /-- GL_PROGRAM_BINARY_LENGTH -/
  binary_length : Nat
  /-- the length that glGetProgramBinary stores -/
  binary_size : Nat
  /-- the format that glGetProgramBinary stores -/
  binary_format : Nat
  /-- the buffer that glGetProgramBinary fills -/
  binary_data : List Byte
  /-- FSeek64 and fwrite of the blob meet no I/O error -/
  write_ok : Bool

/-- What fopen(filename, "r+b") gives. -/
inductive OpenResult where
  | opened (contents : List Byte)
  | eacces
  | enoent
  | failed
deriving DecidableEq

/-- What the collaborators answer during one ReadPipelineCache. -/
structure ReadOutcome where
  open_result : OpenResult
  /-- FSeek64 and fread of the footer meet no I/O error -/
  footer_ok : Bool
  /-- FSeek64 to the index meets no error -/
  seek_ok : Bool
  /-- fread of the i-th index entry meets no I/O error -/
  entry_ok : Nat → Bool
  /-- fopen in DiscardPipelineCache succeeds -/
  reopen_ok : Bool
  /-- what the stack slot of expected_footer held -/
  stack_footer : PipelineDiskCacheFooter

/-- What the collaborators answer during one ClosePipelineCache. -/
structure CloseOutcome where
  /-- FSeek64 to data_end meets no error -/
  seek_ok : Bool
  /-- fwrite of the i-th index entry succeeds -/
  entry_ok : Nat → Bool
  /-- fwrite of the footer succeeds -/
  footer_ok : Bool
  /-- what the stack slot of footer held -/
  stack_footer : PipelineDiskCacheFooter

/-- Records a call, newest first. -/
def OpenGLDevice.record (d : OpenGLDevice) (c : Call) : OpenGLDevice :=
  { d with calls := c :: d.calls }

/-- FillFooter: version, zero programs, and the three driver strings copied with
Strlcpy into the 128-byte arrays of the footer. -/
def FillFooter (env : Environment) (footer : PipelineDiskCacheFooter) (version : Nat) :
    PipelineDiskCacheFooter :=
  { version := version % 2 ^ 32
    num_programs := 0
    driver_vendor := Strlcpy footer.driver_vendor env.gl_vendor 128
    driver_renderer := Strlcpy footer.driver_renderer env.gl_renderer 128
    driver_version := Strlcpy footer.driver_version env.gl_version 128 }

/-! ## The program cache -/

/-- OpenGLDevice::PostLinkProgram: without GLSL binding layouts the program is bound
to set its uniforms and the last program is bound again. -/
def OpenGLDevice.PostLinkProgram (env : Environment) (program_id : Nat) (d : OpenGLDevice) :
    OpenGLDevice :=
  if env.UseGLSLBindingLayout then d
  else (d.record (Call.glUseProgram program_id)).record (Call.glUseProgram d.m_last_program)

/-- OpenGLDevice::CompileProgram: compiling and linking belong to the driver, so the
program id (0 on every failure path) is an outcome; a linked program goes through
PostLinkProgram. -/
def OpenGLDevice.CompileProgram (env : Environment) (o : LookupOutcome) (d : OpenGLDevice) :
    Nat × OpenGLDevice :=
  let d := d.record Call.CompileProgram
  if o.compiled = 0 then (0, d) else (o.compiled, d.PostLinkProgram env o.compiled)

/-- The body of the loop of DiscardPipelineCache: an entry with a program stays and
loses its locator, an entry without one is erased. -/
def discardEntry (p : ProgramCacheKey × ProgramCacheItem) :
    Option (ProgramCacheKey × ProgramCacheItem) :=
  if p.2.program_id ≠ 0 then
    some (p.1, { p.2 with file_format := 0, file_offset := 0, file_uncompressed_size := 0,
                          file_compressed_size := 0 })
  else none

/-- OpenGLDevice::DiscardPipelineCache: entries without a program are erased, the
others lose their locator; the file is closed and reopened truncated ("w+b"). -/
def OpenGLDevice.DiscardPipelineCache (reopen_ok : Bool) (d : OpenGLDevice) :
    Bool × OpenGLDevice :=
  let cache := d.m_program_cache.filterMap discardEntry
  if reopen_ok then
    (true, { d with m_program_cache := cache, m_pipeline_disk_cache_data_end := 0,
                    m_pipeline_disk_cache_file := some [] })
  else
    (false, { d with m_program_cache := cache, m_pipeline_disk_cache_data_end := 0,
                     m_pipeline_disk_cache_file := none,
                     m_pipeline_disk_cache_filename := "" })

/-- OpenGLDevice::CreateProgramFromPipelineCache: reads the blob of the item,
decompresses it and hands it to glProgramBinary; 0 on every failure. -/
def OpenGLDevice.CreateProgramFromPipelineCache (env : Environment) (it : ProgramCacheItem)
    (o : LookupOutcome) (d : OpenGLDevice) : Option (Nat × OpenGLDevice) :=
  match d.m_pipeline_disk_cache_file with
  | none => none
  | some file =>
    let d := d.record Call.CreateProgramFromPipelineCache
    match (if o.read_ok then fread file it.file_offset it.file_compressed_size else none) with
    | none => some (0, d)
    | some compressed_data =>
      match env.ZSTD_decompress compressed_data it.file_uncompressed_size with
      | none => some (0, d)
      | some _ =>
        if o.create_error then some (0, d)
        else if !o.link_ok then some (0, d.record (Call.glDeleteProgram o.binary_program))
        else some (o.binary_program, d.PostLinkProgram env o.binary_program)

/-- OpenGLDevice::AddToPipelineCache: serializes the program of the item, compresses
the binary and writes it at data_end. The locator and data_end are set after the
write whether or not the write succeeded. -/
def OpenGLDevice.AddToPipelineCache (env : Environment) (it : ProgramCacheItem)
    (o : LookupOutcome) (d : OpenGLDevice) : Option (ProgramCacheItem × OpenGLDevice) :=
  if o.binary_length = 0 then some (it, d)
  else if o.binary_size = 0 then some (it, d)
  else
    match env.ZSTD_compress (o.binary_data.take o.binary_size) with
    | none => some (it, d)
    | some compressed =>
      match d.m_pipeline_disk_cache_file with
      | none => none
      | some file =>
        let file :=
          if o.write_ok ∧ 0 < compressed.length then
            fwrite file d.m_pipeline_disk_cache_data_end compressed
          else file
        some
          ({ it with file_format := o.binary_format % 2 ^ 32
                     file_offset := d.m_pipeline_disk_cache_data_end
                     file_uncompressed_size := o.binary_size % 2 ^ 32
                     file_compressed_size := compressed.length % 2 ^ 32 },
           { d with m_pipeline_disk_cache_file := some file
                    m_pipeline_disk_cache_data_end :=
                      (d.m_pipeline_disk_cache_data_end + compressed.length % 2 ^ 32) % 2 ^ 32
                    m_pipeline_disk_cache_changed := true })

/-- The tail of LookupProgramCache after a miss: compile, persist, insert. -/
def OpenGLDevice.LookupProgramCacheMiss (env : Environment) (key : ProgramCacheKey)
    (o : LookupOutcome) (d : OpenGLDevice) : Option (Nat × OpenGLDevice) :=
  let (program_id, d) := d.CompileProgram env o
  let item : ProgramCacheItem :=
    { program_id := program_id, reference_count := 0, file_format := 0, file_offset := 0,
      file_uncompressed_size := 0, file_compressed_size := 0 }
  if item.program_id ≠ 0 then
    match d.AddToPipelineCache env item o with
    | none => none
    | some (item, d) =>
      let item := { item with reference_count := item.reference_count + 1 }
      some (item.program_id,
        { d with m_program_cache := mapEmplace d.m_program_cache key item })
  else
    some (item.program_id, { d with m_program_cache := mapEmplace d.m_program_cache key item })

/-- The middle of LookupProgramCache, for an iterator that is not end(): the reference
is counted when the entry has a program, and the program id is returned. -/
def OpenGLDevice.LookupProgramCacheHit (key : ProgramCacheKey) (d : OpenGLDevice) :
    Option (Nat × OpenGLDevice) :=
  match mapFind d.m_program_cache key with
  | none => none
  | some item =>
    if item.program_id ≠ 0 then
      some (item.program_id,
        { d with m_program_cache := mapModify d.m_program_cache key
                   (fun i => { i with reference_count := i.reference_count + 1 }) })
    else some (item.program_id, d)

/-- OpenGLDevice::LookupProgramCache. -/
def OpenGLDevice.LookupProgramCache (env : Environment) (key : ProgramCacheKey)
    (o : LookupOutcome) (d : OpenGLDevice) : Option (Nat × OpenGLDevice) :=
  match mapFind d.m_program_cache key with
  | some item =>
    if item.program_id = 0 ∧ 0 < item.file_uncompressed_size then
      match d.CreateProgramFromPipelineCache env item o with
      | none => none
      | some (program_id, d) =>
        let d := { d with m_program_cache := mapModify d.m_program_cache key
                            (fun i => { i with program_id := program_id }) }
        if program_id = 0 then
          let d := { d with m_program_cache := mapErase d.m_program_cache key }
          let d := (d.DiscardPipelineCache o.reopen_ok).2
          d.LookupProgramCacheMiss env key o
        else d.LookupProgramCacheHit key
    else d.LookupProgramCacheHit key
  | none => d.LookupProgramCacheMiss env key o

/-- OpenGLDevice::UnrefProgram; the Assert aborts (`none`). -/
def OpenGLDevice.UnrefProgram (key : ProgramCacheKey) (d : OpenGLDevice) : Option OpenGLDevice :=
  match mapFind d.m_program_cache key with
  | none => none
  | some item =>
    if item.program_id ≠ 0 ∧ 0 < item.reference_count then
      if 0 < item.reference_count - 1 then
        some { d with m_program_cache := mapModify d.m_program_cache key
                        (fun i => { i with reference_count := i.reference_count - 1 }) }
      else
        let d :=
          if d.m_last_program = item.program_id then
            { d with m_last_program := 0 }.record (Call.glUseProgram 0)
          else d
        let d := d.record (Call.glDeleteProgram item.program_id)
        some { d with m_program_cache := mapModify d.m_program_cache key
                        (fun i => { i with reference_count := i.reference_count - 1,
                                           program_id := 0 }) }
    else none

/-! ## The vertex-array cache and the pipelines -/

/-- OpenGLDevice::CreateVAO: the object is made by the driver (`vao`, with `error` for
glGetError); it is bound to be set up and the last one is bound again. -/
def OpenGLDevice.CreateVAO (vao : Nat) (error : Bool) (d : OpenGLDevice) : Nat × OpenGLDevice :=
  let d := d.record Call.CreateVAO
  if error then (0, d)
  else (vao, (d.record (Call.glBindVertexArray vao)).record (Call.glBindVertexArray d.m_last_vao))

/-- OpenGLDevice::LookupVAOCache. -/
def OpenGLDevice.LookupVAOCache (key : VertexArrayCacheKey) (vao : Nat) (error : Bool)
    (d : OpenGLDevice) : Nat × OpenGLDevice :=
  match mapFind d.m_vao_cache key with
  | some item =>
    (item.vao_id,
      { d with m_vao_cache := mapModify d.m_vao_cache key
                 (fun i => { i with reference_count := i.reference_count + 1 }) })
  | none =>
    let (vao_id, d) := d.CreateVAO vao error
    if vao_id = 0 then (0, d)
    else
      (vao_id,
        { d with m_vao_cache := mapEmplace d.m_vao_cache key
                   { vao_id := vao_id, reference_count := 1 } })

/-- OpenGLDevice::UnrefVAO; the Assert aborts (`none`). -/
def OpenGLDevice.UnrefVAO (key : VertexArrayCacheKey) (d : OpenGLDevice) : Option OpenGLDevice :=
  match mapFind d.m_vao_cache key with
  | none => none
  | some item =>
    if 0 < item.reference_count then
      if 0 < item.reference_count - 1 then
        some { d with m_vao_cache := mapModify d.m_vao_cache key
                        (fun i => { i with reference_count := i.reference_count - 1 }) }
      else
        let d :=
          if d.m_last_vao = item.vao_id then
            { d with m_last_vao := 0 }.record (Call.glBindVertexArray 0)
          else d
        let d := d.record (Call.glDeleteVertexArrays item.vao_id)
        some { d with m_vao_cache := mapErase d.m_vao_cache key }
    else none

/-- OpenGLDevice::UnbindPipeline (opengl_device.cpp). -/
def OpenGLDevice.UnbindPipeline (pl : OpenGLPipeline) (d : OpenGLDevice) : OpenGLDevice :=
  if d.m_current_pipeline = some pl.addr then
    { d with m_current_pipeline := none }.record (Call.glUseProgram 0)
  else d

/-- What the collaborators answer during one CreatePipeline. -/
structure CreateOutcome where
  lookup : LookupOutcome
  /-- glGenVertexArrays in CreateVAO -/
  vao : Nat
  /-- glGetError after it reports an error -/
  vao_error : Bool
  /-- the address of the new OpenGLPipeline -/
  addr : Nat

/-- OpenGLDevice::CreatePipeline: a pipeline, or nothing when the program or the vertex
array cannot be had. -/
def OpenGLDevice.CreatePipeline (env : Environment) (config : GraphicsConfig)
    (o : CreateOutcome) (d : OpenGLDevice) : Option (Option OpenGLPipeline × OpenGLDevice) :=
  match GetProgramCacheKey config with
  | none => none
  | some pkey =>
    match d.LookupProgramCache env pkey o.lookup with
    | none => none
    | some (program_id, d) =>
      if program_id = 0 then some (none, d)
      else
        let (vao_id, d) := d.LookupVAOCache pkey.va_key o.vao o.vao_error
        if vao_id = 0 then
          match d.UnrefProgram pkey with
          | none => none
          | some d => some (none, d)
        else
          some (some { addr := o.addr, m_key := pkey, m_program := program_id, m_vao := vao_id },
                d)

/-- OpenGLPipeline::~OpenGLPipeline. -/
def OpenGLDevice.DestroyPipeline (pl : OpenGLPipeline) (d : OpenGLDevice) : Option OpenGLDevice :=
  match (d.UnbindPipeline pl).UnrefProgram pl.m_key with
  | none => none
  | some d => d.UnrefVAO pl.m_key.va_key

/-! ## Reading and closing the disk cache -/

/-- The loop of ReadPipelineCache over the index entries: `n` entries are still to be
read, the next one is the `i`-th and starts at `pos`. -/
def OpenGLDevice.ReadEntries (size : Nat) (file : List Byte) (o : ReadOutcome) :
    Nat → Nat → Nat → OpenGLDevice → Bool × OpenGLDevice
  | 0, _, _, d => (true, d)
  | n + 1, i, pos, d =>
    match (if o.entry_ok i then fread file pos INDEX_ENTRY_SIZE else none) with
    | none => d.DiscardPipelineCache o.reopen_ok
    | some bytes =>
      let entry := PipelineDiskCacheIndexEntry.ofBytes bytes
      if entry.offset + entry.compressed_size ≥ size then d.DiscardPipelineCache o.reopen_ok
      else
        match mapFind d.m_program_cache entry.key with
        | some _ => d.DiscardPipelineCache o.reopen_ok
        | none =>
          let pitem : ProgramCacheItem :=
            { program_id := 0, reference_count := 0, file_format := entry.format,
              file_offset := entry.offset, file_uncompressed_size := entry.uncompressed_size,
              file_compressed_size := entry.compressed_size }
          OpenGLDevice.ReadEntries size file o n (i + 1) (pos + INDEX_ENTRY_SIZE)
            { d with m_program_cache := mapEmplace d.m_program_cache entry.key pitem }

/-- OpenGLDevice::ReadPipelineCache. The subtraction that gives data_end is unsigned
and is stored in a u32, so it wraps and its test against 0 never fires. -/
def OpenGLDevice.ReadPipelineCache (env : Environment) (filename : String) (o : ReadOutcome)
    (d : OpenGLDevice) : Bool × OpenGLDevice :=
  match o.open_result with
  | OpenResult.eacces =>
    (true, { d with m_pipeline_disk_cache_file := none, m_pipeline_disk_cache_filename := "" })
  | OpenResult.failed =>
    (false, { d with m_pipeline_disk_cache_file := none, m_pipeline_disk_cache_filename := "" })
  | OpenResult.enoent =>
    { d with m_pipeline_disk_cache_file := none, m_pipeline_disk_cache_filename := filename
      }.DiscardPipelineCache o.reopen_ok
  | OpenResult.opened file =>
    let d := { d with m_pipeline_disk_cache_file := some file,
                      m_pipeline_disk_cache_filename := filename }
    let size := file.length
    if size < FOOTER_SIZE ∨ size ≥ 2 ^ 32 - 1 then d.DiscardPipelineCache o.reopen_ok
    else
      match (if o.footer_ok then fread file (size - FOOTER_SIZE) FOOTER_SIZE else none) with
      | none => d.DiscardPipelineCache o.reopen_ok
      | some bytes =>
        let file_footer := PipelineDiskCacheFooter.ofBytes bytes
        let expected_footer := FillFooter env o.stack_footer env.version
        if file_footer.version ≠ expected_footer.version ∨
            !strncmpEqual file_footer.driver_vendor expected_footer.driver_vendor 128 ∨
            !strncmpEqual file_footer.driver_renderer expected_footer.driver_renderer 128 ∨
            !strncmpEqual file_footer.driver_version expected_footer.driver_version 128 then
          d.DiscardPipelineCache o.reopen_ok
        else
          let data_end : Nat :=
            (((size : Int) - FOOTER_SIZE - INDEX_ENTRY_SIZE * file_footer.num_programs)
              % 2 ^ 32).toNat
          let d := { d with m_pipeline_disk_cache_data_end := data_end }
          if !o.seek_ok then d.DiscardPipelineCache o.reopen_ok
          else OpenGLDevice.ReadEntries size file o file_footer.num_programs 0 data_end d

/-- The loop of ClosePipelineCache over the program cache: one index entry is written
for every item with a persisted blob; the result is the file, the position after the
entries and their count, or the file as it is when a write fails. -/
def writeIndexEntries (o : CloseOutcome) :
    List (ProgramCacheKey × ProgramCacheItem) → List Byte → Nat → Nat →
      Except (List Byte) (List Byte × Nat × Nat)
  | [], file, pos, count => Except.ok (file, pos, count)
  | (key, item) :: rest, file, pos, count =>
    if item.file_uncompressed_size = 0 then writeIndexEntries o rest file pos count
    else
      let entry : PipelineDiskCacheIndexEntry :=
        { key := key, format := item.file_format, offset := item.file_offset,
          uncompressed_size := item.file_uncompressed_size,
          compressed_size := item.file_compressed_size }
      if o.entry_ok count then
        writeIndexEntries o rest (fwrite file pos entry.bytes) (pos + INDEX_ENTRY_SIZE)
          (count + 1)
      else Except.error file

/-- OpenGLDevice::ClosePipelineCache: the result is the content of the file as it is
closed. Closing a null file is undefined (`none`). -/
def OpenGLDevice.ClosePipelineCache (env : Environment) (o : CloseOutcome) (d : OpenGLDevice) :
    Option (List Byte × OpenGLDevice) :=
  match d.m_pipeline_disk_cache_file with
  | none => none
  | some file =>
    let closed := { d with m_pipeline_disk_cache_file := none }
    if !d.m_pipeline_disk_cache_changed then some (file, closed)
    else if !o.seek_ok then some (file, closed)
    else
      match writeIndexEntries o d.m_program_cache file d.m_pipeline_disk_cache_data_end 0 with
      | Except.error file => some (file, closed)
      | Except.ok (file, pos, count) =>
        let footer :=
          { FillFooter env o.stack_footer env.version with num_programs := count % 2 ^ 32 }
        if o.footer_ok then some (fwrite file pos footer.bytes, closed) else some (file, closed)

/-! ## Sessions -/

/-- A device together with the pipelines that are alive. -/
structure Session where
  device : OpenGLDevice
  pipelines : List OpenGLPipeline

/-- One call by the owner of the device. -/
inductive Session.Step (env : Environment) : Session → Session → Prop
  | ReadPipelineCache (s : Session) (filename : String) (o : ReadOutcome) :
      Session.Step env s
        { s with device := (s.device.ReadPipelineCache env filename o).2 }
  | LookupProgramCache (s : Session) (key : ProgramCacheKey) (o : LookupOutcome)
      (r : Nat) (d : OpenGLDevice) :
      s.device.LookupProgramCache env key o = some (r, d) →
      Session.Step env s { s with device := d }
  | UnrefProgram (s : Session) (key : ProgramCacheKey) (d : OpenGLDevice) :
      s.device.UnrefProgram key = some d →
      Session.Step env s { s with device := d }
  | LookupVAOCache (s : Session) (key : VertexArrayCacheKey) (vao : Nat) (error : Bool) :
      Session.Step env s
        { s with device := (s.device.LookupVAOCache key vao error).2 }
  | UnrefVAO (s : Session) (key : VertexArrayCacheKey) (d : OpenGLDevice) :
      s.device.UnrefVAO key = some d →
      Session.Step env s { s with device := d }
  | CreatePipeline (s : Session) (config : GraphicsConfig) (o : CreateOutcome)
      (r : Option OpenGLPipeline) (d : OpenGLDevice) :
      s.device.CreatePipeline env config o = some (r, d) →
      Session.Step env s { device := d, pipelines := r.toList ++ s.pipelines }
  | DestroyPipeline (s : Session) (pl : OpenGLPipeline) (d : OpenGLDevice) :
      pl ∈ s.pipelines → s.device.DestroyPipeline pl = some d →
      Session.Step env s { device := d, pipelines := s.pipelines.erase pl }
  | AddToPipelineCache (s : Session) (key : ProgramCacheKey) (o : LookupOutcome)
      (it it2 : ProgramCacheItem) (d : OpenGLDevice) :
      mapFind s.device.m_program_cache key = some it →
      it.program_id ≠ 0 → it.file_uncompressed_size = 0 →
      s.device.AddToPipelineCache env it o = some (it2, d) →
      Session.Step env s
        { s with device :=
            { d with m_program_cache := mapModify d.m_program_cache key (fun _ => it2) } }
  | DiscardPipelineCache (s : Session) (reopen_ok : Bool) :
      Session.Step env s
        { s with device := (s.device.DiscardPipelineCache reopen_ok).2 }

/-- The sessions that a sequence of calls reaches from an empty device. -/
inductive Session.Reachable (env : Environment) : Session → Prop
  | empty : Session.Reachable env { device := OpenGLDevice.empty, pipelines := [] }
  | step (s t : Session) : Session.Reachable env s → Session.Step env s t →
      Session.Reachable env t

/-- The invariant of the two caches: one entry per key, no negative reference count,
a program exactly where the count is positive, a vertex array and a positive count in
every entry of the vertex-array cache. -/
def OpenGLDevice.CacheInvariant (d : OpenGLDevice) : Prop :=
  (d.m_program_cache.map Prod.fst).Nodup ∧
  (d.m_vao_cache.map Prod.fst).Nodup ∧
  (∀ p ∈ d.m_program_cache,
    0 ≤ p.2.reference_count ∧ (p.2.program_id ≠ 0 ↔ 0 < p.2.reference_count)) ∧
  (∀ p ∈ d.m_vao_cache, 0 ≤ p.2.reference_count ∧ p.2.vao_id ≠ 0 ∧ 0 < p.2.reference_count)

/-- The property of one program cache item in the invariant. -/
def ProgramCacheItem.Good (it : ProgramCacheItem) : Prop :=
  0 ≤ it.reference_count ∧ (it.program_id ≠ 0 ↔ 0 < it.reference_count)

/-- The property of one vertex-array cache item in the invariant. -/
def VertexArrayCacheItem.Good (it : VertexArrayCacheItem) : Prop :=
  0 ≤ it.reference_count ∧ it.vao_id ≠ 0 ∧ 0 < it.reference_count

/-- A map with one entry per key whose values all satisfy `good`. -/
def MapInv {K V : Type} (good : V → Prop) (m : List (K × V)) : Prop :=
  (m.map Prod.fst).Nodup ∧ ∀ p ∈ m, good p.2

/-! ## Sample values -/

/-- A sample environment: format version 3, short driver strings, and a compressor that
stores the bytes behind a one-byte header. -/
def sampleEnvironment : Environment :=
  { version := 3
    gl_vendor := [86]
    gl_renderer := [82]
    gl_version := [52, 46, 54]
    UseGLSLBindingLayout := true
    ZSTD_compress := fun b => some (40 :: b)
    ZSTD_decompress := fun c n =>
      match c with
      | [] => none
      | _ :: b => if b.length ≤ n then some b else none }

/-- A sample program key, told apart by one byte of its fragment shader key. -/
def sampleKey (b : Byte) : ProgramCacheKey :=
  { vs_key := fixedBytes 40 []
    fs_key := fixedBytes 40 [b]
    va_key := fixedBytes 32 [] }

/-- Sample answers of the collaborators to one lookup: everything succeeds, the program
is `program`, its binary is `binary` in format 1. -/
def sampleLookup (program : Nat) (binary : List Byte) : LookupOutcome :=
  { read_ok := true
    binary_program := program
    create_error := false
    link_ok := true
    reopen_ok := true
    compiled := program
    binary_length := binary.length
    binary_size := binary.length
    binary_format := 1
    binary_data := binary
    write_ok := true }

/-- A program cache item without a persisted blob. -/
def sampleItem (program : Nat) (count : Int) : ProgramCacheItem :=
  { program_id := program, reference_count := count, file_format := 0, file_offset := 0,
    file_uncompressed_size := 0, file_compressed_size := 0 }

/-- A device with an empty, open cache file. -/
def sampleDevice : OpenGLDevice :=
  { OpenGLDevice.empty with m_pipeline_disk_cache_file := some [] }

/-- The session after one lookup of a program that compiles to program 7 and has no
binary to persist. -/
def sampleSession : Session :=
  { device :=
      { OpenGLDevice.empty with
          m_program_cache := [(sampleKey 1, sampleItem 7 1)],
          calls := [Call.CompileProgram] },
    pipelines := [] }

/-- A program cache item that exists only as a persisted blob of three bytes at offset 0. -/
def sampleStoredItem : ProgramCacheItem :=
  { program_id := 0, reference_count := 0, file_format := 1, file_offset := 0,
    file_uncompressed_size := 2, file_compressed_size := 3 }

/-- A device whose cache file holds one blob and whose program cache holds the item
of that blob, not realized. -/
def sampleStoredDevice : OpenGLDevice :=
  { OpenGLDevice.empty with
      m_pipeline_disk_cache_file := some [40, 1, 2],
      m_pipeline_disk_cache_data_end := 3,
      m_program_cache := [(sampleKey 1, sampleStoredItem)] }

/-- The open device after a lookup whose compilation failed: the key has an entry
without a program. -/
def sampleFailedDevice : OpenGLDevice :=
  { sampleDevice with
      m_program_cache := [(sampleKey 1, sampleItem 0 0)],
      calls := [Call.CompileProgram] }

/-! ## The content of a cache file, as the format describes it -/

/-- The footer of a file: its last 392 bytes. -/
def storeFooter (file : List Byte) : PipelineDiskCacheFooter :=
  PipelineDiskCacheFooter.ofBytes ((file.drop (file.length - FOOTER_SIZE)).take FOOTER_SIZE)

/-- Where the index of a file starts: file size less the footer and the index entries
that the footer counts, in the 32-bit arithmetic of the source. -/
def storeIndexStart (file : List Byte) : Nat :=
  (((file.length : Int) - FOOTER_SIZE - INDEX_ENTRY_SIZE * (storeFooter file).num_programs)
    % 2 ^ 32).toNat

/-- The `n` consecutive index entries of a file that start at `pos`. -/
def indexRecords (file : List Byte) : Nat → Nat → List PipelineDiskCacheIndexEntry
  | _, 0 => []
  | pos, n + 1 =>
    PipelineDiskCacheIndexEntry.ofBytes ((file.drop pos).take INDEX_ENTRY_SIZE)
      :: indexRecords file (pos + INDEX_ENTRY_SIZE) n

/-- The index of a file: the entries that its footer counts. -/
def storeIndex (file : List Byte) : List PipelineDiskCacheIndexEntry :=
  indexRecords file (storeIndexStart file) (storeFooter file).num_programs

/-- The program cache entry that ReadPipelineCache makes of an index entry. -/
def entryItem (e : PipelineDiskCacheIndexEntry) : ProgramCacheKey × ProgramCacheItem :=
  (e.key, { program_id := 0, reference_count := 0, file_format := e.format,
            file_offset := e.offset, file_uncompressed_size := e.uncompressed_size,
            file_compressed_size := e.compressed_size })

/-- The `n` index entries from `pos` on can all be read (the first is the `i`-th for the
I/O outcomes), point into a file of `size` bytes, and have keys that differ from one
another and from the keys of `cache`. -/
def IndexValid (size : Nat) (file : List Byte) (o : ReadOutcome) (n i pos : Nat)
    (cache : List (ProgramCacheKey × ProgramCacheItem)) : Prop :=
  (∀ j, j < n → o.entry_ok (i + j) = true ∧ pos + INDEX_ENTRY_SIZE * (j + 1) ≤ file.length) ∧
  (∀ e ∈ indexRecords file pos n,
    e.offset + e.compressed_size < size ∧ mapFind cache e.key = none) ∧
  ((indexRecords file pos n).map (fun e => e.key)).Nodup

/-- A file that ReadPipelineCache accepts: it holds a footer, its size fits 32 bits,
the footer is read and has the version and the three driver strings of the
environment, and the index that the footer counts is valid for the given cache. -/
def StoreValid (env : Environment) (o : ReadOutcome) (file : List Byte)
    (cache : List (ProgramCacheKey × ProgramCacheItem)) : Prop :=
  FOOTER_SIZE ≤ file.length ∧ file.length < 2 ^ 32 - 1 ∧ o.footer_ok = true ∧
  (storeFooter file).version = (FillFooter env o.stack_footer env.version).version ∧
  strncmpEqual (storeFooter file).driver_vendor
    (FillFooter env o.stack_footer env.version).driver_vendor 128 = true ∧
  strncmpEqual (storeFooter file).driver_renderer
    (FillFooter env o.stack_footer env.version).driver_renderer 128 = true ∧
  strncmpEqual (storeFooter file).driver_version
    (FillFooter env o.stack_footer env.version).driver_version 128 = true ∧
  o.seek_ok = true ∧
  IndexValid file.length file o (storeFooter file).num_programs 0 (storeIndexStart file) cache

/-- A stack slot that happens to hold zeros. -/
def sampleStack : PipelineDiskCacheFooter :=
  { version := 0, num_programs := 0, driver_vendor := [], driver_renderer := [],
    driver_version := [] }

/-- The footer of the sample environment for `n` programs. -/
def sampleFooter (n : Nat) : PipelineDiskCacheFooter :=
  { FillFooter sampleEnvironment sampleStack sampleEnvironment.version with num_programs := n }

/-- The index entry of the blob of `sampleStoredItem` under the first sample key. -/
def sampleEntry : PipelineDiskCacheIndexEntry :=
  { key := sampleKey 1, format := 1, offset := 0, uncompressed_size := 2, compressed_size := 3 }

/-- A cache file of the sample environment: one blob, its index entry, the footer. -/
def sampleFile : List Byte :=
  [40, 1, 2] ++ sampleEntry.bytes ++ (sampleFooter 1).bytes

/-- A cache file whose one index entry claims a blob of 4000 bytes. -/
def sampleBadFile : List Byte :=
  [40, 1, 2] ++ { sampleEntry with compressed_size := 4000 }.bytes ++ (sampleFooter 1).bytes

/-- Sample answers of the collaborators to one ReadPipelineCache: the file opens with
the given content and no I/O error occurs. -/
def sampleRead (file : List Byte) : ReadOutcome :=
  { open_result := OpenResult.opened file
    footer_ok := true
    seek_ok := true
    entry_ok := fun _ => true
    reopen_ok := true
    stack_footer := sampleStack }

/-! ## Appending artifacts to the store -/

/-- A sequence of lookups, each with its own answers of the collaborators; `none` when
one of them aborts. -/
def appendAll (env : Environment) :
    List (ProgramCacheKey × LookupOutcome) → OpenGLDevice → Option OpenGLDevice
  | [], d => some d
  | (key, o) :: rest, d =>
    match d.LookupProgramCache env key o with
    | none => none
    | some (_, d) => appendAll env rest d

/-- The bytes that serialize returned: the first `binary_size` bytes of the buffer. -/
def serializedOf (o : LookupOutcome) : List Byte :=
  o.binary_data.take o.binary_size

/-- The compressed blob of the binary of a lookup (empty when compression fails). -/
def blobOf (env : Environment) (o : LookupOutcome) : List Byte :=
  (env.ZSTD_compress (serializedOf o)).getD []

/-- The compressed blobs of a sequence of lookups, one after the other. -/
def blobsOf (env : Environment) (ops : List (ProgramCacheKey × LookupOutcome)) : List Byte :=
  ops.flatMap (fun p => blobOf env p.2)

/-- The program compiles, its binary can be retrieved with a length that fits a GLint,
it compresses to at least one byte, and the blob is written. -/
def Serializable (env : Environment) (o : LookupOutcome) : Prop :=
  o.compiled ≠ 0 ∧ o.binary_length ≠ 0 ∧ 0 < o.binary_size ∧ o.binary_size < 2 ^ 31 ∧
  o.write_ok = true ∧
  ∃ c, env.ZSTD_compress (serializedOf o) = some c ∧ 0 < c.length

/-- The program cache entries that a sequence of serializable lookups of new keys
leaves, the first blob being written at `pos`. -/
def appendedItems (env : Environment) :
    List (ProgramCacheKey × LookupOutcome) → Nat → List (ProgramCacheKey × ProgramCacheItem)
  | [], _ => []
  | (key, o) :: rest, pos =>
    (key, { program_id := o.compiled, reference_count := 1,
            file_format := o.binary_format % 2 ^ 32, file_offset := pos,
            file_uncompressed_size := o.binary_size % 2 ^ 32,
            file_compressed_size := (blobOf env o).length % 2 ^ 32 })
      :: appendedItems env rest (pos + (blobOf env o).length)

/-- The index entry that ClosePipelineCache writes for a program cache entry. -/
def indexEntryOf (p : ProgramCacheKey × ProgramCacheItem) : PipelineDiskCacheIndexEntry :=
  { key := p.1, format := p.2.file_format, offset := p.2.file_offset,
    uncompressed_size := p.2.file_uncompressed_size,
    compressed_size := p.2.file_compressed_size }

/-- Sample answers of the collaborators to one ClosePipelineCache: every write succeeds. -/
def sampleClose : CloseOutcome :=
  { seek_ok := true, entry_ok := fun _ => true, footer_ok := true, stack_footer := sampleStack }

/-- Two sample lookups of different keys whose programs have binaries. -/
def sampleOps : List (ProgramCacheKey × LookupOutcome) :=
  [(sampleKey 1, sampleLookup 7 [1, 2]), (sampleKey 2, sampleLookup 8 [3])]

/-! ## The fields of a vertex-array key -/

/-- Modelled from the spec: the slot `vertex_attributes[i]` of a vertex-array key, the
four bytes at offset 4 i of its object representation. -/
def vertexAttributeSlot (k : VertexArrayCacheKey) (i : Nat) : List Byte :=
  (k.val.drop (4 * i)).take 4

/-- A sample configuration: the given attributes and stride, fixed shaders. -/
def sampleConfig (fs : Byte) (attributes : List VertexAttribute) (stride : Nat) :
    GraphicsConfig :=
  { vertex_shader := fixedBytes 40 []
    fragment_shader := fixedBytes 40 [fs]
    vertex_attributes := attributes
    vertex_stride := stride }

/-- A cache file whose footer counts 2^25 index entries: the 32-bit subtraction that
gives data_end wraps to offset 3, inside the file. -/
def sampleWrapFile : List Byte :=
  [40, 1, 2] ++ (sampleFooter 33554432).bytes

/-! ## What ClosePipelineCache writes -/

/-- The program cache entries that have a persisted blob, as ClosePipelineCache tells
them: the uncompressed size of the locator is not 0. -/
def storedEntries (cache : List (ProgramCacheKey × ProgramCacheItem)) :
    List (ProgramCacheKey × ProgramCacheItem) :=
  cache.filter (fun p => p.2.file_uncompressed_size ≠ 0)

/-- The index of a program cache: one index entry of 128 bytes for every stored entry. -/
def indexBytes (cache : List (ProgramCacheKey × ProgramCacheItem)) : List Byte :=
  (storedEntries cache).flatMap (fun p => (indexEntryOf p).bytes)

/-- The footer that ClosePipelineCache writes: filled from the environment, with the
count of the index entries written. -/
def closeFooter (env : Environment) (o : CloseOutcome)
    (cache : List (ProgramCacheKey × ProgramCacheItem)) : PipelineDiskCacheFooter :=
  { FillFooter env o.stack_footer env.version with
    num_programs := (storedEntries cache).length % 2 ^ 32 }

/-- The device with one stored blob after something was appended in this session. -/
def sampleDirtyDevice : OpenGLDevice :=
  { sampleStoredDevice with m_pipeline_disk_cache_changed := true }

/-! ## The store during a session -/

/-- The number of program cache entries that have a persisted blob. -/
def storedCount (cache : List (ProgramCacheKey × ProgramCacheItem)) : Nat :=
  (storedEntries cache).length

/-- The lookup of the key finds an entry that has only a persisted blob, and
CreateProgramFromPipelineCache returns 0 for it. -/
def OpenGLDevice.MaterializationFails (env : Environment) (key : ProgramCacheKey)
    (o : LookupOutcome) (d : OpenGLDevice) : Prop :=
  ∃ it d1, mapFind d.m_program_cache key = some it ∧ it.program_id = 0 ∧
    0 < it.file_uncompressed_size ∧ d.CreateProgramFromPipelineCache env it o = some (0, d1)

/-- What the miss path of a lookup does to a store that had the given file, data_end
and dirty flag: nothing, or AddToPipelineCache went through with a compressed blob. -/
def StoreAppend (env : Environment) (o : LookupOutcome) (file : Option (List Byte))
    (data_end : Nat) (changed : Bool) (d2 : OpenGLDevice) : Prop :=
  (d2.m_pipeline_disk_cache_file = file ∧ d2.m_pipeline_disk_cache_data_end = data_end ∧
    d2.m_pipeline_disk_cache_changed = changed) ∨
  (∃ f c, env.ZSTD_compress (serializedOf o) = some c ∧ file = some f ∧
    d2.m_pipeline_disk_cache_file =
      some (if o.write_ok = true ∧ 0 < c.length then fwrite f data_end c else f) ∧
    d2.m_pipeline_disk_cache_data_end = (data_end + c.length % 2 ^ 32) % 2 ^ 32 ∧
    d2.m_pipeline_disk_cache_changed = true)

/-- What a lookup does to the store: without a failed materialization the miss path
acts on the store as it is and no stored entry is lost; after a failed
materialization it acts on the discarded store. -/
def LookupEffect (env : Environment) (key : ProgramCacheKey) (o : LookupOutcome)
    (d d2 : OpenGLDevice) : Prop :=
  (¬ d.MaterializationFails env key o ∧
    StoreAppend env o d.m_pipeline_disk_cache_file d.m_pipeline_disk_cache_data_end
      d.m_pipeline_disk_cache_changed d2 ∧
    storedCount d.m_program_cache ≤ storedCount d2.m_program_cache) ∨
  (d.MaterializationFails env key o ∧
    StoreAppend env o (if o.reopen_ok = true then some [] else none) 0
      d.m_pipeline_disk_cache_changed d2)

/-- The store is coherent: the file is open, data_end lies inside it, and the index and
the footer that ClosePipelineCache would write at data_end reach the end of the file. -/
def OpenGLDevice.StoreCoherent (d : OpenGLDevice) : Prop :=
  ∃ file, d.m_pipeline_disk_cache_file = some file ∧
    d.m_pipeline_disk_cache_data_end ≤ file.length ∧
    file.length ≤ d.m_pipeline_disk_cache_data_end + 128 * storedCount d.m_program_cache + 392

/-- The answers to a lookup keep the store intact: the blob is written, the file
reopens after a discard, and data_end stays within 32 bits. -/
def LookupOutcome.Sound (env : Environment) (o : LookupOutcome) (d : OpenGLDevice) : Prop :=
  o.write_ok = true ∧ o.reopen_ok = true ∧
  d.m_pipeline_disk_cache_data_end + (blobOf env o).length < 2 ^ 32

/-- One call of a session between load and close. -/
inductive SessionCall where
  | LookupProgramCache (key : ProgramCacheKey) (o : LookupOutcome)
  | UnrefProgram (key : ProgramCacheKey)
  | CreatePipeline (config : GraphicsConfig) (o : CreateOutcome)
  | DestroyPipeline (pl : OpenGLPipeline)

/-- The device after one call of a session; `none` when the call aborts. -/
def OpenGLDevice.call (env : Environment) (c : SessionCall) (d : OpenGLDevice) :
    Option OpenGLDevice :=
  match c with
  | SessionCall.LookupProgramCache key o => (d.LookupProgramCache env key o).map Prod.snd
  | SessionCall.UnrefProgram key => d.UnrefProgram key
  | SessionCall.CreatePipeline config o => (d.CreatePipeline env config o).map Prod.snd
  | SessionCall.DestroyPipeline pl => d.DestroyPipeline pl

/-- The lookup in the program cache that a call makes, if it makes one: the key and the
answers of the collaborators. -/
def SessionCall.lookup : SessionCall → Option (ProgramCacheKey × LookupOutcome)
  | SessionCall.LookupProgramCache key o => some (key, o)
  | SessionCall.CreatePipeline config o =>
    (GetProgramCacheKey config).map (fun key => (key, o.lookup))
  | SessionCall.UnrefProgram _ => none
  | SessionCall.DestroyPipeline _ => none

/-- The lookup of the call finds a persisted blob that fails to materialize. -/
def SessionCall.Fails (env : Environment) (c : SessionCall) (d : OpenGLDevice) : Prop :=
  ∃ p, c.lookup = some p ∧ d.MaterializationFails env p.1 p.2

/-- The answers to the lookup of the call, if it makes one, keep the store intact. -/
def SessionCall.Sound (env : Environment) (c : SessionCall) (d : OpenGLDevice) : Prop :=
  ∀ p, c.lookup = some p → p.2.Sound env d

/-- The calls lead from the first device to the second, none aborts, and the answers
to each keep the store intact. -/
def OpenGLDevice.Runs (env : Environment) :
    List SessionCall → OpenGLDevice → OpenGLDevice → Prop
  | [], d, d2 => d2 = d
  | c :: cs, d, d2 =>
    c.Sound env d ∧ ∃ d1, d.call env c = some d1 ∧ OpenGLDevice.Runs env cs d1 d2

/-- The second device has the store of the first: the same file, data_end and dirty
flag, and as many stored entries. -/
def OpenGLDevice.SameStore (d d2 : OpenGLDevice) : Prop :=
  d2.m_pipeline_disk_cache_file = d.m_pipeline_disk_cache_file ∧
  d2.m_pipeline_disk_cache_data_end = d.m_pipeline_disk_cache_data_end ∧
  d2.m_pipeline_disk_cache_changed = d.m_pipeline_disk_cache_changed ∧
  storedCount d2.m_program_cache = storedCount d.m_program_cache

/-- Sample answers of the collaborators to a lookup whose persisted blob is read and
decompressed but does not link; the program is then compiled, with a binary of one
byte. -/
def sampleRelink : LookupOutcome :=
  { sampleLookup 9 [5] with link_ok := false }

/-- The device after ReadPipelineCache of the sample file. -/
def sampleLoadedDevice : OpenGLDevice :=
  { OpenGLDevice.empty with
      m_pipeline_disk_cache_file := some sampleFile,
      m_pipeline_disk_cache_filename := "cache.bin",
      m_pipeline_disk_cache_data_end := 3,
      m_program_cache := [(sampleKey 1, sampleStoredItem)] }

/-- The open sample device after the lookup of the first sample key has compiled
program 7 and appended its blob of three bytes. -/
def sampleAppendedDevice : OpenGLDevice :=
  { sampleDevice with
      m_pipeline_disk_cache_file := some [40, 1, 2],
      m_pipeline_disk_cache_data_end := 3,
      m_pipeline_disk_cache_changed := true,
      m_program_cache :=
        [(sampleKey 1, { sampleStoredItem with program_id := 7, reference_count := 1 })],
      calls := [Call.CompileProgram] }

/-- The lookup that leads from the open sample device to `sampleAppendedDevice`. -/
def sampleCall : SessionCall :=
  SessionCall.LookupProgramCache (sampleKey 1) (sampleLookup 7 [1, 2])

/-- The device is at the start of a session: the store has just been discarded and
reopened, as for a missing or rejected file, or ReadPipelineCache has just returned
from a file of the layout that ClosePipelineCache writes: blobs, index records of
stored entries, and a footer that counts the records. -/
def OpenGLDevice.StartsSession (env : Environment) (d : OpenGLDevice) : Prop :=
  (∃ d0 : OpenGLDevice, d = (d0.DiscardPipelineCache true).2) ∨
  (∃ (d0 : OpenGLDevice) (filename : String) (o : ReadOutcome) (blobs : List Byte)
      (es : List PipelineDiskCacheIndexEntry) (ft : PipelineDiskCacheFooter),
    d0.m_program_cache = [] ∧
    o.open_result = OpenResult.opened
      (blobs ++ es.flatMap (fun e => e.bytes) ++ PipelineDiskCacheFooter.bytes ft) ∧
    o.reopen_ok = true ∧
    ft.num_programs = es.length ∧
    (∀ e ∈ es, 0 < e.uncompressed_size ∧ e.uncompressed_size < 2 ^ 32) ∧
    d = (d0.ReadPipelineCache env filename o).2)

/-- The footer of the file has the fingerprint of the environment: the version, and
the three driver strings as ReadPipelineCache compares them with a footer filled on
the stack. -/
def FingerprintMatches (env : Environment) (stack : PipelineDiskCacheFooter)
    (file : List Byte) : Prop :=
  (storeFooter file).version = (FillFooter env stack env.version).version ∧
  strncmpEqual (storeFooter file).driver_vendor
    (FillFooter env stack env.version).driver_vendor 128 = true ∧
  strncmpEqual (storeFooter file).driver_renderer
    (FillFooter env stack env.version).driver_renderer 128 = true ∧
  strncmpEqual (storeFooter file).driver_version
    (FillFooter env stack env.version).driver_version 128 = true

/-- The sample environment after an update of the shader cache version from 3 to 4. -/
def sampleNewEnvironment : Environment :=
  { sampleEnvironment with version := 4 }

/-- The device after ReadPipelineCache has discarded the sample file and its lookup of
the first sample key has compiled program 7 and appended its blob. -/
def sampleRebuiltDevice : OpenGLDevice :=
  { sampleAppendedDevice with m_pipeline_disk_cache_filename := "cache.bin" }

/-! ## Live entries of a discarded store -/

/-- The key has a live entry: one with a positive reference count. -/
def OpenGLDevice.Live (d : OpenGLDevice) (key : ProgramCacheKey) : Prop :=
  ∃ it, mapFind d.m_program_cache key = some it ∧ 0 < it.reference_count

/-- The calls lead from the first device to the second, none aborts, and after each of
them the key still has a live entry: it is never released. -/
def OpenGLDevice.RunsLive (env : Environment) (key : ProgramCacheKey) :
    List SessionCall → OpenGLDevice → OpenGLDevice → Prop
  | [], d, d2 => d2 = d
  | c :: cs, d, d2 =>
    ∃ d1, d.call env c = some d1 ∧ d1.Live key ∧ OpenGLDevice.RunsLive env key cs d1 d2

/-- The key has an entry without a persisted blob. -/
def Unstored (cache : List (ProgramCacheKey × ProgramCacheItem)) (key : ProgramCacheKey) :
    Prop :=
  ∃ it, mapFind cache key = some it ∧ it.file_uncompressed_size = 0

/-- The key has an entry with a program and without a persisted blob. -/
def LiveUnstored (cache : List (ProgramCacheKey × ProgramCacheItem))
    (key : ProgramCacheKey) : Prop :=
  ∃ it, mapFind cache key = some it ∧ it.program_id ≠ 0 ∧ it.file_uncompressed_size = 0

/-- The device `sampleAppendedDevice` after its store was discarded and the first
sample key was looked up once more: the entry keeps program 7, now with two
references, and has no locator. -/
def sampleDiscardedDevice : OpenGLDevice :=
  { sampleDevice with
      m_pipeline_disk_cache_changed := true,
      m_program_cache := [(sampleKey 1, sampleItem 7 2)],
      calls := [Call.CompileProgram] }

/-! ## Texture copies (opengl_device.cpp) -/

/-- The eight coordinates of one glBlitFramebuffer call, as the u32 values of the
argument expressions. -/
structure BlitRect where
  srcX0 : Nat
  srcY0 : Nat
  srcX1 : Nat
  srcY1 : Nat
  dstX0 : Nat
  dstY0 : Nat
  dstX1 : Nat
  dstY1 : Nat
deriving DecidableEq

/-- The GLAD flags that CopyTextureRegion tests. -/
structure CopyCaps where
  GLAD_GL_VERSION_4_3 : Bool
  GLAD_GL_ARB_copy_image : Bool
  GLAD_GL_EXT_copy_image : Bool
  GLAD_GL_OES_copy_image : Bool

/-- The GL call with which a region is copied. -/
inductive CopyCall where
  | glCopyImageSubData (src_x src_y dst_x dst_y width height : Nat)
  | glCopyImageSubDataEXT (src_x src_y dst_x dst_y width height : Nat)
  | glCopyImageSubDataOES (src_x src_y dst_x dst_y width height : Nat)
  | glBlitFramebuffer (r : BlitRect)
deriving DecidableEq

/-- The glBlitFramebuffer call that ends CopyTextureRegion (in its last branch) and
ResolveTextureRegion; the two calls are written alike. The sums are u32. -/
def blitRegion (dst_x dst_y src_x src_y width height : Nat) : BlitRect :=
  { srcX0 := src_x, srcY0 := src_y
    srcX1 := (src_x + width) % 2 ^ 32, srcY1 := (src_y + width) % 2 ^ 32
    dstX0 := dst_x, dstY0 := dst_y
    dstX1 := (dst_x + width) % 2 ^ 32, dstY1 := (dst_y + height) % 2 ^ 32 }

/-- OpenGLDevice::CopyTextureRegion: the call that copies the region. -/
def CopyTextureRegion (caps : CopyCaps) (dst_x dst_y src_x src_y width height : Nat) :
    CopyCall :=
  if caps.GLAD_GL_VERSION_4_3 ∨ caps.GLAD_GL_ARB_copy_image then
    CopyCall.glCopyImageSubData src_x src_y dst_x dst_y width height
  else if caps.GLAD_GL_EXT_copy_image then
    CopyCall.glCopyImageSubDataEXT src_x src_y dst_x dst_y width height
  else if caps.GLAD_GL_OES_copy_image then
    CopyCall.glCopyImageSubDataOES src_x src_y dst_x dst_y width height
  else
    CopyCall.glBlitFramebuffer (blitRegion dst_x dst_y src_x src_y width height)

/-- OpenGLDevice::ResolveTextureRegion: its glBlitFramebuffer call. -/
def ResolveTextureRegion (dst_x dst_y src_x src_y width height : Nat) : BlitRect :=
  blitRegion dst_x dst_y src_x src_y width height

/-- A context without any copy_image support. -/
def sampleNoCopyImage : CopyCaps :=
  { GLAD_GL_VERSION_4_3 := false, GLAD_GL_ARB_copy_image := false,
    GLAD_GL_EXT_copy_image := false, GLAD_GL_OES_copy_image := false }

/-! ## The timestamp queries (opengl_device.cpp) -/

/-- The members of OpenGLDevice that the timestamp queries use. -/
structure TimestampQueries where
  m_read_timestamp_query : Nat
  m_write_timestamp_query : Nat
  m_waiting_timestamp_queries : Nat
  m_timestamp_query_started : Bool
deriving DecidableEq

/-- The state that DestroyTimestampQueries and the members' initializers leave. -/
def TimestampQueries.reset : TimestampQueries :=
  { m_read_timestamp_query := 0, m_write_timestamp_query := 0,
    m_waiting_timestamp_queries := 0, m_timestamp_query_started := false }

/-- What the driver answers during one PopTimestampQuery. -/
structure PopOutcome where
  /-- m_gl_context->IsGLES() -/
  gles : Bool
  /-- GL_GPU_DISJOINT_EXT -/
  disjoint : Bool
  /-- GL_QUERY_RESULT_AVAILABLE in the i-th pass of the loop -/
  available : Nat → Bool

/-- The while loop of PopTimestampQuery, `i` passes having been made: the result is
the read index and the number of waiting queries. -/
def PopTimestampQueryLoop (NUM_TIMESTAMP_QUERIES : Nat) (available : Nat → Bool) :
    Nat → Nat → Nat → Nat × Nat
  | read, 0, _ => (read, 0)
  | read, waiting + 1, i =>
    if available i then
      PopTimestampQueryLoop NUM_TIMESTAMP_QUERIES available
        ((read + 1) % NUM_TIMESTAMP_QUERIES) waiting (i + 1)
    else (read, waiting + 1)

/-- OpenGLDevice::PopTimestampQuery. -/
def TimestampQueries.PopTimestampQuery (NUM_TIMESTAMP_QUERIES : Nat) (o : PopOutcome)
    (q : TimestampQueries) : TimestampQueries :=
  let q := if o.gles ∧ o.disjoint then TimestampQueries.reset else q
  let r := PopTimestampQueryLoop NUM_TIMESTAMP_QUERIES o.available q.m_read_timestamp_query
    q.m_waiting_timestamp_queries 0
  let q := { q with m_read_timestamp_query := r.1, m_waiting_timestamp_queries := r.2 }
  if q.m_timestamp_query_started then
    { q with m_write_timestamp_query :=
               (q.m_write_timestamp_query + 1) % NUM_TIMESTAMP_QUERIES
             m_timestamp_query_started := false
             m_waiting_timestamp_queries := q.m_waiting_timestamp_queries + 1 }
  else q

/-- OpenGLDevice::KickTimestampQuery: the slot of `m_timestamp_queries` on which
BeginQuery is called, if it is called, and the state after. -/
def TimestampQueries.KickTimestampQuery (NUM_TIMESTAMP_QUERIES : Nat) (q : TimestampQueries) :
    Option Nat × TimestampQueries :=
  if q.m_timestamp_query_started ∨ q.m_waiting_timestamp_queries = NUM_TIMESTAMP_QUERIES then
    (none, q)
  else (some q.m_write_timestamp_query, { q with m_timestamp_query_started := true })

/-- The states that a sequence of KickTimestampQuery and PopTimestampQuery reaches from
the reset state. -/
inductive TimestampQueries.Reachable (NUM_TIMESTAMP_QUERIES : Nat) : TimestampQueries → Prop
  | reset : TimestampQueries.Reachable NUM_TIMESTAMP_QUERIES TimestampQueries.reset
  | KickTimestampQuery (q : TimestampQueries) :
      TimestampQueries.Reachable NUM_TIMESTAMP_QUERIES q →
      TimestampQueries.Reachable NUM_TIMESTAMP_QUERIES
        (q.KickTimestampQuery NUM_TIMESTAMP_QUERIES).2
  | PopTimestampQuery (q : TimestampQueries) (o : PopOutcome) :
      TimestampQueries.Reachable NUM_TIMESTAMP_QUERIES q →
      TimestampQueries.Reachable NUM_TIMESTAMP_QUERIES
        (q.PopTimestampQuery NUM_TIMESTAMP_QUERIES o)

/-- The slots whose queries are waiting to be read: `waiting` slots from `read` on,
around the ring. -/
def TimestampQueries.waitingSlots (NUM_TIMESTAMP_QUERIES : Nat) (q : TimestampQueries) :
    List Nat :=
  (List.range q.m_waiting_timestamp_queries).map
    (fun j => (q.m_read_timestamp_query + j) % NUM_TIMESTAMP_QUERIES)

/-- The invariant of the ring of timestamp queries. A started query has a free slot
behind it. -/
def TimestampQueries.Invariant (NUM_TIMESTAMP_QUERIES : Nat) (q : TimestampQueries) : Prop :=
  q.m_waiting_timestamp_queries ≤ NUM_TIMESTAMP_QUERIES ∧
  q.m_read_timestamp_query < NUM_TIMESTAMP_QUERIES ∧
  q.m_write_timestamp_query < NUM_TIMESTAMP_QUERIES ∧
  q.m_write_timestamp_query =
    (q.m_read_timestamp_query + q.m_waiting_timestamp_queries) % NUM_TIMESTAMP_QUERIES ∧
  (q.m_timestamp_query_started = true → q.m_waiting_timestamp_queries < NUM_TIMESTAMP_QUERIES)

/-- Answers of the driver to a PopTimestampQuery on desktop GL while no result is
available yet. -/
def samplePop : PopOutcome :=
  { gles := false, disjoint := false, available := fun _ => false }

/-- The state after two rounds of KickTimestampQuery and PopTimestampQuery whose
results are not yet available: two queries wait in slots 0 and 1. -/
def sampleQueries : TimestampQueries :=
  { m_read_timestamp_query := 0, m_write_timestamp_query := 2,
    m_waiting_timestamp_queries := 2, m_timestamp_query_started := false }

/-! ## Binding a pipeline -/

/-- OpenGLDevice::SetPipeline, as far as the vertex array and the program go. The
rasterization, depth and blend states that it applies in between are not members of
this embedding and no call made for them binds a program. -/
def OpenGLDevice.SetPipeline (pl : OpenGLPipeline) (d : OpenGLDevice) : OpenGLDevice :=
  if d.m_current_pipeline = some pl.addr then d
  else
    let d := { d with m_current_pipeline := some pl.addr }
    let d :=
      if d.m_last_vao ≠ pl.m_vao then
        { d with m_last_vao := pl.m_vao }.record (Call.glBindVertexArray pl.m_vao)
      else d
    if d.m_last_program ≠ pl.m_program then
      { d with m_last_program := pl.m_program }.record (Call.glUseProgram pl.m_program)
    else d

/-- The program bound in the GL context after the recorded calls (newest first): the
argument of the last glUseProgram, program 0 when there was none. -/
def boundProgram : List Call → Nat
  | [] => 0
  | Call.glUseProgram program :: _ => program
  | _ :: rest => boundProgram rest

/-- Sample answers of the collaborators to one CreatePipeline: program 7 without a
binary, vertex array 5, the new pipeline at the given address. -/
def samplePipelineOutcome (addr : Nat) : CreateOutcome :=
  { lookup := sampleLookup 7 [], vao := 5, vao_error := false, addr := addr }

/-- Two pipelines are created from one configuration, so they share program 7. The
first is bound and then destroyed; the second is bound. The result is the second
pipeline and the device after. -/
def sampleBindRun : Option (OpenGLPipeline × OpenGLDevice) :=
  match sampleDevice.CreatePipeline sampleEnvironment (sampleConfig 1 [] 0)
      (samplePipelineOutcome 1) with
  | some (some a, d1) =>
    match d1.CreatePipeline sampleEnvironment (sampleConfig 1 [] 0)
        (samplePipelineOutcome 2) with
    | some (some b, d2) =>
      match (d2.SetPipeline a).DestroyPipeline a with
      | some d4 => some (b, d4.SetPipeline b)
      | none => none
    | _ => none
  | _ => none

/-! ## Failing writes and released programs -/

/-- Sample answers of the collaborators to a lookup whose blob cannot be written. -/
def sampleWriteFails : LookupOutcome :=
  { sampleLookup 7 [1, 2] with write_ok := false }

/-- The open sample device after the lookup of the first sample key has compiled
program 7, whose binary the driver does not hand out. -/
def sampleUnpersistedDevice : OpenGLDevice :=
  { sampleDevice with
      m_program_cache := [(sampleKey 1, sampleItem 7 1)],
      calls := [Call.CompileProgram] }

/-- The device `sampleUnpersistedDevice` after UnrefProgram of the first sample key. -/
def sampleReleasedDevice : OpenGLDevice :=
  { sampleDevice with
      m_program_cache := [(sampleKey 1, sampleItem 0 0)],
      calls := [Call.glDeleteProgram 7, Call.CompileProgram] }

/-! ## Reference counts -/

/-- The reference count that the program cache holds for a key: that of its entry,
0 when the key has no entry. -/
def programRefCount (cache : List (ProgramCacheKey × ProgramCacheItem))
    (key : ProgramCacheKey) : Int :=
  match mapFind cache key with
  | some it => it.reference_count
  | none => 0

/-- The reference count that the vertex-array cache holds for a key: that of its
entry, 0 when the key has no entry. -/
def vaoRefCount (cache : List (VertexArrayCacheKey × VertexArrayCacheItem))
    (key : VertexArrayCacheKey) : Int :=
  match mapFind cache key with
  | some it => it.reference_count
  | none => 0

/-- The key is live: its entry has a realized program. -/
def LiveKey (cache : List (ProgramCacheKey × ProgramCacheItem)) (key : ProgramCacheKey) :
    Prop :=
  ∃ it, mapFind cache key = some it ∧ it.program_id ≠ 0

/-- The result of CreatePipeline in the sample session, for the configuration of the
first sample key: a pipeline with program 7 and vertex array 5. -/
def sampleCreated : Option OpenGLPipeline × OpenGLDevice :=
  (sampleSession.device.CreatePipeline sampleEnvironment (sampleConfig 1 [] 0)
    (samplePipelineOutcome 1)).getD (none, sampleSession.device)

/-- Sample answers of the collaborators to the CreatePipeline of a second program:
program 8 without a binary. -/
def sampleSecondOutcome : CreateOutcome :=
  { lookup := sampleLookup 8 [], vao := 6, vao_error := false, addr := 2 }

/-- The pipeline that the first CreatePipeline of the two-pipeline sample returns. -/
def sampleFirstPipeline : OpenGLPipeline :=
  { addr := 1, m_key := sampleKey 1, m_program := 7, m_vao := 5 }

/-- The pipeline that the second CreatePipeline of the two-pipeline sample returns. -/
def sampleSecondPipeline : OpenGLPipeline :=
  { addr := 2, m_key := sampleKey 2, m_program := 8, m_vao := 5 }

/-- The open, empty sample device after CreatePipeline for the first sample key. -/
def samplePairFirst : OpenGLDevice :=
  ((sampleDevice.CreatePipeline sampleEnvironment (sampleConfig 1 [] 0)
    (samplePipelineOutcome 1)).map Prod.snd).getD sampleDevice

/-- The device `samplePairFirst` after CreatePipeline for the second sample key, which
has the same vertex layout and vertex shader and another fragment shader. -/
def samplePairSecond : OpenGLDevice :=
  ((samplePairFirst.CreatePipeline sampleEnvironment (sampleConfig 2 [] 0)
    sampleSecondOutcome).map Prod.snd).getD sampleDevice

/-! ## The locators of the stored blobs -/

/-- The part of the locator of an entry that places its blob in the file: the
uncompressed size (0 for an entry without a blob), the offset and the compressed
size. -/
def locatorOf (p : ProgramCacheKey × ProgramCacheItem) : Nat × Nat × Nat :=
  (p.2.file_uncompressed_size, p.2.file_offset, p.2.file_compressed_size)

/-- The blobs of two locators do not overlap, or one of the locators is zero. -/
def LocatorsApart (a b : Nat × Nat × Nat) : Prop :=
  a.1 ≠ 0 → b.1 ≠ 0 → a.2.1 + a.2.2 ≤ b.2.1 ∨ b.2.1 + b.2.2 ≤ a.2.1

/-- Every blob of the locators ends at or before `data_end`, and no two overlap. -/
def LocatorsValid (data_end : Nat) (locs : List (Nat × Nat × Nat)) : Prop :=
  (∀ l ∈ locs, l.1 ≠ 0 → l.2.1 + l.2.2 ≤ data_end) ∧ locs.Pairwise LocatorsApart

/-- The invariant of the locators in the program cache. -/
def OpenGLDevice.LocatorInvariant (d : OpenGLDevice) : Prop :=
  LocatorsValid d.m_pipeline_disk_cache_data_end (d.m_program_cache.map locatorOf)

/-- One call that acts on the program cache or the store, the blob that it may append
ending below 2^32. AddToPipelineCache is called on the entry of a program that has
no blob, and the entry takes the item that it returns. -/
inductive OpenGLDevice.StoreStep (env : Environment) : OpenGLDevice → OpenGLDevice → Prop
  | LookupProgramCache (d : OpenGLDevice) (key : ProgramCacheKey) (o : LookupOutcome)
      (r : Nat) (d2 : OpenGLDevice) :
      d.m_pipeline_disk_cache_data_end + (blobOf env o).length < 2 ^ 32 →
      d.LookupProgramCache env key o = some (r, d2) →
      OpenGLDevice.StoreStep env d d2
  | UnrefProgram (d : OpenGLDevice) (key : ProgramCacheKey) (d2 : OpenGLDevice) :
      d.UnrefProgram key = some d2 →
      OpenGLDevice.StoreStep env d d2
  | AddToPipelineCache (d : OpenGLDevice) (key : ProgramCacheKey) (o : LookupOutcome)
      (it it2 : ProgramCacheItem) (d2 : OpenGLDevice) :
      d.m_pipeline_disk_cache_data_end + (blobOf env o).length < 2 ^ 32 →
      mapFind d.m_program_cache key = some it →
      it.program_id ≠ 0 → it.file_uncompressed_size = 0 →
      d.AddToPipelineCache env it o = some (it2, d2) →
      OpenGLDevice.StoreStep env d
        { d2 with m_program_cache := mapModify d2.m_program_cache key (fun _ => it2) }
  | DiscardPipelineCache (d : OpenGLDevice) (reopen_ok : Bool) :
      OpenGLDevice.StoreStep env d (d.DiscardPipelineCache reopen_ok).2

/-- Sample answers of the collaborators to the lookup of a second program, program 8
with a binary of one byte. -/
def sampleSecondLookup : LookupOutcome :=
  sampleLookup 8 [3]

/-- The device `sampleAppendedDevice` after the lookup of the second sample key has
compiled program 8 and appended its blob of two bytes behind the first. -/
def sampleTwoBlobs : OpenGLDevice :=
  ((sampleAppendedDevice.LookupProgramCache sampleEnvironment (sampleKey 2)
    sampleSecondLookup).map Prod.snd).getD sampleDevice

/-! ## Samples at the edges of the store -/

/-- A device whose store holds two blobs: the first sample key is realized as program 7
with one reference and keeps the locator of its blob, the second sample key exists
only as its blob; one vertex array is in use. -/
def sampleMixedDevice : OpenGLDevice :=
  { OpenGLDevice.empty with
      m_pipeline_disk_cache_file := some [40, 1, 2, 40, 5, 6],
      m_pipeline_disk_cache_filename := "cache.bin",
      m_pipeline_disk_cache_data_end := 6,
      m_pipeline_disk_cache_changed := true,
      m_program_cache :=
        [(sampleKey 1, { sampleStoredItem with program_id := 7, reference_count := 1 }),
         (sampleKey 2, { sampleStoredItem with file_offset := 3 })],
      m_vao_cache := [(fixedBytes 32 [], { vao_id := 4, reference_count := 1 })],
      calls := [Call.CompileProgram] }

/-- An open device whose blobs end three bytes below 2^32: the file has 4294967294
bytes and data_end is 4294967294. -/
def sampleFullDevice : OpenGLDevice :=
  { OpenGLDevice.empty with
      m_pipeline_disk_cache_file := some (List.replicate 4294967294 0),
      m_pipeline_disk_cache_filename := "cache.bin",
      m_pipeline_disk_cache_data_end := 4294967294 }

/-- Sample answers of the collaborators to a lookup whose persisted blob does not link
and whose store cannot be reopened; the program then compiles to program 9 with a
binary of one byte. -/
def sampleReopenFails : LookupOutcome :=
  { sampleRelink with reopen_ok := false }

/-- The device `sampleStoredDevice` after the blob of its entry failed to link and the
fopen of DiscardPipelineCache failed: no entry, no file. -/
def sampleClosedDevice : OpenGLDevice :=
  { OpenGLDevice.empty with
      calls := [Call.glDeleteProgram 9, Call.CreateProgramFromPipelineCache] }

/-! # Theorems -/

/-! ## The association lists -/

theorem mapFind_mem {K V : Type} [DecidableEq K] (m : List (K × V)) (key : K) (v : V)
    (h : mapFind m key = some v) : (key, v) ∈ m := by
  induction m with
  | nil => simp [mapFind] at h
  | cons p m ih =>
    obtain ⟨k, w⟩ := p
    by_cases hk : k = key
    · simp [mapFind, hk] at h
      simp [hk, h]
    · simp [mapFind, hk] at h
      exact List.mem_cons_of_mem _ (ih h)

theorem mapFind_eq_none {K V : Type} [DecidableEq K] (m : List (K × V)) (key : K) :
    mapFind m key = none ↔ key ∉ m.map Prod.fst := by
  induction m with
  | nil => simp [mapFind]
  | cons p m ih =>
    obtain ⟨k, w⟩ := p
    by_cases hk : k = key
    · simp [mapFind, hk]
    · simp only [mapFind, hk, if_false, ih, List.map_cons, List.mem_cons]
      constructor
      · intro h1 h2
        rcases h2 with h2 | h2
        · exact hk h2.symm
        · exact h1 h2
      · intro h1 h2
        exact h1 (Or.inr h2)

theorem mapFind_of_mem_nodup {K V : Type} [DecidableEq K] (m : List (K × V)) (key : K) (v : V)
    (hn : (m.map Prod.fst).Nodup) (h : (key, v) ∈ m) : mapFind m key = some v := by
  induction m with
  | nil => simp at h
  | cons p m ih =>
    obtain ⟨k, w⟩ := p
    simp only [List.map_cons, List.nodup_cons] at hn
    by_cases hk : k = key
    · subst hk
      rcases List.mem_cons.mp h with h | h
      · simp [mapFind, Prod.ext_iff] at h ⊢
        exact h.symm
      · exact absurd (List.mem_map_of_mem Prod.fst h) hn.1
    · rcases List.mem_cons.mp h with h | h
      · simp [Prod.ext_iff] at h
        exact absurd h.1.symm hk
      · simp [mapFind, hk, ih hn.2 h]

theorem map_fst_mapModify {K V : Type} [DecidableEq K] (m : List (K × V)) (key : K) (f : V → V) :
    (mapModify m key f).map Prod.fst = m.map Prod.fst := by
  induction m with
  | nil => rfl
  | cons p m ih =>
    obtain ⟨k, w⟩ := p
    by_cases hk : k = key
    · simp [mapModify, hk]
    · simp [mapModify, hk, ih]

theorem mem_mapModify {K V : Type} [DecidableEq K] (m : List (K × V)) (key : K) (f : V → V)
    (p : K × V) (h : p ∈ mapModify m key f) :
    p ∈ m ∨ ∃ v, mapFind m key = some v ∧ p = (key, f v) := by
  induction m with
  | nil => simp [mapModify] at h
  | cons q m ih =>
    obtain ⟨k, w⟩ := q
    by_cases hk : k = key
    · simp only [mapModify, hk, if_true, List.mem_cons] at h
      rcases h with h | h
      · exact Or.inr ⟨w, by simp [mapFind, hk], h⟩
      · exact Or.inl (List.mem_cons_of_mem _ h)
    · simp only [mapModify, hk, if_false, List.mem_cons] at h
      rcases h with h | h
      · exact Or.inl (by simp [h])
      · rcases ih h with h1 | ⟨v, h1, h2⟩
        · exact Or.inl (List.mem_cons_of_mem _ h1)
        · exact Or.inr ⟨v, by simp [mapFind, hk, h1], h2⟩

theorem mapFind_mapModify {K V : Type} [DecidableEq K] (m : List (K × V)) (key k2 : K)
    (f : V → V) :
    mapFind (mapModify m key f) k2 =
      if k2 = key then (mapFind m key).map f else mapFind m k2 := by
  induction m with
  | nil => simp [mapModify, mapFind]
  | cons q m ih =>
    obtain ⟨k, w⟩ := q
    by_cases hk : k = key
    · subst hk
      by_cases h2 : k2 = k
      · subst h2
        simp [mapModify, mapFind]
      · have h3 : ¬ k = k2 := fun h => h2 h.symm
        simp [mapModify, mapFind, h2, h3]
    · by_cases h2 : k2 = key
      · subst h2
        simp [mapModify, mapFind, hk, ih]
      · by_cases h3 : k = k2
        · simp [mapModify, mapFind, hk, h2, h3]
        · simp [mapModify, mapFind, hk, h2, h3, ih]

theorem mapErase_sublist {K V : Type} [DecidableEq K] (m : List (K × V)) (key : K) :
    (mapErase m key).Sublist m := by
  induction m with
  | nil => exact List.Sublist.refl _
  | cons q m ih =>
    obtain ⟨k, w⟩ := q
    by_cases hk : k = key
    · simp [mapErase, hk]
    · simp only [mapErase, hk, if_false]
      exact ih.cons₂ _

theorem mapFind_mapErase_self {K V : Type} [DecidableEq K] (m : List (K × V)) (key : K)
    (hn : (m.map Prod.fst).Nodup) : mapFind (mapErase m key) key = none := by
  induction m with
  | nil => rfl
  | cons q m ih =>
    obtain ⟨k, w⟩ := q
    simp only [List.map_cons, List.nodup_cons] at hn
    by_cases hk : k = key
    · subst hk
      simp only [mapErase, if_true]
      exact (mapFind_eq_none m k).mpr hn.1
    · simp [mapErase, mapFind, hk, ih hn.2]

theorem mapFind_mapErase_ne {K V : Type} [DecidableEq K] (m : List (K × V)) (key k2 : K)
    (h : k2 ≠ key) : mapFind (mapErase m key) k2 = mapFind m k2 := by
  induction m with
  | nil => rfl
  | cons q m ih =>
    obtain ⟨k, w⟩ := q
    by_cases hk : k = key
    · subst hk
      have h3 : ¬ k = k2 := fun h4 => h h4.symm
      simp [mapErase, mapFind, h3]
    · by_cases h3 : k = k2
      · subst h3
        simp [mapErase, mapFind, h]
      · simp [mapErase, mapFind, hk, h3, ih]

theorem mapFind_mapEmplace {K V : Type} [DecidableEq K] (m : List (K × V)) (key k2 : K) (v : V)
    (h : mapFind m key = none) :
    mapFind (mapEmplace m key v) k2 = if k2 = key then some v else mapFind m k2 := by
  simp only [mapEmplace, h]
  induction m with
  | nil =>
    by_cases h2 : k2 = key
    · simp [mapFind, h2]
    · have h3 : ¬ key = k2 := fun h4 => h2 h4.symm
      simp [mapFind, h2, h3]
  | cons q m ih =>
    obtain ⟨k, w⟩ := q
    by_cases hk : k = key
    · simp [mapFind, hk] at h
    · simp only [mapFind, hk, if_false] at h
      by_cases h3 : k = k2
      · subst h3
        have h4 : ¬ k = key := hk
        simp [mapFind, h4]
      · simp only [List.cons_append, mapFind, h3, if_false]
        exact ih h

theorem MapInv.modify {K V : Type} [DecidableEq K] {good : V → Prop} {m : List (K × V)}
    (hm : MapInv good m) (key : K) (f : V → V)
    (hf : ∀ v, mapFind m key = some v → good (f v)) : MapInv good (mapModify m key f) := by
  refine ⟨by rw [map_fst_mapModify]; exact hm.1, ?_⟩
  intro p hp
  rcases mem_mapModify m key f p hp with h | ⟨v, h1, h2⟩
  · exact hm.2 p h
  · rw [h2]
    exact hf v h1

theorem MapInv.erase {K V : Type} [DecidableEq K] {good : V → Prop} {m : List (K × V)}
    (hm : MapInv good m) (key : K) : MapInv good (mapErase m key) :=
  ⟨((mapErase_sublist m key).map Prod.fst).nodup hm.1,
    fun p hp => hm.2 p ((mapErase_sublist m key).subset hp)⟩

theorem MapInv.emplace {K V : Type} [DecidableEq K] {good : V → Prop} {m : List (K × V)}
    (hm : MapInv good m) (key : K) (v : V) (hv : good v) : MapInv good (mapEmplace m key v) := by
  unfold mapEmplace
  cases h : mapFind m key with
  | some w => exact hm
  | none =>
    have hk := (mapFind_eq_none m key).mp h
    refine ⟨?_, ?_⟩
    · simp only [List.map_append, List.map_cons, List.map_nil]
      refine List.Nodup.append hm.1 (List.nodup_singleton _) ?_
      intro a ha hb
      simp only [List.mem_singleton] at hb
      exact hk (hb ▸ ha)
    · intro p hp
      rcases List.mem_append.mp hp with h1 | h1
      · exact hm.2 p h1
      · simp only [List.mem_singleton] at h1
        rw [h1]
        exact hv

/-! ## The cache invariant -/

/-- The invariant of the device as two map invariants -/
theorem OpenGLDevice.cacheInvariant_iff (d : OpenGLDevice) :
    d.CacheInvariant ↔
      MapInv ProgramCacheItem.Good d.m_program_cache ∧
      MapInv VertexArrayCacheItem.Good d.m_vao_cache := by
  unfold OpenGLDevice.CacheInvariant MapInv ProgramCacheItem.Good VertexArrayCacheItem.Good
  tauto

@[simp] theorem OpenGLDevice.record_program_cache (d : OpenGLDevice) (c : Call) :
    (d.record c).m_program_cache = d.m_program_cache := rfl

@[simp] theorem OpenGLDevice.record_vao_cache (d : OpenGLDevice) (c : Call) :
    (d.record c).m_vao_cache = d.m_vao_cache := rfl

@[simp] theorem OpenGLDevice.PostLinkProgram_program_cache (env : Environment) (p : Nat)
    (d : OpenGLDevice) : (d.PostLinkProgram env p).m_program_cache = d.m_program_cache := by
  unfold OpenGLDevice.PostLinkProgram
  split <;> rfl

@[simp] theorem OpenGLDevice.PostLinkProgram_vao_cache (env : Environment) (p : Nat)
    (d : OpenGLDevice) : (d.PostLinkProgram env p).m_vao_cache = d.m_vao_cache := by
  unfold OpenGLDevice.PostLinkProgram
  split <;> rfl

@[simp] theorem OpenGLDevice.CompileProgram_program_cache (env : Environment) (o : LookupOutcome)
    (d : OpenGLDevice) : (d.CompileProgram env o).2.m_program_cache = d.m_program_cache := by
  unfold OpenGLDevice.CompileProgram
  split <;> simp

@[simp] theorem OpenGLDevice.CompileProgram_vao_cache (env : Environment) (o : LookupOutcome)
    (d : OpenGLDevice) : (d.CompileProgram env o).2.m_vao_cache = d.m_vao_cache := by
  unfold OpenGLDevice.CompileProgram
  split <;> simp

theorem OpenGLDevice.CompileProgram_fst (env : Environment) (o : LookupOutcome)
    (d : OpenGLDevice) : (d.CompileProgram env o).1 = o.compiled := by
  unfold OpenGLDevice.CompileProgram
  split
  · next h => simp [h]
  · rfl

theorem OpenGLDevice.CreateProgramFromPipelineCache_caches (env : Environment)
    (it : ProgramCacheItem) (o : LookupOutcome) (d d2 : OpenGLDevice) (r : Nat)
    (h : d.CreateProgramFromPipelineCache env it o = some (r, d2)) :
    d2.m_program_cache = d.m_program_cache ∧ d2.m_vao_cache = d.m_vao_cache := by
  unfold OpenGLDevice.CreateProgramFromPipelineCache at h
  split at h
  · simp at h
  · split at h
    · simp at h; rw [← h.2]; simp
    · split at h
      · simp at h; rw [← h.2]; simp
      · split at h
        · simp at h; rw [← h.2]; simp
        · split at h
          · simp at h; rw [← h.2]; simp
          · simp at h; rw [← h.2]; simp

theorem OpenGLDevice.AddToPipelineCache_caches (env : Environment)
    (it it2 : ProgramCacheItem) (o : LookupOutcome) (d d2 : OpenGLDevice)
    (h : d.AddToPipelineCache env it o = some (it2, d2)) :
    d2.m_program_cache = d.m_program_cache ∧ d2.m_vao_cache = d.m_vao_cache ∧
      it2.program_id = it.program_id ∧ it2.reference_count = it.reference_count := by
  unfold OpenGLDevice.AddToPipelineCache at h
  split at h
  · simp at h; simp [← h.1, ← h.2]
  · split at h
    · simp at h; simp [← h.1, ← h.2]
    · split at h
      · simp at h; simp [← h.1, ← h.2]
      · split at h
        · simp at h
        · simp at h; simp [← h.1, ← h.2]

theorem OpenGLDevice.DiscardPipelineCache_vao_cache (b : Bool) (d : OpenGLDevice) :
    (d.DiscardPipelineCache b).2.m_vao_cache = d.m_vao_cache := by
  unfold OpenGLDevice.DiscardPipelineCache
  split <;> rfl

/-- The program cache that DiscardPipelineCache leaves -/
theorem OpenGLDevice.DiscardPipelineCache_program_cache (b : Bool) (d : OpenGLDevice) :
    (d.DiscardPipelineCache b).2.m_program_cache = d.m_program_cache.filterMap discardEntry := by
  unfold OpenGLDevice.DiscardPipelineCache
  split <;> rfl

theorem MapInv.filterMap {K V : Type} {good : V → Prop} {m : List (K × V)}
    (f : K × V → Option (K × V))
    (hf : ∀ p q, f p = some q → q.1 = p.1 ∧ (good p.2 → good q.2))
    (hm : MapInv good m) : MapInv good (m.filterMap f) := by
  induction m with
  | nil => exact hm
  | cons a m ih =>
    have h1 := hm.1
    simp only [List.map_cons, List.nodup_cons] at h1
    have hm2 : MapInv good m := ⟨h1.2, fun p hp => hm.2 p (List.mem_cons_of_mem _ hp)⟩
    have ih2 := ih hm2
    cases hfa : f a with
    | none =>
      rw [List.filterMap_cons_none hfa]
      exact ih2
    | some b =>
      rw [List.filterMap_cons_some hfa]
      obtain ⟨hb1, hb2⟩ := hf a b hfa
      refine ⟨?_, ?_⟩
      · simp only [List.map_cons, List.nodup_cons]
        refine ⟨?_, ih2.1⟩
        intro hmem
        apply h1.1
        simp only [List.mem_map, List.mem_filterMap] at hmem
        obtain ⟨x, ⟨y, hy, hxy⟩, hx⟩ := hmem
        simp only [List.mem_map]
        exact ⟨y, hy, by rw [← (hf y x hxy).1, hx, hb1]⟩
      · intro p hp
        rcases List.mem_cons.mp hp with h2 | h2
        · rw [h2]
          exact hb2 (hm.2 a (List.mem_cons_self _ _))
        · exact ih2.2 p h2

theorem discardEntry_good (p q : ProgramCacheKey × ProgramCacheItem)
    (h : discardEntry p = some q) :
    q.1 = p.1 ∧ (ProgramCacheItem.Good p.2 → ProgramCacheItem.Good q.2) := by
  unfold discardEntry at h
  split at h
  · simp only [Option.some.injEq] at h
    rw [← h]
    exact ⟨rfl, fun hg => hg⟩
  · simp at h

theorem mapModify_mapModify {K V : Type} [DecidableEq K] (m : List (K × V)) (key : K)
    (f g : V → V) : mapModify (mapModify m key f) key g = mapModify m key (fun v => g (f v)) := by
  induction m with
  | nil => rfl
  | cons q m ih =>
    obtain ⟨k, w⟩ := q
    by_cases hk : k = key
    · simp [mapModify, hk]
    · simp [mapModify, hk, ih]

/-- The two map invariants of a device -/
theorem OpenGLDevice.LookupProgramCacheMiss_inv (env : Environment) (key : ProgramCacheKey)
    (o : LookupOutcome) (d d2 : OpenGLDevice) (r : Nat)
    (h : d.LookupProgramCacheMiss env key o = some (r, d2))
    (hp : MapInv ProgramCacheItem.Good d.m_program_cache) :
    MapInv ProgramCacheItem.Good d2.m_program_cache ∧ d2.m_vao_cache = d.m_vao_cache := by
  unfold OpenGLDevice.LookupProgramCacheMiss at h
  simp only at h
  split at h
  · next hne =>
    split at h
    · simp at h
    · next it2 d3 hadd =>
      obtain ⟨h1, h2, h3, h4⟩ := OpenGLDevice.AddToPipelineCache_caches _ _ _ _ _ _ hadd
      simp only [Option.some.injEq, Prod.mk.injEq] at h
      rw [← h.2]
      simp only [h1, h2, OpenGLDevice.CompileProgram_program_cache,
        OpenGLDevice.CompileProgram_vao_cache, and_true]
      apply MapInv.emplace hp
      simp only [ProgramCacheItem.Good, h3, h4]
      simp only [ne_eq] at hne
      simp [hne]
  · next hne =>
    simp only [Option.some.injEq, Prod.mk.injEq] at h
    rw [← h.2]
    simp only [OpenGLDevice.CompileProgram_program_cache,
        OpenGLDevice.CompileProgram_vao_cache, and_true]
    apply MapInv.emplace hp
    simp only [ne_eq, not_not] at hne
    simp [ProgramCacheItem.Good, hne]

theorem OpenGLDevice.LookupProgramCacheHit_inv (key : ProgramCacheKey)
    (d d2 : OpenGLDevice) (r : Nat)
    (h : d.LookupProgramCacheHit key = some (r, d2))
    (hp : MapInv ProgramCacheItem.Good d.m_program_cache) :
    MapInv ProgramCacheItem.Good d2.m_program_cache ∧ d2.m_vao_cache = d.m_vao_cache := by
  unfold OpenGLDevice.LookupProgramCacheHit at h
  split at h
  · simp at h
  · next item hfind =>
    split at h
    · next hne =>
      simp only [Option.some.injEq, Prod.mk.injEq] at h
      rw [← h.2]
      refine ⟨?_, rfl⟩
      apply MapInv.modify hp
      intro v hv
      rw [hfind] at hv
      simp only [Option.some.injEq] at hv
      subst hv
      have hg := hp.2 _ (mapFind_mem _ _ _ hfind)
      simp only [ProgramCacheItem.Good] at hg ⊢
      constructor
      · omega
      · constructor
        · intro _; omega
        · intro _; exact hne
    · simp only [Option.some.injEq, Prod.mk.injEq] at h
      rw [← h.2]
      exact ⟨hp, rfl⟩

theorem OpenGLDevice.LookupProgramCache_inv (env : Environment) (key : ProgramCacheKey)
    (o : LookupOutcome) (d d2 : OpenGLDevice) (r : Nat)
    (h : d.LookupProgramCache env key o = some (r, d2))
    (hp : MapInv ProgramCacheItem.Good d.m_program_cache) :
    MapInv ProgramCacheItem.Good d2.m_program_cache ∧ d2.m_vao_cache = d.m_vao_cache := by
  unfold OpenGLDevice.LookupProgramCache at h
  split at h
  · next item hfind =>
    have hg := hp.2 _ (mapFind_mem _ _ _ hfind)
    split at h
    · next hcond =>
      split at h
      · simp at h
      · next program_id d3 hcreate =>
        obtain ⟨h1, h2⟩ := OpenGLDevice.CreateProgramFromPipelineCache_caches _ _ _ _ _ _ hcreate
        simp only at h
        split at h
        · next hz =>
          have := OpenGLDevice.LookupProgramCacheMiss_inv _ _ _ _ _ _ h (by
            rw [OpenGLDevice.DiscardPipelineCache_program_cache]
            apply MapInv.filterMap _ discardEntry_good
            simp only [h1]
            apply MapInv.erase
            apply MapInv.modify hp
            intro v hv
            rw [hfind] at hv
            simp only [Option.some.injEq] at hv
            subst hv
            simp only [ProgramCacheItem.Good] at hg ⊢
            simp only [hz, ne_eq, not_true_eq_false, false_iff, not_lt]
            have := hg.2.not.mp (by simp [hcond.1])
            omega)
          rw [OpenGLDevice.DiscardPipelineCache_vao_cache] at this
          simp only [h2] at this
          exact this
        · next hnz =>
          unfold OpenGLDevice.LookupProgramCacheHit at h
          simp only [mapFind_mapModify, if_true, h1, hfind, Option.map_some', ne_eq, hnz,
            not_false_eq_true, mapModify_mapModify, Option.some.injEq, Prod.mk.injEq] at h
          rw [← h.2]
          refine ⟨?_, h2⟩
          apply MapInv.modify hp
          intro v hv
          rw [hfind] at hv
          simp only [Option.some.injEq] at hv
          subst hv
          simp only [ProgramCacheItem.Good] at hg ⊢
          have := hg.2.not.mp (by simp [hcond.1])
          constructor
          · omega
          · constructor
            · intro _; omega
            · intro _; exact hnz
    · exact OpenGLDevice.LookupProgramCacheHit_inv _ _ _ _ h hp
  · exact OpenGLDevice.LookupProgramCacheMiss_inv _ _ _ _ _ _ h hp

theorem OpenGLDevice.UnrefProgram_inv (key : ProgramCacheKey) (d d2 : OpenGLDevice)
    (h : d.UnrefProgram key = some d2)
    (hp : MapInv ProgramCacheItem.Good d.m_program_cache) :
    MapInv ProgramCacheItem.Good d2.m_program_cache ∧ d2.m_vao_cache = d.m_vao_cache := by
  unfold OpenGLDevice.UnrefProgram at h
  split at h
  · simp at h
  · next item hfind =>
    split at h
    · next hcond =>
      split at h
      · next hpos =>
        simp only [Option.some.injEq] at h
        rw [← h]
        refine ⟨?_, rfl⟩
        apply MapInv.modify hp
        intro v hv
        rw [hfind] at hv
        simp only [Option.some.injEq] at hv
        subst hv
        simp only [ProgramCacheItem.Good]
        exact ⟨by omega, fun _ => hpos, fun _ => hcond.1⟩
      · next hpos =>
        simp only [Option.some.injEq] at h
        rw [← h]
        refine ⟨?_, ?_⟩
        · have hc : ∀ x : OpenGLDevice,
              (if d.m_last_program = item.program_id then
                { d with m_last_program := 0 }.record (Call.glUseProgram 0)
              else d) = x → x.m_program_cache = d.m_program_cache := by
            intro x hx
            rw [← hx]
            split <;> rfl
          simp only [OpenGLDevice.record_program_cache, hc _ rfl]
          apply MapInv.modify hp
          intro v hv
          rw [hfind] at hv
          simp only [Option.some.injEq] at hv
          subst hv
          simp only [ProgramCacheItem.Good]
          refine ⟨by omega, fun hx => absurd rfl hx, fun hx => ?_⟩
          omega
        · simp only [OpenGLDevice.record_vao_cache]
          split <;> rfl
    · simp at h

theorem OpenGLDevice.LookupVAOCache_inv (key : VertexArrayCacheKey) (vao : Nat) (error : Bool)
    (d : OpenGLDevice) (hv : MapInv VertexArrayCacheItem.Good d.m_vao_cache) :
    MapInv VertexArrayCacheItem.Good (d.LookupVAOCache key vao error).2.m_vao_cache ∧
      (d.LookupVAOCache key vao error).2.m_program_cache = d.m_program_cache := by
  unfold OpenGLDevice.LookupVAOCache
  split
  · next item hfind =>
    refine ⟨?_, rfl⟩
    apply MapInv.modify hv
    intro v hv2
    rw [hfind] at hv2
    simp only [Option.some.injEq] at hv2
    subst hv2
    have hg := hv.2 _ (mapFind_mem _ _ _ hfind)
    simp only [VertexArrayCacheItem.Good] at hg ⊢
    exact ⟨by omega, hg.2.1, by omega⟩
  · next hfind =>
    unfold OpenGLDevice.CreateVAO
    simp only
    split
    · next herr => simp [hv]
    · next herr =>
      split
      · next hz => simp [hv]
      · next hz =>
        simp only [OpenGLDevice.record_vao_cache, OpenGLDevice.record_program_cache, and_true]
        apply MapInv.emplace hv
        simp only [VertexArrayCacheItem.Good]
        exact ⟨by omega, hz, by omega⟩

theorem OpenGLDevice.UnrefVAO_inv (key : VertexArrayCacheKey) (d d2 : OpenGLDevice)
    (h : d.UnrefVAO key = some d2)
    (hv : MapInv VertexArrayCacheItem.Good d.m_vao_cache) :
    MapInv VertexArrayCacheItem.Good d2.m_vao_cache ∧
      d2.m_program_cache = d.m_program_cache := by
  unfold OpenGLDevice.UnrefVAO at h
  split at h
  · simp at h
  · next item hfind =>
    have hg := hv.2 _ (mapFind_mem _ _ _ hfind)
    split at h
    · next hcond =>
      split at h
      · next hpos =>
        simp only [Option.some.injEq] at h
        rw [← h]
        refine ⟨?_, rfl⟩
        apply MapInv.modify hv
        intro v hv2
        rw [hfind] at hv2
        simp only [Option.some.injEq] at hv2
        subst hv2
        simp only [VertexArrayCacheItem.Good] at hg ⊢
        exact ⟨by omega, hg.2.1, hpos⟩
      · next hpos =>
        simp only [Option.some.injEq] at h
        rw [← h]
        refine ⟨?_, ?_⟩
        · have hc : ∀ x : OpenGLDevice,
              (if d.m_last_vao = item.vao_id then
                { d with m_last_vao := 0 }.record (Call.glBindVertexArray 0)
              else d) = x → x.m_vao_cache = d.m_vao_cache := by
            intro x hx
            rw [← hx]
            split <;> rfl
          simp only [OpenGLDevice.record_vao_cache, hc _ rfl]
          exact MapInv.erase hv key
        · simp only [OpenGLDevice.record_program_cache]
          split <;> rfl
    · simp at h

theorem OpenGLDevice.UnbindPipeline_program_cache (pl : OpenGLPipeline) (d : OpenGLDevice) :
    (d.UnbindPipeline pl).m_program_cache = d.m_program_cache := by
  unfold OpenGLDevice.UnbindPipeline
  split <;> rfl

theorem OpenGLDevice.UnbindPipeline_vao_cache (pl : OpenGLPipeline) (d : OpenGLDevice) :
    (d.UnbindPipeline pl).m_vao_cache = d.m_vao_cache := by
  unfold OpenGLDevice.UnbindPipeline
  split <;> rfl

theorem OpenGLDevice.CreatePipeline_inv (env : Environment) (config : GraphicsConfig)
    (o : CreateOutcome) (d d2 : OpenGLDevice) (r : Option OpenGLPipeline)
    (h : d.CreatePipeline env config o = some (r, d2))
    (hp : MapInv ProgramCacheItem.Good d.m_program_cache)
    (hv : MapInv VertexArrayCacheItem.Good d.m_vao_cache) :
    MapInv ProgramCacheItem.Good d2.m_program_cache ∧
      MapInv VertexArrayCacheItem.Good d2.m_vao_cache := by
  unfold OpenGLDevice.CreatePipeline at h
  split at h
  · simp at h
  · next pkey hkey =>
    split at h
    · simp at h
    · next program_id d3 hlookup =>
      obtain ⟨h1, h2⟩ := OpenGLDevice.LookupProgramCache_inv _ _ _ _ _ _ hlookup hp
      split at h
      · simp only [Option.some.injEq, Prod.mk.injEq] at h
        rw [← h.2]
        exact ⟨h1, h2 ▸ hv⟩
      · obtain ⟨h3, h4⟩ := OpenGLDevice.LookupVAOCache_inv pkey.va_key o.vao o.vao_error d3
          (h2 ▸ hv)
        simp only at h
        split at h
        · split at h
          · simp at h
          · next d4 hunref =>
            simp only [Option.some.injEq, Prod.mk.injEq] at h
            rw [← h.2]
            obtain ⟨h5, h6⟩ := OpenGLDevice.UnrefProgram_inv _ _ _ hunref (h4 ▸ h1)
            exact ⟨h5, h6 ▸ h3⟩
        · simp only [Option.some.injEq, Prod.mk.injEq] at h
          rw [← h.2]
          exact ⟨h4 ▸ h1, h3⟩

theorem OpenGLDevice.DestroyPipeline_inv (pl : OpenGLPipeline) (d d2 : OpenGLDevice)
    (h : d.DestroyPipeline pl = some d2)
    (hp : MapInv ProgramCacheItem.Good d.m_program_cache)
    (hv : MapInv VertexArrayCacheItem.Good d.m_vao_cache) :
    MapInv ProgramCacheItem.Good d2.m_program_cache ∧
      MapInv VertexArrayCacheItem.Good d2.m_vao_cache := by
  unfold OpenGLDevice.DestroyPipeline at h
  split at h
  · simp at h
  · next d3 hunref =>
    obtain ⟨h1, h2⟩ := OpenGLDevice.UnrefProgram_inv _ _ _ hunref
      (by rw [OpenGLDevice.UnbindPipeline_program_cache]; exact hp)
    rw [OpenGLDevice.UnbindPipeline_vao_cache] at h2
    obtain ⟨h3, h4⟩ := OpenGLDevice.UnrefVAO_inv _ _ _ h (h2 ▸ hv)
    exact ⟨h4 ▸ h1, h3⟩

theorem OpenGLDevice.DiscardPipelineCache_inv (b : Bool) (d : OpenGLDevice)
    (hp : MapInv ProgramCacheItem.Good d.m_program_cache) :
    MapInv ProgramCacheItem.Good (d.DiscardPipelineCache b).2.m_program_cache := by
  rw [OpenGLDevice.DiscardPipelineCache_program_cache]
  exact MapInv.filterMap _ discardEntry_good hp

theorem OpenGLDevice.ReadEntries_inv (size : Nat) (file : List Byte) (o : ReadOutcome)
    (n i pos : Nat) (d : OpenGLDevice)
    (hp : MapInv ProgramCacheItem.Good d.m_program_cache) :
    MapInv ProgramCacheItem.Good
        (OpenGLDevice.ReadEntries size file o n i pos d).2.m_program_cache ∧
      (OpenGLDevice.ReadEntries size file o n i pos d).2.m_vao_cache = d.m_vao_cache := by
  induction n generalizing i pos d with
  | zero => exact ⟨hp, rfl⟩
  | succ n ih =>
    unfold OpenGLDevice.ReadEntries
    split
    · exact ⟨OpenGLDevice.DiscardPipelineCache_inv _ _ hp,
        OpenGLDevice.DiscardPipelineCache_vao_cache _ _⟩
    · simp only
      split
      · exact ⟨OpenGLDevice.DiscardPipelineCache_inv _ _ hp,
          OpenGLDevice.DiscardPipelineCache_vao_cache _ _⟩
      · split
        · exact ⟨OpenGLDevice.DiscardPipelineCache_inv _ _ hp,
            OpenGLDevice.DiscardPipelineCache_vao_cache _ _⟩
        · refine ih _ _ _ ?_
          apply MapInv.emplace hp
          simp [ProgramCacheItem.Good]

theorem OpenGLDevice.ReadPipelineCache_inv (env : Environment) (filename : String)
    (o : ReadOutcome) (d : OpenGLDevice)
    (hp : MapInv ProgramCacheItem.Good d.m_program_cache) :
    MapInv ProgramCacheItem.Good (d.ReadPipelineCache env filename o).2.m_program_cache ∧
      (d.ReadPipelineCache env filename o).2.m_vao_cache = d.m_vao_cache := by
  unfold OpenGLDevice.ReadPipelineCache
  split
  · exact ⟨hp, rfl⟩
  · exact ⟨hp, rfl⟩
  · exact ⟨OpenGLDevice.DiscardPipelineCache_inv _ _ hp,
      OpenGLDevice.DiscardPipelineCache_vao_cache _ _⟩
  · simp only
    split
    · exact ⟨OpenGLDevice.DiscardPipelineCache_inv _ _ hp,
        OpenGLDevice.DiscardPipelineCache_vao_cache _ _⟩
    · split
      · exact ⟨OpenGLDevice.DiscardPipelineCache_inv _ _ hp,
          OpenGLDevice.DiscardPipelineCache_vao_cache _ _⟩
      · split
        · exact ⟨OpenGLDevice.DiscardPipelineCache_inv _ _ hp,
            OpenGLDevice.DiscardPipelineCache_vao_cache _ _⟩
        · split
          · exact ⟨OpenGLDevice.DiscardPipelineCache_inv _ _ hp,
              OpenGLDevice.DiscardPipelineCache_vao_cache _ _⟩
          · exact OpenGLDevice.ReadEntries_inv _ _ _ _ _ _ _ hp

theorem Session.Step.inv (env : Environment) (s t : Session) (h : Session.Step env s t)
    (hp : MapInv ProgramCacheItem.Good s.device.m_program_cache)
    (hv : MapInv VertexArrayCacheItem.Good s.device.m_vao_cache) :
    MapInv ProgramCacheItem.Good t.device.m_program_cache ∧
      MapInv VertexArrayCacheItem.Good t.device.m_vao_cache := by
  cases h with
  | ReadPipelineCache filename o =>
    obtain ⟨h1, h2⟩ := OpenGLDevice.ReadPipelineCache_inv env filename o s.device hp
    exact ⟨h1, h2 ▸ hv⟩
  | LookupProgramCache key o r d h =>
    obtain ⟨h1, h2⟩ := OpenGLDevice.LookupProgramCache_inv _ _ _ _ _ _ h hp
    exact ⟨h1, h2 ▸ hv⟩
  | UnrefProgram key d h =>
    obtain ⟨h1, h2⟩ := OpenGLDevice.UnrefProgram_inv _ _ _ h hp
    exact ⟨h1, h2 ▸ hv⟩
  | LookupVAOCache key vao error =>
    obtain ⟨h1, h2⟩ := OpenGLDevice.LookupVAOCache_inv key vao error s.device hv
    exact ⟨h2 ▸ hp, h1⟩
  | UnrefVAO key d h =>
    obtain ⟨h1, h2⟩ := OpenGLDevice.UnrefVAO_inv _ _ _ h hv
    exact ⟨h2 ▸ hp, h1⟩
  | CreatePipeline config o r d h =>
    exact OpenGLDevice.CreatePipeline_inv _ _ _ _ _ _ h hp hv
  | DestroyPipeline pl d hmem h =>
    exact OpenGLDevice.DestroyPipeline_inv _ _ _ h hp hv
  | AddToPipelineCache key o it it2 d hfind hid hsz h =>
    obtain ⟨h1, h2, h3, h4⟩ := OpenGLDevice.AddToPipelineCache_caches _ _ _ _ _ _ h
    refine ⟨?_, h2 ▸ hv⟩
    simp only [h1]
    apply MapInv.modify hp
    intro v hv2
    rw [hfind] at hv2
    simp only [Option.some.injEq] at hv2
    subst hv2
    have hg := hp.2 _ (mapFind_mem _ _ _ hfind)
    simp only [ProgramCacheItem.Good, h3, h4] at hg ⊢
    exact hg
  | DiscardPipelineCache reopen_ok =>
    refine ⟨OpenGLDevice.DiscardPipelineCache_inv _ _ hp, ?_⟩
    simp only [OpenGLDevice.DiscardPipelineCache_vao_cache]
    exact hv

/-- C1: in every session reachable from an empty device by ReadPipelineCache,
LookupProgramCache, UnrefProgram, LookupVAOCache, UnrefVAO, CreatePipeline, pipeline
destruction, AddToPipelineCache and DiscardPipelineCache, the program cache and the
vertex-array cache hold at most one entry per key, no reference count is negative, a
program cache entry has a program exactly when its reference count is positive, and
every vertex-array entry has a vertex array and a positive reference count. -/
theorem C1_cache_invariant (env : Environment) (s : Session)
    (h : Session.Reachable env s) : s.device.CacheInvariant := by
  rw [OpenGLDevice.cacheInvariant_iff]
  induction h with
  | empty => exact ⟨⟨List.nodup_nil, by simp [OpenGLDevice.empty]⟩,
      ⟨List.nodup_nil, by simp [OpenGLDevice.empty]⟩⟩
  | step s t _ hstep ih => exact Session.Step.inv env s t hstep ih.1 ih.2

theorem sampleSession_reachable : Session.Reachable sampleEnvironment sampleSession :=
  Session.Reachable.step _ _ Session.Reachable.empty
    (Session.Step.LookupProgramCache { device := OpenGLDevice.empty, pipelines := [] }
      (sampleKey 1) (sampleLookup 7 []) 7 _ rfl)

theorem C1_cache_invariant_witness :
    Session.Reachable sampleEnvironment sampleSession ∧ sampleSession.device.CacheInvariant :=
  ⟨sampleSession_reachable,
    C1_cache_invariant sampleEnvironment sampleSession sampleSession_reachable⟩

/-! ## Lookups -/

theorem OpenGLDevice.PostLinkProgram_calls (env : Environment) (p : Nat) (d : OpenGLDevice) :
    ∃ l, (d.PostLinkProgram env p).calls = l ++ d.calls ∧ Call.CompileProgram ∉ l ∧
      Call.CreateProgramFromPipelineCache ∉ l := by
  unfold OpenGLDevice.PostLinkProgram
  split
  · exact ⟨[], rfl, by simp, by simp⟩
  · exact ⟨[Call.glUseProgram d.m_last_program, Call.glUseProgram p], rfl, by simp, by simp⟩

theorem OpenGLDevice.CreateProgramFromPipelineCache_calls (env : Environment)
    (it : ProgramCacheItem) (o : LookupOutcome) (d d2 : OpenGLDevice) (r : Nat)
    (h : d.CreateProgramFromPipelineCache env it o = some (r, d2)) :
    ∃ l, d2.calls = l ++ d.calls ∧ Call.CompileProgram ∉ l := by
  unfold OpenGLDevice.CreateProgramFromPipelineCache at h
  split at h
  · simp at h
  · split at h
    · simp at h; rw [← h.2]
      exact ⟨[Call.CreateProgramFromPipelineCache], rfl, by simp⟩
    · split at h
      · simp at h; rw [← h.2]
        exact ⟨[Call.CreateProgramFromPipelineCache], rfl, by simp⟩
      · split at h
        · simp at h; rw [← h.2]
          exact ⟨[Call.CreateProgramFromPipelineCache], rfl, by simp⟩
        · split at h
          · simp at h; rw [← h.2]
            exact ⟨[Call.glDeleteProgram o.binary_program, Call.CreateProgramFromPipelineCache],
              rfl, by simp⟩
          · simp at h; rw [← h.2]
            obtain ⟨l, hl, hl2, _⟩ := OpenGLDevice.PostLinkProgram_calls env o.binary_program
              (d.record Call.CreateProgramFromPipelineCache)
            refine ⟨l ++ [Call.CreateProgramFromPipelineCache], ?_, by simp [hl2]⟩
            rw [hl]
            simp [OpenGLDevice.record]

/-- The lookup of a key whose entry is rematerialized from its blob -/
theorem OpenGLDevice.LookupProgramCache_rematerialize (env : Environment)
    (key : ProgramCacheKey) (o : LookupOutcome) (d d1 : OpenGLDevice) (it : ProgramCacheItem)
    (prog : Nat)
    (hfind : mapFind d.m_program_cache key = some it)
    (hid : it.program_id = 0) (hloc : 0 < it.file_uncompressed_size)
    (hcreate : d.CreateProgramFromPipelineCache env it o = some (prog, d1))
    (hprog : prog ≠ 0) :
    d.LookupProgramCache env key o =
      some (prog,
        { d1 with
            m_program_cache := mapModify d.m_program_cache key
              (fun i => { i with program_id := prog,
                                 reference_count := i.reference_count + 1 }) }) := by
  obtain ⟨h1, _⟩ := OpenGLDevice.CreateProgramFromPipelineCache_caches _ _ _ _ _ _ hcreate
  unfold OpenGLDevice.LookupProgramCache
  simp only [hfind, hid, hloc, and_self, if_true, hcreate, hprog, if_false]
  unfold OpenGLDevice.LookupProgramCacheHit
  simp only [mapFind_mapModify, if_true, h1, hfind, Option.map_some', ne_eq, hprog,
    not_false_eq_true, mapModify_mapModify]

/-- C2: a key whose entry has no program, reference count 0 and a persisted blob is
served from the blob when CreateProgramFromPipelineCache succeeds: the lookup returns
the rematerialized program, the entry gets reference count 1 and keeps its locator,
and CompileProgram is not called; an entry that UnrefProgram released to reference
count 0 while it had a locator is such an entry. -/
theorem C2_rematerialize_from_blob :
    (∀ (env : Environment) (key : ProgramCacheKey) (o : LookupOutcome) (d d1 : OpenGLDevice)
        (it : ProgramCacheItem) (prog : Nat),
        mapFind d.m_program_cache key = some it →
        it.program_id = 0 → it.reference_count = 0 → 0 < it.file_uncompressed_size →
        d.CreateProgramFromPipelineCache env it o = some (prog, d1) → prog ≠ 0 →
        ∃ d2 l, d.LookupProgramCache env key o = some (prog, d2) ∧
          mapFind d2.m_program_cache key =
            some { it with program_id := prog, reference_count := 1 } ∧
          d2.calls = l ++ d.calls ∧ Call.CompileProgram ∉ l) ∧
    (∀ (env : Environment) (key : ProgramCacheKey) (o : LookupOutcome) (d0 d1 : OpenGLDevice)
        (it0 : ProgramCacheItem) (prog : Nat),
        mapFind d0.m_program_cache key = some it0 →
        it0.program_id ≠ 0 → it0.reference_count = 1 → 0 < it0.file_uncompressed_size →
        ∃ d, d0.UnrefProgram key = some d ∧
          mapFind d.m_program_cache key =
            some { it0 with program_id := 0, reference_count := 0 } ∧
          (d.CreateProgramFromPipelineCache env
              { it0 with program_id := 0, reference_count := 0 } o = some (prog, d1) →
            prog ≠ 0 →
            ∃ d2 l, d.LookupProgramCache env key o = some (prog, d2) ∧
              mapFind d2.m_program_cache key =
                some { it0 with program_id := prog, reference_count := 1 } ∧
              d2.calls = l ++ d.calls ∧ Call.CompileProgram ∉ l)) := by
  have general : ∀ (env : Environment) (key : ProgramCacheKey) (o : LookupOutcome)
        (d d1 : OpenGLDevice) (it : ProgramCacheItem) (prog : Nat),
        mapFind d.m_program_cache key = some it →
        it.program_id = 0 → it.reference_count = 0 → 0 < it.file_uncompressed_size →
        d.CreateProgramFromPipelineCache env it o = some (prog, d1) → prog ≠ 0 →
        ∃ d2 l, d.LookupProgramCache env key o = some (prog, d2) ∧
          mapFind d2.m_program_cache key =
            some { it with program_id := prog, reference_count := 1 } ∧
          d2.calls = l ++ d.calls ∧ Call.CompileProgram ∉ l := by
    intro env key o d d1 it prog hfind hid hrc hloc hcreate hprog
    obtain ⟨l, hl, hl2⟩ := OpenGLDevice.CreateProgramFromPipelineCache_calls _ _ _ _ _ _ hcreate
    refine ⟨_, l, OpenGLDevice.LookupProgramCache_rematerialize env key o d d1 it prog hfind hid
      hloc hcreate hprog, ?_, hl, hl2⟩
    simp only [mapFind_mapModify, if_true, hfind, Option.map_some', hrc, zero_add]
  refine ⟨general, ?_⟩
  intro env key o d0 d1 it0 prog hfind hid hrc hloc
  have hun : d0.UnrefProgram key = some
      { (if d0.m_last_program = it0.program_id then
            { d0 with m_last_program := 0 }.record (Call.glUseProgram 0)
          else d0).record (Call.glDeleteProgram it0.program_id) with
        m_program_cache := mapModify d0.m_program_cache key
          (fun i => { i with reference_count := i.reference_count - 1, program_id := 0 }) } := by
    unfold OpenGLDevice.UnrefProgram
    simp only [hfind, hid, hrc, ne_eq, not_false_eq_true, zero_lt_one, and_self, if_true,
      sub_self, lt_self_iff_false, if_false]
    congr 2
    split <;> rfl
  refine ⟨_, hun, ?_, ?_⟩
  · simp only [mapFind_mapModify, if_true, hfind, Option.map_some', hrc, sub_self]
  · intro hcreate hprog
    exact general env key o _ d1 { it0 with program_id := 0, reference_count := 0 } prog
      (by simp only [mapFind_mapModify, if_true, hfind, Option.map_some', hrc, sub_self])
      rfl rfl hloc hcreate hprog

/-- C2 at a device whose one entry is a blob of three bytes -/
theorem C2_rematerialize_from_blob_witness :
    ∃ d2 l, sampleStoredDevice.LookupProgramCache sampleEnvironment (sampleKey 1)
          (sampleLookup 9 []) = some (9, d2) ∧
      mapFind d2.m_program_cache (sampleKey 1) =
        some { sampleStoredItem with program_id := 9, reference_count := 1 } ∧
      d2.calls = l ++ sampleStoredDevice.calls ∧ Call.CompileProgram ∉ l :=
  C2_rematerialize_from_blob.1 sampleEnvironment (sampleKey 1) (sampleLookup 9 [])
    sampleStoredDevice (sampleStoredDevice.record Call.CreateProgramFromPipelineCache)
    sampleStoredItem 9 rfl rfl rfl (by decide) rfl (by decide)

@[simp] theorem OpenGLDevice.record_file (d : OpenGLDevice) (c : Call) :
    (d.record c).m_pipeline_disk_cache_file = d.m_pipeline_disk_cache_file := rfl

@[simp] theorem OpenGLDevice.PostLinkProgram_file (env : Environment) (p : Nat)
    (d : OpenGLDevice) :
    (d.PostLinkProgram env p).m_pipeline_disk_cache_file = d.m_pipeline_disk_cache_file := by
  unfold OpenGLDevice.PostLinkProgram
  split <;> rfl

@[simp] theorem OpenGLDevice.CompileProgram_file (env : Environment) (o : LookupOutcome)
    (d : OpenGLDevice) :
    (d.CompileProgram env o).2.m_pipeline_disk_cache_file = d.m_pipeline_disk_cache_file := by
  unfold OpenGLDevice.CompileProgram
  split <;> simp

theorem OpenGLDevice.CompileProgram_calls (env : Environment) (o : LookupOutcome)
    (d : OpenGLDevice) :
    ∃ l, (d.CompileProgram env o).2.calls = l ++ d.calls ∧ Call.CompileProgram ∈ l ∧
      Call.CreateProgramFromPipelineCache ∉ l := by
  unfold OpenGLDevice.CompileProgram
  split
  · exact ⟨[Call.CompileProgram], rfl, by simp, by simp⟩
  · obtain ⟨l, hl, _, hl2⟩ := OpenGLDevice.PostLinkProgram_calls env o.compiled
      (d.record Call.CompileProgram)
    refine ⟨l ++ [Call.CompileProgram], ?_, by simp, by simp [hl2]⟩
    simp only [hl]
    simp [OpenGLDevice.record]

theorem OpenGLDevice.AddToPipelineCache_calls (env : Environment)
    (it it2 : ProgramCacheItem) (o : LookupOutcome) (d d2 : OpenGLDevice)
    (h : d.AddToPipelineCache env it o = some (it2, d2)) : d2.calls = d.calls := by
  unfold OpenGLDevice.AddToPipelineCache at h
  split at h
  · simp at h; simp [← h.2]
  · split at h
    · simp at h; simp [← h.2]
    · split at h
      · simp at h; simp [← h.2]
      · split at h
        · simp at h
        · simp at h; simp [← h.2]

theorem OpenGLDevice.AddToPipelineCache_isSome (env : Environment)
    (it : ProgramCacheItem) (o : LookupOutcome) (d : OpenGLDevice) (file : List Byte)
    (hfile : d.m_pipeline_disk_cache_file = some file) :
    ∃ it2 d2, d.AddToPipelineCache env it o = some (it2, d2) := by
  unfold OpenGLDevice.AddToPipelineCache
  split
  · exact ⟨_, _, rfl⟩
  · split
    · exact ⟨_, _, rfl⟩
    · split
      · exact ⟨_, _, rfl⟩
      · simp only [hfile]
        exact ⟨_, _, rfl⟩

/-- The miss path of a lookup: it returns what CompileProgram returns and leaves an
entry for the key in either case -/
theorem OpenGLDevice.LookupProgramCacheMiss_spec (env : Environment) (key : ProgramCacheKey)
    (o : LookupOutcome) (d : OpenGLDevice)
    (hfile : d.m_pipeline_disk_cache_file ≠ none ∨ o.compiled = 0)
    (hfind : mapFind d.m_program_cache key = none) :
    ∃ d2 item l, d.LookupProgramCacheMiss env key o = some (o.compiled, d2) ∧
      mapFind d2.m_program_cache key = some item ∧
      item.program_id = o.compiled ∧
      item.reference_count = (if o.compiled = 0 then 0 else 1) ∧
      d2.calls = l ++ d.calls ∧ Call.CompileProgram ∈ l ∧
      Call.CreateProgramFromPipelineCache ∉ l := by
  obtain ⟨l, hl, hl2, hl3⟩ := OpenGLDevice.CompileProgram_calls env o d
  unfold OpenGLDevice.LookupProgramCacheMiss
  simp only [OpenGLDevice.CompileProgram_fst]
  by_cases hc : o.compiled = 0
  · simp only [hc, ne_eq, not_true_eq_false, if_false, if_true]
    refine ⟨_, sampleItem 0 0, l, rfl, ?_, rfl, rfl, hl, hl2, hl3⟩
    rw [mapFind_mapEmplace _ _ _ _ (by simpa using hfind)]
    simp [sampleItem]
  · simp only [hc, ne_eq, not_false_eq_true, if_true, if_false]
    have hf : ∃ file, (d.CompileProgram env o).2.m_pipeline_disk_cache_file = some file := by
      rw [OpenGLDevice.CompileProgram_file]
      rcases hfile with h | h
      · exact Option.ne_none_iff_exists'.mp h
      · exact absurd h hc
    obtain ⟨file, hf⟩ := hf
    obtain ⟨it2, d3, hadd⟩ := OpenGLDevice.AddToPipelineCache_isSome env
      { program_id := o.compiled, reference_count := 0, file_format := 0, file_offset := 0,
        file_uncompressed_size := 0, file_compressed_size := 0 } o _ file hf
    obtain ⟨h1, _, h3, h4⟩ := OpenGLDevice.AddToPipelineCache_caches _ _ _ _ _ _ hadd
    have h5 := OpenGLDevice.AddToPipelineCache_calls _ _ _ _ _ _ hadd
    have h3b : it2.program_id = o.compiled := h3
    have h4b : it2.reference_count = 0 := h4
    simp only [hadd, h3b, h4b]
    refine ⟨_, { it2 with program_id := o.compiled, reference_count := 0 + 1 }, l, rfl, ?_,
      rfl, by simp, by rw [← hl, ← h5], hl2, hl3⟩
    rw [h1, mapFind_mapEmplace _ _ _ _ (by simpa using hfind)]
    simp only [if_true]

theorem mapFind_filterMap_none {K V : Type} [DecidableEq K] (m : List (K × V))
    (f : K × V → Option (K × V)) (hf : ∀ p q, f p = some q → q.1 = p.1) (key : K)
    (h : mapFind m key = none) : mapFind (m.filterMap f) key = none := by
  rw [mapFind_eq_none] at h ⊢
  intro hmem
  apply h
  simp only [List.mem_map, List.mem_filterMap] at hmem ⊢
  obtain ⟨x, ⟨y, hy, hxy⟩, hx⟩ := hmem
  exact ⟨y, hy, by rw [← hf y x hxy, hx]⟩

theorem discardEntry_fst (p q : ProgramCacheKey × ProgramCacheItem)
    (h : discardEntry p = some q) : q.1 = p.1 := (discardEntry_good p q h).1

/-- A failed materialization with a store that reopens: when the entry of a key has
only a persisted blob and CreateProgramFromPipelineCache returns 0, the lookup is a
cache miss on the discarded store: the entry and its locator are gone before
CompileProgram runs, the lookup is the miss path run on that store, CompileProgram is
called and the lookup returns exactly its result, and a compiled program is entered
with reference count 1. -/
theorem OpenGLDevice.LookupProgramCache_reopened_miss (env : Environment) (key : ProgramCacheKey)
    (o : LookupOutcome) (d d1 : OpenGLDevice) (it : ProgramCacheItem)
    (hnodup : (d.m_program_cache.map Prod.fst).Nodup)
    (hfind : mapFind d.m_program_cache key = some it)
    (hid : it.program_id = 0) (hloc : 0 < it.file_uncompressed_size)
    (hcreate : d.CreateProgramFromPipelineCache env it o = some (0, d1))
    (hreopen : o.reopen_ok = true) :
    ∃ discarded : OpenGLDevice,
      mapFind discarded.m_program_cache key = none ∧
      discarded.m_pipeline_disk_cache_data_end = 0 ∧
      discarded.m_pipeline_disk_cache_file = some [] ∧
      discarded.calls = d1.calls ∧
      d.LookupProgramCache env key o = discarded.LookupProgramCacheMiss env key o ∧
      ∃ d2 item l, d.LookupProgramCache env key o = some (o.compiled, d2) ∧
        mapFind d2.m_program_cache key = some item ∧
        item.program_id = o.compiled ∧
        (o.compiled ≠ 0 → item.reference_count = 1) ∧
        d2.calls = l ++ d1.calls ∧ Call.CompileProgram ∈ l := by
  obtain ⟨h1, _⟩ := OpenGLDevice.CreateProgramFromPipelineCache_caches _ _ _ _ _ _ hcreate
  have hlook : d.LookupProgramCache env key o =
      ({ d1 with
          m_program_cache := mapErase (mapModify d.m_program_cache key
            (fun i => { i with program_id := 0 })) key }.DiscardPipelineCache
        o.reopen_ok).2.LookupProgramCacheMiss env key o := by
    unfold OpenGLDevice.LookupProgramCache
    simp only [hfind, hid, hloc, and_self, if_true, hcreate, h1]
  have hnone : mapFind ({ d1 with
          m_program_cache := mapErase (mapModify d.m_program_cache key
            (fun i => { i with program_id := 0 })) key }.DiscardPipelineCache
        o.reopen_ok).2.m_program_cache key = none := by
    rw [OpenGLDevice.DiscardPipelineCache_program_cache]
    apply mapFind_filterMap_none _ _ discardEntry_fst
    apply mapFind_mapErase_self
    rw [map_fst_mapModify]
    exact hnodup
  have hfile : ({ d1 with
          m_program_cache := mapErase (mapModify d.m_program_cache key
            (fun i => { i with program_id := 0 })) key }.DiscardPipelineCache
        o.reopen_ok).2.m_pipeline_disk_cache_file = some [] := by
    simp [OpenGLDevice.DiscardPipelineCache, hreopen]
  have hend : ({ d1 with
          m_program_cache := mapErase (mapModify d.m_program_cache key
            (fun i => { i with program_id := 0 })) key }.DiscardPipelineCache
        o.reopen_ok).2.m_pipeline_disk_cache_data_end = 0 := by
    simp [OpenGLDevice.DiscardPipelineCache, hreopen]
  have hcalls : ({ d1 with
          m_program_cache := mapErase (mapModify d.m_program_cache key
            (fun i => { i with program_id := 0 })) key }.DiscardPipelineCache
        o.reopen_ok).2.calls = d1.calls := by
    simp [OpenGLDevice.DiscardPipelineCache, hreopen]
  obtain ⟨d2, item, l, hm1, hm2, hm3, hm4, hm5, hm6, _⟩ :=
    OpenGLDevice.LookupProgramCacheMiss_spec env key o _
      (Or.inl (by rw [hfile]; simp)) hnone
  refine ⟨_, hnone, hend, hfile, hcalls, hlook, d2, item, l, by rw [hlook, hm1], hm2, hm3, ?_,
    by rw [hm5, hcalls], hm6⟩
  intro hc
  simp [hm4, hc]

/-- The device whose one entry is a blob, when the driver rejects the binary and the
store reopens -/
theorem sampleStoredDevice_reopened_miss :
    ∃ discarded : OpenGLDevice,
      mapFind discarded.m_program_cache (sampleKey 1) = none ∧
      discarded.m_pipeline_disk_cache_data_end = 0 ∧
      discarded.m_pipeline_disk_cache_file = some [] ∧
      discarded.calls = [Call.glDeleteProgram 9, Call.CreateProgramFromPipelineCache] ∧
      sampleStoredDevice.LookupProgramCache sampleEnvironment (sampleKey 1)
          { sampleLookup 9 [5] with link_ok := false } =
        discarded.LookupProgramCacheMiss sampleEnvironment (sampleKey 1)
          { sampleLookup 9 [5] with link_ok := false } ∧
      ∃ d2 item l, sampleStoredDevice.LookupProgramCache sampleEnvironment (sampleKey 1)
          { sampleLookup 9 [5] with link_ok := false } = some (9, d2) ∧
        mapFind d2.m_program_cache (sampleKey 1) = some item ∧
        item.program_id = 9 ∧
        ((9 : Nat) ≠ 0 → item.reference_count = 1) ∧
        d2.calls = l ++ [Call.glDeleteProgram 9, Call.CreateProgramFromPipelineCache] ∧
        Call.CompileProgram ∈ l :=
  OpenGLDevice.LookupProgramCache_reopened_miss sampleEnvironment (sampleKey 1)
    { sampleLookup 9 [5] with link_ok := false } sampleStoredDevice
    ((sampleStoredDevice.record Call.CreateProgramFromPipelineCache).record
      (Call.glDeleteProgram 9))
    sampleStoredItem (by decide) rfl rfl (by decide) rfl rfl

/-- C3 fails when the store cannot be reopened. The entry of the first sample key is
only a blob; the driver rejects the binary, so CreateProgramFromPipelineCache returns
0 and the entry is erased; the fopen of DiscardPipelineCache fails and leaves no cache
file, which LookupProgramCache does not check. CompileProgram then returns program 9,
AddToPipelineCache is called with a binary to write and uses the null file, and the
lookup does not return the compiled program. -/
theorem C3_failed_reopen_uses_null_file :
    mapFind sampleStoredDevice.m_program_cache (sampleKey 1) = some sampleStoredItem ∧
    sampleStoredItem.program_id = 0 ∧ 0 < sampleStoredItem.file_uncompressed_size ∧
    sampleStoredDevice.CreateProgramFromPipelineCache sampleEnvironment sampleStoredItem
        sampleReopenFails =
      some (0, (sampleStoredDevice.record Call.CreateProgramFromPipelineCache).record
        (Call.glDeleteProgram 9)) ∧
    { (sampleStoredDevice.record Call.CreateProgramFromPipelineCache).record
          (Call.glDeleteProgram 9) with
        m_program_cache := mapErase sampleStoredDevice.m_program_cache (sampleKey 1)
      }.DiscardPipelineCache sampleReopenFails.reopen_ok = (false, sampleClosedDevice) ∧
    sampleClosedDevice.m_pipeline_disk_cache_file = none ∧
    (sampleClosedDevice.CompileProgram sampleEnvironment sampleReopenFails).1 = 9 ∧
    (sampleClosedDevice.CompileProgram sampleEnvironment sampleReopenFails).2.AddToPipelineCache
        sampleEnvironment (sampleItem 9 0) sampleReopenFails = none ∧
    sampleClosedDevice.LookupProgramCacheMiss sampleEnvironment (sampleKey 1)
        sampleReopenFails = none ∧
    sampleStoredDevice.LookupProgramCache sampleEnvironment (sampleKey 1) sampleReopenFails =
      none :=
  ⟨rfl, rfl, by decide, rfl, rfl, rfl, rfl, rfl, rfl, rfl⟩

/-- The lookup of a key whose entry has neither a program nor a blob returns 0 and
changes nothing -/
theorem OpenGLDevice.LookupProgramCache_no_program (env : Environment)
    (key : ProgramCacheKey) (o : LookupOutcome) (d : OpenGLDevice) (it : ProgramCacheItem)
    (hfind : mapFind d.m_program_cache key = some it) (hid : it.program_id = 0)
    (hloc : it.file_uncompressed_size = 0) :
    d.LookupProgramCache env key o = some (0, d) := by
  unfold OpenGLDevice.LookupProgramCache
  simp only [hfind, hid, hloc, lt_self_iff_false, and_false, if_false]
  unfold OpenGLDevice.LookupProgramCacheHit
  simp only [hfind, hid, ne_eq, not_true_eq_false, if_false]

/-- C4: for a key whose entry has a program, LookupProgramCache returns that program and
adds one to the reference count of that entry; the entry keeps its locator, the other
entries, the vertex-array cache, the file, data_end, the dirty flag and the recorded
calls (so neither CompileProgram nor CreateProgramFromPipelineCache runs) are as before. -/
theorem C4_hit_counts_reference (env : Environment) (key : ProgramCacheKey)
    (o : LookupOutcome) (d : OpenGLDevice) (it : ProgramCacheItem)
    (hfind : mapFind d.m_program_cache key = some it) (hid : it.program_id ≠ 0) :
    ∃ d2, d.LookupProgramCache env key o = some (it.program_id, d2) ∧
      d2 = { d with
              m_program_cache := mapModify d.m_program_cache key
                (fun i => { i with reference_count := i.reference_count + 1 }) } ∧
      mapFind d2.m_program_cache key =
        some { it with reference_count := it.reference_count + 1 } ∧
      (∀ k2, k2 ≠ key → mapFind d2.m_program_cache k2 = mapFind d.m_program_cache k2) ∧
      d2.m_program_cache.map Prod.fst = d.m_program_cache.map Prod.fst ∧
      d2.m_vao_cache = d.m_vao_cache ∧
      d2.m_pipeline_disk_cache_file = d.m_pipeline_disk_cache_file ∧
      d2.m_pipeline_disk_cache_data_end = d.m_pipeline_disk_cache_data_end ∧
      d2.m_pipeline_disk_cache_changed = d.m_pipeline_disk_cache_changed ∧
      d2.calls = d.calls := by
  refine ⟨_, ?_, rfl, ?_, ?_, ?_, rfl, rfl, rfl, rfl, rfl⟩
  · unfold OpenGLDevice.LookupProgramCache
    simp only [hfind, hid, false_and, if_false]
    unfold OpenGLDevice.LookupProgramCacheHit
    simp only [hfind, ne_eq, hid, not_false_eq_true, if_true]
  · simp only [mapFind_mapModify, if_true, hfind, Option.map_some']
  · intro k2 hk2
    simp only [mapFind_mapModify, hk2, if_false]
  · simp only [map_fst_mapModify]

/-- C4 at the session that holds one compiled program -/
theorem C4_hit_counts_reference_witness :
    ∃ d2, sampleSession.device.LookupProgramCache sampleEnvironment (sampleKey 1)
          (sampleLookup 9 []) = some ((sampleItem 7 1).program_id, d2) ∧
      d2 = { sampleSession.device with
              m_program_cache := mapModify sampleSession.device.m_program_cache (sampleKey 1)
                (fun i => { i with reference_count := i.reference_count + 1 }) } ∧
      mapFind d2.m_program_cache (sampleKey 1) =
        some { sampleItem 7 1 with reference_count := (sampleItem 7 1).reference_count + 1 } ∧
      (∀ k2, k2 ≠ sampleKey 1 →
        mapFind d2.m_program_cache k2 = mapFind sampleSession.device.m_program_cache k2) ∧
      d2.m_program_cache.map Prod.fst = sampleSession.device.m_program_cache.map Prod.fst ∧
      d2.m_vao_cache = sampleSession.device.m_vao_cache ∧
      d2.m_pipeline_disk_cache_file = sampleSession.device.m_pipeline_disk_cache_file ∧
      d2.m_pipeline_disk_cache_data_end = sampleSession.device.m_pipeline_disk_cache_data_end ∧
      d2.m_pipeline_disk_cache_changed = sampleSession.device.m_pipeline_disk_cache_changed ∧
      d2.calls = sampleSession.device.calls :=
  C4_hit_counts_reference sampleEnvironment (sampleKey 1) (sampleLookup 9 [])
    sampleSession.device (sampleItem 7 1) rfl (by decide)

/-- C5: for a key whose entry has a program and reference count n > 0, UnrefProgram
leaves the count n - 1; for n > 1 the program stays and no GL call is made; for n = 1
the program is deleted and the entry stays, without a program and with its locator
unchanged; the other entries and the vertex-array cache are as before. -/
theorem C5_unref_decrements (key : ProgramCacheKey) (d : OpenGLDevice)
    (it : ProgramCacheItem) (n : Int)
    (hfind : mapFind d.m_program_cache key = some it) (hid : it.program_id ≠ 0)
    (hn : it.reference_count = n) (hpos : 0 < n) :
    ∃ d2, d.UnrefProgram key = some d2 ∧
      (1 < n → mapFind d2.m_program_cache key = some { it with reference_count := n - 1 } ∧
        d2.calls = d.calls) ∧
      (n = 1 → mapFind d2.m_program_cache key =
          some { it with reference_count := 0, program_id := 0 } ∧
        Call.glDeleteProgram it.program_id ∈ d2.calls) ∧
      (∀ k2, k2 ≠ key → mapFind d2.m_program_cache k2 = mapFind d.m_program_cache k2) ∧
      d2.m_program_cache.map Prod.fst = d.m_program_cache.map Prod.fst ∧
      d2.m_vao_cache = d.m_vao_cache := by
  by_cases h1 : 1 < n
  · refine ⟨{ d with
        m_program_cache := mapModify d.m_program_cache key
          (fun i => { i with reference_count := i.reference_count - 1 }) },
      ?_, ?_, ?_, ?_, ?_, rfl⟩
    · unfold OpenGLDevice.UnrefProgram
      have h2 : 0 < n - 1 := by omega
      simp only [hfind, hid, hn, hpos, ne_eq, not_false_eq_true, and_self, if_true, h2]
    · intro _
      refine ⟨?_, rfl⟩
      simp only [mapFind_mapModify, if_true, hfind, Option.map_some', hn]
    · intro h3
      omega
    · intro k2 hk2
      simp only [mapFind_mapModify, hk2, if_false]
    · simp only [map_fst_mapModify]
  · have h2 : n = 1 := by omega
    subst h2
    refine ⟨{ (if d.m_last_program = it.program_id then
            { d with m_last_program := 0 }.record (Call.glUseProgram 0)
          else d).record (Call.glDeleteProgram it.program_id) with
        m_program_cache := mapModify d.m_program_cache key
          (fun i => { i with reference_count := i.reference_count - 1, program_id := 0 }) },
      ?_, ?_, ?_, ?_, ?_, ?_⟩
    · unfold OpenGLDevice.UnrefProgram
      simp only [hfind, hid, hn, ne_eq, not_false_eq_true, zero_lt_one, and_self, if_true,
        sub_self, lt_self_iff_false, if_false]
      congr 2
      split <;> rfl
    · intro h3
      omega
    · intro _
      refine ⟨?_, ?_⟩
      · simp only [mapFind_mapModify, if_true, hfind, Option.map_some', hn, sub_self]
      · simp [OpenGLDevice.record]
    · intro k2 hk2
      simp only [mapFind_mapModify, hk2, if_false]
    · simp only [map_fst_mapModify]
    · simp only [OpenGLDevice.record_vao_cache]
      split <;> rfl

/-- C5 at the session that holds one program with one reference -/
theorem C5_unref_decrements_witness :
    ∃ d2, sampleSession.device.UnrefProgram (sampleKey 1) = some d2 ∧
      ((1 : Int) < 1 → mapFind d2.m_program_cache (sampleKey 1) =
          some { sampleItem 7 1 with reference_count := 1 - 1 } ∧
        d2.calls = sampleSession.device.calls) ∧
      ((1 : Int) = 1 → mapFind d2.m_program_cache (sampleKey 1) =
          some { sampleItem 7 1 with reference_count := 0, program_id := 0 } ∧
        Call.glDeleteProgram (sampleItem 7 1).program_id ∈ d2.calls) ∧
      (∀ k2, k2 ≠ sampleKey 1 →
        mapFind d2.m_program_cache k2 = mapFind sampleSession.device.m_program_cache k2) ∧
      d2.m_program_cache.map Prod.fst = sampleSession.device.m_program_cache.map Prod.fst ∧
      d2.m_vao_cache = sampleSession.device.m_vao_cache :=
  C5_unref_decrements (sampleKey 1) sampleSession.device (sampleItem 7 1) 1 rfl (by decide)
    rfl (by decide)

/-- C6, the code at the failing input: the last reference to a program that has no
persisted blob is released, and the entry stays in the program cache with neither a
program nor a blob; a later lookup of the key finds it and returns 0 without
compiling. -/
theorem C6_unref_keeps_entry_without_blob :
    sampleSession.device.UnrefProgram (sampleKey 1) =
        some { sampleSession.device with
                m_program_cache := [(sampleKey 1, sampleItem 0 0)],
                calls := [Call.glDeleteProgram 7, Call.CompileProgram] } ∧
      { sampleSession.device with
          m_program_cache := [(sampleKey 1, sampleItem 0 0)],
          calls := [Call.glDeleteProgram 7, Call.CompileProgram] }.LookupProgramCache
          sampleEnvironment (sampleKey 1) (sampleLookup 9 []) =
        some (0, { sampleSession.device with
                    m_program_cache := [(sampleKey 1, sampleItem 0 0)],
                    calls := [Call.glDeleteProgram 7, Call.CompileProgram] }) := by
  constructor <;> rfl

/-- C7 refuted: after a lookup whose compilation fails, the key has an entry in the
program cache, and the next lookup of the key returns 0 without calling
CompileProgram, although compiling would now succeed. -/
theorem C7_counterexample :
    sampleDevice.LookupProgramCache sampleEnvironment (sampleKey 1) (sampleLookup 0 []) =
        some (0, sampleFailedDevice) ∧
      mapFind sampleFailedDevice.m_program_cache (sampleKey 1) ≠ none ∧
      sampleFailedDevice.LookupProgramCache sampleEnvironment (sampleKey 1)
          (sampleLookup 9 []) = some (0, sampleFailedDevice) := by
  refine ⟨rfl, by decide, rfl⟩

/-- C7 as amended: for a key with no entry, when CompileProgram fails the lookup
returns 0 and enters the key with no program, reference count 0 and a zero locator;
every later lookup of the key returns 0 and changes nothing, so CompileProgram is
not called again for it. -/
theorem C7_failed_compile_is_cached (env : Environment) (key : ProgramCacheKey)
    (o : LookupOutcome) (d : OpenGLDevice)
    (hfind : mapFind d.m_program_cache key = none) (hfail : o.compiled = 0) :
    ∃ d2, d.LookupProgramCache env key o = some (0, d2) ∧
      mapFind d2.m_program_cache key = some (sampleItem 0 0) ∧
      ∀ o2 : LookupOutcome, d2.LookupProgramCache env key o2 = some (0, d2) := by
  have hk : mapFind (d.CompileProgram env o).2.m_program_cache key = none := by
    simpa using hfind
  have hf : mapFind (mapEmplace (d.CompileProgram env o).2.m_program_cache key
      (sampleItem 0 0)) key = some (sampleItem 0 0) := by
    rw [mapFind_mapEmplace _ _ _ _ hk]
    simp
  refine ⟨{ (d.CompileProgram env o).2 with
      m_program_cache := mapEmplace (d.CompileProgram env o).2.m_program_cache key
        (sampleItem 0 0) }, ?_, hf, ?_⟩
  · unfold OpenGLDevice.LookupProgramCache
    simp only [hfind]
    unfold OpenGLDevice.LookupProgramCacheMiss
    simp only [OpenGLDevice.CompileProgram_fst, hfail, ne_eq, not_true_eq_false, if_false]
    rfl
  · intro o2
    exact OpenGLDevice.LookupProgramCache_no_program env key o2 _ (sampleItem 0 0) hf rfl rfl

/-- C7 as amended, at the open device with an empty cache -/
theorem C7_failed_compile_is_cached_witness :
    ∃ d2, sampleDevice.LookupProgramCache sampleEnvironment (sampleKey 1)
          (sampleLookup 0 []) = some (0, d2) ∧
      mapFind d2.m_program_cache (sampleKey 1) = some (sampleItem 0 0) ∧
      ∀ o2 : LookupOutcome,
        d2.LookupProgramCache sampleEnvironment (sampleKey 1) o2 = some (0, d2) :=
  C7_failed_compile_is_cached sampleEnvironment (sampleKey 1) (sampleLookup 0 [])
    sampleDevice rfl rfl

/-! ## Reading the disk cache -/

theorem mapFind_append_singleton_none {K V : Type} [DecidableEq K] (m : List (K × V))
    (k k2 : K) (v : V) :
    mapFind (m ++ [(k, v)]) k2 = none ↔ mapFind m k2 = none ∧ k ≠ k2 := by
  simp only [mapFind_eq_none, List.map_append, List.map_cons, List.map_nil, List.mem_append,
    List.mem_singleton, not_or]
  constructor
  · rintro ⟨h1, h2⟩
    exact ⟨h1, fun h => h2 h.symm⟩
  · rintro ⟨h1, h2⟩
    exact ⟨h1, fun h => h2 h.symm⟩

theorem mapEmplace_of_none {K V : Type} [DecidableEq K] (m : List (K × V)) (k : K) (v : V)
    (h : mapFind m k = none) : mapEmplace m k v = m ++ [(k, v)] := by
  simp only [mapEmplace, h]

/-- Discarding forgets entries without a program that were appended to the cache -/
theorem OpenGLDevice.DiscardPipelineCache_append (b : Bool) (d : OpenGLDevice)
    (extra : List (ProgramCacheKey × ProgramCacheItem)) (data_end : Nat)
    (h : ∀ p ∈ extra, p.2.program_id = 0) :
    { d with m_program_cache := d.m_program_cache ++ extra,
             m_pipeline_disk_cache_data_end := data_end }.DiscardPipelineCache b =
      d.DiscardPipelineCache b := by
  have h2 : extra.filterMap discardEntry = [] := by
    rw [List.filterMap_eq_nil_iff]
    intro p hp
    simp [discardEntry, h p hp]
  unfold OpenGLDevice.DiscardPipelineCache
  simp only [List.filterMap_append, h2, List.append_nil]

theorem fread_eq_some (file : List Byte) (pos n : Nat) (hn : 0 < n)
    (h : pos + n ≤ file.length) : fread file pos n = some ((file.drop pos).take n) := by
  simp [fread, hn, h]

theorem fread_eq_none (file : List Byte) (pos n : Nat)
    (h : ¬ pos + n ≤ file.length) : fread file pos n = none := by
  simp [fread, h]

theorem fread_some_iff (file : List Byte) (pos n : Nat) (bytes : List Byte) :
    fread file pos n = some bytes ↔
      0 < n ∧ pos + n ≤ file.length ∧ bytes = (file.drop pos).take n := by
  unfold fread
  split
  · next h => simp [h, eq_comm]
  · next h =>
    constructor
    · intro h1
      simp at h1
    · rintro ⟨h1, h2, _⟩
      exact absurd ⟨h1, h2⟩ h

/-- The loop over the index either discards the store or finds a valid index and
appends its entries to the program cache -/
theorem OpenGLDevice.ReadEntries_cases (size : Nat) (file : List Byte) (o : ReadOutcome)
    (n i pos : Nat) (d : OpenGLDevice) :
    OpenGLDevice.ReadEntries size file o n i pos d = d.DiscardPipelineCache o.reopen_ok ∨
      (IndexValid size file o n i pos d.m_program_cache ∧
        OpenGLDevice.ReadEntries size file o n i pos d =
          (true, { d with m_program_cache :=
                     d.m_program_cache ++ (indexRecords file pos n).map entryItem })) := by
  induction n generalizing i pos d with
  | zero =>
    right
    refine ⟨⟨fun j hj => absurd hj (Nat.not_lt_zero j), by simp [indexRecords],
      by simp [indexRecords]⟩, ?_⟩
    simp [OpenGLDevice.ReadEntries, indexRecords]
  | succ n ih =>
    unfold OpenGLDevice.ReadEntries
    split
    · exact Or.inl rfl
    · next bytes hread =>
      simp only
      split
      · exact Or.inl rfl
      · next hrange =>
        split
        · exact Or.inl rfl
        · next hfresh =>
          have hok : o.entry_ok i = true := by
            by_contra hc
            simp [hc] at hread
          simp only [hok, if_true] at hread
          obtain ⟨_, hlen, hbytes⟩ := (fread_some_iff _ _ _ _).mp hread
          subst hbytes
          rw [mapEmplace_of_none _ _ _ hfresh]
          rcases ih (i + 1) (pos + INDEX_ENTRY_SIZE)
              { d with m_program_cache := d.m_program_cache ++
                  [((PipelineDiskCacheIndexEntry.ofBytes
                      ((file.drop pos).take INDEX_ENTRY_SIZE)).key,
                    { program_id := 0, reference_count := 0,
                      file_format := (PipelineDiskCacheIndexEntry.ofBytes
                        ((file.drop pos).take INDEX_ENTRY_SIZE)).format,
                      file_offset := (PipelineDiskCacheIndexEntry.ofBytes
                        ((file.drop pos).take INDEX_ENTRY_SIZE)).offset,
                      file_uncompressed_size := (PipelineDiskCacheIndexEntry.ofBytes
                        ((file.drop pos).take INDEX_ENTRY_SIZE)).uncompressed_size,
                      file_compressed_size := (PipelineDiskCacheIndexEntry.ofBytes
                        ((file.drop pos).take INDEX_ENTRY_SIZE)).compressed_size })] }
            with h | ⟨hv, h⟩
          · left
            rw [h]
            have := OpenGLDevice.DiscardPipelineCache_append o.reopen_ok d
              [entryItem (PipelineDiskCacheIndexEntry.ofBytes
                ((file.drop pos).take INDEX_ENTRY_SIZE))] d.m_pipeline_disk_cache_data_end
              (by simp [entryItem])
            rw [← this]
            rfl
          · right
            obtain ⟨hv1, hv2, hv3⟩ := hv
            refine ⟨⟨?_, ?_, ?_⟩, ?_⟩
            · intro j hj
              cases j with
              | zero => exact ⟨by simpa using hok, by simpa [INDEX_ENTRY_SIZE] using hlen⟩
              | succ j =>
                have := hv1 j (by omega)
                refine ⟨?_, ?_⟩
                · have h1 : i + (j + 1) = i + 1 + j := by omega
                  rw [h1]
                  exact this.1
                · have h2 := this.2
                  simp only [INDEX_ENTRY_SIZE] at h2 ⊢
                  omega
            · intro e he
              simp only [indexRecords, List.mem_cons] at he
              rcases he with he | he
              · subst he
                exact ⟨by omega, hfresh⟩
              · have := hv2 e he
                exact ⟨this.1, ((mapFind_append_singleton_none _ _ _ _).mp this.2).1⟩
            · simp only [indexRecords, List.map_cons, List.nodup_cons]
              refine ⟨?_, hv3⟩
              intro hmem
              simp only [List.mem_map] at hmem
              obtain ⟨e, he, hek⟩ := hmem
              exact ((mapFind_append_singleton_none _ _ _ _).mp (hv2 e he).2).2 hek.symm
            · rw [h]
              simp [indexRecords, entryItem]

/-- A valid index is read in full -/
theorem OpenGLDevice.ReadEntries_of_valid (size : Nat) (file : List Byte) (o : ReadOutcome)
    (n i pos : Nat) (d : OpenGLDevice)
    (hv : IndexValid size file o n i pos d.m_program_cache) :
    OpenGLDevice.ReadEntries size file o n i pos d =
      (true, { d with m_program_cache :=
                 d.m_program_cache ++ (indexRecords file pos n).map entryItem }) := by
  induction n generalizing i pos d with
  | zero => simp [OpenGLDevice.ReadEntries, indexRecords]
  | succ n ih =>
    obtain ⟨hv1, hv2, hv3⟩ := hv
    have h0 := hv1 0 (by omega)
    have hok : o.entry_ok i = true := by simpa using h0.1
    have hlen : pos + INDEX_ENTRY_SIZE ≤ file.length := by simpa using h0.2
    have hread := fread_eq_some file pos INDEX_ENTRY_SIZE (by decide) hlen
    have he := hv2 (PipelineDiskCacheIndexEntry.ofBytes ((file.drop pos).take INDEX_ENTRY_SIZE))
      (by simp [indexRecords])
    unfold OpenGLDevice.ReadEntries
    simp only [hok, if_true, hread, ge_iff_le, Nat.not_le.mpr he.1, if_false, he.2]
    rw [mapEmplace_of_none _ _ _ he.2]
    rw [ih]
    · simp [indexRecords, entryItem]
    · simp only [indexRecords, List.map_cons, List.nodup_cons] at hv3
      refine ⟨?_, ?_, hv3.2⟩
      · intro j hj
        have := hv1 (j + 1) (by omega)
        refine ⟨?_, ?_⟩
        · have h1 : i + (j + 1) = i + 1 + j := by omega
          rw [← h1]
          exact this.1
        · have h2 := this.2
          simp only [INDEX_ENTRY_SIZE] at h2 ⊢
          omega
      · intro e he2
        have h3 := hv2 e (by simp [indexRecords, he2])
        refine ⟨h3.1, ?_⟩
        rw [mapFind_append_singleton_none]
        refine ⟨h3.2, ?_⟩
        intro hk
        apply hv3.1
        simp only [List.mem_map]
        exact ⟨e, he2, hk.symm⟩

theorem OpenGLDevice.DiscardPipelineCache_data_end (b : Bool) (d : OpenGLDevice) (x : Nat) :
    { d with m_pipeline_disk_cache_data_end := x }.DiscardPipelineCache b =
      d.DiscardPipelineCache b := by
  unfold OpenGLDevice.DiscardPipelineCache
  rfl

/-- ReadPipelineCache of a file that opens either discards the store or finds the
file valid and loads its index -/
theorem OpenGLDevice.ReadPipelineCache_cases (env : Environment) (filename : String)
    (o : ReadOutcome) (d : OpenGLDevice) (file : List Byte)
    (hopen : o.open_result = OpenResult.opened file) :
    d.ReadPipelineCache env filename o =
        { d with m_pipeline_disk_cache_file := some file,
                 m_pipeline_disk_cache_filename := filename }.DiscardPipelineCache o.reopen_ok ∨
      (StoreValid env o file d.m_program_cache ∧
        d.ReadPipelineCache env filename o =
          (true, { d with m_pipeline_disk_cache_file := some file,
                          m_pipeline_disk_cache_filename := filename,
                          m_pipeline_disk_cache_data_end := storeIndexStart file,
                          m_program_cache := d.m_program_cache ++
                            (storeIndex file).map entryItem })) := by
  unfold OpenGLDevice.ReadPipelineCache
  simp only [hopen]
  split
  · exact Or.inl rfl
  · next hsize =>
    simp only [not_or, not_lt, ge_iff_le, not_le] at hsize
    split
    · exact Or.inl rfl
    · next bytes hread =>
      have hfok : o.footer_ok = true := by
        by_contra hc
        simp [hc] at hread
      simp only [hfok, if_true] at hread
      obtain ⟨_, _, hbytes⟩ := (fread_some_iff _ _ _ _).mp hread
      have hfoot : PipelineDiskCacheFooter.ofBytes bytes = storeFooter file := by
        rw [hbytes]
        rfl
      simp only [hfoot]
      split
      · exact Or.inl rfl
      · next hmatch =>
        simp only [not_or, ne_eq, not_not, Bool.not_eq_true', Bool.not_eq_false,
          Bool.not_eq_eq_eq_not, Bool.not_true, Bool.not_false] at hmatch
        split
        · left
          exact OpenGLDevice.DiscardPipelineCache_data_end o.reopen_ok
            { d with m_pipeline_disk_cache_file := some file,
                     m_pipeline_disk_cache_filename := filename } _
        · next hseek =>
          have hseek2 : o.seek_ok = true := by simpa using hseek
          rcases OpenGLDevice.ReadEntries_cases file.length file o
              (storeFooter file).num_programs 0 (storeIndexStart file)
              { d with m_pipeline_disk_cache_file := some file,
                       m_pipeline_disk_cache_filename := filename,
                       m_pipeline_disk_cache_data_end := storeIndexStart file }
            with h | ⟨hv, h⟩
          · left
            rw [← OpenGLDevice.DiscardPipelineCache_data_end o.reopen_ok
              { d with m_pipeline_disk_cache_file := some file,
                       m_pipeline_disk_cache_filename := filename } (storeIndexStart file)]
            exact h
          · right
            refine ⟨⟨hsize.1, hsize.2, hfok, hmatch.1, ?_, ?_, ?_, hseek2, hv⟩, h⟩
            · simpa using hmatch.2.1
            · simpa using hmatch.2.2.1
            · simpa using hmatch.2.2.2

/-- ReadPipelineCache loads the index of a valid file -/
theorem OpenGLDevice.ReadPipelineCache_of_valid (env : Environment) (filename : String)
    (o : ReadOutcome) (d : OpenGLDevice) (file : List Byte)
    (hopen : o.open_result = OpenResult.opened file)
    (hv : StoreValid env o file d.m_program_cache) :
    d.ReadPipelineCache env filename o =
      (true, { d with m_pipeline_disk_cache_file := some file,
                      m_pipeline_disk_cache_filename := filename,
                      m_pipeline_disk_cache_data_end := storeIndexStart file,
                      m_program_cache := d.m_program_cache ++
                        (storeIndex file).map entryItem }) := by
  obtain ⟨h1, h2, h3, h4, h5, h6, h7, h8, h9⟩ := hv
  have hread := fread_eq_some file (file.length - FOOTER_SIZE) FOOTER_SIZE (by decide)
    (by omega)
  have hfoot : PipelineDiskCacheFooter.ofBytes
      ((file.drop (file.length - FOOTER_SIZE)).take FOOTER_SIZE) = storeFooter file := rfl
  unfold OpenGLDevice.ReadPipelineCache
  simp only [hopen, Nat.not_lt.mpr h1, ge_iff_le, Nat.not_le.mpr h2, or_self, if_false, h3,
    if_true, hread, hfoot, h4, ne_eq, not_true_eq_false, h5, h6, h7, Bool.not_true,
    Bool.false_eq_true, h8]
  exact OpenGLDevice.ReadEntries_of_valid file.length file o (storeFooter file).num_programs 0
    (storeIndexStart file)
    { d with m_pipeline_disk_cache_file := some file,
             m_pipeline_disk_cache_filename := filename,
             m_pipeline_disk_cache_data_end := storeIndexStart file } h9

/-- C8: ReadPipelineCache is all-or-nothing. When the file is shorter than the footer,
or the version or one of the three driver strings of its footer differs from the
environment, or an index entry cannot be read in full, or an index entry has
offset + compressed_size at or beyond the file length, or two index entries have the
same key, the outcome is that of DiscardPipelineCache on the device as it was: the
program cache keeps only entries that had a program before the call (none that was
read from the file), data_end is 0, and the file is recreated empty when it reopens. -/
theorem C8_read_all_or_nothing (env : Environment) (filename : String) (o : ReadOutcome)
    (d : OpenGLDevice) (file : List Byte)
    (hopen : o.open_result = OpenResult.opened file)
    (hbad : file.length < FOOTER_SIZE ∨
      (storeFooter file).version ≠ (FillFooter env o.stack_footer env.version).version ∨
      strncmpEqual (storeFooter file).driver_vendor
        (FillFooter env o.stack_footer env.version).driver_vendor 128 = false ∨
      strncmpEqual (storeFooter file).driver_renderer
        (FillFooter env o.stack_footer env.version).driver_renderer 128 = false ∨
      strncmpEqual (storeFooter file).driver_version
        (FillFooter env o.stack_footer env.version).driver_version 128 = false ∨
      (∃ j, j < (storeFooter file).num_programs ∧
        (o.entry_ok j = false ∨
          file.length < storeIndexStart file + INDEX_ENTRY_SIZE * (j + 1))) ∨
      (∃ e ∈ storeIndex file, file.length ≤ e.offset + e.compressed_size) ∨
      ¬ ((storeIndex file).map (fun e => e.key)).Nodup) :
    d.ReadPipelineCache env filename o =
        { d with m_pipeline_disk_cache_file := some file,
                 m_pipeline_disk_cache_filename := filename }.DiscardPipelineCache o.reopen_ok ∧
      (d.ReadPipelineCache env filename o).2.m_program_cache =
        d.m_program_cache.filterMap discardEntry ∧
      (∀ p ∈ (d.ReadPipelineCache env filename o).2.m_program_cache, p.2.program_id ≠ 0) ∧
      (d.m_program_cache = [] → (d.ReadPipelineCache env filename o).2.m_program_cache = []) ∧
      (d.ReadPipelineCache env filename o).2.m_pipeline_disk_cache_data_end = 0 ∧
      (o.reopen_ok = true →
        (d.ReadPipelineCache env filename o).1 = true ∧
        (d.ReadPipelineCache env filename o).2.m_pipeline_disk_cache_file = some []) := by
  have hdisc : d.ReadPipelineCache env filename o =
      { d with m_pipeline_disk_cache_file := some file,
               m_pipeline_disk_cache_filename := filename }.DiscardPipelineCache
        o.reopen_ok := by
    rcases OpenGLDevice.ReadPipelineCache_cases env filename o d file hopen with h | ⟨hv, _⟩
    · exact h
    · exfalso
      obtain ⟨h1, _, _, h4, h5, h6, h7, _, hv1, hv2, hv3⟩ := hv
      rcases hbad with hb | hb | hb | hb | hb | hb | hb | hb
      · omega
      · exact hb h4
      · rw [h5] at hb
        exact Bool.noConfusion hb
      · rw [h6] at hb
        exact Bool.noConfusion hb
      · rw [h7] at hb
        exact Bool.noConfusion hb
      · obtain ⟨j, hj, hb⟩ := hb
        have := hv1 j hj
        rcases hb with hb | hb
        · rw [Nat.zero_add, hb] at this
          exact Bool.noConfusion this.1
        · omega
      · obtain ⟨e, he, hb⟩ := hb
        have := (hv2 e he).1
        omega
      · exact hb hv3
  have hcache : (d.ReadPipelineCache env filename o).2.m_program_cache =
      d.m_program_cache.filterMap discardEntry := by
    rw [hdisc, OpenGLDevice.DiscardPipelineCache_program_cache]
  refine ⟨hdisc, hcache, ?_, ?_, ?_, ?_⟩
  · intro p hp
    rw [hcache, List.mem_filterMap] at hp
    obtain ⟨q, _, hq⟩ := hp
    unfold discardEntry at hq
    split at hq
    · next hne =>
      simp only [Option.some.injEq] at hq
      rw [← hq]
      exact hne
    · simp at hq
  · intro hempty
    rw [hcache, hempty]
    rfl
  · rw [hdisc]
    unfold OpenGLDevice.DiscardPipelineCache
    split <;> rfl
  · intro hre
    rw [hdisc]
    unfold OpenGLDevice.DiscardPipelineCache
    simp [hre]

theorem storeIndexStart_eq (file : List Byte) (n : Nat)
    (hn : (storeFooter file).num_programs = n) (hmax : file.length < 2 ^ 32 - 1)
    (hfit : FOOTER_SIZE + INDEX_ENTRY_SIZE * n ≤ file.length) :
    storeIndexStart file = file.length - FOOTER_SIZE - INDEX_ENTRY_SIZE * n := by
  unfold storeIndexStart
  rw [hn]
  simp only [FOOTER_SIZE, INDEX_ENTRY_SIZE] at hfit ⊢
  omega

theorem length_indexRecords (file : List Byte) (pos n : Nat) :
    (indexRecords file pos n).length = n := by
  induction n generalizing pos with
  | zero => rfl
  | succ n ih => simp [indexRecords, ih]

set_option maxRecDepth 100000 in
/-- C8 at a file whose one index entry claims a blob of 4000 bytes -/
theorem C8_read_all_or_nothing_witness :
    OpenGLDevice.empty.ReadPipelineCache sampleEnvironment "cache.bin"
          (sampleRead sampleBadFile) =
        { OpenGLDevice.empty with
            m_pipeline_disk_cache_file := some sampleBadFile,
            m_pipeline_disk_cache_filename := "cache.bin" }.DiscardPipelineCache
          (sampleRead sampleBadFile).reopen_ok ∧
      (OpenGLDevice.empty.ReadPipelineCache sampleEnvironment "cache.bin"
          (sampleRead sampleBadFile)).2.m_program_cache =
        OpenGLDevice.empty.m_program_cache.filterMap discardEntry ∧
      (∀ p ∈ (OpenGLDevice.empty.ReadPipelineCache sampleEnvironment "cache.bin"
          (sampleRead sampleBadFile)).2.m_program_cache, p.2.program_id ≠ 0) ∧
      (OpenGLDevice.empty.m_program_cache = [] →
        (OpenGLDevice.empty.ReadPipelineCache sampleEnvironment "cache.bin"
          (sampleRead sampleBadFile)).2.m_program_cache = []) ∧
      (OpenGLDevice.empty.ReadPipelineCache sampleEnvironment "cache.bin"
          (sampleRead sampleBadFile)).2.m_pipeline_disk_cache_data_end = 0 ∧
      ((sampleRead sampleBadFile).reopen_ok = true →
        (OpenGLDevice.empty.ReadPipelineCache sampleEnvironment "cache.bin"
          (sampleRead sampleBadFile)).1 = true ∧
        (OpenGLDevice.empty.ReadPipelineCache sampleEnvironment "cache.bin"
          (sampleRead sampleBadFile)).2.m_pipeline_disk_cache_file = some []) :=
  C8_read_all_or_nothing sampleEnvironment "cache.bin" (sampleRead sampleBadFile)
    OpenGLDevice.empty sampleBadFile rfl
    (Or.inr (Or.inr (Or.inr (Or.inr (Or.inr (Or.inr (Or.inl
      ⟨{ sampleEntry with compressed_size := 4000 }, by decide, by decide⟩)))))))

/-- C9: a file of s bytes, 392 <= s < 2^32 - 1, whose footer has the version and the
driver strings of the environment and counts n index entries that fit before it, all
with offset + compressed_size < s and with pairwise different keys, read without I/O
error into an empty program cache: ReadPipelineCache returns true, data_end is
s - 392 - 128 n, and the program cache is the list of the n index entries, each
without a program, with reference count 0 and with the four locator fields of its
entry; the file and the recorded calls are as before, so no blob was read. -/
theorem C9_read_valid_store (env : Environment) (filename : String) (o : ReadOutcome)
    (d : OpenGLDevice) (file : List Byte) (n : Nat)
    (hopen : o.open_result = OpenResult.opened file)
    (hempty : d.m_program_cache = [])
    (hmin : 392 ≤ file.length) (hmax : file.length < 2 ^ 32 - 1)
    (hio : o.footer_ok = true ∧ o.seek_ok = true ∧ ∀ j, j < n → o.entry_ok j = true)
    (hversion : (storeFooter file).version =
      (FillFooter env o.stack_footer env.version).version)
    (hvendor : strncmpEqual (storeFooter file).driver_vendor
      (FillFooter env o.stack_footer env.version).driver_vendor 128 = true)
    (hrenderer : strncmpEqual (storeFooter file).driver_renderer
      (FillFooter env o.stack_footer env.version).driver_renderer 128 = true)
    (hdriver : strncmpEqual (storeFooter file).driver_version
      (FillFooter env o.stack_footer env.version).driver_version 128 = true)
    (hn : (storeFooter file).num_programs = n)
    (hfit : 392 + 128 * n ≤ file.length)
    (hrange : ∀ e ∈ indexRecords file (file.length - 392 - 128 * n) n,
      e.offset + e.compressed_size < file.length)
    (hkeys : ((indexRecords file (file.length - 392 - 128 * n) n).map
      (fun e => e.key)).Nodup) :
    d.ReadPipelineCache env filename o =
        (true, { d with
                  m_pipeline_disk_cache_file := some file,
                  m_pipeline_disk_cache_filename := filename,
                  m_pipeline_disk_cache_data_end := file.length - 392 - 128 * n,
                  m_program_cache :=
                    (indexRecords file (file.length - 392 - 128 * n) n).map entryItem }) ∧
      ((indexRecords file (file.length - 392 - 128 * n) n).map entryItem).length = n ∧
      (∀ e ∈ indexRecords file (file.length - 392 - 128 * n) n,
        mapFind (d.ReadPipelineCache env filename o).2.m_program_cache e.key =
          some { program_id := 0, reference_count := 0, file_format := e.format,
                 file_offset := e.offset, file_uncompressed_size := e.uncompressed_size,
                 file_compressed_size := e.compressed_size }) ∧
      (d.ReadPipelineCache env filename o).2.m_pipeline_disk_cache_file = some file ∧
      (d.ReadPipelineCache env filename o).2.calls = d.calls := by
  have hstart := storeIndexStart_eq file n hn hmax (by simpa [FOOTER_SIZE, INDEX_ENTRY_SIZE])
  simp only [FOOTER_SIZE, INDEX_ENTRY_SIZE] at hstart
  have hvalid : StoreValid env o file d.m_program_cache := by
    refine ⟨by simpa [FOOTER_SIZE], hmax, hio.1, hversion, hvendor, hrenderer, hdriver,
      hio.2.1, ?_⟩
    rw [hn, hstart]
    refine ⟨?_, ?_, hkeys⟩
    · intro j hj
      refine ⟨by rw [Nat.zero_add]; exact hio.2.2 j hj, ?_⟩
      simp only [INDEX_ENTRY_SIZE]
      have : 128 * (j + 1) ≤ 128 * n := Nat.mul_le_mul_left 128 hj
      omega
    · intro e he
      exact ⟨hrange e he, by rw [hempty]; rfl⟩
  have hread := OpenGLDevice.ReadPipelineCache_of_valid env filename o d file hopen hvalid
  simp only [storeIndex, hn, hstart, hempty, List.nil_append] at hread
  refine ⟨hread, ?_, ?_, ?_, ?_⟩
  · rw [List.length_map, length_indexRecords]
  · intro e he
    rw [hread]
    apply mapFind_of_mem_nodup
    · simp only [List.map_map]
      exact hkeys
    · exact List.mem_map_of_mem entryItem he
  · rw [hread]
  · rw [hread]

set_option maxRecDepth 100000 in
/-- C9 at the sample file: one blob of three bytes, its index entry and the footer -/
theorem C9_read_valid_store_witness :
    OpenGLDevice.empty.ReadPipelineCache sampleEnvironment "cache.bin" (sampleRead sampleFile) =
        (true, { OpenGLDevice.empty with
                  m_pipeline_disk_cache_file := some sampleFile,
                  m_pipeline_disk_cache_filename := "cache.bin",
                  m_pipeline_disk_cache_data_end := sampleFile.length - 392 - 128 * 1,
                  m_program_cache :=
                    (indexRecords sampleFile (sampleFile.length - 392 - 128 * 1) 1).map
                      entryItem }) ∧
      ((indexRecords sampleFile (sampleFile.length - 392 - 128 * 1) 1).map entryItem).length
        = 1 ∧
      (∀ e ∈ indexRecords sampleFile (sampleFile.length - 392 - 128 * 1) 1,
        mapFind (OpenGLDevice.empty.ReadPipelineCache sampleEnvironment "cache.bin"
            (sampleRead sampleFile)).2.m_program_cache e.key =
          some { program_id := 0, reference_count := 0, file_format := e.format,
                 file_offset := e.offset, file_uncompressed_size := e.uncompressed_size,
                 file_compressed_size := e.compressed_size }) ∧
      (OpenGLDevice.empty.ReadPipelineCache sampleEnvironment "cache.bin"
          (sampleRead sampleFile)).2.m_pipeline_disk_cache_file = some sampleFile ∧
      (OpenGLDevice.empty.ReadPipelineCache sampleEnvironment "cache.bin"
          (sampleRead sampleFile)).2.calls = OpenGLDevice.empty.calls :=
  C9_read_valid_store sampleEnvironment "cache.bin" (sampleRead sampleFile)
    OpenGLDevice.empty sampleFile 1 rfl rfl (by decide) (by decide)
    ⟨rfl, rfl, fun _ _ => rfl⟩ (by decide) (by decide) (by decide) (by decide) (by decide)
    (by decide) (by decide) (by decide)

/-! ## Object representations -/

theorem length_leBytes (w n : Nat) : (leBytes w n).length = w := by
  induction w generalizing n with
  | zero => rfl
  | succ w ih => simp [leBytes, ih]

theorem leNat_leBytes (w n : Nat) : leNat (leBytes w n) = n % 256 ^ w := by
  induction w generalizing n with
  | zero => simp [leBytes, leNat, Nat.mod_one]
  | succ w ih =>
    simp only [leBytes, leNat, ih]
    rw [pow_succ, Nat.mul_comm (256 ^ w) 256, Nat.mod_mul]

theorem leNat_leBytes_four (n : Nat) : leNat (leBytes 4 n) = n % 2 ^ 32 := by
  rw [leNat_leBytes]
  norm_num

theorem fixedBytes_val_of_length (n : Nat) (bs : List Byte) (h : bs.length = n) :
    (fixedBytes n bs).val = bs := by
  simp only [fixedBytes]
  rw [List.take_append_of_le_length (by omega)]
  exact List.take_of_length_le (by omega)

theorem fixedBytes_of_length (n : Nat) (bs : { l : List Byte // l.length = n }) :
    fixedBytes n bs.val = bs :=
  Subtype.ext (fixedBytes_val_of_length n bs.val bs.property)

theorem ProgramCacheKey.length_key_bytes (k : ProgramCacheKey) : k.bytes.length = 112 := by
  simp [ProgramCacheKey.bytes, k.vs_key.property, k.fs_key.property, k.va_key.property]

theorem ProgramCacheKey.ofBytes_key_bytes (k : ProgramCacheKey) :
    ProgramCacheKey.ofBytes k.bytes = k := by
  obtain ⟨⟨vs, hvs⟩, ⟨fs, hfs⟩, ⟨va, hva⟩⟩ := k
  simp only [ProgramCacheKey.ofBytes, ProgramCacheKey.bytes, ProgramCacheKey.mk.injEq]
  refine ⟨?_, ?_, ?_⟩
  · apply Subtype.ext
    rw [fixedBytes_val_of_length]
    · rw [List.append_assoc, List.take_append_of_le_length (by omega), List.take_of_length_le
        (by omega)]
    · simp [hvs, hfs, hva]
  · apply Subtype.ext
    rw [fixedBytes_val_of_length]
    · rw [List.append_assoc, List.drop_append_of_le_length (by omega), List.drop_of_length_le
        (by omega), List.nil_append, List.take_append_of_le_length (by omega),
        List.take_of_length_le (by omega)]
    · simp [hvs, hfs, hva]
  · apply Subtype.ext
    rw [fixedBytes_val_of_length]
    · have h80 : (vs ++ fs).length = 80 := by simp [hvs, hfs]
      rw [List.drop_append_of_le_length (by omega), List.drop_of_length_le (by omega),
        List.nil_append, List.take_of_length_le (by omega)]
    · simp [hvs, hfs, hva]

theorem PipelineDiskCacheIndexEntry.length_entry_bytes (e : PipelineDiskCacheIndexEntry) :
    e.bytes.length = 128 := by
  simp [PipelineDiskCacheIndexEntry.bytes, ProgramCacheKey.length_key_bytes, length_leBytes]

theorem take_append_exact {α : Type} (a b : List α) (n : Nat) (h : a.length = n) :
    (a ++ b).take n = a := by
  rw [List.take_append_of_le_length (by omega), List.take_of_length_le (by omega)]

theorem drop_append_exact {α : Type} (a b : List α) (n : Nat) (h : a.length = n) :
    (a ++ b).drop n = b := by
  rw [List.drop_append_of_le_length (by omega), List.drop_of_length_le (by omega),
    List.nil_append]

theorem PipelineDiskCacheIndexEntry.ofBytes_entry_bytes (e : PipelineDiskCacheIndexEntry) :
    PipelineDiskCacheIndexEntry.ofBytes e.bytes =
      { key := e.key, format := e.format % 2 ^ 32, offset := e.offset % 2 ^ 32,
        uncompressed_size := e.uncompressed_size % 2 ^ 32,
        compressed_size := e.compressed_size % 2 ^ 32 } := by
  have hk := ProgramCacheKey.length_key_bytes e.key
  have h4 : ∀ n, (leBytes 4 n).length = 4 := length_leBytes 4
  simp only [PipelineDiskCacheIndexEntry.ofBytes, PipelineDiskCacheIndexEntry.bytes,
    List.append_assoc, PipelineDiskCacheIndexEntry.mk.injEq]
  refine ⟨?_, ?_, ?_, ?_, ?_⟩
  · rw [take_append_exact _ _ 112 hk, ProgramCacheKey.ofBytes_key_bytes]
  · rw [drop_append_exact _ _ 112 hk, take_append_exact _ _ 4 (h4 _), leNat_leBytes_four]
  · rw [← List.append_assoc, drop_append_exact _ _ 116 (by simp [hk, h4]),
      take_append_exact _ _ 4 (h4 _), leNat_leBytes_four]
  · rw [← List.append_assoc, ← List.append_assoc, drop_append_exact _ _ 120 (by simp [hk, h4]),
      take_append_exact _ _ 4 (h4 _), leNat_leBytes_four]
  · rw [← List.append_assoc, ← List.append_assoc, ← List.append_assoc,
      drop_append_exact _ _ 124 (by simp [hk, h4]),
      List.take_of_length_le (by simp [h4]), leNat_leBytes_four]

theorem PipelineDiskCacheFooter.length_footer_bytes (f : PipelineDiskCacheFooter) :
    f.bytes.length = 392 := by
  simp [PipelineDiskCacheFooter.bytes, length_leBytes]

theorem PipelineDiskCacheFooter.ofBytes_footer_bytes (f : PipelineDiskCacheFooter) :
    PipelineDiskCacheFooter.ofBytes f.bytes =
      { version := f.version % 2 ^ 32, num_programs := f.num_programs % 2 ^ 32,
        driver_vendor := (fixedBytes 128 f.driver_vendor).val,
        driver_renderer := (fixedBytes 128 f.driver_renderer).val,
        driver_version := (fixedBytes 128 f.driver_version).val } := by
  have h4 : ∀ n, (leBytes 4 n).length = 4 := length_leBytes 4
  have h128 : ∀ l, (fixedBytes 128 l).val.length = 128 := fun l => (fixedBytes 128 l).property
  simp only [PipelineDiskCacheFooter.ofBytes, PipelineDiskCacheFooter.bytes,
    List.append_assoc, PipelineDiskCacheFooter.mk.injEq]
  refine ⟨?_, ?_, ?_, ?_, ?_⟩
  · rw [take_append_exact _ _ 4 (h4 _), leNat_leBytes_four]
  · rw [drop_append_exact _ _ 4 (h4 _), take_append_exact _ _ 4 (h4 _), leNat_leBytes_four]
  · rw [← List.append_assoc, drop_append_exact _ _ 8 (by simp [h4]),
      take_append_exact _ _ 128 (h128 _)]
  · rw [← List.append_assoc, ← List.append_assoc, drop_append_exact _ _ 136 (by simp [h4, h128]),
      take_append_exact _ _ 128 (h128 _)]
  · rw [← List.append_assoc, ← List.append_assoc, ← List.append_assoc,
      drop_append_exact _ _ 264 (by simp [h4, h128]),
      List.take_of_length_le (by simp [h128])]

/-! ## The driver strings of the footer -/

theorem strncmpEqual_same (str t1 t2 : List Byte) (n : Nat) (h : ∀ b ∈ str, b ≠ 0) :
    strncmpEqual (str ++ 0 :: t1) (str ++ 0 :: t2) n = true := by
  induction str generalizing n with
  | nil =>
    cases n with
    | zero => rfl
    | succ n => simp [strncmpEqual]
  | cons a s ih =>
    cases n with
    | zero => rfl
    | succ n =>
      have ha : a ≠ 0 := h a (List.mem_cons_self _ _)
      simp only [List.cons_append, strncmpEqual, ne_eq, not_true_eq_false, if_false, ha]
      exact ih n (fun b hb => h b (List.mem_cons_of_mem _ hb))

theorem Strlcpy_eq (dst src : List Byte) :
    Strlcpy dst src 128 =
      (src.takeWhile (fun b => b ≠ 0)).take 127 ++
        0 :: (fixedBytes 128 dst).val.drop (((src.takeWhile (fun b => b ≠ 0)).take 127).length + 1)
        := by
  have hlen : ((src.takeWhile (fun b => b ≠ 0)).take 127).length ≤ 127 := by
    rw [List.length_take]
    exact Nat.min_le_left _ _
  have h128 : (fixedBytes 128 dst).val.length = 128 := (fixedBytes 128 dst).property
  unfold Strlcpy
  simp only [Nat.add_one_sub_one]
  rw [fixedBytes_val_of_length]
  · simp
  · simp only [List.append_assoc, List.length_append, List.length_cons, List.length_nil,
      List.length_drop, h128]
    omega

theorem length_Strlcpy (dst src : List Byte) (size : Nat) :
    (Strlcpy dst src size).length = size := by
  unfold Strlcpy
  exact (fixedBytes size _).property

/-- Two footers filled from the same driver string compare equal under strncmp,
whatever their arrays held before -/
theorem strncmpEqual_Strlcpy (dst1 dst2 src : List Byte) :
    strncmpEqual (fixedBytes 128 (Strlcpy dst1 src 128)).val (Strlcpy dst2 src 128) 128
      = true := by
  rw [fixedBytes_val_of_length _ _ (length_Strlcpy _ _ _), Strlcpy_eq dst1, Strlcpy_eq dst2]
  apply strncmpEqual_same
  intro b hb
  have := List.mem_takeWhile_imp (List.mem_of_mem_take hb)
  simpa using this

/-! ## Appending to the store -/

@[simp] theorem OpenGLDevice.PostLinkProgram_data_end (env : Environment) (p : Nat)
    (d : OpenGLDevice) :
    (d.PostLinkProgram env p).m_pipeline_disk_cache_data_end =
      d.m_pipeline_disk_cache_data_end := by
  unfold OpenGLDevice.PostLinkProgram
  split <;> rfl

@[simp] theorem OpenGLDevice.CompileProgram_data_end (env : Environment) (o : LookupOutcome)
    (d : OpenGLDevice) :
    (d.CompileProgram env o).2.m_pipeline_disk_cache_data_end =
      d.m_pipeline_disk_cache_data_end := by
  unfold OpenGLDevice.CompileProgram
  split
  · rfl
  · simp [OpenGLDevice.record]

theorem fwrite_at_end (file data : List Byte) : fwrite file file.length data = file ++ data := by
  unfold fwrite
  simp

/-- AddToPipelineCache when the binary is retrieved, compressed and written: the blob
goes to data_end, the item gets its locator, data_end advances, the store is dirty -/
theorem OpenGLDevice.AddToPipelineCache_success (env : Environment) (it : ProgramCacheItem)
    (o : LookupOutcome) (d : OpenGLDevice) (file c : List Byte)
    (hfile : d.m_pipeline_disk_cache_file = some file)
    (hlen : o.binary_length ≠ 0) (hsize : o.binary_size ≠ 0)
    (hc : env.ZSTD_compress (o.binary_data.take o.binary_size) = some c)
    (hw : o.write_ok = true) (hc0 : 0 < c.length) :
    d.AddToPipelineCache env it o =
      some ({ it with file_format := o.binary_format % 2 ^ 32
                      file_offset := d.m_pipeline_disk_cache_data_end
                      file_uncompressed_size := o.binary_size % 2 ^ 32
                      file_compressed_size := c.length % 2 ^ 32 },
            { d with m_pipeline_disk_cache_file :=
                       some (fwrite file d.m_pipeline_disk_cache_data_end c)
                     m_pipeline_disk_cache_data_end :=
                       (d.m_pipeline_disk_cache_data_end + c.length % 2 ^ 32) % 2 ^ 32
                     m_pipeline_disk_cache_changed := true }) := by
  unfold OpenGLDevice.AddToPipelineCache
  simp only [hlen, if_false, hsize, hc, hfile, hw, hc0, and_self, if_true]

/-- One serializable lookup of a new key on a store whose data_end is the end of the
file: the blob is appended and the key is entered with its locator -/
theorem OpenGLDevice.LookupProgramCache_append (env : Environment) (key : ProgramCacheKey)
    (o : LookupOutcome) (d : OpenGLDevice) (file : List Byte)
    (hfile : d.m_pipeline_disk_cache_file = some file)
    (hend : d.m_pipeline_disk_cache_data_end = file.length)
    (hfresh : mapFind d.m_program_cache key = none)
    (hs : Serializable env o)
    (hbound : file.length + (blobOf env o).length < 2 ^ 32) :
    ∃ d2, d.LookupProgramCache env key o = some (o.compiled, d2) ∧
      d2.m_program_cache = d.m_program_cache ++ appendedItems env [(key, o)] file.length ∧
      d2.m_pipeline_disk_cache_file = some (file ++ blobOf env o) ∧
      d2.m_pipeline_disk_cache_data_end = file.length + (blobOf env o).length ∧
      d2.m_pipeline_disk_cache_changed = true := by
  obtain ⟨h1, h2, h3, h4, h5, c, hc, hc0⟩ := hs
  have hblob : blobOf env o = c := by simp [blobOf, hc]
  have hc' : env.ZSTD_compress (o.binary_data.take o.binary_size) = some c := hc
  rw [hblob] at hbound ⊢
  have hadd := OpenGLDevice.AddToPipelineCache_success env
    { program_id := o.compiled, reference_count := 0, file_format := 0, file_offset := 0,
      file_uncompressed_size := 0, file_compressed_size := 0 } o (d.CompileProgram env o).2
    file c (by simpa using hfile) h2 (by omega) hc' h5 hc0
  unfold OpenGLDevice.LookupProgramCache
  simp only [hfresh]
  unfold OpenGLDevice.LookupProgramCacheMiss
  simp only [OpenGLDevice.CompileProgram_fst, ne_eq, h1, not_false_eq_true, if_true, hadd]
  refine ⟨_, rfl, ?_, ?_, ?_, rfl⟩
  · simp only [OpenGLDevice.CompileProgram_program_cache, OpenGLDevice.CompileProgram_data_end]
    rw [mapEmplace_of_none _ _ _ hfresh]
    simp [appendedItems, hend, hblob]
  · simp only [OpenGLDevice.CompileProgram_data_end, hend, fwrite_at_end]
  · simp only [OpenGLDevice.CompileProgram_data_end, hend]
    omega

theorem mapFind_append {K V : Type} [DecidableEq K] (m m2 : List (K × V)) (key : K) :
    mapFind (m ++ m2) key = (mapFind m key).orElse (fun _ => mapFind m2 key) := by
  induction m with
  | nil => simp [mapFind]
  | cons q m ih =>
    obtain ⟨k, w⟩ := q
    by_cases hk : k = key
    · simp [mapFind, hk]
    · simp [mapFind, hk, ih]

/-- A sequence of serializable lookups of new, pairwise different keys appends the
blobs in order and enters every key with its locator -/
theorem appendAll_spec (env : Environment) (ops : List (ProgramCacheKey × LookupOutcome))
    (d : OpenGLDevice) (file : List Byte)
    (hfile : d.m_pipeline_disk_cache_file = some file)
    (hend : d.m_pipeline_disk_cache_data_end = file.length)
    (hkeys : (ops.map Prod.fst).Nodup)
    (hfresh : ∀ p ∈ ops, mapFind d.m_program_cache p.1 = none)
    (hs : ∀ p ∈ ops, Serializable env p.2)
    (hbound : file.length + (blobsOf env ops).length < 2 ^ 32) :
    ∃ d2, appendAll env ops d = some d2 ∧
      d2.m_program_cache = d.m_program_cache ++ appendedItems env ops file.length ∧
      d2.m_pipeline_disk_cache_file = some (file ++ blobsOf env ops) ∧
      d2.m_pipeline_disk_cache_data_end = file.length + (blobsOf env ops).length ∧
      (ops ≠ [] → d2.m_pipeline_disk_cache_changed = true) := by
  induction ops generalizing d file with
  | nil =>
    exact ⟨d, rfl, by simp [appendedItems], by simp [blobsOf, hfile],
      by simp [blobsOf, hend], fun h => absurd rfl h⟩
  | cons p rest ih =>
    obtain ⟨key, o⟩ := p
    simp only [List.map_cons, List.nodup_cons] at hkeys
    have hb : (blobsOf env ((key, o) :: rest)) = blobOf env o ++ blobsOf env rest := by
      simp [blobsOf]
    rw [hb, List.length_append] at hbound
    obtain ⟨d1, hl, hc1, hf1, he1, hch1⟩ := OpenGLDevice.LookupProgramCache_append env key o d
      file hfile hend (hfresh (key, o) (List.mem_cons_self _ _))
      (hs (key, o) (List.mem_cons_self _ _)) (by omega)
    obtain ⟨d2, ha, hc2, hf2, he2, _⟩ := ih d1 (file ++ blobOf env o) hf1
      (by rw [he1, List.length_append]) hkeys.2
      (by
        intro p hp
        rw [hc1, mapFind_append, hfresh p (List.mem_cons_of_mem _ hp)]
        simp only [Option.orElse, appendedItems, mapFind]
        have : key ≠ p.1 := by
          intro hk
          apply hkeys.1
          rw [hk]
          exact List.mem_map_of_mem Prod.fst hp
        simp [this])
      (fun p hp => hs p (List.mem_cons_of_mem _ hp))
      (by rw [List.length_append]; omega)
    refine ⟨d2, ?_, ?_, ?_, ?_, ?_⟩
    · simp only [appendAll, hl, ha]
    · rw [hc2, hc1, List.append_assoc]
      simp [appendedItems]
    · rw [hf2, hb, List.append_assoc]
    · rw [he2, hb]
      simp only [List.length_append]
      omega
    · intro _
      cases rest with
      | nil =>
        simp only [appendAll] at ha
        simp only [Option.some.injEq] at ha
        rw [← ha]
        exact hch1
      | cons q rest2 =>
        obtain ⟨d3, ha3, _, _, _, hch3⟩ := ih d1 (file ++ blobOf env o) hf1
          (by rw [he1, List.length_append]) hkeys.2
          (by
            intro p hp
            rw [hc1, mapFind_append, hfresh p (List.mem_cons_of_mem _ hp)]
            simp only [Option.orElse, appendedItems, mapFind]
            have : key ≠ p.1 := by
              intro hk
              apply hkeys.1
              rw [hk]
              exact List.mem_map_of_mem Prod.fst hp
            simp [this])
          (fun p hp => hs p (List.mem_cons_of_mem _ hp))
          (by rw [List.length_append]; omega)
        rw [ha] at ha3
        simp only [Option.some.injEq] at ha3
        rw [ha3]
        exact hch3 (by simp)

/-! ## Closing the store -/

/-- The loop of ClosePipelineCache, when every write succeeds and the index starts at
the end of the file: one entry is appended for every item with a blob -/
theorem writeIndexEntries_spec (o : CloseOutcome)
    (cache : List (ProgramCacheKey × ProgramCacheItem)) (file : List Byte) (pos count : Nat)
    (hok : ∀ i, o.entry_ok i = true) (hpos : pos = file.length) :
    writeIndexEntries o cache file pos count =
      Except.ok
        (file ++ (cache.filter (fun p => p.2.file_uncompressed_size ≠ 0)).flatMap
            (fun p => (indexEntryOf p).bytes),
          pos + 128 * (cache.filter (fun p => p.2.file_uncompressed_size ≠ 0)).length,
          count + (cache.filter (fun p => p.2.file_uncompressed_size ≠ 0)).length) := by
  induction cache generalizing file pos count with
  | nil => simp [writeIndexEntries]
  | cons p rest ih =>
    obtain ⟨key, item⟩ := p
    by_cases hz : item.file_uncompressed_size = 0
    · simp only [writeIndexEntries, hz, if_true]
      rw [ih file pos count hpos]
      simp [hz]
    · simp only [writeIndexEntries, hz, if_false, hok, if_true]
      rw [hpos, fwrite_at_end]
      rw [ih _ _ _ (by
        simp [PipelineDiskCacheIndexEntry.length_entry_bytes, INDEX_ENTRY_SIZE])]
      simp only [ne_eq, hz, not_false_eq_true, decide_True, List.filter_cons_of_pos,
        List.flatMap_cons, List.length_cons, indexEntryOf, List.append_assoc,
        INDEX_ENTRY_SIZE]
      congr 2
      refine Prod.ext ?_ ?_
      · simp only
        omega
      · simp only
        omega

/-- ClosePipelineCache of a dirty store whose data_end is the end of the file, when
every write succeeds: the index and the footer are appended -/
theorem OpenGLDevice.ClosePipelineCache_spec (env : Environment) (o : CloseOutcome)
    (d : OpenGLDevice) (file : List Byte)
    (hfile : d.m_pipeline_disk_cache_file = some file)
    (hend : d.m_pipeline_disk_cache_data_end = file.length)
    (hchanged : d.m_pipeline_disk_cache_changed = true)
    (hseek : o.seek_ok = true) (hok : ∀ i, o.entry_ok i = true) (hfooter : o.footer_ok = true) :
    d.ClosePipelineCache env o =
      some (file ++ (d.m_program_cache.filter
                (fun p => p.2.file_uncompressed_size ≠ 0)).flatMap
              (fun p => (indexEntryOf p).bytes)
            ++ ({ FillFooter env o.stack_footer env.version with
                  num_programs := (d.m_program_cache.filter
                    (fun p => p.2.file_uncompressed_size ≠ 0)).length % 2 ^ 32
                } : PipelineDiskCacheFooter).bytes,
            { d with m_pipeline_disk_cache_file := none }) := by
  unfold OpenGLDevice.ClosePipelineCache
  simp only [hfile, hchanged, Bool.not_true, Bool.false_eq_true, if_false, hseek,
    writeIndexEntries_spec o d.m_program_cache file _ 0 hok hend, hfooter, if_true, Nat.zero_add]
  congr 2
  rw [hend]
  have hl : file.length + 128 * (d.m_program_cache.filter
      (fun p => p.2.file_uncompressed_size ≠ 0)).length =
      (file ++ (d.m_program_cache.filter
        (fun p => p.2.file_uncompressed_size ≠ 0)).flatMap
          (fun p => (indexEntryOf p).bytes)).length := by
    rw [List.length_append]
    congr 1
    induction (d.m_program_cache.filter (fun p => p.2.file_uncompressed_size ≠ 0)) with
    | nil => rfl
    | cons q r ih =>
      simp only [List.length_cons, List.flatMap_cons, List.length_append,
        PipelineDiskCacheIndexEntry.length_entry_bytes, ← ih]
      omega
  rw [hl, fwrite_at_end]

/-! ## The layout of a written file -/

theorem storeFooter_append (pre : List Byte) (ft : PipelineDiskCacheFooter) :
    storeFooter (pre ++ ft.bytes) = PipelineDiskCacheFooter.ofBytes ft.bytes := by
  unfold storeFooter
  have h : (pre ++ ft.bytes).length - FOOTER_SIZE = pre.length := by
    simp [PipelineDiskCacheFooter.length_footer_bytes, FOOTER_SIZE]
  rw [h, drop_append_exact _ _ _ rfl,
    List.take_of_length_le (by simp [PipelineDiskCacheFooter.length_footer_bytes, FOOTER_SIZE])]

theorem indexRecords_append (pre post : List Byte) (es : List PipelineDiskCacheIndexEntry) :
    indexRecords (pre ++ es.flatMap (fun e => e.bytes) ++ post) pre.length es.length =
      es.map (fun e => PipelineDiskCacheIndexEntry.ofBytes e.bytes) := by
  induction es generalizing pre with
  | nil => rfl
  | cons e rest ih =>
    simp only [List.flatMap_cons, List.length_cons, indexRecords, List.map_cons,
      INDEX_ENTRY_SIZE]
    have h1 : ((pre ++ (e.bytes ++ rest.flatMap (fun e => e.bytes)) ++ post).drop
        pre.length).take 128 = e.bytes := by
      rw [List.append_assoc, drop_append_exact _ _ _ rfl, List.append_assoc,
        take_append_exact _ _ 128 (PipelineDiskCacheIndexEntry.length_entry_bytes e)]
    rw [h1]
    congr 1
    have h2 := ih (pre ++ e.bytes)
    simp only [List.length_append, PipelineDiskCacheIndexEntry.length_entry_bytes,
      List.append_assoc] at h2
    simp only [List.append_assoc]
    exact h2

/-! ## The round trip -/

theorem map_fst_appendedItems (env : Environment)
    (ops : List (ProgramCacheKey × LookupOutcome)) (pos : Nat) :
    (appendedItems env ops pos).map Prod.fst = ops.map Prod.fst := by
  induction ops generalizing pos with
  | nil => rfl
  | cons p rest ih =>
    obtain ⟨key, o⟩ := p
    simp [appendedItems, ih]

theorem length_appendedItems (env : Environment)
    (ops : List (ProgramCacheKey × LookupOutcome)) (pos : Nat) :
    (appendedItems env ops pos).length = ops.length := by
  have := congrArg List.length (map_fst_appendedItems env ops pos)
  simpa using this

theorem Serializable.blob (env : Environment) (o : LookupOutcome) (h : Serializable env o) :
    env.ZSTD_compress (serializedOf o) = some (blobOf env o) ∧ 0 < (blobOf env o).length := by
  obtain ⟨_, _, _, _, _, c, hc, hc0⟩ := h
  simp [blobOf, hc, hc0]

/-- What the entries left by a sequence of serializable lookups say: every locator has
the format and the sizes of its lookup, lies inside the blobs written so far, fits
32 bits, and the bytes at its offset are the compressed blob -/
theorem appendedItems_spec (env : Environment) (ops : List (ProgramCacheKey × LookupOutcome))
    (pre post : List Byte)
    (hs : ∀ p ∈ ops, Serializable env p.2)
    (hbound : pre.length + (blobsOf env ops).length < 2 ^ 32) :
    (∀ q ∈ appendedItems env ops pre.length,
      q.2.program_id ≠ 0 ∧
      q.2.file_uncompressed_size ≠ 0 ∧
      q.2.file_format < 2 ^ 32 ∧ q.2.file_offset < 2 ^ 32 ∧
      q.2.file_uncompressed_size < 2 ^ 32 ∧ q.2.file_compressed_size < 2 ^ 32 ∧
      q.2.file_offset + q.2.file_compressed_size ≤ pre.length + (blobsOf env ops).length) ∧
    (∀ p ∈ ops, ∃ it, (p.1, it) ∈ appendedItems env ops pre.length ∧
      it.file_uncompressed_size = p.2.binary_size ∧
      it.file_compressed_size = (blobOf env p.2).length ∧
      it.file_offset + it.file_compressed_size ≤ pre.length + (blobsOf env ops).length ∧
      ((pre ++ blobsOf env ops ++ post).drop it.file_offset).take it.file_compressed_size =
        blobOf env p.2) := by
  induction ops generalizing pre with
  | nil => simp [appendedItems]
  | cons p rest ih =>
    obtain ⟨key, o⟩ := p
    have hb : (blobsOf env ((key, o) :: rest)) = blobOf env o ++ blobsOf env rest := by
      simp [blobsOf]
    rw [hb, List.length_append] at hbound
    have hso : Serializable env o := hs (key, o) (List.mem_cons_self _ _)
    obtain ⟨h1, h2, h3, h4, h5, _⟩ := hso
    have hih := ih (pre ++ blobOf env o) (fun p hp => hs p (List.mem_cons_of_mem _ hp))
      (by rw [List.length_append]; omega)
    rw [List.length_append] at hih
    obtain ⟨hih1, hih2⟩ := hih
    have hm1 : o.binary_size % 2 ^ 32 = o.binary_size := Nat.mod_eq_of_lt (by omega)
    have hm2 : (blobOf env o).length % 2 ^ 32 = (blobOf env o).length :=
      Nat.mod_eq_of_lt (by omega)
    constructor
    · intro q hq
      simp only [appendedItems, List.mem_cons] at hq
      rcases hq with hq | hq
      · subst hq
        simp only [hb, List.length_append, hm1, hm2]
        refine ⟨h1, by omega, Nat.mod_lt _ (by norm_num), by omega, by omega, by omega,
          by omega⟩
      · have := hih1 q hq
        simp only [hb, List.length_append]
        refine ⟨this.1, this.2.1, this.2.2.1, this.2.2.2.1, this.2.2.2.2.1, this.2.2.2.2.2.1, ?_⟩
        omega
    · intro p hp
      rcases List.mem_cons.mp hp with hp | hp
      · subst hp
        refine ⟨_, by simp only [appendedItems]; exact List.mem_cons_self _ _, hm1, hm2, ?_, ?_⟩
        · simp only [hm2, hb, List.length_append]
          omega
        · simp only [hm2, hb, List.append_assoc]
          rw [drop_append_exact _ _ _ rfl, take_append_exact _ _ _ rfl]
      · obtain ⟨it, hit1, hit2, hit3, hit4, hit5⟩ := hih2 p hp
        refine ⟨it, by simp only [appendedItems]; exact List.mem_cons_of_mem _ hit1, hit2, hit3,
          ?_, ?_⟩
        · simp only [hb, List.length_append]
          omega
        · rw [hb, ← hit5]
          simp only [List.append_assoc]

theorem length_flatMap_entry_bytes (es : List PipelineDiskCacheIndexEntry) :
    (es.flatMap (fun e => e.bytes)).length = 128 * es.length := by
  induction es with
  | nil => rfl
  | cons e rest ih =>
    simp only [List.flatMap_cons, List.length_append, List.length_cons,
      PipelineDiskCacheIndexEntry.length_entry_bytes, ih]
    omega

/-- Reading back a file that consists of blobs, the index entries `es` and a footer
filled from the same environment: the program cache is the list of the entries -/
theorem OpenGLDevice.ReadPipelineCache_written (env : Environment) (filename : String)
    (o : ReadOutcome) (d : OpenGLDevice) (blobs : List Byte)
    (es : List PipelineDiskCacheIndexEntry) (stack : PipelineDiskCacheFooter)
    (hopen : o.open_result = OpenResult.opened
      (blobs ++ es.flatMap (fun e => e.bytes) ++
        ({ FillFooter env stack env.version with num_programs := es.length % 2 ^ 32 }
          : PipelineDiskCacheFooter).bytes))
    (hio : o.footer_ok = true ∧ o.seek_ok = true ∧ ∀ i, o.entry_ok i = true)
    (hempty : d.m_program_cache = [])
    (hsize : blobs.length + 128 * es.length + 392 < 2 ^ 32 - 1)
    (hfits : ∀ e ∈ es, e.format < 2 ^ 32 ∧ e.offset < 2 ^ 32 ∧ e.uncompressed_size < 2 ^ 32 ∧
      e.compressed_size < 2 ^ 32 ∧ e.offset + e.compressed_size ≤ blobs.length)
    (hkeys : (es.map (fun e => e.key)).Nodup) :
    d.ReadPipelineCache env filename o =
      (true, { d with
                m_pipeline_disk_cache_file := some
                  (blobs ++ es.flatMap (fun e => e.bytes) ++
                    ({ FillFooter env stack env.version with
                        num_programs := es.length % 2 ^ 32 } : PipelineDiskCacheFooter).bytes),
                m_pipeline_disk_cache_filename := filename,
                m_pipeline_disk_cache_data_end := blobs.length,
                m_program_cache := es.map entryItem }) := by
  have hlen : (blobs ++ es.flatMap (fun e => e.bytes) ++
        ({ FillFooter env stack env.version with num_programs := es.length % 2 ^ 32 }
          : PipelineDiskCacheFooter).bytes).length = blobs.length + 128 * es.length + 392 := by
    simp only [List.length_append, length_flatMap_entry_bytes,
      PipelineDiskCacheFooter.length_footer_bytes]
  have hfoot : storeFooter (blobs ++ es.flatMap (fun e => e.bytes) ++
        ({ FillFooter env stack env.version with num_programs := es.length % 2 ^ 32 }
          : PipelineDiskCacheFooter).bytes) =
      { version := env.version % 2 ^ 32 % 2 ^ 32, num_programs := es.length % 2 ^ 32 % 2 ^ 32,
        driver_vendor := (fixedBytes 128 (Strlcpy stack.driver_vendor env.gl_vendor 128)).val,
        driver_renderer :=
          (fixedBytes 128 (Strlcpy stack.driver_renderer env.gl_renderer 128)).val,
        driver_version :=
          (fixedBytes 128 (Strlcpy stack.driver_version env.gl_version 128)).val } := by
    rw [storeFooter_append, PipelineDiskCacheFooter.ofBytes_footer_bytes]
    rfl
  have hnum : (storeFooter (blobs ++ es.flatMap (fun e => e.bytes) ++
        ({ FillFooter env stack env.version with num_programs := es.length % 2 ^ 32 }
          : PipelineDiskCacheFooter).bytes)).num_programs = es.length := by
    rw [hfoot]
    simp only [Nat.mod_mod]
    exact Nat.mod_eq_of_lt (by omega)
  have hstart := storeIndexStart_eq _ es.length hnum (by rw [hlen]; exact hsize)
    (by rw [hlen]; simp only [FOOTER_SIZE, INDEX_ENTRY_SIZE]; omega)
  rw [hlen] at hstart
  simp only [FOOTER_SIZE, INDEX_ENTRY_SIZE] at hstart
  have hstart2 : storeIndexStart (blobs ++ es.flatMap (fun e => e.bytes) ++
        ({ FillFooter env stack env.version with num_programs := es.length % 2 ^ 32 }
          : PipelineDiskCacheFooter).bytes) = blobs.length := by
    rw [hstart]
    omega
  have hrec : indexRecords (blobs ++ es.flatMap (fun e => e.bytes) ++
        ({ FillFooter env stack env.version with num_programs := es.length % 2 ^ 32 }
          : PipelineDiskCacheFooter).bytes) blobs.length es.length = es := by
    rw [indexRecords_append]
    conv => rhs; rw [← List.map_id es]
    apply List.map_congr_left
    intro e he
    obtain ⟨h1, h2, h3, h4, _⟩ := hfits e he
    rw [PipelineDiskCacheIndexEntry.ofBytes_entry_bytes, Nat.mod_eq_of_lt h1, Nat.mod_eq_of_lt h2,
      Nat.mod_eq_of_lt h3, Nat.mod_eq_of_lt h4]
    rfl
  have hvalid : StoreValid env o (blobs ++ es.flatMap (fun e => e.bytes) ++
        ({ FillFooter env stack env.version with num_programs := es.length % 2 ^ 32 }
          : PipelineDiskCacheFooter).bytes) d.m_program_cache := by
    refine ⟨by rw [hlen]; simp only [FOOTER_SIZE]; omega, by rw [hlen]; exact hsize, hio.1,
      ?_, ?_, ?_, ?_, hio.2.1, ?_⟩
    · rw [hfoot]
      simp [FillFooter]
    · rw [hfoot]
      exact strncmpEqual_Strlcpy _ _ _
    · rw [hfoot]
      exact strncmpEqual_Strlcpy _ _ _
    · rw [hfoot]
      exact strncmpEqual_Strlcpy _ _ _
    · rw [hnum, hstart2]
      refine ⟨?_, ?_, ?_⟩
      · intro j hj
        refine ⟨hio.2.2 _, ?_⟩
        rw [hlen]
        simp only [INDEX_ENTRY_SIZE]
        have : 128 * (j + 1) ≤ 128 * es.length := Nat.mul_le_mul_left 128 hj
        omega
      · intro e he
        rw [hrec] at he
        obtain ⟨_, _, _, _, h5⟩ := hfits e he
        refine ⟨by rw [hlen]; omega, by rw [hempty]; rfl⟩
      · rw [hrec]
        exact hkeys
  have hread := OpenGLDevice.ReadPipelineCache_of_valid env filename o d _ hopen hvalid
  rw [hread]
  simp only [storeIndex, hnum, hstart2, hrec, hempty, List.nil_append]

theorem OpenGLDevice.ClosePipelineCache_isSome (env : Environment) (o : CloseOutcome)
    (d : OpenGLDevice) (file : List Byte) (hfile : d.m_pipeline_disk_cache_file = some file) :
    ∃ content d2, d.ClosePipelineCache env o = some (content, d2) := by
  unfold OpenGLDevice.ClosePipelineCache
  simp only [hfile]
  split
  · exact ⟨_, _, rfl⟩
  · split
    · exact ⟨_, _, rfl⟩
    · split
      · exact ⟨_, _, rfl⟩
      · split <;> exact ⟨_, _, rfl⟩

/-- C10: the round trip. From an empty store, N serializable programs with pairwise
different keys are looked up (each is compiled, its binary compressed and appended by
AddToPipelineCache, every write succeeding), the store is closed with every write
succeeding, and the file is read into a device with an empty program cache under the
same environment, the whole file being shorter than 2^32 - 1 bytes. Then all calls
return, the program cache read has at least N entries, and every appended key has an
entry with exactly the locator it had at append time; the bytes of the file at that
locator decompress to the bytes that serialize returned, given that the decompressor
inverts the compressor. -/
theorem C10_round_trip (env : Environment) (ops : List (ProgramCacheKey × LookupOutcome))
    (d0 dfresh : OpenGLDevice) (oc : CloseOutcome) (oread : ReadOutcome) (filename : String)
    (hstore : d0.m_program_cache = [] ∧ d0.m_pipeline_disk_cache_file = some [] ∧
      d0.m_pipeline_disk_cache_data_end = 0)
    (hkeys : (ops.map Prod.fst).Nodup)
    (hs : ∀ p ∈ ops, Serializable env p.2)
    (hsize : (blobsOf env ops).length + 128 * ops.length + 392 < 2 ^ 32 - 1)
    (hzstd : ∀ b c n, env.ZSTD_compress b = some c → b.length ≤ n →
      env.ZSTD_decompress c n = some b)
    (hclose : oc.seek_ok = true ∧ (∀ i, oc.entry_ok i = true) ∧ oc.footer_ok = true)
    (hread : oread.footer_ok = true ∧ oread.seek_ok = true ∧ ∀ i, oread.entry_ok i = true)
    (hfresh : dfresh.m_program_cache = []) :
    ∃ d1 content d1c,
      appendAll env ops d0 = some d1 ∧
      d1.ClosePipelineCache env oc = some (content, d1c) ∧
      ops.length ≤ (dfresh.ReadPipelineCache env filename
        { oread with open_result := OpenResult.opened content }).2.m_program_cache.length ∧
      ∀ p ∈ ops, ∃ it1 it2 c,
        mapFind d1.m_program_cache p.1 = some it1 ∧
        mapFind (dfresh.ReadPipelineCache env filename
          { oread with open_result := OpenResult.opened content }).2.m_program_cache p.1
            = some it2 ∧
        it2.file_format = it1.file_format ∧ it2.file_offset = it1.file_offset ∧
        it2.file_uncompressed_size = it1.file_uncompressed_size ∧
        it2.file_compressed_size = it1.file_compressed_size ∧
        it1.file_uncompressed_size = p.2.binary_size ∧
        fread content it2.file_offset it2.file_compressed_size = some c ∧
        env.ZSTD_decompress c it2.file_uncompressed_size = some (serializedOf p.2) := by
  obtain ⟨hc0, hf0, he0⟩ := hstore
  obtain ⟨d1, happ, hcache1, hfile1, hend1, hch1⟩ := appendAll_spec env ops d0 [] hf0
    (by simpa using he0) hkeys (fun p _ => by rw [hc0]; rfl) hs
    (by simp only [List.length_nil]; omega)
  simp only [List.nil_append, List.length_nil, Nat.zero_add, hc0] at hcache1 hfile1 hend1
  by_cases hne : ops = []
  · subst hne
    obtain ⟨content, d1c, hcl⟩ := OpenGLDevice.ClosePipelineCache_isSome env oc d1 _ hfile1
    exact ⟨d1, content, d1c, happ, hcl, Nat.zero_le _, fun p hp => absurd hp (List.not_mem_nil p)⟩
  · have hchanged := hch1 hne
    obtain ⟨hitems, hblobs⟩ := appendedItems_spec env ops []
      ((appendedItems env ops 0).flatMap (fun p => (indexEntryOf p).bytes) ++
        ({ FillFooter env oc.stack_footer env.version with
            num_programs := (appendedItems env ops 0).length % 2 ^ 32 }
          : PipelineDiskCacheFooter).bytes) hs
      (by simp only [List.length_nil]; omega)
    simp only [List.length_nil, Nat.zero_add, List.nil_append] at hitems hblobs
    have hfilter : d1.m_program_cache.filter (fun p => p.2.file_uncompressed_size ≠ 0) =
        appendedItems env ops 0 := by
      rw [hcache1, List.filter_eq_self]
      intro q hq
      simpa using (hitems q hq).2.1
    have hcl := OpenGLDevice.ClosePipelineCache_spec env oc d1 (blobsOf env ops) hfile1 hend1
      hchanged hclose.1 hclose.2.1 hclose.2.2
    rw [hfilter] at hcl
    have hflat : (appendedItems env ops 0).flatMap (fun p => (indexEntryOf p).bytes) =
        ((appendedItems env ops 0).map indexEntryOf).flatMap (fun e => e.bytes) := by
      rw [List.flatMap_map]
    have hlenmap : ((appendedItems env ops 0).map indexEntryOf).length =
        (appendedItems env ops 0).length := List.length_map _ _
    have hrd := OpenGLDevice.ReadPipelineCache_written env filename
      { oread with
          open_result := OpenResult.opened
            (blobsOf env ops ++
              (appendedItems env ops 0).flatMap (fun p => (indexEntryOf p).bytes) ++
              ({ FillFooter env oc.stack_footer env.version with
                  num_programs := (appendedItems env ops 0).length % 2 ^ 32 }
                : PipelineDiskCacheFooter).bytes) }
      dfresh (blobsOf env ops) ((appendedItems env ops 0).map indexEntryOf) oc.stack_footer
      (by rw [hflat, hlenmap]) hread hfresh
      (by rw [hlenmap, length_appendedItems]; exact hsize)
      (by
        intro e he
        rw [List.mem_map] at he
        obtain ⟨q, hq, hqe⟩ := he
        obtain ⟨_, _, h3, h4, h5, h6, h7⟩ := hitems q hq
        rw [← hqe]
        exact ⟨h3, h4, h5, h6, h7⟩)
      (by
        rw [List.map_map]
        have : ((fun e => e.key) ∘ indexEntryOf) = Prod.fst := rfl
        rw [this, map_fst_appendedItems]
        exact hkeys)
    rw [← hflat, hlenmap] at hrd
    refine ⟨d1, _, _, happ, hcl, ?_, ?_⟩
    · rw [hrd]
      simp [length_appendedItems]
    · intro p hp
      obtain ⟨it, hit1, hit2, hit3, hit4, hit5⟩ := hblobs p hp
      have hnodup1 : ((appendedItems env ops 0).map Prod.fst).Nodup := by
        rw [map_fst_appendedItems]
        exact hkeys
      have hsp := (hs p hp).blob
      refine ⟨it, (entryItem (indexEntryOf (p.1, it))).2, blobOf env p.2, ?_, ?_, rfl, rfl, rfl,
        rfl, hit2, ?_, ?_⟩
      · rw [hcache1]
        exact mapFind_of_mem_nodup _ _ _ hnodup1 hit1
      · rw [hrd]
        apply mapFind_of_mem_nodup
        · have hfst : (((appendedItems env ops 0).map indexEntryOf).map entryItem).map Prod.fst
              = (appendedItems env ops 0).map Prod.fst := by
            simp only [List.map_map]
            rfl
          rw [hfst]
          exact hnodup1
        · have := List.mem_map_of_mem entryItem (List.mem_map_of_mem indexEntryOf hit1)
          exact this
      · simp only [entryItem, indexEntryOf]
        rw [hit3] at hit5 hit4 ⊢
        rw [fread_eq_some _ _ _ hsp.2]
        · rw [List.append_assoc]
          exact congrArg some hit5
        · simp only [List.length_append]
          omega
      · simp only [entryItem, indexEntryOf]
        apply hzstd _ _ _ hsp.1
        rw [hit2]
        simp only [serializedOf, List.length_take]
        exact Nat.min_le_left _ _

theorem sampleOps_serializable : ∀ p ∈ sampleOps, Serializable sampleEnvironment p.2 := by
  intro p hp
  simp only [sampleOps, List.mem_cons, List.mem_singleton, List.not_mem_nil, or_false] at hp
  rcases hp with hp | hp
  · subst hp
    exact ⟨by decide, by decide, by decide, by decide, rfl, _, rfl, by decide⟩
  · subst hp
    exact ⟨by decide, by decide, by decide, by decide, rfl, _, rfl, by decide⟩

theorem sampleEnvironment_inverse (b c : List Byte) (n : Nat)
    (h : sampleEnvironment.ZSTD_compress b = some c) (hn : b.length ≤ n) :
    sampleEnvironment.ZSTD_decompress c n = some b := by
  simp only [sampleEnvironment, Option.some.injEq] at h ⊢
  subst h
  simp [hn]

/-- C10 at two sample programs appended to an empty store -/
theorem C10_round_trip_witness :
    ∃ d1 content d1c,
      appendAll sampleEnvironment sampleOps sampleDevice = some d1 ∧
      d1.ClosePipelineCache sampleEnvironment sampleClose = some (content, d1c) ∧
      sampleOps.length ≤ (OpenGLDevice.empty.ReadPipelineCache sampleEnvironment "cache.bin"
        { sampleRead [] with open_result := OpenResult.opened content }).2.m_program_cache.length ∧
      ∀ p ∈ sampleOps, ∃ it1 it2 c,
        mapFind d1.m_program_cache p.1 = some it1 ∧
        mapFind (OpenGLDevice.empty.ReadPipelineCache sampleEnvironment "cache.bin"
          { sampleRead [] with open_result := OpenResult.opened content }).2.m_program_cache p.1
            = some it2 ∧
        it2.file_format = it1.file_format ∧ it2.file_offset = it1.file_offset ∧
        it2.file_uncompressed_size = it1.file_uncompressed_size ∧
        it2.file_compressed_size = it1.file_compressed_size ∧
        it1.file_uncompressed_size = p.2.binary_size ∧
        fread content it2.file_offset it2.file_compressed_size = some c ∧
        sampleEnvironment.ZSTD_decompress c it2.file_uncompressed_size =
          some (serializedOf p.2) :=
  C10_round_trip sampleEnvironment sampleOps sampleDevice OpenGLDevice.empty sampleClose
    (sampleRead []) "cache.bin" ⟨rfl, rfl, rfl⟩ (by decide) sampleOps_serializable (by decide)
    sampleEnvironment_inverse ⟨rfl, fun _ => rfl, rfl⟩ ⟨rfl, rfl, fun _ => rfl⟩ rfl

/-! ## The key of a configuration -/

theorem length_flatMap_attributes (attrs : List VertexAttribute) :
    (attrs.flatMap (fun va => va.val)).length = 4 * attrs.length := by
  induction attrs with
  | nil => rfl
  | cons a rest ih =>
    simp only [List.flatMap_cons, List.length_append, List.length_cons, a.property, ih]
    omega

theorem fixedBytes_val_of_le (n : Nat) (bs : List Byte) (h : bs.length ≤ n) :
    (fixedBytes n bs).val = bs ++ List.replicate (n - bs.length) 0 := by
  simp only [fixedBytes]
  rw [List.take_append_eq_append_take, List.take_of_length_le h, List.take_replicate]
  congr 2
  omega

/-- The vertex-array key that GetProgramCacheKey builds: the attributes, zeros up to
MAX_VERTEX_ATTRIBUTES slots, the stride and the count -/
theorem GetProgramCacheKey_va_key (c : GraphicsConfig)
    (h : c.vertex_attributes.length ≤ MAX_VERTEX_ATTRIBUTES) :
    ∃ k, GetProgramCacheKey c = some k ∧
      k.va_key.val =
        c.vertex_attributes.flatMap (fun va => va.val)
          ++ List.replicate (4 * (MAX_VERTEX_ATTRIBUTES - c.vertex_attributes.length)) 0
          ++ leBytes 4 (if 0 < c.vertex_attributes.length then c.vertex_stride else 0)
          ++ leBytes 4 c.vertex_attributes.length := by
  have hmod : c.vertex_attributes.length % 2 ^ 32 = c.vertex_attributes.length :=
    Nat.mod_eq_of_lt (by simp only [MAX_VERTEX_ATTRIBUTES] at h; omega)
  unfold GetProgramCacheKey
  simp only [h, if_true, hmod, List.take_length, gt_iff_lt]
  refine ⟨_, rfl, ?_⟩
  simp only
  have hx : (if 0 < c.vertex_attributes.length then
      c.vertex_attributes.flatMap (fun va => va.val) else ([] : List Byte)) =
      c.vertex_attributes.flatMap (fun va => va.val) := by
    split
    · rfl
    · next hz =>
      have : c.vertex_attributes = [] := List.length_eq_zero.mp (by omega)
      rw [this]
      rfl
  rw [hx]
  have hlen := length_flatMap_attributes c.vertex_attributes
  simp only [MAX_VERTEX_ATTRIBUTES] at h ⊢
  rw [fixedBytes_val_of_le 24 _ (by omega), fixedBytes_val_of_length]
  · rw [hlen]
    congr 4
    omega
  · simp only [List.length_append, List.length_replicate, length_leBytes, hlen]
    omega

/-- C20: two configurations with the same attribute list, of at most
MAX_VERTEX_ATTRIBUTES attributes, and the same stride get vertex-array keys that are
equal under operator== (memcmp over the whole key), whatever their shaders; every
attribute slot from the active count on is zero in the key. -/
theorem C20_layout_key_equal (c1 c2 : GraphicsConfig)
    (hattrs : c1.vertex_attributes = c2.vertex_attributes)
    (hstride : c1.vertex_stride = c2.vertex_stride)
    (hcount : c1.vertex_attributes.length ≤ MAX_VERTEX_ATTRIBUTES) :
    ∃ k1 k2, GetProgramCacheKey c1 = some k1 ∧ GetProgramCacheKey c2 = some k2 ∧
      k1.va_key = k2.va_key ∧
      ∀ i, c1.vertex_attributes.length ≤ i → i < MAX_VERTEX_ATTRIBUTES →
        vertexAttributeSlot k1.va_key i = [0, 0, 0, 0] ∧
        vertexAttributeSlot k2.va_key i = [0, 0, 0, 0] := by
  obtain ⟨k1, hk1, hv1⟩ := GetProgramCacheKey_va_key c1 hcount
  obtain ⟨k2, hk2, hv2⟩ := GetProgramCacheKey_va_key c2 (hattrs ▸ hcount)
  have heq : k1.va_key = k2.va_key := by
    apply Subtype.ext
    rw [hv1, hv2, hattrs, hstride]
  refine ⟨k1, k2, hk1, hk2, heq, ?_⟩
  intro i hi1 hi2
  have hslot : vertexAttributeSlot k1.va_key i = [0, 0, 0, 0] := by
    have hlen := length_flatMap_attributes c1.vertex_attributes
    simp only [MAX_VERTEX_ATTRIBUTES] at hi2 hcount
    unfold vertexAttributeSlot
    rw [hv1]
    simp only [List.append_assoc, MAX_VERTEX_ATTRIBUTES]
    rw [List.drop_append_eq_append_drop, List.drop_of_length_le (by omega), List.nil_append,
      hlen, List.drop_append_eq_append_drop, List.drop_replicate, List.length_replicate,
      List.take_append_eq_append_take, List.take_replicate, List.length_replicate]
    have h1 : min 4 (4 * (6 - c1.vertex_attributes.length) -
        (4 * i - 4 * c1.vertex_attributes.length)) = 4 := by omega
    have h2 : 4 - (4 * (6 - c1.vertex_attributes.length) -
        (4 * i - 4 * c1.vertex_attributes.length)) = 0 := by omega
    rw [h1, h2]
    simp
  exact ⟨hslot, heq ▸ hslot⟩

/-- C20 at two configurations that share one attribute and differ in the fragment shader -/
theorem C20_layout_key_equal_witness :
    ∃ k1 k2, GetProgramCacheKey (sampleConfig 1 [fixedBytes 4 [1, 2, 3, 4]] 16) = some k1 ∧
      GetProgramCacheKey (sampleConfig 2 [fixedBytes 4 [1, 2, 3, 4]] 16) = some k2 ∧
      k1.va_key = k2.va_key ∧
      ∀ i, (sampleConfig 1 [fixedBytes 4 [1, 2, 3, 4]] 16).vertex_attributes.length ≤ i →
        i < MAX_VERTEX_ATTRIBUTES →
        vertexAttributeSlot k1.va_key i = [0, 0, 0, 0] ∧
        vertexAttributeSlot k2.va_key i = [0, 0, 0, 0] :=
  C20_layout_key_equal (sampleConfig 1 [fixedBytes 4 [1, 2, 3, 4]] 16)
    (sampleConfig 2 [fixedBytes 4 [1, 2, 3, 4]] 16) rfl rfl (by decide)

/-! ## Writing into the file -/

theorem length_fwrite_head (file : List Byte) (pos : Nat) :
    (file.take pos ++ List.replicate (pos - file.length) (0 : Byte)).length = pos := by
  simp only [List.length_append, List.length_take, List.length_replicate]
  omega

theorem fread_fwrite (file data : List Byte) (pos : Nat) (h : 0 < data.length) :
    fread (fwrite file pos data) pos data.length = some data := by
  have hhead := length_fwrite_head file pos
  have hlen : pos + data.length ≤ (fwrite file pos data).length := by
    unfold fwrite
    simp only [List.length_append, hhead]
    omega
  rw [fread_eq_some _ _ _ h hlen]
  unfold fwrite
  rw [List.append_assoc, drop_append_exact _ _ _ hhead, take_append_exact _ _ _ rfl]

/-- C12 fails as stated: the sample device is open with data_end 4294967294, and the
binary of two bytes compresses to three bytes. AddToPipelineCache returns with
data_end 1, which is not the old data_end plus 3: the sum is kept in 32 bits. -/
theorem C12_counterexample :
    sampleFullDevice.m_pipeline_disk_cache_data_end = 4294967294 ∧
    sampleEnvironment.ZSTD_compress (serializedOf (sampleLookup 7 [1, 2])) = some [40, 1, 2] ∧
    (sampleLookup 7 [1, 2]).write_ok = true ∧
    ∃ it2 d2, sampleFullDevice.AddToPipelineCache sampleEnvironment (sampleItem 7 0)
        (sampleLookup 7 [1, 2]) = some (it2, d2) ∧
      it2.file_offset = 4294967294 ∧ it2.file_compressed_size = 3 ∧
      d2.m_pipeline_disk_cache_data_end = 1 ∧
      d2.m_pipeline_disk_cache_data_end ≠
        sampleFullDevice.m_pipeline_disk_cache_data_end + 3 :=
  ⟨rfl, rfl, rfl, _, _,
    OpenGLDevice.AddToPipelineCache_success sampleEnvironment (sampleItem 7 0)
      (sampleLookup 7 [1, 2]) sampleFullDevice (List.replicate 4294967294 0) [40, 1, 2] rfl
      (by decide) (by decide) rfl rfl (by decide),
    rfl, rfl, by decide, by decide⟩

/-- C12, amended: for every item (so also a newly realized one without a locator), when
the driver returns a binary of b > 0 bytes, compression gives c > 0 bytes and the
write succeeds, AddToPipelineCache writes the compressed bytes at the old data_end,
sets the locator to the returned format, offset old data_end, uncompressed size b and
compressed size c, each kept in its 32-bit field, sets data_end to the old data_end
plus c modulo 2^32 and marks the store dirty. The new data_end is the old data_end
plus c exactly when that sum is below 2^32. -/
theorem C12_append_blob (env : Environment) (it : ProgramCacheItem) (o : LookupOutcome)
    (d : OpenGLDevice) (file c : List Byte)
    (hfile : d.m_pipeline_disk_cache_file = some file)
    (hlen : o.binary_length ≠ 0) (hb : 0 < o.binary_size)
    (hc : env.ZSTD_compress (serializedOf o) = some c) (hc0 : 0 < c.length)
    (hw : o.write_ok = true) :
    ∃ it2 d2, d.AddToPipelineCache env it o = some (it2, d2) ∧
      it2.program_id = it.program_id ∧ it2.reference_count = it.reference_count ∧
      it2.file_format = o.binary_format % 2 ^ 32 ∧
      it2.file_offset = d.m_pipeline_disk_cache_data_end ∧
      it2.file_uncompressed_size = o.binary_size % 2 ^ 32 ∧
      it2.file_compressed_size = c.length % 2 ^ 32 ∧
      d2.m_pipeline_disk_cache_file =
        some (fwrite file d.m_pipeline_disk_cache_data_end c) ∧
      fread (fwrite file d.m_pipeline_disk_cache_data_end c)
        d.m_pipeline_disk_cache_data_end c.length = some c ∧
      d2.m_pipeline_disk_cache_data_end =
        (d.m_pipeline_disk_cache_data_end + c.length) % 2 ^ 32 ∧
      (d2.m_pipeline_disk_cache_data_end = d.m_pipeline_disk_cache_data_end + c.length ↔
        d.m_pipeline_disk_cache_data_end + c.length < 2 ^ 32) ∧
      d2.m_pipeline_disk_cache_changed = true ∧
      d2.m_program_cache = d.m_program_cache ∧ d2.m_vao_cache = d.m_vao_cache ∧
      d2.calls = d.calls := by
  have hadd := OpenGLDevice.AddToPipelineCache_success env it o d file c hfile hlen
    (by omega) hc hw hc0
  have hend : (d.m_pipeline_disk_cache_data_end + c.length % 2 ^ 32) % 2 ^ 32 =
      (d.m_pipeline_disk_cache_data_end + c.length) % 2 ^ 32 := by
    simp [Nat.add_mod]
  refine ⟨_, _, hadd, rfl, rfl, rfl, rfl, rfl, rfl, rfl, fread_fwrite _ _ _ hc0, hend, ?_, rfl,
    rfl, rfl, rfl⟩
  simp only [hend]
  exact Nat.mod_eq_iff_lt (by decide)

/-- C12 at the open sample device and a binary of two bytes -/
theorem C12_append_blob_witness :
    ∃ it2 d2, sampleDevice.AddToPipelineCache sampleEnvironment (sampleItem 7 0)
        (sampleLookup 7 [1, 2]) = some (it2, d2) ∧
      it2.program_id = (sampleItem 7 0).program_id ∧
      it2.reference_count = (sampleItem 7 0).reference_count ∧
      it2.file_format = (sampleLookup 7 [1, 2]).binary_format % 2 ^ 32 ∧
      it2.file_offset = sampleDevice.m_pipeline_disk_cache_data_end ∧
      it2.file_uncompressed_size = (sampleLookup 7 [1, 2]).binary_size % 2 ^ 32 ∧
      it2.file_compressed_size = ([40, 1, 2] : List Byte).length % 2 ^ 32 ∧
      d2.m_pipeline_disk_cache_file =
        some (fwrite [] sampleDevice.m_pipeline_disk_cache_data_end [40, 1, 2]) ∧
      fread (fwrite [] sampleDevice.m_pipeline_disk_cache_data_end [40, 1, 2])
        sampleDevice.m_pipeline_disk_cache_data_end ([40, 1, 2] : List Byte).length
          = some [40, 1, 2] ∧
      d2.m_pipeline_disk_cache_data_end =
        (sampleDevice.m_pipeline_disk_cache_data_end + ([40, 1, 2] : List Byte).length)
          % 2 ^ 32 ∧
      (d2.m_pipeline_disk_cache_data_end =
          sampleDevice.m_pipeline_disk_cache_data_end + ([40, 1, 2] : List Byte).length ↔
        sampleDevice.m_pipeline_disk_cache_data_end + ([40, 1, 2] : List Byte).length
          < 2 ^ 32) ∧
      d2.m_pipeline_disk_cache_changed = true ∧
      d2.m_program_cache = sampleDevice.m_program_cache ∧
      d2.m_vao_cache = sampleDevice.m_vao_cache ∧
      d2.calls = sampleDevice.calls :=
  C12_append_blob sampleEnvironment (sampleItem 7 0) (sampleLookup 7 [1, 2]) sampleDevice []
    [40, 1, 2] rfl (by decide) (by decide) rfl (by decide) rfl

/-- C13: when the driver reports a binary length of 0 or returns no binary,
AddToPipelineCache returns with the item and the device as they were (locator zero,
data_end, dirty flag and file untouched), and the lookup of a new key whose program
compiled returns the compiled program and enters the key with that program,
reference count 1 and a zero locator; the store fields are those before the lookup. -/
theorem C13_serialization_unsupported (env : Environment) (key : ProgramCacheKey)
    (o : LookupOutcome) (d : OpenGLDevice)
    (hunsupported : o.binary_length = 0 ∨ o.binary_size = 0)
    (hfresh : mapFind d.m_program_cache key = none) (hcompiled : o.compiled ≠ 0) :
    (∀ (it : ProgramCacheItem) (d1 : OpenGLDevice),
      d1.AddToPipelineCache env it o = some (it, d1)) ∧
    ∃ d2, d.LookupProgramCache env key o = some (o.compiled, d2) ∧
      mapFind d2.m_program_cache key = some (sampleItem o.compiled 1) ∧
      d2.m_program_cache = d.m_program_cache ++ [(key, sampleItem o.compiled 1)] ∧
      d2.m_pipeline_disk_cache_file = d.m_pipeline_disk_cache_file ∧
      d2.m_pipeline_disk_cache_data_end = d.m_pipeline_disk_cache_data_end ∧
      d2.m_pipeline_disk_cache_changed = d.m_pipeline_disk_cache_changed := by
  have hadd : ∀ (it : ProgramCacheItem) (d1 : OpenGLDevice),
      d1.AddToPipelineCache env it o = some (it, d1) := by
    intro it d1
    unfold OpenGLDevice.AddToPipelineCache
    rcases hunsupported with h | h
    · simp only [h, if_true]
    · split
      · rfl
      · simp only [h, if_true]
  refine ⟨hadd, ?_⟩
  have hfresh2 : mapFind (d.CompileProgram env o).2.m_program_cache key = none := by
    simpa using hfresh
  refine ⟨{ (d.CompileProgram env o).2 with
      m_program_cache := mapEmplace (d.CompileProgram env o).2.m_program_cache key
        (sampleItem o.compiled 1) }, ?_, ?_, ?_, ?_, ?_, ?_⟩
  · unfold OpenGLDevice.LookupProgramCache
    simp only [hfresh]
    unfold OpenGLDevice.LookupProgramCacheMiss
    simp only [OpenGLDevice.CompileProgram_fst, ne_eq, hcompiled, not_false_eq_true, if_true,
      hadd]
    rfl
  · simp only
    rw [mapFind_mapEmplace _ _ _ _ hfresh2]
    simp
  · simp only
    rw [mapEmplace_of_none _ _ _ hfresh2, OpenGLDevice.CompileProgram_program_cache]
  · simp only [OpenGLDevice.CompileProgram_file]
  · simp only [OpenGLDevice.CompileProgram_data_end]
  · unfold OpenGLDevice.CompileProgram OpenGLDevice.PostLinkProgram
    simp only [hcompiled, if_false]
    split <;> rfl

/-- C13 at a device that has no cache file at all -/
theorem C13_serialization_unsupported_witness :
    (∀ (it : ProgramCacheItem) (d1 : OpenGLDevice),
      d1.AddToPipelineCache sampleEnvironment it (sampleLookup 7 []) = some (it, d1)) ∧
    ∃ d2, OpenGLDevice.empty.LookupProgramCache sampleEnvironment (sampleKey 1)
        (sampleLookup 7 []) = some ((sampleLookup 7 []).compiled, d2) ∧
      mapFind d2.m_program_cache (sampleKey 1) =
        some (sampleItem (sampleLookup 7 []).compiled 1) ∧
      d2.m_program_cache = OpenGLDevice.empty.m_program_cache ++
        [(sampleKey 1, sampleItem (sampleLookup 7 []).compiled 1)] ∧
      d2.m_pipeline_disk_cache_file = OpenGLDevice.empty.m_pipeline_disk_cache_file ∧
      d2.m_pipeline_disk_cache_data_end = OpenGLDevice.empty.m_pipeline_disk_cache_data_end ∧
      d2.m_pipeline_disk_cache_changed = OpenGLDevice.empty.m_pipeline_disk_cache_changed :=
  C13_serialization_unsupported sampleEnvironment (sampleKey 1) (sampleLookup 7 [])
    OpenGLDevice.empty (Or.inl rfl) rfl (by decide)

/-! ## Discarding the store -/

/-- What a lookup finds after the loop of DiscardPipelineCache, in a map with one entry
per key -/
theorem mapFind_filterMap_discardEntry (m : List (ProgramCacheKey × ProgramCacheItem))
    (key : ProgramCacheKey) (hn : (m.map Prod.fst).Nodup) :
    mapFind (m.filterMap discardEntry) key =
      (mapFind m key).bind (fun it => (discardEntry (key, it)).map Prod.snd) := by
  induction m with
  | nil => rfl
  | cons q m ih =>
    obtain ⟨k, w⟩ := q
    simp only [List.map_cons, List.nodup_cons] at hn
    by_cases hk : k = key
    · subst hk
      have hnone : mapFind (m.filterMap discardEntry) k = none :=
        mapFind_filterMap_none m discardEntry discardEntry_fst k
          ((mapFind_eq_none m k).mpr hn.1)
      by_cases hp : w.program_id ≠ 0
      · simp [List.filterMap_cons, discardEntry, hp, mapFind]
      · simp only [ne_eq, not_not] at hp
        simp [List.filterMap_cons, discardEntry, hp, mapFind, hnone]
    · by_cases hp : w.program_id ≠ 0
      · simp [List.filterMap_cons, discardEntry, hp, mapFind, hk, ih hn.2]
      · simp only [ne_eq, not_not] at hp
        simp [List.filterMap_cons, discardEntry, hp, mapFind, hk, ih hn.2]

/-- C14: in a device that satisfies the cache invariant, DiscardPipelineCache removes
every program cache entry whose reference count is 0, keeps every entry whose
reference count is positive with its program and count and with the four locator
fields zero, adds no entry, sets data_end to 0, leaves the vertex-array cache as it
was, and leaves an empty open file when the file reopens. -/
theorem C14_discard (reopen_ok : Bool) (d : OpenGLDevice) (hinv : d.CacheInvariant) :
    (∀ key it, mapFind d.m_program_cache key = some it → it.reference_count = 0 →
      mapFind (d.DiscardPipelineCache reopen_ok).2.m_program_cache key = none) ∧
    (∀ key it, mapFind d.m_program_cache key = some it → 0 < it.reference_count →
      mapFind (d.DiscardPipelineCache reopen_ok).2.m_program_cache key =
        some { program_id := it.program_id, reference_count := it.reference_count,
               file_format := 0, file_offset := 0, file_uncompressed_size := 0,
               file_compressed_size := 0 }) ∧
    (∀ key, mapFind d.m_program_cache key = none →
      mapFind (d.DiscardPipelineCache reopen_ok).2.m_program_cache key = none) ∧
    (d.DiscardPipelineCache reopen_ok).2.m_pipeline_disk_cache_data_end = 0 ∧
    (d.DiscardPipelineCache reopen_ok).2.m_vao_cache = d.m_vao_cache ∧
    (reopen_ok = true →
      (d.DiscardPipelineCache reopen_ok).1 = true ∧
      (d.DiscardPipelineCache reopen_ok).2.m_pipeline_disk_cache_file = some []) := by
  obtain ⟨hn, _, hgood, _⟩ := hinv
  refine ⟨?_, ?_, ?_, ?_, OpenGLDevice.DiscardPipelineCache_vao_cache _ _, ?_⟩
  · intro key it hfind hrc
    have hg := hgood (key, it) (mapFind_mem _ _ _ hfind)
    have hp : it.program_id = 0 := by
      by_contra hc
      have := hg.2.mp hc
      simp only at this
      omega
    rw [OpenGLDevice.DiscardPipelineCache_program_cache,
      mapFind_filterMap_discardEntry _ _ hn, hfind]
    simp [discardEntry, hp]
  · intro key it hfind hrc
    have hg := hgood (key, it) (mapFind_mem _ _ _ hfind)
    have hp : it.program_id ≠ 0 := hg.2.mpr hrc
    rw [OpenGLDevice.DiscardPipelineCache_program_cache,
      mapFind_filterMap_discardEntry _ _ hn, hfind]
    simp [discardEntry, hp]
  · intro key hfind
    rw [OpenGLDevice.DiscardPipelineCache_program_cache]
    exact mapFind_filterMap_none _ _ discardEntry_fst _ hfind
  · unfold OpenGLDevice.DiscardPipelineCache
    split <;> rfl
  · intro hre
    unfold OpenGLDevice.DiscardPipelineCache
    simp [hre]

theorem sampleMixedDevice_invariant : sampleMixedDevice.CacheInvariant := by
  refine ⟨by decide, by decide, ?_, ?_⟩
  · simp [sampleMixedDevice, sampleStoredItem, OpenGLDevice.empty]
  · simp [sampleMixedDevice, OpenGLDevice.empty]

/-- C14 at a device with two stored blobs, one of a program in use and one not
realized: the second entry is removed, the first keeps program 7 and its reference
and loses its locator, data_end goes from 6 to 0, the file is left empty and the
vertex-array cache keeps its entry. -/
theorem C14_discard_witness :
    sampleMixedDevice.CacheInvariant ∧
    sampleMixedDevice.m_program_cache =
      [(sampleKey 1, { program_id := 7, reference_count := 1, file_format := 1,
                       file_offset := 0, file_uncompressed_size := 2,
                       file_compressed_size := 3 }),
       (sampleKey 2, { program_id := 0, reference_count := 0, file_format := 1,
                       file_offset := 3, file_uncompressed_size := 2,
                       file_compressed_size := 3 })] ∧
    sampleMixedDevice.m_pipeline_disk_cache_data_end = 6 ∧
    sampleMixedDevice.m_pipeline_disk_cache_file = some [40, 1, 2, 40, 5, 6] ∧
    mapFind (sampleMixedDevice.DiscardPipelineCache true).2.m_program_cache (sampleKey 2) =
      none ∧
    mapFind (sampleMixedDevice.DiscardPipelineCache true).2.m_program_cache (sampleKey 1) =
      some { program_id := 7, reference_count := 1, file_format := 0, file_offset := 0,
             file_uncompressed_size := 0, file_compressed_size := 0 } ∧
    (sampleMixedDevice.DiscardPipelineCache true).2.m_pipeline_disk_cache_data_end = 0 ∧
    (sampleMixedDevice.DiscardPipelineCache true).2.m_vao_cache =
      [(fixedBytes 32 [], { vao_id := 4, reference_count := 1 })] ∧
    (sampleMixedDevice.DiscardPipelineCache true).1 = true ∧
    (sampleMixedDevice.DiscardPipelineCache true).2.m_pipeline_disk_cache_file = some [] :=
  ⟨sampleMixedDevice_invariant, rfl, rfl, rfl,
    (C14_discard true sampleMixedDevice sampleMixedDevice_invariant).1 (sampleKey 2) _ rfl rfl,
    (C14_discard true sampleMixedDevice sampleMixedDevice_invariant).2.1 (sampleKey 1) _ rfl
      (by decide),
    (C14_discard true sampleMixedDevice sampleMixedDevice_invariant).2.2.2.1,
    (C14_discard true sampleMixedDevice sampleMixedDevice_invariant).2.2.2.2.1,
    ((C14_discard true sampleMixedDevice sampleMixedDevice_invariant).2.2.2.2.2 rfl).1,
    ((C14_discard true sampleMixedDevice sampleMixedDevice_invariant).2.2.2.2.2 rfl).2⟩

/-! ## A record count that does not fit the file -/

theorem OpenGLDevice.discarded_facts (reopen_ok : Bool) (d : OpenGLDevice)
    (r : Bool × OpenGLDevice) (h : r = d.DiscardPipelineCache reopen_ok) :
    r.2.m_program_cache = d.m_program_cache.filterMap discardEntry ∧
      (d.m_program_cache = [] → r.2.m_program_cache = []) ∧
      r.2.m_pipeline_disk_cache_data_end = 0 ∧
      r.2.m_pipeline_disk_cache_changed = d.m_pipeline_disk_cache_changed ∧
      r.2.calls = d.calls ∧
      (reopen_ok = true → r.1 = true ∧ r.2.m_pipeline_disk_cache_file = some []) := by
  subst h
  refine ⟨OpenGLDevice.DiscardPipelineCache_program_cache _ _, ?_, ?_, ?_, ?_, ?_⟩
  · intro he
    rw [OpenGLDevice.DiscardPipelineCache_program_cache, he]
    rfl
  · unfold OpenGLDevice.DiscardPipelineCache
    split <;> rfl
  · unfold OpenGLDevice.DiscardPipelineCache
    split <;> rfl
  · unfold OpenGLDevice.DiscardPipelineCache
    split <;> rfl
  · intro hre
    unfold OpenGLDevice.DiscardPipelineCache
    simp [hre]

/-- C16: a file of s >= 392 bytes whose footer counts n index entries with
392 + 128 n > s is discarded by ReadPipelineCache, for every n: the outcome is that
of DiscardPipelineCache on the device as it was, no entry of the file is in the
program cache and data_end is 0. The wrapped 32-bit data_end never lets all n
entries be read. -/
theorem C16_record_count_too_large (env : Environment) (filename : String) (o : ReadOutcome)
    (d : OpenGLDevice) (file : List Byte)
    (hopen : o.open_result = OpenResult.opened file)
    (hmin : 392 ≤ file.length)
    (hcount : file.length < 392 + 128 * (storeFooter file).num_programs) :
    d.ReadPipelineCache env filename o =
        { d with m_pipeline_disk_cache_file := some file,
                 m_pipeline_disk_cache_filename := filename }.DiscardPipelineCache o.reopen_ok ∧
      (d.ReadPipelineCache env filename o).2.m_program_cache =
        d.m_program_cache.filterMap discardEntry ∧
      (d.m_program_cache = [] → (d.ReadPipelineCache env filename o).2.m_program_cache = []) ∧
      (d.ReadPipelineCache env filename o).2.m_pipeline_disk_cache_data_end = 0 := by
  have hdisc : d.ReadPipelineCache env filename o =
      { d with m_pipeline_disk_cache_file := some file,
               m_pipeline_disk_cache_filename := filename }.DiscardPipelineCache
        o.reopen_ok := by
    rcases OpenGLDevice.ReadPipelineCache_cases env filename o d file hopen with h | ⟨hv, _⟩
    · exact h
    · exfalso
      obtain ⟨_, _, _, _, _, _, _, _, hv1, _, _⟩ := hv
      have hpos : 0 < (storeFooter file).num_programs := by omega
      have hlast := (hv1 ((storeFooter file).num_programs - 1) (by omega)).2
      unfold storeIndexStart at hlast
      simp only [FOOTER_SIZE, INDEX_ENTRY_SIZE] at hlast
      omega
  obtain ⟨h1, h2, h3, _⟩ := OpenGLDevice.discarded_facts o.reopen_ok _ _ hdisc
  exact ⟨hdisc, h1, h2, h3⟩

set_option maxRecDepth 100000 in
/-- C16 at a file of 395 bytes whose footer counts 2^25 entries, so that data_end
wraps to offset 3 -/
theorem C16_record_count_too_large_witness :
    storeIndexStart sampleWrapFile = 3 ∧
      OpenGLDevice.empty.ReadPipelineCache sampleEnvironment "cache.bin"
          (sampleRead sampleWrapFile) =
        { OpenGLDevice.empty with
            m_pipeline_disk_cache_file := some sampleWrapFile,
            m_pipeline_disk_cache_filename := "cache.bin" }.DiscardPipelineCache
          (sampleRead sampleWrapFile).reopen_ok ∧
      (OpenGLDevice.empty.ReadPipelineCache sampleEnvironment "cache.bin"
          (sampleRead sampleWrapFile)).2.m_program_cache =
        OpenGLDevice.empty.m_program_cache.filterMap discardEntry ∧
      (OpenGLDevice.empty.m_program_cache = [] →
        (OpenGLDevice.empty.ReadPipelineCache sampleEnvironment "cache.bin"
          (sampleRead sampleWrapFile)).2.m_program_cache = []) ∧
      (OpenGLDevice.empty.ReadPipelineCache sampleEnvironment "cache.bin"
          (sampleRead sampleWrapFile)).2.m_pipeline_disk_cache_data_end = 0 :=
  ⟨by decide,
    C16_record_count_too_large sampleEnvironment "cache.bin" (sampleRead sampleWrapFile)
      OpenGLDevice.empty sampleWrapFile rfl (by decide) (by decide)⟩

/-! ## Consecutive writes -/

theorem fwrite_eq (file data : List Byte) (pos : Nat) :
    fwrite file pos data =
      (file.take pos ++ List.replicate (pos - file.length) 0) ++
        (data ++ file.drop (pos + data.length)) := by
  unfold fwrite
  simp only [List.append_assoc]

theorem length_fwrite (file data : List Byte) (pos : Nat) :
    (fwrite file pos data).length = max file.length (pos + data.length) := by
  rw [fwrite_eq, List.length_append, length_fwrite_head, List.length_append,
    List.length_drop]
  omega

/-- Two writes, the second where the first ended, are one write -/
theorem fwrite_fwrite (file a b : List Byte) (pos : Nat) :
    fwrite (fwrite file pos a) (pos + a.length) b = fwrite file pos (a ++ b) := by
  have hhead := length_fwrite_head file pos
  have hlen := length_fwrite file a pos
  rw [fwrite_eq (fwrite file pos a), fwrite_eq file (a ++ b)]
  have h1 : (fwrite file pos a).take (pos + a.length) =
      (file.take pos ++ List.replicate (pos - file.length) 0) ++ a := by
    rw [fwrite_eq, ← List.append_assoc,
      take_append_exact _ _ _ (by rw [List.length_append, hhead])]
  have h2 : pos + a.length - (fwrite file pos a).length = 0 := by
    rw [hlen]
    omega
  have h3 : (fwrite file pos a).drop (pos + a.length + b.length) =
      file.drop (pos + (a ++ b).length) := by
    rw [fwrite_eq, ← List.append_assoc, ← List.drop_drop,
      drop_append_exact _ _ _ (by rw [List.length_append, hhead]), List.drop_drop,
      List.length_append]
    congr 1
    omega
  rw [h1, h2, h3]
  simp only [List.replicate_zero, List.append_nil, List.append_assoc]

/-! ## What ClosePipelineCache writes -/

theorem length_indexBytes (cache : List (ProgramCacheKey × ProgramCacheItem)) :
    (indexBytes cache).length = 128 * (storedEntries cache).length := by
  unfold indexBytes
  induction storedEntries cache with
  | nil => rfl
  | cons q r ih =>
    simp only [List.length_cons, List.flatMap_cons, List.length_append,
      PipelineDiskCacheIndexEntry.length_entry_bytes, ih]
    omega

/-- The loop of ClosePipelineCache when every write succeeds: the index entries of the
stored entries are written one after the other from `pos` on -/
theorem writeIndexEntries_fwrite (o : CloseOutcome)
    (cache : List (ProgramCacheKey × ProgramCacheItem)) (file : List Byte) (pos count : Nat)
    (hok : ∀ i, o.entry_ok i = true) :
    ∃ written, writeIndexEntries o cache file pos count =
        Except.ok (written, pos + 128 * (storedEntries cache).length,
          count + (storedEntries cache).length) ∧
      ∀ data, fwrite written (pos + 128 * (storedEntries cache).length) data =
        fwrite file pos (indexBytes cache ++ data) := by
  induction cache generalizing file pos count with
  | nil => exact ⟨file, by simp [writeIndexEntries, storedEntries], by
      simp [storedEntries, indexBytes]⟩
  | cons p rest ih =>
    obtain ⟨key, item⟩ := p
    by_cases hz : item.file_uncompressed_size = 0
    · obtain ⟨written, hw1, hw2⟩ := ih file pos count
      refine ⟨written, ?_, ?_⟩
      · simp only [writeIndexEntries, hz, if_true, hw1]
        simp [storedEntries, hz]
      · intro data
        have := hw2 data
        simp only [storedEntries, indexBytes, hz, ne_eq, not_true_eq_false, decide_False,
          Bool.false_eq_true, not_false_eq_true, List.filter_cons_of_neg] at this ⊢
        exact this
    · obtain ⟨written, hw1, hw2⟩ := ih (fwrite file pos (indexEntryOf (key, item)).bytes)
        (pos + 128) (count + 1)
      have hst : storedEntries ((key, item) :: rest) = (key, item) :: storedEntries rest := by
        simp [storedEntries, hz]
      refine ⟨written, ?_, ?_⟩
      · simp only [writeIndexEntries, hz, if_false, hok, if_true, INDEX_ENTRY_SIZE]
        simp only [indexEntryOf] at hw1
        rw [hw1, hst]
        simp only [List.length_cons]
        congr 2
        refine Prod.ext ?_ ?_
        · simp only
          omega
        · simp only
          omega
      · intro data
        rw [hst]
        simp only [List.length_cons]
        have h1 : pos + 128 * ((storedEntries rest).length + 1) =
            pos + 128 + 128 * (storedEntries rest).length := by omega
        rw [h1, hw2 data]
        have h2 : pos + 128 = pos + (indexEntryOf (key, item)).bytes.length := by
          rw [PipelineDiskCacheIndexEntry.length_entry_bytes]
        rw [h2, fwrite_fwrite]
        simp only [indexBytes, hst, List.flatMap_cons, List.append_assoc]

/-- ClosePipelineCache of a dirty store when every write succeeds: the index and the
footer are written as one run of bytes at data_end -/
theorem OpenGLDevice.ClosePipelineCache_fwrite (env : Environment) (o : CloseOutcome)
    (d : OpenGLDevice) (file : List Byte)
    (hfile : d.m_pipeline_disk_cache_file = some file)
    (hchanged : d.m_pipeline_disk_cache_changed = true)
    (hseek : o.seek_ok = true) (hok : ∀ i, o.entry_ok i = true) (hfooter : o.footer_ok = true) :
    d.ClosePipelineCache env o =
      some (fwrite file d.m_pipeline_disk_cache_data_end
              (indexBytes d.m_program_cache ++ (closeFooter env o d.m_program_cache).bytes),
            { d with m_pipeline_disk_cache_file := none }) := by
  obtain ⟨written, hw1, hw2⟩ := writeIndexEntries_fwrite o d.m_program_cache file
    d.m_pipeline_disk_cache_data_end 0 hok
  unfold OpenGLDevice.ClosePipelineCache
  simp only [hfile, hchanged, Bool.not_true, Bool.false_eq_true, if_false, hseek, hw1, hfooter,
    if_true, Nat.zero_add]
  congr 2
  exact hw2 _

theorem mem_storedEntries (cache : List (ProgramCacheKey × ProgramCacheItem))
    (p : ProgramCacheKey × ProgramCacheItem) :
    p ∈ storedEntries cache ↔ p ∈ cache ∧ p.2.file_uncompressed_size ≠ 0 := by
  simp [storedEntries]

/-- The footer that ClosePipelineCache writes passes the comparison of
ReadPipelineCache under the same environment -/
theorem closeFooter_matches (env : Environment) (o : CloseOutcome)
    (cache : List (ProgramCacheKey × ProgramCacheItem)) (stack : PipelineDiskCacheFooter) :
    (closeFooter env o cache).version = (FillFooter env stack env.version).version ∧
      strncmpEqual (fixedBytes 128 (closeFooter env o cache).driver_vendor).val
        (FillFooter env stack env.version).driver_vendor 128 = true ∧
      strncmpEqual (fixedBytes 128 (closeFooter env o cache).driver_renderer).val
        (FillFooter env stack env.version).driver_renderer 128 = true ∧
      strncmpEqual (fixedBytes 128 (closeFooter env o cache).driver_version).val
        (FillFooter env stack env.version).driver_version 128 = true :=
  ⟨rfl, strncmpEqual_Strlcpy _ _ _, strncmpEqual_Strlcpy _ _ _, strncmpEqual_Strlcpy _ _ _⟩

/-- C11: ClosePipelineCache of an open file. When the store is not dirty (nothing was
appended since load) the file is closed with the content it had. When it is dirty
and every write succeeds, the bytes written from data_end on are the index followed
by the footer: the index has one record of 128 bytes (key bytes, then format,
offset, uncompressed size and compressed size as little-endian u32) for every
program cache entry whose locator has a non-zero uncompressed size and for no
other, and the footer has the version and the three driver strings of the
environment and counts the records of the index. -/
theorem C11_close_writes (env : Environment) (o : CloseOutcome) (d : OpenGLDevice)
    (file : List Byte) (hfile : d.m_pipeline_disk_cache_file = some file) :
    (d.m_pipeline_disk_cache_changed = false →
      d.ClosePipelineCache env o = some (file, { d with m_pipeline_disk_cache_file := none })) ∧
    (d.m_pipeline_disk_cache_changed = true → o.seek_ok = true →
      (∀ i, o.entry_ok i = true) → o.footer_ok = true →
      d.ClosePipelineCache env o =
        some (fwrite file d.m_pipeline_disk_cache_data_end
                (indexBytes d.m_program_cache ++ (closeFooter env o d.m_program_cache).bytes),
              { d with m_pipeline_disk_cache_file := none }) ∧
      fread (fwrite file d.m_pipeline_disk_cache_data_end
                (indexBytes d.m_program_cache ++ (closeFooter env o d.m_program_cache).bytes))
          d.m_pipeline_disk_cache_data_end
          (128 * (storedEntries d.m_program_cache).length + 392) =
        some (indexBytes d.m_program_cache ++ (closeFooter env o d.m_program_cache).bytes) ∧
      indexBytes d.m_program_cache =
        (storedEntries d.m_program_cache).flatMap (fun p =>
          p.1.bytes ++ leBytes 4 p.2.file_format ++ leBytes 4 p.2.file_offset
            ++ leBytes 4 p.2.file_uncompressed_size ++ leBytes 4 p.2.file_compressed_size) ∧
      (∀ p, p ∈ storedEntries d.m_program_cache ↔
        p ∈ d.m_program_cache ∧ p.2.file_uncompressed_size ≠ 0) ∧
      (closeFooter env o d.m_program_cache).num_programs =
        (storedEntries d.m_program_cache).length % 2 ^ 32 ∧
      ∀ stack : PipelineDiskCacheFooter,
        (closeFooter env o d.m_program_cache).version =
          (FillFooter env stack env.version).version ∧
        strncmpEqual (fixedBytes 128 (closeFooter env o d.m_program_cache).driver_vendor).val
          (FillFooter env stack env.version).driver_vendor 128 = true ∧
        strncmpEqual (fixedBytes 128 (closeFooter env o d.m_program_cache).driver_renderer).val
          (FillFooter env stack env.version).driver_renderer 128 = true ∧
        strncmpEqual (fixedBytes 128 (closeFooter env o d.m_program_cache).driver_version).val
          (FillFooter env stack env.version).driver_version 128 = true) := by
  constructor
  · intro hclean
    unfold OpenGLDevice.ClosePipelineCache
    simp only [hfile, hclean, Bool.not_false, if_true]
  · intro hchanged hseek hok hfooter
    refine ⟨OpenGLDevice.ClosePipelineCache_fwrite env o d file hfile hchanged hseek hok hfooter,
      ?_, rfl, mem_storedEntries _, rfl, closeFooter_matches env o _⟩
    have hlen : (indexBytes d.m_program_cache ++
        (closeFooter env o d.m_program_cache).bytes).length =
        128 * (storedEntries d.m_program_cache).length + 392 := by
      rw [List.length_append, length_indexBytes,
        PipelineDiskCacheFooter.length_footer_bytes]
    rw [← hlen]
    exact fread_fwrite _ _ _ (by rw [hlen]; omega)

/-- C11 at the dirty sample device, whose one entry has a blob -/
theorem C11_close_writes_witness :
    (sampleDirtyDevice.m_pipeline_disk_cache_changed = false →
      sampleDirtyDevice.ClosePipelineCache sampleEnvironment sampleClose =
        some ([40, 1, 2], { sampleDirtyDevice with m_pipeline_disk_cache_file := none })) ∧
    (sampleDirtyDevice.m_pipeline_disk_cache_changed = true → sampleClose.seek_ok = true →
      (∀ i, sampleClose.entry_ok i = true) → sampleClose.footer_ok = true →
      sampleDirtyDevice.ClosePipelineCache sampleEnvironment sampleClose =
        some (fwrite [40, 1, 2] sampleDirtyDevice.m_pipeline_disk_cache_data_end
                (indexBytes sampleDirtyDevice.m_program_cache ++
                  (closeFooter sampleEnvironment sampleClose
                    sampleDirtyDevice.m_program_cache).bytes),
              { sampleDirtyDevice with m_pipeline_disk_cache_file := none }) ∧
      fread (fwrite [40, 1, 2] sampleDirtyDevice.m_pipeline_disk_cache_data_end
                (indexBytes sampleDirtyDevice.m_program_cache ++
                  (closeFooter sampleEnvironment sampleClose
                    sampleDirtyDevice.m_program_cache).bytes))
          sampleDirtyDevice.m_pipeline_disk_cache_data_end
          (128 * (storedEntries sampleDirtyDevice.m_program_cache).length + 392) =
        some (indexBytes sampleDirtyDevice.m_program_cache ++
          (closeFooter sampleEnvironment sampleClose sampleDirtyDevice.m_program_cache).bytes) ∧
      indexBytes sampleDirtyDevice.m_program_cache =
        (storedEntries sampleDirtyDevice.m_program_cache).flatMap (fun p =>
          p.1.bytes ++ leBytes 4 p.2.file_format ++ leBytes 4 p.2.file_offset
            ++ leBytes 4 p.2.file_uncompressed_size ++ leBytes 4 p.2.file_compressed_size) ∧
      (∀ p, p ∈ storedEntries sampleDirtyDevice.m_program_cache ↔
        p ∈ sampleDirtyDevice.m_program_cache ∧ p.2.file_uncompressed_size ≠ 0) ∧
      (closeFooter sampleEnvironment sampleClose sampleDirtyDevice.m_program_cache).num_programs =
        (storedEntries sampleDirtyDevice.m_program_cache).length % 2 ^ 32 ∧
      ∀ stack : PipelineDiskCacheFooter,
        (closeFooter sampleEnvironment sampleClose sampleDirtyDevice.m_program_cache).version =
          (FillFooter sampleEnvironment stack sampleEnvironment.version).version ∧
        strncmpEqual (fixedBytes 128 (closeFooter sampleEnvironment sampleClose
            sampleDirtyDevice.m_program_cache).driver_vendor).val
          (FillFooter sampleEnvironment stack sampleEnvironment.version).driver_vendor 128
            = true ∧
        strncmpEqual (fixedBytes 128 (closeFooter sampleEnvironment sampleClose
            sampleDirtyDevice.m_program_cache).driver_renderer).val
          (FillFooter sampleEnvironment stack sampleEnvironment.version).driver_renderer 128
            = true ∧
        strncmpEqual (fixedBytes 128 (closeFooter sampleEnvironment sampleClose
            sampleDirtyDevice.m_program_cache).driver_version).val
          (FillFooter sampleEnvironment stack sampleEnvironment.version).driver_version 128
            = true) :=
  C11_close_writes sampleEnvironment sampleClose sampleDirtyDevice [40, 1, 2] rfl

/-! ## The store during a session -/

@[simp] theorem OpenGLDevice.record_changed (d : OpenGLDevice) (c : Call) :
    (d.record c).m_pipeline_disk_cache_changed = d.m_pipeline_disk_cache_changed := rfl

@[simp] theorem OpenGLDevice.record_data_end (d : OpenGLDevice) (c : Call) :
    (d.record c).m_pipeline_disk_cache_data_end = d.m_pipeline_disk_cache_data_end := rfl

@[simp] theorem OpenGLDevice.PostLinkProgram_changed (env : Environment) (p : Nat)
    (d : OpenGLDevice) :
    (d.PostLinkProgram env p).m_pipeline_disk_cache_changed =
      d.m_pipeline_disk_cache_changed := by
  unfold OpenGLDevice.PostLinkProgram
  split <;> rfl

@[simp] theorem OpenGLDevice.CompileProgram_changed (env : Environment) (o : LookupOutcome)
    (d : OpenGLDevice) :
    (d.CompileProgram env o).2.m_pipeline_disk_cache_changed =
      d.m_pipeline_disk_cache_changed := by
  unfold OpenGLDevice.CompileProgram
  split
  · rfl
  · simp [OpenGLDevice.record]

theorem OpenGLDevice.SameStore.refl (d : OpenGLDevice) : d.SameStore d :=
  ⟨rfl, rfl, rfl, rfl⟩

theorem OpenGLDevice.SameStore.trans {d d1 d2 : OpenGLDevice} (h1 : d.SameStore d1)
    (h2 : d1.SameStore d2) : d.SameStore d2 :=
  ⟨h2.1.trans h1.1, h2.2.1.trans h1.2.1, h2.2.2.1.trans h1.2.2.1, h2.2.2.2.trans h1.2.2.2⟩

theorem storedEntries_mapModify (m : List (ProgramCacheKey × ProgramCacheItem))
    (key : ProgramCacheKey) (f : ProgramCacheItem → ProgramCacheItem)
    (hf : ∀ i, (f i).file_uncompressed_size = i.file_uncompressed_size) :
    (storedEntries (mapModify m key f)).length = (storedEntries m).length := by
  induction m with
  | nil => rfl
  | cons p rest ih =>
    unfold storedEntries at ih ⊢
    unfold mapModify
    by_cases hk : p.1 = key
    · simp only [hk, if_true, List.filter_cons, hf]
      split <;> rfl
    · simp only [hk, if_false, List.filter_cons]
      split
      · simp only [List.length_cons, ih]
      · exact ih

theorem storedCount_mapModify (m : List (ProgramCacheKey × ProgramCacheItem))
    (key : ProgramCacheKey) (f : ProgramCacheItem → ProgramCacheItem)
    (hf : ∀ i, (f i).file_uncompressed_size = i.file_uncompressed_size) :
    storedCount (mapModify m key f) = storedCount m :=
  storedEntries_mapModify m key f hf

theorem storedCount_mapEmplace (m : List (ProgramCacheKey × ProgramCacheItem))
    (key : ProgramCacheKey) (v : ProgramCacheItem) :
    storedCount m ≤ storedCount (mapEmplace m key v) := by
  unfold mapEmplace
  split
  · exact le_rfl
  · unfold storedCount storedEntries
    rw [List.filter_append, List.length_append]
    omega

theorem OpenGLDevice.CreateProgramFromPipelineCache_store (env : Environment)
    (it : ProgramCacheItem) (o : LookupOutcome) (d d2 : OpenGLDevice) (r : Nat)
    (h : d.CreateProgramFromPipelineCache env it o = some (r, d2)) :
    d.SameStore d2 := by
  have hc := (OpenGLDevice.CreateProgramFromPipelineCache_caches env it o d d2 r h).1
  refine ⟨?_, ?_, ?_, by rw [hc]⟩
  all_goals
    unfold OpenGLDevice.CreateProgramFromPipelineCache at h
    split at h
    · simp at h
    · rename_i file hfile
      split at h
      · simp at h; rw [← h.2]; simp [hfile]
      · split at h
        · simp at h; rw [← h.2]; simp [hfile]
        · split at h
          · simp at h; rw [← h.2]; simp [hfile]
          · split at h
            · simp at h; rw [← h.2]; simp [hfile]
            · simp at h; rw [← h.2]; simp [hfile]

/-- What AddToPipelineCache does to the store: nothing, or the blob is appended -/
theorem OpenGLDevice.AddToPipelineCache_store (env : Environment)
    (it it2 : ProgramCacheItem) (o : LookupOutcome) (d d2 : OpenGLDevice)
    (h : d.AddToPipelineCache env it o = some (it2, d2)) :
    StoreAppend env o d.m_pipeline_disk_cache_file d.m_pipeline_disk_cache_data_end
      d.m_pipeline_disk_cache_changed d2 := by
  unfold OpenGLDevice.AddToPipelineCache at h
  split at h
  · simp at h; rw [← h.2]; exact Or.inl ⟨rfl, rfl, rfl⟩
  · split at h
    · simp at h; rw [← h.2]; exact Or.inl ⟨rfl, rfl, rfl⟩
    · split at h
      · simp at h; rw [← h.2]; exact Or.inl ⟨rfl, rfl, rfl⟩
      · rename_i c hc
        split at h
        · simp at h
        · rename_i file hfile
          simp only [Option.some.injEq, Prod.mk.injEq] at h
          rw [← h.2]
          exact Or.inr ⟨file, c, hc, hfile, rfl, rfl, rfl⟩

/-- What the miss path of a lookup does to the store -/
theorem OpenGLDevice.LookupProgramCacheMiss_store (env : Environment) (key : ProgramCacheKey)
    (o : LookupOutcome) (d d2 : OpenGLDevice) (r : Nat)
    (h : d.LookupProgramCacheMiss env key o = some (r, d2)) :
    StoreAppend env o d.m_pipeline_disk_cache_file d.m_pipeline_disk_cache_data_end
      d.m_pipeline_disk_cache_changed d2 ∧
    storedCount d.m_program_cache ≤ storedCount d2.m_program_cache := by
  unfold OpenGLDevice.LookupProgramCacheMiss at h
  simp only [OpenGLDevice.CompileProgram_fst] at h
  split at h
  · split at h
    · simp at h
    · rename_i it2 d3 hadd
      have hs := OpenGLDevice.AddToPipelineCache_store env _ it2 o _ d3 hadd
      have hcache := (OpenGLDevice.AddToPipelineCache_caches env _ it2 o _ d3 hadd).1
      simp only [OpenGLDevice.CompileProgram_file, OpenGLDevice.CompileProgram_data_end,
        OpenGLDevice.CompileProgram_changed] at hs
      rw [OpenGLDevice.CompileProgram_program_cache] at hcache
      simp only [Option.some.injEq, Prod.mk.injEq] at h
      rw [← h.2]
      refine ⟨?_, ?_⟩
      · rcases hs with hs | ⟨f, c, hc, hf, h1, h2, h3⟩
        · exact Or.inl hs
        · exact Or.inr ⟨f, c, hc, hf, h1, h2, h3⟩
      · rw [← hcache]
        exact storedCount_mapEmplace _ _ _
  · simp only [Option.some.injEq, Prod.mk.injEq] at h
    rw [← h.2]
    refine ⟨Or.inl ⟨?_, ?_, ?_⟩, ?_⟩
    · simp
    · simp
    · simp
    · have := storedCount_mapEmplace (d.CompileProgram env o).2.m_program_cache key
        { program_id := o.compiled, reference_count := 0, file_format := 0, file_offset := 0,
          file_uncompressed_size := 0, file_compressed_size := 0 }
      rw [OpenGLDevice.CompileProgram_program_cache] at this
      simpa using this

theorem OpenGLDevice.LookupProgramCacheHit_store (key : ProgramCacheKey)
    (d d2 : OpenGLDevice) (r : Nat)
    (h : d.LookupProgramCacheHit key = some (r, d2)) : d.SameStore d2 := by
  unfold OpenGLDevice.LookupProgramCacheHit at h
  split at h
  · simp at h
  · split at h
    · simp only [Option.some.injEq, Prod.mk.injEq] at h
      rw [← h.2]
      exact ⟨rfl, rfl, rfl, storedCount_mapModify _ _ _ (fun _ => rfl)⟩
    · simp only [Option.some.injEq, Prod.mk.injEq] at h
      rw [← h.2]
      exact OpenGLDevice.SameStore.refl d

theorem OpenGLDevice.DiscardPipelineCache_changed (reopen_ok : Bool) (d : OpenGLDevice) :
    (d.DiscardPipelineCache reopen_ok).2.m_pipeline_disk_cache_changed =
      d.m_pipeline_disk_cache_changed := by
  unfold OpenGLDevice.DiscardPipelineCache
  split <;> rfl

theorem OpenGLDevice.DiscardPipelineCache_file (reopen_ok : Bool) (d : OpenGLDevice) :
    (d.DiscardPipelineCache reopen_ok).2.m_pipeline_disk_cache_file =
      if reopen_ok = true then some [] else none := by
  unfold OpenGLDevice.DiscardPipelineCache
  split <;> rfl

theorem OpenGLDevice.DiscardPipelineCache_cursor (reopen_ok : Bool) (d : OpenGLDevice) :
    (d.DiscardPipelineCache reopen_ok).2.m_pipeline_disk_cache_data_end = 0 := by
  unfold OpenGLDevice.DiscardPipelineCache
  split <;> rfl

/-- What LookupProgramCache does to the store -/
theorem OpenGLDevice.LookupProgramCache_effect (env : Environment) (key : ProgramCacheKey)
    (o : LookupOutcome) (d d2 : OpenGLDevice) (r : Nat)
    (h : d.LookupProgramCache env key o = some (r, d2)) :
    LookupEffect env key o d d2 := by
  unfold OpenGLDevice.LookupProgramCache at h
  split at h
  · rename_i item hfind
    split at h
    · rename_i hcond
      split at h
      · simp at h
      · rename_i prog d1 hcreate
        have hs1 := OpenGLDevice.CreateProgramFromPipelineCache_store env item o d d1 prog hcreate
        split at h
        · rename_i hprog
          have hfails : d.MaterializationFails env key o :=
            ⟨item, d1, hfind, hcond.1, hcond.2, by rw [hcreate, hprog]⟩
          have hm := (OpenGLDevice.LookupProgramCacheMiss_store env key o _ d2 r h).1
          rw [OpenGLDevice.DiscardPipelineCache_file, OpenGLDevice.DiscardPipelineCache_cursor,
            OpenGLDevice.DiscardPipelineCache_changed] at hm
          exact Or.inr ⟨hfails, by rw [← hs1.2.2.1]; exact hm⟩
        · rename_i hprog
          have hnot : ¬ d.MaterializationFails env key o := by
            rintro ⟨it, d1b, hf, _, _, hc⟩
            rw [hfind] at hf
            cases hf
            rw [hcreate] at hc
            simp only [Option.some.injEq, Prod.mk.injEq] at hc
            exact hprog hc.1
          have hs2 := OpenGLDevice.LookupProgramCacheHit_store key _ d2 r h
          have hs3 : d1.SameStore
              { d1 with m_program_cache := mapModify d1.m_program_cache key
                          (fun i => { i with program_id := prog }) } :=
            ⟨rfl, rfl, rfl, storedCount_mapModify _ _ _ (fun _ => rfl)⟩
          have hs := hs1.trans (hs3.trans hs2)
          exact Or.inl ⟨hnot, Or.inl ⟨hs.1, hs.2.1, hs.2.2.1⟩, le_of_eq hs.2.2.2.symm⟩
    · rename_i hcond
      have hnot : ¬ d.MaterializationFails env key o := by
        rintro ⟨it, d1b, hf, h1, h2, _⟩
        rw [hfind] at hf
        cases hf
        exact hcond ⟨h1, h2⟩
      have hs := OpenGLDevice.LookupProgramCacheHit_store key d d2 r h
      exact Or.inl ⟨hnot, Or.inl ⟨hs.1, hs.2.1, hs.2.2.1⟩, le_of_eq hs.2.2.2.symm⟩
  · rename_i hfind
    have hnot : ¬ d.MaterializationFails env key o := by
      rintro ⟨it, d1b, hf, _⟩
      rw [hfind] at hf
      cases hf
    have hm := OpenGLDevice.LookupProgramCacheMiss_store env key o d d2 r h
    exact Or.inl ⟨hnot, hm.1, hm.2⟩

theorem OpenGLDevice.UnrefProgram_store (key : ProgramCacheKey) (d d2 : OpenGLDevice)
    (h : d.UnrefProgram key = some d2) : d.SameStore d2 := by
  unfold OpenGLDevice.UnrefProgram at h
  split at h
  · simp at h
  · split at h
    · split at h
      · simp only [Option.some.injEq] at h
        rw [← h]
        exact ⟨rfl, rfl, rfl, storedCount_mapModify _ _ _ (fun _ => rfl)⟩
      · simp only [Option.some.injEq] at h
        rw [← h]
        refine ⟨?_, ?_, ?_, ?_⟩
        · simp only [OpenGLDevice.record_file]; split <;> rfl
        · simp only [OpenGLDevice.record_data_end]; split <;> rfl
        · simp only [OpenGLDevice.record_changed]; split <;> rfl
        · show storedCount (mapModify _ _ _) = _
          rw [storedCount_mapModify]
          · simp only [OpenGLDevice.record_program_cache]
            split <;> rfl
          · intro i
            rfl
    · simp at h

theorem OpenGLDevice.UnrefVAO_store (key : VertexArrayCacheKey) (d d2 : OpenGLDevice)
    (h : d.UnrefVAO key = some d2) : d.SameStore d2 := by
  unfold OpenGLDevice.UnrefVAO at h
  split at h
  · simp at h
  · split at h
    · split at h
      · simp only [Option.some.injEq] at h
        rw [← h]
        exact ⟨rfl, rfl, rfl, rfl⟩
      · simp only [Option.some.injEq] at h
        rw [← h]
        refine ⟨?_, ?_, ?_, ?_⟩
        · simp only [OpenGLDevice.record_file]; split <;> rfl
        · simp only [OpenGLDevice.record_data_end]; split <;> rfl
        · simp only [OpenGLDevice.record_changed]; split <;> rfl
        · simp only [OpenGLDevice.record_program_cache]; split <;> rfl
    · simp at h

theorem OpenGLDevice.LookupVAOCache_store (key : VertexArrayCacheKey) (vao : Nat)
    (error : Bool) (d : OpenGLDevice) : d.SameStore (d.LookupVAOCache key vao error).2 := by
  unfold OpenGLDevice.LookupVAOCache OpenGLDevice.CreateVAO
  split
  · exact ⟨rfl, rfl, rfl, rfl⟩
  · by_cases he : error = true
    · simp only [he, if_true]
      exact ⟨rfl, rfl, rfl, rfl⟩
    · simp only [he, if_false, Bool.false_eq_true]
      by_cases hv : vao = 0
      · simp only [hv, if_true]
        exact ⟨rfl, rfl, rfl, rfl⟩
      · simp only [hv, if_false]
        exact ⟨rfl, rfl, rfl, rfl⟩

theorem OpenGLDevice.UnbindPipeline_store (pl : OpenGLPipeline) (d : OpenGLDevice) :
    d.SameStore (d.UnbindPipeline pl) := by
  unfold OpenGLDevice.UnbindPipeline
  split <;> exact ⟨rfl, rfl, rfl, rfl⟩

theorem OpenGLDevice.DestroyPipeline_store (pl : OpenGLPipeline) (d d2 : OpenGLDevice)
    (h : d.DestroyPipeline pl = some d2) : d.SameStore d2 := by
  unfold OpenGLDevice.DestroyPipeline at h
  split at h
  · simp at h
  · rename_i d1 h1
    exact ((OpenGLDevice.UnbindPipeline_store pl d).trans
      (OpenGLDevice.UnrefProgram_store _ _ d1 h1)).trans (OpenGLDevice.UnrefVAO_store _ d1 d2 h)

theorem StoreAppend.append_congr {env : Environment} {o : LookupOutcome} {file : Option (List Byte)}
    {data_end : Nat} {changed : Bool} {d1 d2 : OpenGLDevice}
    (h : StoreAppend env o file data_end changed d1) (hs : d1.SameStore d2) :
    StoreAppend env o file data_end changed d2 := by
  rcases h with ⟨h1, h2, h3⟩ | ⟨f, c, hc, hf, h1, h2, h3⟩
  · exact Or.inl ⟨hs.1.trans h1, hs.2.1.trans h2, hs.2.2.1.trans h3⟩
  · exact Or.inr ⟨f, c, hc, hf, hs.1.trans h1, hs.2.1.trans h2, hs.2.2.1.trans h3⟩

theorem LookupEffect.effect_congr {env : Environment} {key : ProgramCacheKey} {o : LookupOutcome}
    {d d1 d2 : OpenGLDevice} (h : LookupEffect env key o d d1) (hs : d1.SameStore d2) :
    LookupEffect env key o d d2 := by
  rcases h with ⟨h1, h2, h3⟩ | ⟨h1, h2⟩
  · exact Or.inl ⟨h1, h2.append_congr hs, by rw [hs.2.2.2]; exact h3⟩
  · exact Or.inr ⟨h1, h2.append_congr hs⟩

/-- What CreatePipeline does to the store: what its lookup of the program does -/
theorem OpenGLDevice.CreatePipeline_effect (env : Environment) (config : GraphicsConfig)
    (o : CreateOutcome) (d d2 : OpenGLDevice) (r : Option OpenGLPipeline)
    (h : d.CreatePipeline env config o = some (r, d2)) :
    ∃ pkey, GetProgramCacheKey config = some pkey ∧ LookupEffect env pkey o.lookup d d2 := by
  unfold OpenGLDevice.CreatePipeline at h
  cases hkey : GetProgramCacheKey config with
  | none => rw [hkey] at h; simp at h
  | some pkey =>
    rw [hkey] at h
    refine ⟨pkey, rfl, ?_⟩
    simp only at h
    cases hlookup : d.LookupProgramCache env pkey o.lookup with
    | none => rw [hlookup] at h; simp at h
    | some p =>
      obtain ⟨prog, d1⟩ := p
      rw [hlookup] at h
      have he := OpenGLDevice.LookupProgramCache_effect env pkey o.lookup d d1 prog hlookup
      simp only at h
      by_cases hp : prog = 0
      · simp only [hp, if_true, Option.some.injEq, Prod.mk.injEq] at h
        rw [← h.2]
        exact he
      · simp only [hp, if_false] at h
        have hv := OpenGLDevice.LookupVAOCache_store pkey.va_key o.vao o.vao_error d1
        generalize d1.LookupVAOCache pkey.va_key o.vao o.vao_error = res at h hv
        obtain ⟨v, d1b⟩ := res
        simp only at h
        by_cases hv0 : v = 0
        · simp only [hv0, if_true] at h
          cases hunref : d1b.UnrefProgram pkey with
          | none => rw [hunref] at h; simp at h
          | some d3 =>
            rw [hunref] at h
            simp only [Option.some.injEq, Prod.mk.injEq] at h
            rw [← h.2]
            exact he.effect_congr (hv.trans (OpenGLDevice.UnrefProgram_store _ _ d3 hunref))
        · simp only [hv0, if_false, Option.some.injEq, Prod.mk.injEq] at h
          rw [← h.2]
          exact he.effect_congr hv

/-- What a call of a session does to the store: nothing when it makes no lookup, else
what its lookup does -/
theorem OpenGLDevice.call_effect (env : Environment) (c : SessionCall) (d d2 : OpenGLDevice)
    (h : d.call env c = some d2) :
    (c.lookup = none ∧ d.SameStore d2) ∨
    (∃ p, c.lookup = some p ∧ LookupEffect env p.1 p.2 d d2) := by
  cases c with
  | LookupProgramCache key o =>
    simp only [OpenGLDevice.call, Option.map_eq_some', Prod.exists, exists_eq_right] at h
    obtain ⟨r, h⟩ := h
    exact Or.inr ⟨(key, o), rfl, OpenGLDevice.LookupProgramCache_effect env key o d d2 r h⟩
  | UnrefProgram key =>
    exact Or.inl ⟨rfl, OpenGLDevice.UnrefProgram_store key d d2 h⟩
  | CreatePipeline config o =>
    simp only [OpenGLDevice.call, Option.map_eq_some', Prod.exists, exists_eq_right] at h
    obtain ⟨r, h⟩ := h
    obtain ⟨pkey, hkey, he⟩ := OpenGLDevice.CreatePipeline_effect env config o d d2 r h
    exact Or.inr ⟨(pkey, o.lookup), by simp [SessionCall.lookup, hkey], he⟩
  | DestroyPipeline pl =>
    exact Or.inl ⟨rfl, OpenGLDevice.DestroyPipeline_store pl d d2 h⟩

theorem blobOf_eq (env : Environment) (o : LookupOutcome) (c : List Byte)
    (h : env.ZSTD_compress (serializedOf o) = some c) : blobOf env o = c := by
  unfold blobOf
  rw [h]
  rfl

theorem StoreAppend.data_end_le {env : Environment} {o : LookupOutcome}
    {file : Option (List Byte)} {data_end : Nat} {changed : Bool} {d2 : OpenGLDevice}
    (h : StoreAppend env o file data_end changed d2)
    (hfit : data_end + (blobOf env o).length < 2 ^ 32) :
    data_end ≤ d2.m_pipeline_disk_cache_data_end := by
  rcases h with ⟨_, h2, _⟩ | ⟨f, c, hc, _, _, h2, _⟩
  · rw [h2]
  · rw [blobOf_eq env o c hc] at hfit
    rw [h2]
    omega

set_option maxRecDepth 100000 in
/-- C17 fails as stated: the device has just read the sample file (one persisted blob,
data_end 3); the lookup of its key reads the blob, but the binary does not link, so
the store is discarded, the program is compiled and its blob of two bytes is appended
to the emptied file. The lookup returns program 9, and data_end has gone from 3 to 2 -/
theorem C17_counterexample :
    (OpenGLDevice.empty.ReadPipelineCache sampleEnvironment "cache.bin"
        (sampleRead sampleFile)).2 = sampleLoadedDevice ∧
      sampleLoadedDevice.m_pipeline_disk_cache_data_end = 3 ∧
      (sampleLoadedDevice.LookupProgramCache sampleEnvironment (sampleKey 1)
          sampleRelink).map (fun r => (r.1, r.2.m_pipeline_disk_cache_data_end)) =
        some (9, 2) := by
  refine ⟨rfl, rfl, rfl⟩

/-- C17, amended: for every call of a session that does not abort (LookupProgramCache,
UnrefProgram, CreatePipeline, destruction of a pipeline), data_end after the call is
at least data_end before it when the lookup of the call, if it makes one, does not
find a persisted blob that fails to materialize and the blob it may append ends
below 2^32. When a persisted blob fails to materialize, the store is discarded and
data_end is afterwards 0 or the length of the one blob appended since -/
theorem C17_data_end_monotone (env : Environment) (c : SessionCall) (d d2 : OpenGLDevice)
    (h : d.call env c = some d2) :
    (¬ c.Fails env d →
      (∀ p, c.lookup = some p →
        d.m_pipeline_disk_cache_data_end + (blobOf env p.2).length < 2 ^ 32) →
      d.m_pipeline_disk_cache_data_end ≤ d2.m_pipeline_disk_cache_data_end) ∧
    (c.Fails env d →
      d2.m_pipeline_disk_cache_data_end = 0 ∨
      ∃ p, c.lookup = some p ∧
        d2.m_pipeline_disk_cache_data_end = (blobOf env p.2).length % 2 ^ 32) := by
  rcases OpenGLDevice.call_effect env c d d2 h with ⟨hnone, hs⟩ | ⟨p, hp, he⟩
  · refine ⟨fun _ _ => le_of_eq hs.2.1.symm, ?_⟩
    rintro ⟨p, hp, _⟩
    rw [hnone] at hp
    cases hp
  · rcases he with ⟨hnot, ha, _⟩ | ⟨hfail, ha⟩
    · refine ⟨fun _ hfit => ha.data_end_le (hfit p hp), ?_⟩
      rintro ⟨q, hq, hf⟩
      rw [hp] at hq
      cases hq
      exact absurd hf hnot
    · refine ⟨fun hno => absurd ⟨p, hp, hfail⟩ hno, fun _ => ?_⟩
      rcases ha with ⟨_, h2, _⟩ | ⟨f, c, hc, _, _, h2, _⟩
      · exact Or.inl h2
      · refine Or.inr ⟨p, hp, ?_⟩
        rw [h2, blobOf_eq env p.2 c hc]
        simp

theorem sampleCall_not_fails : ¬ sampleCall.Fails sampleEnvironment sampleDevice := by
  rintro ⟨p, _, it, d1, hf, _⟩
  cases hf

theorem sampleCall_sound : sampleCall.Sound sampleEnvironment sampleDevice := by
  intro p hp
  cases hp
  exact ⟨rfl, rfl, by decide⟩

/-- C17 at the open, empty sample device: the lookup of a new key compiles program 7
and appends its blob of three bytes, data_end goes from 0 to 3 -/
theorem C17_data_end_monotone_witness :
    sampleDevice.call sampleEnvironment sampleCall = some sampleAppendedDevice ∧
      sampleDevice.m_pipeline_disk_cache_data_end ≤
        sampleAppendedDevice.m_pipeline_disk_cache_data_end :=
  ⟨rfl, (C17_data_end_monotone sampleEnvironment sampleCall sampleDevice sampleAppendedDevice
    rfl).1 sampleCall_not_fails (fun p hp => (sampleCall_sound p hp).2.2)⟩

/-! ## The layout of the file that ClosePipelineCache leaves -/

theorem OpenGLDevice.SameStore.same_coherent {d d2 : OpenGLDevice} (hs : d.SameStore d2)
    (h : d.StoreCoherent) : d2.StoreCoherent := by
  obtain ⟨file, hf, h1, h2⟩ := h
  exact ⟨file, hs.1.trans hf, by rw [hs.2.1]; exact h1, by rw [hs.2.1, hs.2.2.2]; exact h2⟩

/-- A discarded store that was reopened is coherent -/
theorem OpenGLDevice.DiscardPipelineCache_coherent (d : OpenGLDevice) :
    (d.DiscardPipelineCache true).2.StoreCoherent :=
  ⟨[], rfl, Nat.zero_le _, Nat.zero_le _⟩

theorem StoreAppend.append_coherent {env : Environment} {o : LookupOutcome}
    {file : List Byte} {data_end : Nat} {changed : Bool} {d2 : OpenGLDevice} (n : Nat)
    (h : StoreAppend env o (some file) data_end changed d2)
    (hw : o.write_ok = true) (hfit : data_end + (blobOf env o).length < 2 ^ 32)
    (h1 : data_end ≤ file.length) (h2 : file.length ≤ data_end + 128 * n + 392)
    (hn : n ≤ storedCount d2.m_program_cache) : d2.StoreCoherent := by
  rcases h with ⟨e1, e2, _⟩ | ⟨f, c, hc, hf, e1, e2, _⟩
  · refine ⟨file, e1, by rw [e2]; exact h1, ?_⟩
    rw [e2]
    omega
  · rw [blobOf_eq env o c hc] at hfit
    cases hf
    have he2 : d2.m_pipeline_disk_cache_data_end = data_end + c.length := by
      rw [e2]
      omega
    by_cases hc0 : 0 < c.length
    · rw [if_pos ⟨hw, hc0⟩] at e1
      refine ⟨_, e1, ?_, ?_⟩
      · rw [length_fwrite, he2]
        omega
      · rw [length_fwrite, he2]
        omega
    · rw [if_neg (fun hh => hc0 hh.2)] at e1
      refine ⟨_, e1, ?_, ?_⟩
      · rw [he2]
        omega
      · rw [he2]
        omega

theorem LookupEffect.effect_coherent {env : Environment} {key : ProgramCacheKey} {o : LookupOutcome}
    {d d2 : OpenGLDevice} (h : LookupEffect env key o d d2) (hs : o.Sound env d)
    (hc : d.StoreCoherent) : d2.StoreCoherent := by
  obtain ⟨hw, hre, hfit⟩ := hs
  rcases h with ⟨_, ha, hn⟩ | ⟨_, ha⟩
  · obtain ⟨file, hf, h1, h2⟩ := hc
    rw [hf] at ha
    exact ha.append_coherent _ hw hfit h1 h2 hn
  · rw [if_pos hre] at ha
    exact ha.append_coherent 0 hw (by omega) (Nat.le_refl _) (by simp) (Nat.zero_le _)

theorem OpenGLDevice.call_coherent (env : Environment) (c : SessionCall) (d d2 : OpenGLDevice)
    (h : d.call env c = some d2) (hs : c.Sound env d) (hc : d.StoreCoherent) :
    d2.StoreCoherent := by
  rcases OpenGLDevice.call_effect env c d d2 h with ⟨_, hsame⟩ | ⟨p, hp, he⟩
  · exact hsame.same_coherent hc
  · exact he.effect_coherent (hs p hp) hc

theorem OpenGLDevice.Runs.runs_coherent (env : Environment) (calls : List SessionCall)
    (d d2 : OpenGLDevice) (h : d.Runs env calls d2) (hc : d.StoreCoherent) :
    d2.StoreCoherent := by
  induction calls generalizing d with
  | nil =>
    cases h
    exact hc
  | cons c cs ih =>
    obtain ⟨hs, d1, h1, hrest⟩ := h
    exact ih d1 hrest (OpenGLDevice.call_coherent env c d d1 h1 hs hc)

/-- The store is coherent after ReadPipelineCache, whether it accepts the file or not,
when the file has the layout that ClosePipelineCache writes -/
theorem OpenGLDevice.ReadPipelineCache_coherent (env : Environment) (filename : String)
    (o : ReadOutcome) (d : OpenGLDevice) (blobs : List Byte)
    (es : List PipelineDiskCacheIndexEntry) (ft : PipelineDiskCacheFooter)
    (hempty : d.m_program_cache = [])
    (hopen : o.open_result = OpenResult.opened
      (blobs ++ es.flatMap (fun e => e.bytes) ++ PipelineDiskCacheFooter.bytes ft))
    (hreopen : o.reopen_ok = true)
    (hnum : ft.num_programs = es.length)
    (hes : ∀ e ∈ es, 0 < e.uncompressed_size ∧ e.uncompressed_size < 2 ^ 32) :
    (d.ReadPipelineCache env filename o).2.StoreCoherent := by
  have hlen : (blobs ++ es.flatMap (fun e => e.bytes) ++
      PipelineDiskCacheFooter.bytes ft).length = blobs.length + 128 * es.length + 392 := by
    simp only [List.length_append, length_flatMap_entry_bytes,
      PipelineDiskCacheFooter.length_footer_bytes]
  rcases OpenGLDevice.ReadPipelineCache_cases env filename o d _ hopen with hdisc | ⟨hvalid, hread⟩
  · rw [hdisc, hreopen]
    exact OpenGLDevice.DiscardPipelineCache_coherent _
  · rw [hread]
    have hmax := hvalid.2.1
    rw [hlen] at hmax
    have hn : (storeFooter (blobs ++ es.flatMap (fun e => e.bytes) ++
        PipelineDiskCacheFooter.bytes ft)).num_programs = es.length := by
      rw [storeFooter_append, PipelineDiskCacheFooter.ofBytes_footer_bytes, hnum]
      exact Nat.mod_eq_of_lt (by omega)
    have hstart := storeIndexStart_eq _ es.length hn (by rw [hlen]; exact hmax)
      (by rw [hlen]; simp only [FOOTER_SIZE, INDEX_ENTRY_SIZE]; omega)
    rw [hlen] at hstart
    simp only [FOOTER_SIZE, INDEX_ENTRY_SIZE] at hstart
    have hstart2 : storeIndexStart (blobs ++ es.flatMap (fun e => e.bytes) ++
        PipelineDiskCacheFooter.bytes ft) = blobs.length := by
      rw [hstart]
      omega
    have hcount : storedCount ((storeIndex (blobs ++ es.flatMap (fun e => e.bytes) ++
        PipelineDiskCacheFooter.bytes ft)).map entryItem) = es.length := by
      unfold storeIndex
      rw [hn, hstart2, indexRecords_append]
      unfold storedCount storedEntries
      rw [List.filter_eq_self.mpr, List.length_map, List.length_map]
      intro p hp
      simp only [List.map_map, List.mem_map, Function.comp_apply] at hp
      obtain ⟨e, he, hpe⟩ := hp
      rw [← hpe, PipelineDiskCacheIndexEntry.ofBytes_entry_bytes]
      obtain ⟨h0, h32⟩ := hes e he
      simp only [entryItem, ne_eq, decide_not, Bool.not_eq_eq_eq_not, Bool.not_true,
        decide_eq_false_iff_not]
      rw [Nat.mod_eq_of_lt h32]
      omega
    refine ⟨_, rfl, ?_, ?_⟩
    · show storeIndexStart _ ≤ _
      rw [hstart2, hlen]
      omega
    · show _ ≤ storeIndexStart _ + 128 * storedCount (d.m_program_cache ++ _) + 392
      rw [hstart2, hlen, hempty, List.nil_append, hcount]

/-- A device at the start of a session has a coherent store -/
theorem OpenGLDevice.StartsSession.start_coherent {env : Environment} {d : OpenGLDevice}
    (h : d.StartsSession env) : d.StoreCoherent := by
  rcases h with ⟨d0, rfl⟩ | ⟨d0, filename, o, blobs, es, ft, h1, h2, h3, h4, h5, rfl⟩
  · exact OpenGLDevice.DiscardPipelineCache_coherent d0
  · exact OpenGLDevice.ReadPipelineCache_coherent env filename o d0 blobs es ft h1 h2 h3 h4 h5

/-- A write at a position inside the file that reaches its end or beyond replaces the
tail of the file -/
theorem fwrite_tail (file data : List Byte) (pos : Nat) (h1 : pos ≤ file.length)
    (h2 : file.length ≤ pos + data.length) :
    fwrite file pos data = file.take pos ++ data := by
  rw [fwrite_eq, Nat.sub_eq_zero_of_le h1, List.drop_of_length_le h2]
  simp

/-- C18: a session starts from a discarded (or absent, hence empty) store or from
ReadPipelineCache of a file with the layout that ClosePipelineCache writes; every call
of it (LookupProgramCache, UnrefProgram, CreatePipeline, destruction of a pipeline)
returns, every blob is written, a discarded file reopens and data_end stays below
2^32; something was appended (the store is dirty) and the writes of
ClosePipelineCache succeed. Then the file that ClosePipelineCache leaves is the first
data_end bytes of the open file, then one index record of 128 bytes for every stored
entry, then the footer of 392 bytes, and nothing after it: its length is
data_end + 128 * record_count + 392 -/
theorem C18_close_layout (env : Environment) (calls : List SessionCall) (oc : CloseOutcome)
    (d0 d : OpenGLDevice) (hstart : d0.StartsSession env) (hrun : d0.Runs env calls d)
    (hchanged : d.m_pipeline_disk_cache_changed = true)
    (hseek : oc.seek_ok = true) (hentry : ∀ i, oc.entry_ok i = true)
    (hfooter : oc.footer_ok = true) :
    ∃ file content, d.m_pipeline_disk_cache_file = some file ∧
      d.ClosePipelineCache env oc =
        some (content, { d with m_pipeline_disk_cache_file := none }) ∧
      content = file.take d.m_pipeline_disk_cache_data_end ++ indexBytes d.m_program_cache ++
        PipelineDiskCacheFooter.bytes (closeFooter env oc d.m_program_cache) ∧
      (file.take d.m_pipeline_disk_cache_data_end).length = d.m_pipeline_disk_cache_data_end ∧
      (indexBytes d.m_program_cache).length = 128 * storedCount d.m_program_cache ∧
      (PipelineDiskCacheFooter.bytes (closeFooter env oc d.m_program_cache)).length = 392 ∧
      content.length =
        d.m_pipeline_disk_cache_data_end + 128 * storedCount d.m_program_cache + 392 := by
  obtain ⟨file, hf, h1, h2⟩ := OpenGLDevice.Runs.runs_coherent env calls d0 d hrun hstart.start_coherent
  have hindex := length_indexBytes d.m_program_cache
  have hfoot := PipelineDiskCacheFooter.length_footer_bytes (closeFooter env oc d.m_program_cache)
  have htake : (file.take d.m_pipeline_disk_cache_data_end).length =
      d.m_pipeline_disk_cache_data_end := by
    rw [List.length_take]
    omega
  refine ⟨file, _, hf, ?_, rfl, htake, hindex, hfoot, ?_⟩
  · rw [OpenGLDevice.ClosePipelineCache_fwrite env oc d file hf hchanged hseek hentry hfooter,
      fwrite_tail _ _ _ h1, List.append_assoc]
    rw [List.length_append, hindex, hfoot]
    unfold storedCount at h2
    omega
  · rw [List.length_append, List.length_append, htake, hindex, hfoot]
    rfl

/-- C18 at the session that starts from a discarded store and looks one program up,
whose blob of three bytes is appended -/
theorem C18_close_layout_witness :
    ∃ file content, sampleAppendedDevice.m_pipeline_disk_cache_file = some file ∧
      sampleAppendedDevice.ClosePipelineCache sampleEnvironment sampleClose =
        some (content, { sampleAppendedDevice with m_pipeline_disk_cache_file := none }) ∧
      content = file.take sampleAppendedDevice.m_pipeline_disk_cache_data_end ++
        indexBytes sampleAppendedDevice.m_program_cache ++
        PipelineDiskCacheFooter.bytes
          (closeFooter sampleEnvironment sampleClose sampleAppendedDevice.m_program_cache) ∧
      (file.take sampleAppendedDevice.m_pipeline_disk_cache_data_end).length =
        sampleAppendedDevice.m_pipeline_disk_cache_data_end ∧
      (indexBytes sampleAppendedDevice.m_program_cache).length =
        128 * storedCount sampleAppendedDevice.m_program_cache ∧
      (PipelineDiskCacheFooter.bytes
        (closeFooter sampleEnvironment sampleClose
          sampleAppendedDevice.m_program_cache)).length = 392 ∧
      content.length =
        sampleAppendedDevice.m_pipeline_disk_cache_data_end +
          128 * storedCount sampleAppendedDevice.m_program_cache + 392 :=
  C18_close_layout sampleEnvironment [sampleCall] sampleClose sampleDevice sampleAppendedDevice
    (Or.inl ⟨OpenGLDevice.empty, rfl⟩) ⟨sampleCall_sound, sampleAppendedDevice, rfl, rfl⟩
    rfl rfl (fun _ => rfl) rfl

/-! ## A store with another fingerprint -/

/-- ReadPipelineCache discards a file whose footer has another fingerprint -/
theorem OpenGLDevice.ReadPipelineCache_mismatch (env : Environment) (filename : String)
    (o : ReadOutcome) (d : OpenGLDevice) (file : List Byte)
    (hopen : o.open_result = OpenResult.opened file)
    (hdiff : ¬ FingerprintMatches env o.stack_footer file) :
    d.ReadPipelineCache env filename o =
      { d with m_pipeline_disk_cache_file := some file,
               m_pipeline_disk_cache_filename := filename }.DiscardPipelineCache
        o.reopen_ok := by
  rcases OpenGLDevice.ReadPipelineCache_cases env filename o d file hopen with h | ⟨hv, _⟩
  · exact h
  · obtain ⟨_, _, _, h4, h5, h6, h7, _⟩ := hv
    exact absurd ⟨h4, h5, h6, h7⟩ hdiff

theorem OpenGLDevice.call_clean (env : Environment) (c : SessionCall) (d d2 : OpenGLDevice)
    (h : d.call env c = some d2) (hs : c.Sound env d)
    (hd : d.m_pipeline_disk_cache_changed = false → d.m_pipeline_disk_cache_file = some [])
    (h2 : d2.m_pipeline_disk_cache_changed = false) :
    d2.m_pipeline_disk_cache_file = some [] := by
  rcases OpenGLDevice.call_effect env c d d2 h with ⟨_, hsame⟩ | ⟨p, hp, he⟩
  · rw [hsame.1]
    exact hd (hsame.2.2.1.symm.trans h2)
  · rcases he with ⟨_, ha, _⟩ | ⟨_, ha⟩
    · rcases ha with ⟨e1, _, e3⟩ | ⟨_, _, _, _, _, _, e3⟩
      · rw [e1]
        exact hd (e3.symm.trans h2)
      · rw [e3] at h2
        cases h2
    · rw [if_pos (hs p hp).2.1] at ha
      rcases ha with ⟨e1, _, _⟩ | ⟨_, _, _, _, _, _, e3⟩
      · exact e1
      · rw [e3] at h2
        cases h2

/-- While nothing is appended, the file of a store that was emptied stays empty -/
theorem OpenGLDevice.Runs.clean (env : Environment) (calls : List SessionCall)
    (d d2 : OpenGLDevice) (h : d.Runs env calls d2)
    (hd : d.m_pipeline_disk_cache_changed = false → d.m_pipeline_disk_cache_file = some [])
    (h2 : d2.m_pipeline_disk_cache_changed = false) :
    d2.m_pipeline_disk_cache_file = some [] := by
  induction calls generalizing d with
  | nil =>
    cases h
    exact hd h2
  | cons c cs ih =>
    obtain ⟨hs, d1, h1, hrest⟩ := h
    exact ih d1 hrest (OpenGLDevice.call_clean env c d d1 h1 hs hd)

/-- A file that ends in the footer ClosePipelineCache writes has the fingerprint of
the environment -/
theorem closeFooter_fingerprint (env : Environment) (o : CloseOutcome)
    (cache : List (ProgramCacheKey × ProgramCacheItem)) (stack : PipelineDiskCacheFooter)
    (pre : List Byte) :
    FingerprintMatches env stack
      (pre ++ PipelineDiskCacheFooter.bytes (closeFooter env o cache)) := by
  unfold FingerprintMatches
  rw [storeFooter_append, PipelineDiskCacheFooter.ofBytes_footer_bytes]
  obtain ⟨_, h2, h3, h4⟩ := closeFooter_matches env o cache stack
  refine ⟨?_, h2, h3, h4⟩
  show env.version % 2 ^ 32 % 2 ^ 32 = env.version % 2 ^ 32
  exact Nat.mod_mod _ _

theorem OpenGLDevice.ClosePipelineCache_clean (env : Environment) (o : CloseOutcome)
    (d : OpenGLDevice) (file : List Byte)
    (hfile : d.m_pipeline_disk_cache_file = some file)
    (hchanged : d.m_pipeline_disk_cache_changed = false) :
    d.ClosePipelineCache env o = some (file, { d with m_pipeline_disk_cache_file := none }) := by
  unfold OpenGLDevice.ClosePipelineCache
  simp [hfile, hchanged]

set_option maxRecDepth 100000 in
/-- C15 fails as stated: the sample file was written under version 3 of the shader
cache and is read under version 4. ReadPipelineCache reuses no entry and empties the
file; ClosePipelineCache right after it, nothing having been appended, leaves the
file empty: it does not end in a footer -/
theorem C15_counterexample :
    (storeFooter sampleFile).version = 3 ∧ sampleNewEnvironment.version = 4 ∧
      (OpenGLDevice.empty.ReadPipelineCache sampleNewEnvironment "cache.bin"
        (sampleRead sampleFile)).2.m_program_cache = [] ∧
      ((OpenGLDevice.empty.ReadPipelineCache sampleNewEnvironment "cache.bin"
        (sampleRead sampleFile)).2.ClosePipelineCache sampleNewEnvironment sampleClose).map
          Prod.fst = some [] := by
  refine ⟨rfl, rfl, rfl, rfl⟩

/-- C15, amended: a file that opens and whose footer differs from the fingerprint of
the environment (in the version or in one of the three driver strings) is read into
an empty program cache, the file reopening on discard. No entry is reused and the
file is emptied. After any calls of a session that return and keep the store intact,
ClosePipelineCache with successful writes leaves a file that ends in a footer with
the fingerprint of the environment when the store is dirty, a blob having been
appended; when the store is not dirty, nothing having been appended, the file stays
empty, without a footer -/
theorem C15_other_fingerprint (env : Environment) (filename : String) (o : ReadOutcome)
    (d0 : OpenGLDevice) (file : List Byte) (calls : List SessionCall) (oc : CloseOutcome)
    (d : OpenGLDevice)
    (hopen : o.open_result = OpenResult.opened file)
    (hdiff : ¬ FingerprintMatches env o.stack_footer file)
    (hreopen : o.reopen_ok = true)
    (hempty : d0.m_program_cache = [])
    (hrun : (d0.ReadPipelineCache env filename o).2.Runs env calls d)
    (hseek : oc.seek_ok = true) (hentry : ∀ i, oc.entry_ok i = true)
    (hfooter : oc.footer_ok = true) :
    (d0.ReadPipelineCache env filename o).2.m_program_cache = [] ∧
      (d0.ReadPipelineCache env filename o).2.m_pipeline_disk_cache_file = some [] ∧
      ∃ content,
        d.ClosePipelineCache env oc =
          some (content, { d with m_pipeline_disk_cache_file := none }) ∧
        (d.m_pipeline_disk_cache_changed = false → content = []) ∧
        (d.m_pipeline_disk_cache_changed = true →
          392 ≤ content.length ∧ ∀ stack, FingerprintMatches env stack content) := by
  have hread := OpenGLDevice.ReadPipelineCache_mismatch env filename o d0 file hopen hdiff
  rw [hreopen] at hread
  rw [hread] at hrun ⊢
  have hcoh := OpenGLDevice.Runs.runs_coherent env calls _ d hrun
    (OpenGLDevice.DiscardPipelineCache_coherent _)
  have hcl := OpenGLDevice.Runs.clean env calls _ d hrun (fun _ => rfl)
  refine ⟨?_, rfl, ?_⟩
  · rw [OpenGLDevice.DiscardPipelineCache_program_cache]
    show d0.m_program_cache.filterMap discardEntry = []
    rw [hempty]
    rfl
  · obtain ⟨f, hf, h1, h2⟩ := hcoh
    by_cases hch : d.m_pipeline_disk_cache_changed = true
    case neg =>
      have hch2 : d.m_pipeline_disk_cache_changed = false := Bool.eq_false_iff.mpr hch
      have hf2 := hcl hch2
      exact ⟨[], OpenGLDevice.ClosePipelineCache_clean env oc d [] hf2 hch2,
        fun _ => rfl, fun h => absurd h hch⟩
    case pos =>
      have hindex := length_indexBytes d.m_program_cache
      have hfoot := PipelineDiskCacheFooter.length_footer_bytes
        (closeFooter env oc d.m_program_cache)
      have hw : fwrite f d.m_pipeline_disk_cache_data_end
          (indexBytes d.m_program_cache ++
            PipelineDiskCacheFooter.bytes (closeFooter env oc d.m_program_cache)) =
          (f.take d.m_pipeline_disk_cache_data_end ++ indexBytes d.m_program_cache) ++
            PipelineDiskCacheFooter.bytes (closeFooter env oc d.m_program_cache) := by
        rw [fwrite_tail _ _ _ h1, List.append_assoc]
        rw [List.length_append, hindex, hfoot]
        unfold storedCount at h2
        omega
      refine ⟨_, OpenGLDevice.ClosePipelineCache_fwrite env oc d f hf hch hseek hentry hfooter,
        fun h => Bool.noConfusion (hch.symm.trans h), fun _ => ⟨?_, fun stack => ?_⟩⟩
      · rw [hw, List.length_append, hfoot]
        omega
      · rw [hw]
        exact closeFooter_fingerprint env oc _ stack _

set_option maxRecDepth 100000 in
theorem sampleCall_sound_new :
    sampleCall.Sound sampleNewEnvironment
      (OpenGLDevice.empty.ReadPipelineCache sampleNewEnvironment "cache.bin"
        (sampleRead sampleFile)).2 := by
  intro p hp
  cases hp
  exact ⟨rfl, rfl, by decide⟩

set_option maxRecDepth 100000 in
/-- C15 at the sample file read under version 4, followed by the lookup of one program
whose blob is appended -/
theorem C15_other_fingerprint_witness :
    (OpenGLDevice.empty.ReadPipelineCache sampleNewEnvironment "cache.bin"
        (sampleRead sampleFile)).2.m_program_cache = [] ∧
      (OpenGLDevice.empty.ReadPipelineCache sampleNewEnvironment "cache.bin"
        (sampleRead sampleFile)).2.m_pipeline_disk_cache_file = some [] ∧
      ∃ content,
        sampleRebuiltDevice.ClosePipelineCache sampleNewEnvironment sampleClose =
          some (content, { sampleRebuiltDevice with m_pipeline_disk_cache_file := none }) ∧
        (sampleRebuiltDevice.m_pipeline_disk_cache_changed = false → content = []) ∧
        (sampleRebuiltDevice.m_pipeline_disk_cache_changed = true →
          392 ≤ content.length ∧
            ∀ stack, FingerprintMatches sampleNewEnvironment stack content) :=
  C15_other_fingerprint sampleNewEnvironment "cache.bin" (sampleRead sampleFile)
    OpenGLDevice.empty sampleFile [sampleCall] sampleClose sampleRebuiltDevice rfl
    (fun h => absurd h.1 (by decide)) rfl rfl
    ⟨sampleCall_sound_new, sampleRebuiltDevice, rfl, rfl⟩ rfl (fun _ => rfl) rfl

/-! ## Live entries of a discarded store -/

theorem liveUnstored_unstored {cache : List (ProgramCacheKey × ProgramCacheItem)}
    {key : ProgramCacheKey} (h : LiveUnstored cache key) : Unstored cache key := by
  obtain ⟨it, h1, _, h3⟩ := h
  exact ⟨it, h1, h3⟩

theorem liveUnstored_mapModify {cache : List (ProgramCacheKey × ProgramCacheItem)}
    {key : ProgramCacheKey} (h : LiveUnstored cache key) (k : ProgramCacheKey)
    (f : ProgramCacheItem → ProgramCacheItem)
    (hf : ∀ i, (f i).file_uncompressed_size = i.file_uncompressed_size)
    (hp : k = key → ∀ i, i.program_id ≠ 0 → (f i).program_id ≠ 0) :
    LiveUnstored (mapModify cache k f) key := by
  obtain ⟨it, h1, h2, h3⟩ := h
  by_cases hk : key = k
  · refine ⟨f it, ?_, hp hk.symm it h2, by rw [hf]; exact h3⟩
    rw [mapFind_mapModify, if_pos hk, ← hk, h1]
    rfl
  · refine ⟨it, ?_, h2, h3⟩
    rw [mapFind_mapModify, if_neg hk, h1]

theorem unstored_mapModify {cache : List (ProgramCacheKey × ProgramCacheItem)}
    {key : ProgramCacheKey} (h : LiveUnstored cache key) (k : ProgramCacheKey)
    (f : ProgramCacheItem → ProgramCacheItem)
    (hf : ∀ i, (f i).file_uncompressed_size = i.file_uncompressed_size) :
    Unstored (mapModify cache k f) key := by
  obtain ⟨it, h1, _, h3⟩ := h
  by_cases hk : key = k
  · refine ⟨f it, ?_, by rw [hf]; exact h3⟩
    rw [mapFind_mapModify, if_pos hk, ← hk, h1]
    rfl
  · refine ⟨it, ?_, h3⟩
    rw [mapFind_mapModify, if_neg hk, h1]

theorem liveUnstored_mapErase {cache : List (ProgramCacheKey × ProgramCacheItem)}
    {key : ProgramCacheKey} (h : LiveUnstored cache key) (k : ProgramCacheKey)
    (hk : key ≠ k) : LiveUnstored (mapErase cache k) key := by
  obtain ⟨it, h1, h2, h3⟩ := h
  exact ⟨it, by rw [mapFind_mapErase_ne _ _ _ hk, h1], h2, h3⟩

/-- The first entry of a key with a program is still the first entry of the key after
a discard, without its locator -/
theorem mapFind_filterMap_live (m : List (ProgramCacheKey × ProgramCacheItem))
    (key : ProgramCacheKey) (it : ProgramCacheItem) (h : mapFind m key = some it)
    (hp : it.program_id ≠ 0) :
    mapFind (m.filterMap discardEntry) key =
      some { it with file_format := 0, file_offset := 0, file_uncompressed_size := 0,
                     file_compressed_size := 0 } := by
  induction m with
  | nil => simp [mapFind] at h
  | cons q m ih =>
    obtain ⟨k, w⟩ := q
    by_cases hk : k = key
    · subst hk
      simp only [mapFind, if_true, Option.some.injEq] at h
      subst h
      simp [List.filterMap_cons, discardEntry, hp, mapFind]
    · simp only [mapFind, hk, if_false] at h
      rw [List.filterMap_cons]
      cases hd : discardEntry (k, w) with
      | none => exact ih h
      | some q2 =>
        have hfst := discardEntry_fst _ _ hd
        obtain ⟨k2, w2⟩ := q2
        simp only at hfst
        subst hfst
        simp only [mapFind, hk, if_false]
        exact ih h

theorem liveUnstored_discard {cache : List (ProgramCacheKey × ProgramCacheItem)}
    {key : ProgramCacheKey} (h : LiveUnstored cache key) :
    LiveUnstored (cache.filterMap discardEntry) key := by
  obtain ⟨it, h1, h2, _⟩ := h
  exact ⟨_, mapFind_filterMap_live cache key it h1 h2, h2, rfl⟩

theorem mapFind_mapEmplace_of_some {K V : Type} [DecidableEq K] (m : List (K × V)) (key k : K)
    (v w : V) (h : mapFind m key = some w) : mapFind (mapEmplace m k v) key = some w := by
  unfold mapEmplace
  split
  · exact h
  · rw [mapFind_append, h]
    rfl

theorem liveUnstored_mapEmplace {cache : List (ProgramCacheKey × ProgramCacheItem)}
    {key : ProgramCacheKey} (h : LiveUnstored cache key) (k : ProgramCacheKey)
    (v : ProgramCacheItem) : LiveUnstored (mapEmplace cache k v) key := by
  obtain ⟨it, h1, h2, h3⟩ := h
  exact ⟨it, mapFind_mapEmplace_of_some _ _ _ _ _ h1, h2, h3⟩

theorem OpenGLDevice.LookupProgramCacheHit_live (key k : ProgramCacheKey)
    (d d2 : OpenGLDevice) (r : Nat)
    (h : d.LookupProgramCacheHit k = some (r, d2))
    (hl : LiveUnstored d.m_program_cache key) : LiveUnstored d2.m_program_cache key := by
  unfold OpenGLDevice.LookupProgramCacheHit at h
  split at h
  · simp at h
  · split at h
    · simp only [Option.some.injEq, Prod.mk.injEq] at h
      rw [← h.2]
      exact liveUnstored_mapModify hl k _ (fun _ => rfl) (fun _ _ hi => hi)
    · simp only [Option.some.injEq, Prod.mk.injEq] at h
      rw [← h.2]
      exact hl

theorem OpenGLDevice.LookupProgramCacheMiss_live (env : Environment) (key k : ProgramCacheKey)
    (o : LookupOutcome) (d d2 : OpenGLDevice) (r : Nat)
    (h : d.LookupProgramCacheMiss env k o = some (r, d2))
    (hl : LiveUnstored d.m_program_cache key) : LiveUnstored d2.m_program_cache key := by
  unfold OpenGLDevice.LookupProgramCacheMiss at h
  simp only [OpenGLDevice.CompileProgram_fst] at h
  split at h
  · split at h
    · simp at h
    · rename_i it2 d3 hadd
      have hcache := (OpenGLDevice.AddToPipelineCache_caches env _ it2 o _ d3 hadd).1
      rw [OpenGLDevice.CompileProgram_program_cache] at hcache
      simp only [Option.some.injEq, Prod.mk.injEq] at h
      rw [← h.2]
      show LiveUnstored (mapEmplace d3.m_program_cache k _) key
      rw [hcache]
      exact liveUnstored_mapEmplace hl k _
  · simp only [Option.some.injEq, Prod.mk.injEq] at h
    rw [← h.2]
    show LiveUnstored (mapEmplace (d.CompileProgram env o).2.m_program_cache k _) key
    rw [OpenGLDevice.CompileProgram_program_cache]
    exact liveUnstored_mapEmplace hl k _

/-- A lookup, of whatever key, leaves a live entry without a blob as it is: live and
without a blob -/
theorem OpenGLDevice.LookupProgramCache_live (env : Environment) (key k : ProgramCacheKey)
    (o : LookupOutcome) (d d2 : OpenGLDevice) (r : Nat)
    (h : d.LookupProgramCache env k o = some (r, d2))
    (hl : LiveUnstored d.m_program_cache key) : LiveUnstored d2.m_program_cache key := by
  unfold OpenGLDevice.LookupProgramCache at h
  split at h
  · rename_i item hfind
    split at h
    · rename_i hcond
      have hk : key ≠ k := by
        rintro rfl
        obtain ⟨it, h1, h2, _⟩ := hl
        rw [hfind] at h1
        cases h1
        exact h2 hcond.1
      split at h
      · simp at h
      · rename_i prog d1 hcreate
        have hc := (OpenGLDevice.CreateProgramFromPipelineCache_caches env item o d d1 prog
          hcreate).1
        have hl1 : LiveUnstored (mapModify d1.m_program_cache k
            (fun i => { i with program_id := prog })) key := by
          rw [hc]
          exact liveUnstored_mapModify hl k _ (fun _ => rfl) (fun hkk => absurd hkk.symm hk)
        split at h
        · refine OpenGLDevice.LookupProgramCacheMiss_live env key k o _ d2 r h ?_
          rw [OpenGLDevice.DiscardPipelineCache_program_cache]
          exact liveUnstored_discard (liveUnstored_mapErase hl1 k hk)
        · exact OpenGLDevice.LookupProgramCacheHit_live key k _ d2 r h hl1
    · exact OpenGLDevice.LookupProgramCacheHit_live key k d d2 r h hl
  · exact OpenGLDevice.LookupProgramCacheMiss_live env key k o d d2 r h hl

theorem OpenGLDevice.UnrefProgram_unstored (key k : ProgramCacheKey) (d d2 : OpenGLDevice)
    (h : d.UnrefProgram k = some d2)
    (hl : LiveUnstored d.m_program_cache key) : Unstored d2.m_program_cache key := by
  unfold OpenGLDevice.UnrefProgram at h
  split at h
  · simp at h
  · split at h
    · split at h
      · simp only [Option.some.injEq] at h
        rw [← h]
        exact unstored_mapModify hl k _ (fun _ => rfl)
      · simp only [Option.some.injEq] at h
        rw [← h]
        show Unstored (mapModify _ k _) key
        have hc : ∀ (x : OpenGLDevice) (c : Call), (x.record c).m_program_cache =
            x.m_program_cache := fun _ _ => rfl
        rw [hc]
        split
        · exact unstored_mapModify hl k _ (fun _ => rfl)
        · exact unstored_mapModify hl k _ (fun _ => rfl)
    · simp at h

theorem OpenGLDevice.LookupVAOCache_cache (key : VertexArrayCacheKey) (vao : Nat)
    (error : Bool) (d : OpenGLDevice) :
    (d.LookupVAOCache key vao error).2.m_program_cache = d.m_program_cache := by
  unfold OpenGLDevice.LookupVAOCache OpenGLDevice.CreateVAO
  split
  · rfl
  · by_cases he : error = true
    · simp only [he, if_true]
      rfl
    · simp only [he, if_false, Bool.false_eq_true]
      by_cases hv : vao = 0
      · simp only [hv, if_true]
        rfl
      · simp only [hv, if_false]
        rfl

theorem OpenGLDevice.UnrefVAO_cache (key : VertexArrayCacheKey) (d d2 : OpenGLDevice)
    (h : d.UnrefVAO key = some d2) : d2.m_program_cache = d.m_program_cache := by
  unfold OpenGLDevice.UnrefVAO at h
  split at h
  · simp at h
  · split at h
    · split at h
      · simp only [Option.some.injEq] at h
        rw [← h]
      · simp only [Option.some.injEq] at h
        rw [← h]
        simp only [OpenGLDevice.record_program_cache]
        split <;> rfl
    · simp at h

/-- A call of a session leaves a live entry without a blob without a blob -/
theorem OpenGLDevice.call_unstored (env : Environment) (key : ProgramCacheKey)
    (c : SessionCall) (d d2 : OpenGLDevice) (h : d.call env c = some d2)
    (hl : LiveUnstored d.m_program_cache key) : Unstored d2.m_program_cache key := by
  cases c with
  | LookupProgramCache k o =>
    simp only [OpenGLDevice.call, Option.map_eq_some', Prod.exists, exists_eq_right] at h
    obtain ⟨r, h⟩ := h
    exact liveUnstored_unstored (OpenGLDevice.LookupProgramCache_live env key k o d d2 r h hl)
  | UnrefProgram k => exact OpenGLDevice.UnrefProgram_unstored key k d d2 h hl
  | CreatePipeline config o =>
    simp only [OpenGLDevice.call, Option.map_eq_some', Prod.exists, exists_eq_right] at h
    obtain ⟨r, h⟩ := h
    unfold OpenGLDevice.CreatePipeline at h
    cases hkey : GetProgramCacheKey config with
    | none => rw [hkey] at h; simp at h
    | some pkey =>
      rw [hkey] at h
      simp only at h
      cases hlookup : d.LookupProgramCache env pkey o.lookup with
      | none => rw [hlookup] at h; simp at h
      | some p =>
        obtain ⟨prog, d1⟩ := p
        rw [hlookup] at h
        have hl1 := OpenGLDevice.LookupProgramCache_live env key pkey o.lookup d d1 prog
          hlookup hl
        simp only at h
        by_cases hp : prog = 0
        · simp only [hp, if_true, Option.some.injEq, Prod.mk.injEq] at h
          rw [← h.2]
          exact liveUnstored_unstored hl1
        · simp only [hp, if_false] at h
          have hv := OpenGLDevice.LookupVAOCache_cache pkey.va_key o.vao o.vao_error d1
          generalize d1.LookupVAOCache pkey.va_key o.vao o.vao_error = res at h hv
          obtain ⟨v, d1b⟩ := res
          simp only at h hv
          rw [← hv] at hl1
          by_cases hv0 : v = 0
          · simp only [hv0, if_true] at h
            cases hunref : d1b.UnrefProgram pkey with
            | none => rw [hunref] at h; simp at h
            | some d3 =>
              rw [hunref] at h
              simp only [Option.some.injEq, Prod.mk.injEq] at h
              rw [← h.2]
              exact OpenGLDevice.UnrefProgram_unstored key pkey d1b d3 hunref hl1
          · simp only [hv0, if_false, Option.some.injEq, Prod.mk.injEq] at h
            rw [← h.2]
            exact liveUnstored_unstored hl1
  | DestroyPipeline pl =>
    simp only [OpenGLDevice.call] at h
    unfold OpenGLDevice.DestroyPipeline at h
    split at h
    · simp at h
    · rename_i d1 h1
      have hu := OpenGLDevice.UnrefProgram_unstored key pl.m_key _ d1 h1
        (by rw [OpenGLDevice.UnbindPipeline_program_cache]; exact hl)
      rw [OpenGLDevice.UnrefVAO_cache _ d1 d2 h]
      exact hu

theorem OpenGLDevice.call_inv (env : Environment) (c : SessionCall) (d d2 : OpenGLDevice)
    (h : d.call env c = some d2) (hi : d.CacheInvariant) : d2.CacheInvariant := by
  rw [OpenGLDevice.cacheInvariant_iff] at hi ⊢
  cases c with
  | LookupProgramCache k o =>
    simp only [OpenGLDevice.call, Option.map_eq_some', Prod.exists, exists_eq_right] at h
    obtain ⟨r, h⟩ := h
    obtain ⟨h1, h2⟩ := OpenGLDevice.LookupProgramCache_inv env k o d d2 r h hi.1
    exact ⟨h1, by rw [h2]; exact hi.2⟩
  | UnrefProgram k =>
    obtain ⟨h1, h2⟩ := OpenGLDevice.UnrefProgram_inv k d d2 h hi.1
    exact ⟨h1, by rw [h2]; exact hi.2⟩
  | CreatePipeline config o =>
    simp only [OpenGLDevice.call, Option.map_eq_some', Prod.exists, exists_eq_right] at h
    obtain ⟨r, h⟩ := h
    exact OpenGLDevice.CreatePipeline_inv env config o d d2 r h hi.1 hi.2
  | DestroyPipeline pl =>
    exact OpenGLDevice.DestroyPipeline_inv pl d d2 h hi.1 hi.2

/-- Through calls after each of which the key has a live entry, a live entry without
a blob stays live and without a blob -/
theorem OpenGLDevice.RunsLive.keeps (env : Environment) (key : ProgramCacheKey)
    (calls : List SessionCall) (d d2 : OpenGLDevice) (h : d.RunsLive env key calls d2)
    (hi : d.CacheInvariant) (hl : LiveUnstored d.m_program_cache key) :
    d2.CacheInvariant ∧ LiveUnstored d2.m_program_cache key := by
  induction calls generalizing d with
  | nil =>
    cases h
    exact ⟨hi, hl⟩
  | cons c cs ih =>
    obtain ⟨d1, h1, ⟨it, hfind, hcount⟩, hrest⟩ := h
    have hi1 := OpenGLDevice.call_inv env c d d1 h1 hi
    obtain ⟨it1, hf1, hu1⟩ := OpenGLDevice.call_unstored env key c d d1 h1 hl
    rw [hfind] at hf1
    cases hf1
    have hgood := hi1.2.2.1 _ (mapFind_mem _ _ _ hfind)
    exact ih d1 hrest hi1 ⟨it, hfind, hgood.2.mpr hcount, hu1⟩

set_option maxRecDepth 100000 in
/-- C19 fails as stated: the first sample key has a live entry (program 7, one
reference) whose binary was serialized to the blob at offset 0. The store is
invalidated and closed, every write succeeding: the file written is a footer that
counts 0 programs and nothing else, so it has no index record for the key -/
theorem C19_counterexample :
    (mapFind sampleAppendedDevice.m_program_cache (sampleKey 1)).map
        (fun it => (it.program_id, it.reference_count, it.file_uncompressed_size)) =
        some (7, 1, 2) ∧
      ((sampleAppendedDevice.DiscardPipelineCache true).2.ClosePipelineCache sampleEnvironment
        sampleClose).map Prod.fst = some (PipelineDiskCacheFooter.bytes (sampleFooter 0)) ∧
      (PipelineDiskCacheFooter.bytes (sampleFooter 0)).length = 392 := by
  refine ⟨rfl, rfl, rfl⟩

/-- C19, amended: no entry that is live when the store is invalidated is serialized
again. Under the cache invariant, a key has a live entry (positive reference count)
when DiscardPipelineCache runs, and after each of the calls that follow it still has
one (it is never released). Then at close its entry is live, has its program and has
no locator, no index record that ClosePipelineCache writes has its key, and
ClosePipelineCache with successful writes on a dirty store writes at data_end just
these records and the footer -/
theorem C19_live_entry_not_persisted (env : Environment) (b : Bool) (key : ProgramCacheKey)
    (calls : List SessionCall) (oc : CloseOutcome) (d0 d : OpenGLDevice)
    (hinv : d0.CacheInvariant) (hlive : d0.Live key)
    (hrun : (d0.DiscardPipelineCache b).2.RunsLive env key calls d) :
    (∃ it, mapFind d.m_program_cache key = some it ∧ 0 < it.reference_count ∧
      it.program_id ≠ 0 ∧ it.file_uncompressed_size = 0) ∧
    (∀ p ∈ storedEntries d.m_program_cache, (indexEntryOf p).key ≠ key) ∧
    (∀ file, d.m_pipeline_disk_cache_file = some file →
      d.m_pipeline_disk_cache_changed = true → oc.seek_ok = true →
      (∀ i, oc.entry_ok i = true) → oc.footer_ok = true →
      d.ClosePipelineCache env oc =
        some (fwrite file d.m_pipeline_disk_cache_data_end
                ((storedEntries d.m_program_cache).flatMap (fun p => (indexEntryOf p).bytes) ++
                  PipelineDiskCacheFooter.bytes (closeFooter env oc d.m_program_cache)),
              { d with m_pipeline_disk_cache_file := none })) := by
  obtain ⟨it0, hfind0, hcount0⟩ := hlive
  have hgood0 := hinv.2.2.1 _ (mapFind_mem _ _ _ hfind0)
  have hi0 : (d0.DiscardPipelineCache b).2.CacheInvariant := by
    rw [OpenGLDevice.cacheInvariant_iff] at hinv ⊢
    exact ⟨OpenGLDevice.DiscardPipelineCache_inv b d0 hinv.1,
      by rw [OpenGLDevice.DiscardPipelineCache_vao_cache]; exact hinv.2⟩
  have hl0 : LiveUnstored (d0.DiscardPipelineCache b).2.m_program_cache key := by
    rw [OpenGLDevice.DiscardPipelineCache_program_cache]
    exact ⟨_, mapFind_filterMap_live _ key it0 hfind0 (hgood0.2.mpr hcount0),
      hgood0.2.mpr hcount0, rfl⟩
  obtain ⟨hi, it, hfind, hprog, hsize⟩ := OpenGLDevice.RunsLive.keeps env key calls _ d hrun hi0 hl0
  have hgood := hi.2.2.1 _ (mapFind_mem _ _ _ hfind)
  refine ⟨⟨it, hfind, hgood.2.mp hprog, hprog, hsize⟩, ?_, ?_⟩
  · intro p hp hkey
    obtain ⟨hmem, hne⟩ := (mem_storedEntries _ _).mp hp
    have hp1 : p.1 = key := hkey
    have hmem2 : (key, p.2) ∈ d.m_program_cache := by
      rw [← hp1]
      exact hmem
    have hf2 := mapFind_of_mem_nodup _ key p.2 hi.1 hmem2
    rw [hfind] at hf2
    cases hf2
    exact hne hsize
  · intro file hf hch hseek hentry hfooter
    exact OpenGLDevice.ClosePipelineCache_fwrite env oc d file hf hch hseek hentry hfooter

/-- C19 at the sample device with one live, serialized program: its store is
discarded and the program is looked up once more before the close -/
theorem C19_live_entry_not_persisted_witness :
    (∃ it, mapFind sampleDiscardedDevice.m_program_cache (sampleKey 1) = some it ∧
      0 < it.reference_count ∧ it.program_id ≠ 0 ∧ it.file_uncompressed_size = 0) ∧
    (∀ p ∈ storedEntries sampleDiscardedDevice.m_program_cache,
      (indexEntryOf p).key ≠ sampleKey 1) ∧
    (∀ file, sampleDiscardedDevice.m_pipeline_disk_cache_file = some file →
      sampleDiscardedDevice.m_pipeline_disk_cache_changed = true →
      sampleClose.seek_ok = true →
      (∀ i, sampleClose.entry_ok i = true) → sampleClose.footer_ok = true →
      sampleDiscardedDevice.ClosePipelineCache sampleEnvironment sampleClose =
        some (fwrite file sampleDiscardedDevice.m_pipeline_disk_cache_data_end
                ((storedEntries sampleDiscardedDevice.m_program_cache).flatMap
                    (fun p => (indexEntryOf p).bytes) ++
                  PipelineDiskCacheFooter.bytes
                    (closeFooter sampleEnvironment sampleClose
                      sampleDiscardedDevice.m_program_cache)),
              { sampleDiscardedDevice with m_pipeline_disk_cache_file := none })) :=
  C19_live_entry_not_persisted sampleEnvironment true (sampleKey 1) [sampleCall] sampleClose
    sampleAppendedDevice sampleDiscardedDevice
    ⟨by decide, by decide, by simp [sampleAppendedDevice, sampleStoredItem],
      by simp [sampleAppendedDevice, sampleDevice, OpenGLDevice.empty]⟩
    ⟨_, rfl, by decide⟩
    ⟨sampleDiscardedDevice, rfl, ⟨_, rfl, by decide⟩, rfl⟩
/-! ## The ring of timestamp queries -/

theorem PopTimestampQueryLoop_spec (N : Nat) (hN : 0 < N) (available : Nat → Bool)
    (read waiting i : Nat) (hread : read < N) :
    (PopTimestampQueryLoop N available read waiting i).2 ≤ waiting ∧
    (PopTimestampQueryLoop N available read waiting i).1 < N ∧
    ((PopTimestampQueryLoop N available read waiting i).1 +
      (PopTimestampQueryLoop N available read waiting i).2) % N = (read + waiting) % N := by
  induction waiting generalizing read i with
  | zero => exact ⟨Nat.le_refl _, hread, rfl⟩
  | succ w ih =>
    unfold PopTimestampQueryLoop
    split
    · obtain ⟨h1, h2, h3⟩ := ih ((read + 1) % N) (i + 1) (Nat.mod_lt _ hN)
      refine ⟨by omega, h2, ?_⟩
      rw [h3, Nat.add_mod, Nat.mod_mod, ← Nat.add_mod]
      congr 1
      omega
    · exact ⟨Nat.le_refl _, hread, rfl⟩

theorem TimestampQueries.Invariant.kick {N : Nat} {q : TimestampQueries}
    (h : q.Invariant N) : (q.KickTimestampQuery N).2.Invariant N := by
  unfold TimestampQueries.KickTimestampQuery
  split
  · exact h
  · rename_i hc
    simp only [not_or] at hc
    obtain ⟨h1, h2, h3, h4, _⟩ := h
    exact ⟨h1, h2, h3, h4, fun _ => lt_of_le_of_ne h1 hc.2⟩

theorem TimestampQueries.Invariant.pop {N : Nat} (hN : 0 < N) {q : TimestampQueries}
    (o : PopOutcome) (h : q.Invariant N) : (q.PopTimestampQuery N o).Invariant N := by
  have hreset : TimestampQueries.reset.Invariant N :=
    ⟨Nat.zero_le _, hN, hN, (Nat.zero_mod N).symm, fun _ => hN⟩
  have hq : (if o.gles = true ∧ o.disjoint = true then TimestampQueries.reset else q).Invariant
      N := by
    split
    · exact hreset
    · exact h
  unfold TimestampQueries.PopTimestampQuery
  generalize (if o.gles = true ∧ o.disjoint = true then TimestampQueries.reset else q) = q1
    at hq
  obtain ⟨h1, h2, h3, h4, h5⟩ := hq
  obtain ⟨l1, l2, l3⟩ := PopTimestampQueryLoop_spec N hN o.available
    q1.m_read_timestamp_query q1.m_waiting_timestamp_queries 0 h2
  simp only
  split
  · rename_i hs
    have hlt := h5 hs
    refine ⟨by show _ + 1 ≤ N; omega, l2, Nat.mod_lt _ hN, ?_, fun hf => by cases hf⟩
    show (q1.m_write_timestamp_query + 1) % N = _
    rw [h4, ← l3, Nat.add_mod, Nat.mod_mod, ← Nat.add_mod]
    congr 1
  · rename_i hs
    refine ⟨le_trans l1 h1, l2, h3, ?_, fun hf => absurd hf hs⟩
    show q1.m_write_timestamp_query = _
    rw [h4, ← l3]

theorem mem_waitingSlots_ne (N : Nat) (q : TimestampQueries) (h : q.Invariant N)
    (hlt : q.m_waiting_timestamp_queries < N) :
    q.m_write_timestamp_query ∉ q.waitingSlots N := by
  obtain ⟨h1, h2, h3, h4, _⟩ := h
  intro hm
  simp only [TimestampQueries.waitingSlots, List.mem_map, List.mem_range] at hm
  obtain ⟨j, hj, hjw⟩ := hm
  rw [h4] at hjw
  have hmod : (q.m_read_timestamp_query + j) % N =
      (q.m_read_timestamp_query + q.m_waiting_timestamp_queries) % N := hjw
  have hle : q.m_read_timestamp_query + j ≤
      q.m_read_timestamp_query + q.m_waiting_timestamp_queries := by omega
  have hdvd := (Nat.modEq_iff_dvd' hle).mp hmod
  have hsub : q.m_read_timestamp_query + q.m_waiting_timestamp_queries -
      (q.m_read_timestamp_query + j) = q.m_waiting_timestamp_queries - j := by omega
  rw [hsub] at hdvd
  have := Nat.le_of_dvd (by omega) hdvd
  omega

theorem sampleQueries_reachable : sampleQueries.Reachable 3 :=
  TimestampQueries.Reachable.PopTimestampQuery _ samplePop
    (TimestampQueries.Reachable.KickTimestampQuery _
      (TimestampQueries.Reachable.PopTimestampQuery _ samplePop
        (TimestampQueries.Reachable.KickTimestampQuery _ TimestampQueries.Reachable.reset)))

/-- C29: in every state that KickTimestampQuery and PopTimestampQuery reach from the
reset state, for a ring of at least one query, the number of waiting queries is at
most NUM_TIMESTAMP_QUERIES, the read and the write index are below it, the write
index is (read + waiting) mod NUM_TIMESTAMP_QUERIES, and the slot on which
KickTimestampQuery begins a query is none of the slots that wait to be read. -/
theorem C29_timestamp_ring (NUM_TIMESTAMP_QUERIES : Nat) (hN : 0 < NUM_TIMESTAMP_QUERIES)
    (q : TimestampQueries) (h : q.Reachable NUM_TIMESTAMP_QUERIES) :
    q.m_waiting_timestamp_queries ≤ NUM_TIMESTAMP_QUERIES ∧
    q.m_read_timestamp_query < NUM_TIMESTAMP_QUERIES ∧
    q.m_write_timestamp_query < NUM_TIMESTAMP_QUERIES ∧
    q.m_write_timestamp_query =
      (q.m_read_timestamp_query + q.m_waiting_timestamp_queries) % NUM_TIMESTAMP_QUERIES ∧
    ∀ slot, (q.KickTimestampQuery NUM_TIMESTAMP_QUERIES).1 = some slot →
      slot ∉ q.waitingSlots NUM_TIMESTAMP_QUERIES := by
  have hinv : q.Invariant NUM_TIMESTAMP_QUERIES := by
    induction h with
    | reset => exact ⟨Nat.zero_le _, hN, hN, (Nat.zero_mod _).symm, fun _ => hN⟩
    | KickTimestampQuery q _ ih => exact ih.kick
    | PopTimestampQuery q o _ ih => exact ih.pop hN o
  refine ⟨hinv.1, hinv.2.1, hinv.2.2.1, hinv.2.2.2.1, ?_⟩
  intro slot hslot
  unfold TimestampQueries.KickTimestampQuery at hslot
  split at hslot
  · cases hslot
  · rename_i hc
    simp only [not_or] at hc
    simp only [Option.some.injEq] at hslot
    rw [← hslot]
    exact mem_waitingSlots_ne _ q hinv (lt_of_le_of_ne hinv.1 hc.2)

/-- C29 at a ring of three queries of which two wait in slots 0 and 1: the next query
is begun on slot 2 -/
theorem C29_timestamp_ring_witness :
    (sampleQueries.KickTimestampQuery 3).1 = some 2 ∧
    sampleQueries.waitingSlots 3 = [0, 1] ∧
    sampleQueries.m_waiting_timestamp_queries ≤ 3 ∧
    sampleQueries.m_read_timestamp_query < 3 ∧
    sampleQueries.m_write_timestamp_query < 3 ∧
    sampleQueries.m_write_timestamp_query =
      (sampleQueries.m_read_timestamp_query + sampleQueries.m_waiting_timestamp_queries) % 3 ∧
    ∀ slot, (sampleQueries.KickTimestampQuery 3).1 = some slot →
      slot ∉ sampleQueries.waitingSlots 3 :=
  ⟨rfl, rfl, C29_timestamp_ring 3 (by decide) sampleQueries sampleQueries_reachable⟩

/-! ## Texture copies -/

/-- C30, the code at a failing input: a region 4 wide and 2 high at the origin is
copied by the framebuffer blit of CopyTextureRegion (no copy_image support) and by
ResolveTextureRegion. The source rectangle passed to glBlitFramebuffer is
(0, 0)-(4, 4), the destination rectangle (0, 0)-(4, 2): the source is as high as the
region is wide, and for every input its upper edge is src_y + width. -/
theorem C30_blit_source_height_is_width :
    CopyTextureRegion sampleNoCopyImage 0 0 0 0 4 2 =
        CopyCall.glBlitFramebuffer
          { srcX0 := 0, srcY0 := 0, srcX1 := 4, srcY1 := 4,
            dstX0 := 0, dstY0 := 0, dstX1 := 4, dstY1 := 2 } ∧
      ResolveTextureRegion 0 0 0 0 4 2 =
        { srcX0 := 0, srcY0 := 0, srcX1 := 4, srcY1 := 4,
          dstX0 := 0, dstY0 := 0, dstX1 := 4, dstY1 := 2 } ∧
      ∀ dst_x dst_y src_x src_y width height,
        (ResolveTextureRegion dst_x dst_y src_x src_y width height).srcY1 =
          (src_y + width) % 2 ^ 32 ∧
        CopyTextureRegion sampleNoCopyImage dst_x dst_y src_x src_y width height =
          CopyCall.glBlitFramebuffer
            (ResolveTextureRegion dst_x dst_y src_x src_y width height) :=
  ⟨rfl, rfl, fun _ _ _ _ _ _ => ⟨rfl, rfl⟩⟩

/-! ## Binding a pipeline -/

/-- C28, the code at a failing input: two pipelines share program 7. The first is
set (glUseProgram 7) and destroyed: UnbindPipeline calls glUseProgram 0 and leaves
m_last_program at 7, and UnrefProgram returns early because the second pipeline
still holds the program. SetPipeline of the second pipeline then makes no call:
the pipeline with program 7 is current, m_last_program is 7, and the program bound
in the GL context is 0. -/
theorem C28_unbind_leaves_last_program :
    sampleBindRun.map (fun r =>
        (r.1.addr, r.1.m_program, r.2.m_current_pipeline, r.2.m_last_program,
          boundProgram r.2.calls)) = some (2, 7, some 2, 7, 0) ∧
      sampleBindRun.map (fun r => r.2.calls.head?) = some (some (Call.glUseProgram 0)) := by
  constructor <;> rfl

/-! ## Failing writes and released programs -/

/-- C27, the code at a failing input: the blob of program 7 compresses to three bytes
and the write to the empty open file fails. AddToPipelineCache still sets the locator
of the item to offset 0 with compressed size 3, advances data_end to 3 and marks the
store dirty, while the file stays empty: the locator points at bytes that were never
written, and reading them fails. -/
theorem C27_failed_write_sets_locator :
    sampleDevice.AddToPipelineCache sampleEnvironment (sampleItem 7 0) sampleWriteFails =
        some ({ sampleItem 7 0 with
                  file_format := 1, file_offset := 0, file_uncompressed_size := 2,
                  file_compressed_size := 3 },
              { sampleDevice with
                  m_pipeline_disk_cache_data_end := 3,
                  m_pipeline_disk_cache_changed := true }) ∧
      sampleDevice.m_pipeline_disk_cache_file = some [] ∧
      fread [] 0 3 = none := by
  refine ⟨rfl, rfl, rfl⟩

/-- C25, the code at a failing input: on the open, empty sample device the first
sample key is looked up and program 7 is compiled; its binary cannot be retrieved, so
nothing is persisted. UnrefProgram releases it: the entry stays, without program and
without blob. The next lookup of the key, for which compiling would give program 8,
returns 0 and changes nothing: CompileProgram is not called again. -/
theorem C25_released_program_not_recompiled :
    sampleDevice.LookupProgramCache sampleEnvironment (sampleKey 1) (sampleLookup 7 []) =
        some (7, sampleUnpersistedDevice) ∧
      sampleUnpersistedDevice.UnrefProgram (sampleKey 1) = some sampleReleasedDevice ∧
      sampleReleasedDevice.LookupProgramCache sampleEnvironment (sampleKey 1)
          (sampleLookup 8 []) = some (0, sampleReleasedDevice) := by
  refine ⟨rfl, rfl, rfl⟩

/-! ## The lookup of an unknown key -/

theorem programRefCount_of_some (cache : List (ProgramCacheKey × ProgramCacheItem))
    (key : ProgramCacheKey) (it : ProgramCacheItem) (h : mapFind cache key = some it) :
    programRefCount cache key = it.reference_count := by
  unfold programRefCount
  rw [h]

theorem programRefCount_of_none (cache : List (ProgramCacheKey × ProgramCacheItem))
    (key : ProgramCacheKey) (h : mapFind cache key = none) :
    programRefCount cache key = 0 := by
  unfold programRefCount
  rw [h]

theorem programRefCount_nonneg (cache : List (ProgramCacheKey × ProgramCacheItem))
    (key : ProgramCacheKey) (hp : MapInv ProgramCacheItem.Good cache) :
    0 ≤ programRefCount cache key := by
  unfold programRefCount
  split
  · rename_i it h
    exact (hp.2 _ (mapFind_mem _ _ _ h)).1
  · exact le_refl _

/-- Under the invariant a key is live exactly when its reference count is positive -/
theorem liveKey_iff (cache : List (ProgramCacheKey × ProgramCacheItem))
    (key : ProgramCacheKey) (hp : MapInv ProgramCacheItem.Good cache) :
    LiveKey cache key ↔ 0 < programRefCount cache key := by
  unfold LiveKey programRefCount
  constructor
  · rintro ⟨it, h, hprog⟩
    rw [h]
    exact (hp.2 _ (mapFind_mem _ _ _ h)).2.mp hprog
  · intro h
    split at h
    · rename_i it hf
      exact ⟨it, hf, (hp.2 _ (mapFind_mem _ _ _ hf)).2.mpr h⟩
    · exact absurd h (lt_irrefl _)

theorem programRefCount_mapModify (cache : List (ProgramCacheKey × ProgramCacheItem))
    (key k : ProgramCacheKey) (f : ProgramCacheItem → ProgramCacheItem) (n : Int)
    (hf : ∀ i, (f i).reference_count = i.reference_count + n) :
    programRefCount (mapModify cache key f) k =
      if k = key ∧ mapFind cache key ≠ none then programRefCount cache k + n
      else programRefCount cache k := by
  unfold programRefCount
  rw [mapFind_mapModify]
  by_cases hk : k = key
  · subst hk
    cases h : mapFind cache k with
    | none => simp
    | some it => simp [hf]
  · simp [hk]

theorem programRefCount_discard (cache : List (ProgramCacheKey × ProgramCacheItem))
    (k : ProgramCacheKey) (hp : MapInv ProgramCacheItem.Good cache) :
    programRefCount (cache.filterMap discardEntry) k = programRefCount cache k := by
  unfold programRefCount
  rw [mapFind_filterMap_discardEntry cache k hp.1]
  cases h : mapFind cache k with
  | none => rfl
  | some it =>
    have hg : ProgramCacheItem.Good it := hp.2 _ (mapFind_mem _ _ _ h)
    by_cases hprog : it.program_id = 0
    · have h0 : it.reference_count = 0 := by
        have h1 : 0 ≤ it.reference_count := hg.1
        have h2 : ¬ 0 < it.reference_count := fun hh => (hg.2.mpr hh) hprog
        omega
      simp [discardEntry, hprog, h0]
    · simp [discardEntry, hprog]

theorem programRefCount_mapErase (cache : List (ProgramCacheKey × ProgramCacheItem))
    (key k : ProgramCacheKey) (hk : k ≠ key) :
    programRefCount (mapErase cache key) k = programRefCount cache k := by
  unfold programRefCount
  rw [mapFind_mapErase_ne _ _ _ hk]

theorem programRefCount_append_new (cache : List (ProgramCacheKey × ProgramCacheItem))
    (key k : ProgramCacheKey) (it : ProgramCacheItem) (h : mapFind cache key = none) :
    programRefCount (cache ++ [(key, it)]) k =
      if k = key then it.reference_count else programRefCount cache k := by
  unfold programRefCount
  rw [← mapEmplace_of_none cache key it h, mapFind_mapEmplace _ _ _ _ h]
  by_cases hk : k = key
  · simp [hk]
  · simp [hk]

theorem OpenGLDevice.LookupProgramCacheHit_counts (key : ProgramCacheKey)
    (d d2 : OpenGLDevice) (r : Nat) (h : d.LookupProgramCacheHit key = some (r, d2)) :
    (∀ k, k ≠ key → programRefCount d2.m_program_cache k = programRefCount d.m_program_cache k) ∧
    programRefCount d2.m_program_cache key =
      programRefCount d.m_program_cache key + (if r = 0 then 0 else 1) ∧
    d2.m_vao_cache = d.m_vao_cache := by
  unfold OpenGLDevice.LookupProgramCacheHit at h
  split at h
  · simp at h
  · rename_i item hfind
    split at h
    · rename_i hprog
      simp only [Option.some.injEq, Prod.mk.injEq] at h
      rw [← h.2, ← h.1]
      refine ⟨fun k hk => ?_, ?_, rfl⟩
      · show programRefCount (mapModify _ _ _) k = _
        rw [programRefCount_mapModify _ _ _ _ 1 (fun _ => rfl), if_neg (fun hh => hk hh.1)]
      · show programRefCount (mapModify _ _ _) key = _
        rw [programRefCount_mapModify _ _ _ _ 1 (fun _ => rfl), if_pos ⟨rfl, by simp [hfind]⟩,
          if_neg hprog]
    · rename_i hprog
      simp only [Option.some.injEq, Prod.mk.injEq] at h
      rw [← h.2, ← h.1]
      refine ⟨fun _ _ => rfl, ?_, rfl⟩
      rw [if_pos (by simpa using hprog)]
      simp

/-- The miss path of a lookup for a key without an entry: one entry is appended, for
the key, with the program returned and with reference count 1 when there is a
program -/
theorem OpenGLDevice.LookupProgramCacheMiss_entry (env : Environment) (key : ProgramCacheKey)
    (o : LookupOutcome) (d d2 : OpenGLDevice) (r : Nat)
    (h : d.LookupProgramCacheMiss env key o = some (r, d2))
    (hfind : mapFind d.m_program_cache key = none) :
    ∃ it, d2.m_program_cache = d.m_program_cache ++ [(key, it)] ∧ it.program_id = r ∧
      it.reference_count = (if r = 0 then 0 else 1) ∧ d2.m_vao_cache = d.m_vao_cache := by
  unfold OpenGLDevice.LookupProgramCacheMiss at h
  simp only [OpenGLDevice.CompileProgram_fst] at h
  split at h
  · rename_i hc
    split at h
    · simp at h
    · rename_i it2 d3 hadd
      obtain ⟨h1, h2, h3, h4⟩ := OpenGLDevice.AddToPipelineCache_caches env _ it2 o _ d3 hadd
      rw [OpenGLDevice.CompileProgram_program_cache] at h1
      rw [OpenGLDevice.CompileProgram_vao_cache] at h2
      simp only [Option.some.injEq, Prod.mk.injEq] at h
      have h3b : it2.program_id = o.compiled := h3
      have h4b : it2.reference_count = 0 := h4
      have hc2 : ¬ o.compiled = 0 := hc
      rw [← h.2, ← h.1]
      refine ⟨{ it2 with reference_count := it2.reference_count + 1 }, ?_, rfl, ?_, h2⟩
      · show mapEmplace d3.m_program_cache key _ = _
        rw [h1, mapEmplace_of_none _ _ _ hfind]
      · show it2.reference_count + 1 = _
        rw [h4b, h3b, if_neg hc2]
        rfl
  · rename_i hc
    have hc2 : o.compiled = 0 := by simpa using hc
    simp only [Option.some.injEq, Prod.mk.injEq] at h
    rw [← h.2, ← h.1]
    refine ⟨{ program_id := o.compiled, reference_count := 0, file_format := 0,
              file_offset := 0, file_uncompressed_size := 0, file_compressed_size := 0 },
      ?_, rfl, ?_, ?_⟩
    · show mapEmplace (d.CompileProgram env o).2.m_program_cache key _ = _
      rw [OpenGLDevice.CompileProgram_program_cache, mapEmplace_of_none _ _ _ hfind]
    · show (0 : Int) = _
      rw [if_pos hc2]
    · show (d.CompileProgram env o).2.m_vao_cache = _
      rw [OpenGLDevice.CompileProgram_vao_cache]

theorem OpenGLDevice.LookupProgramCacheMiss_counts (env : Environment) (key : ProgramCacheKey)
    (o : LookupOutcome) (d d2 : OpenGLDevice) (r : Nat)
    (h : d.LookupProgramCacheMiss env key o = some (r, d2))
    (hfind : mapFind d.m_program_cache key = none) :
    (∀ k, k ≠ key → programRefCount d2.m_program_cache k = programRefCount d.m_program_cache k) ∧
    programRefCount d2.m_program_cache key =
      programRefCount d.m_program_cache key + (if r = 0 then 0 else 1) ∧
    d2.m_vao_cache = d.m_vao_cache := by
  obtain ⟨it, hc, _, hcount, hv⟩ := OpenGLDevice.LookupProgramCacheMiss_entry env key o d d2 r h
    hfind
  rw [hc]
  refine ⟨fun k hk => ?_, ?_, hv⟩
  · rw [programRefCount_append_new _ _ _ _ hfind, if_neg hk]
  · rw [programRefCount_append_new _ _ _ _ hfind, if_pos rfl, hcount,
      programRefCount_of_none _ _ hfind]
    simp

/-- What a lookup does to the reference counts, under the invariant: the count of the
key goes up by one when a program is returned, no other count changes -/
theorem OpenGLDevice.LookupProgramCache_counts (env : Environment) (key : ProgramCacheKey)
    (o : LookupOutcome) (d d2 : OpenGLDevice) (r : Nat)
    (h : d.LookupProgramCache env key o = some (r, d2))
    (hp : MapInv ProgramCacheItem.Good d.m_program_cache) :
    (∀ k, k ≠ key → programRefCount d2.m_program_cache k = programRefCount d.m_program_cache k) ∧
    programRefCount d2.m_program_cache key =
      programRefCount d.m_program_cache key + (if r = 0 then 0 else 1) ∧
    d2.m_vao_cache = d.m_vao_cache := by
  unfold OpenGLDevice.LookupProgramCache at h
  split at h
  · rename_i item hfind
    split at h
    · rename_i hcond
      split at h
      · simp at h
      · rename_i prog d1 hcreate
        obtain ⟨hc, hv⟩ := OpenGLDevice.CreateProgramFromPipelineCache_caches env item o d d1
          prog hcreate
        have hmod : ∀ k, programRefCount (mapModify d1.m_program_cache key
            (fun i => { i with program_id := prog })) k = programRefCount d.m_program_cache k := by
          intro k
          have hm := programRefCount_mapModify d.m_program_cache key k
            (fun i => { i with program_id := prog }) 0 (fun _ => (add_zero _).symm)
          rw [hc, hm]
          split <;> simp
        split at h
        · have hpm : MapInv ProgramCacheItem.Good (mapModify d.m_program_cache key
              (fun i => { i with program_id := prog })) := by
            refine ⟨by rw [map_fst_mapModify]; exact hp.1, ?_⟩
            intro p hpmem
            rcases mem_mapModify _ _ _ _ hpmem with hm | ⟨v, hv1, hv2⟩
            · exact hp.2 p hm
            · rw [hfind] at hv1
              cases hv1
              rw [hv2]
              rename_i hprog0
              have hg : ProgramCacheItem.Good item := hp.2 _ (mapFind_mem _ _ _ hfind)
              refine ⟨hg.1, ?_⟩
              show prog ≠ 0 ↔ _
              rw [hprog0]
              constructor
              · intro hh
                exact absurd rfl hh
              · intro hh
                exact absurd (hg.2.mpr hh) (by simp [hcond.1])
          have hpe := hpm.erase key
          have hdisc : ∀ k, k ≠ key →
              programRefCount ((({ d1 with m_program_cache := mapErase (mapModify
                d1.m_program_cache key (fun i => { i with program_id := prog })) key
                } : OpenGLDevice).DiscardPipelineCache o.reopen_ok).2.m_program_cache) k =
              programRefCount d.m_program_cache k := by
            intro k hk
            rw [OpenGLDevice.DiscardPipelineCache_program_cache]
            show programRefCount ((mapErase (mapModify d1.m_program_cache key _) key).filterMap
              discardEntry) k = _
            rw [hc, programRefCount_discard _ _ hpe, programRefCount_mapErase _ _ _ hk]
            have hmk := hmod k
            rw [hc] at hmk
            exact hmk
          have hnone2 : mapFind ((({ d1 with m_program_cache := mapErase (mapModify
                d1.m_program_cache key (fun i => { i with program_id := prog })) key
                } : OpenGLDevice).DiscardPipelineCache o.reopen_ok).2.m_program_cache) key =
              none := by
            rw [OpenGLDevice.DiscardPipelineCache_program_cache]
            show mapFind ((mapErase (mapModify d1.m_program_cache key _) key).filterMap
              discardEntry) key = none
            rw [hc]
            exact mapFind_filterMap_none _ _ discardEntry_fst _
              (mapFind_mapErase_self _ _ hpm.1)
          obtain ⟨m1, m2, m3⟩ := OpenGLDevice.LookupProgramCacheMiss_counts env key o _ d2 r h
            hnone2
          have hitem0 : programRefCount d.m_program_cache key = 0 := by
            rw [programRefCount_of_some _ _ _ hfind]
            have hg : ProgramCacheItem.Good item := hp.2 _ (mapFind_mem _ _ _ hfind)
            have h1 : 0 ≤ item.reference_count := hg.1
            have h2 : ¬ 0 < item.reference_count := fun hh => (hg.2.mpr hh) hcond.1
            omega
          refine ⟨fun k hk => (m1 k hk).trans (hdisc k hk), ?_, ?_⟩
          · rw [m2, programRefCount_of_none _ _ hnone2, hitem0]
          · rw [m3, OpenGLDevice.DiscardPipelineCache_vao_cache]
            exact hv
        · obtain ⟨m1, m2, m3⟩ := OpenGLDevice.LookupProgramCacheHit_counts key _ d2 r h
          refine ⟨fun k hk => (m1 k hk).trans (hmod k), ?_, m3.trans hv⟩
          rw [m2]
          congr 1
          exact hmod key
    · exact OpenGLDevice.LookupProgramCacheHit_counts key d d2 r h
  · rename_i hfind
    exact OpenGLDevice.LookupProgramCacheMiss_counts env key o d d2 r h hfind

theorem OpenGLDevice.UnrefProgram_counts (key : ProgramCacheKey) (d d2 : OpenGLDevice)
    (h : d.UnrefProgram key = some d2) :
    (∀ k, k ≠ key → programRefCount d2.m_program_cache k = programRefCount d.m_program_cache k) ∧
    programRefCount d2.m_program_cache key = programRefCount d.m_program_cache key - 1 ∧
    d2.m_vao_cache = d.m_vao_cache := by
  unfold OpenGLDevice.UnrefProgram at h
  split at h
  · simp at h
  · rename_i item hfind
    have hne : mapFind d.m_program_cache key ≠ none := by simp [hfind]
    split at h
    · split at h
      · simp only [Option.some.injEq] at h
        rw [← h]
        have hm := fun k => programRefCount_mapModify d.m_program_cache key k
          (fun i => { i with reference_count := i.reference_count - 1 }) (-1) (fun _ => rfl)
        refine ⟨fun k hk => ?_, ?_, rfl⟩
        · show programRefCount (mapModify d.m_program_cache key _) k = _
          rw [hm k, if_neg (fun hh => hk hh.1)]
        · show programRefCount (mapModify d.m_program_cache key _) key = _
          rw [hm key, if_pos ⟨rfl, hne⟩]
          rfl
      · simp only [Option.some.injEq] at h
        rw [← h]
        have hm := fun k => programRefCount_mapModify d.m_program_cache key k
          (fun i => { i with reference_count := i.reference_count - 1, program_id := 0 }) (-1)
          (fun _ => rfl)
        have hcache : ∀ x : OpenGLDevice, ((if d.m_last_program = item.program_id then
            { d with m_last_program := 0 }.record (Call.glUseProgram 0) else d).record
              (Call.glDeleteProgram item.program_id)).m_program_cache = d.m_program_cache := by
          intro _
          simp only [OpenGLDevice.record_program_cache]
          split <;> rfl
        have hvao : ((if d.m_last_program = item.program_id then
            { d with m_last_program := 0 }.record (Call.glUseProgram 0) else d).record
              (Call.glDeleteProgram item.program_id)).m_vao_cache = d.m_vao_cache := by
          simp only [OpenGLDevice.record_vao_cache]
          split <;> rfl
        refine ⟨fun k hk => ?_, ?_, hvao⟩
        · show programRefCount (mapModify _ key _) k = _
          rw [hcache d, hm k, if_neg (fun hh => hk hh.1)]
        · show programRefCount (mapModify _ key _) key = _
          rw [hcache d, hm key, if_pos ⟨rfl, hne⟩]
          rfl
    · simp at h

theorem OpenGLDevice.UnrefProgram_isSome (key : ProgramCacheKey) (d : OpenGLDevice)
    (it : ProgramCacheItem) (hfind : mapFind d.m_program_cache key = some it)
    (hprog : it.program_id ≠ 0) (hcount : 0 < it.reference_count) :
    ∃ d2, d.UnrefProgram key = some d2 := by
  unfold OpenGLDevice.UnrefProgram
  simp only [hfind]
  rw [if_pos ⟨hprog, hcount⟩]
  split <;> exact ⟨_, rfl⟩

/-- After a lookup that returned a program, under the invariant, UnrefProgram of the
key returns -/
theorem OpenGLDevice.UnrefProgram_after_lookup (env : Environment) (key : ProgramCacheKey)
    (o : LookupOutcome) (d d1 : OpenGLDevice) (r : Nat)
    (h : d.LookupProgramCache env key o = some (r, d1)) (hr : r ≠ 0)
    (hp : MapInv ProgramCacheItem.Good d.m_program_cache) :
    ∃ d2, d1.UnrefProgram key = some d2 := by
  obtain ⟨_, h2, _⟩ := OpenGLDevice.LookupProgramCache_counts env key o d d1 r h hp
  have hp1 := (OpenGLDevice.LookupProgramCache_inv env key o d d1 r h hp).1
  have h0 := programRefCount_nonneg d.m_program_cache key hp
  rw [if_neg hr] at h2
  have hpos : 0 < programRefCount d1.m_program_cache key := by omega
  obtain ⟨it, hfind, hprog⟩ := (liveKey_iff _ _ hp1).mpr hpos
  rw [programRefCount_of_some _ _ _ hfind] at hpos
  exact OpenGLDevice.UnrefProgram_isSome key d1 it hfind hprog hpos

theorem Session.Reachable.mapInv (env : Environment) (s : Session)
    (h : Session.Reachable env s) :
    MapInv ProgramCacheItem.Good s.device.m_program_cache ∧
      MapInv VertexArrayCacheItem.Good s.device.m_vao_cache := by
  induction h with
  | empty => exact ⟨⟨List.nodup_nil, fun _ hp => by cases hp⟩,
      ⟨List.nodup_nil, fun _ hp => by cases hp⟩⟩
  | step s t _ hstep ih => exact Session.Step.inv env s t hstep ih.1 ih.2

/-- C23: in every reachable state, a lookup of a key that returns a program, followed
at once by UnrefProgram of the key (which then returns), leaves every key with the
reference count it had, a key without an entry counting as 0, and leaves the same
keys live, a key being live when its entry has a realized program. -/
theorem C23_acquire_release_round_trip (env : Environment) (s : Session)
    (key : ProgramCacheKey) (o : LookupOutcome) (d1 : OpenGLDevice) (r : Nat)
    (hreach : Session.Reachable env s)
    (h : s.device.LookupProgramCache env key o = some (r, d1)) (hr : r ≠ 0) :
    ∃ d2, d1.UnrefProgram key = some d2 ∧
      (∀ k, programRefCount d2.m_program_cache k =
        programRefCount s.device.m_program_cache k) ∧
      (∀ k, LiveKey d2.m_program_cache k ↔ LiveKey s.device.m_program_cache k) := by
  have hp := (Session.Reachable.mapInv env s hreach).1
  obtain ⟨d2, hunref⟩ := OpenGLDevice.UnrefProgram_after_lookup env key o s.device d1 r h hr hp
  obtain ⟨l1, l2, _⟩ := OpenGLDevice.LookupProgramCache_counts env key o s.device d1 r h hp
  obtain ⟨u1, u2, _⟩ := OpenGLDevice.UnrefProgram_counts key d1 d2 hunref
  have hp1 := (OpenGLDevice.LookupProgramCache_inv env key o s.device d1 r h hp).1
  have hp2 := (OpenGLDevice.UnrefProgram_inv key d1 d2 hunref hp1).1
  rw [if_neg hr] at l2
  have hcount : ∀ k, programRefCount d2.m_program_cache k =
      programRefCount s.device.m_program_cache k := by
    intro k
    by_cases hk : k = key
    · rw [hk, u2, l2]
      omega
    · rw [u1 k hk, l1 k hk]
  refine ⟨d2, hunref, hcount, fun k => ?_⟩
  rw [liveKey_iff _ _ hp2, liveKey_iff _ _ hp, hcount k]

/-- C23 at the session that holds program 7 once: it is looked up and released -/
theorem C23_acquire_release_round_trip_witness :
    ∃ d2,
      ({ sampleSession.device with
          m_program_cache := [(sampleKey 1, sampleItem 7 2)] } : OpenGLDevice).UnrefProgram
        (sampleKey 1) = some d2 ∧
      (∀ k, programRefCount d2.m_program_cache k =
        programRefCount sampleSession.device.m_program_cache k) ∧
      (∀ k, LiveKey d2.m_program_cache k ↔ LiveKey sampleSession.device.m_program_cache k) :=
  C23_acquire_release_round_trip sampleEnvironment sampleSession (sampleKey 1)
    (sampleLookup 9 []) _ 7 sampleSession_reachable rfl (by decide)

/-! ## The references of a pipeline -/

theorem vaoRefCount_of_some (cache : List (VertexArrayCacheKey × VertexArrayCacheItem))
    (key : VertexArrayCacheKey) (it : VertexArrayCacheItem) (h : mapFind cache key = some it) :
    vaoRefCount cache key = it.reference_count := by
  unfold vaoRefCount
  rw [h]

theorem vaoRefCount_of_none (cache : List (VertexArrayCacheKey × VertexArrayCacheItem))
    (key : VertexArrayCacheKey) (h : mapFind cache key = none) :
    vaoRefCount cache key = 0 := by
  unfold vaoRefCount
  rw [h]

theorem vaoRefCount_mapModify (cache : List (VertexArrayCacheKey × VertexArrayCacheItem))
    (key k : VertexArrayCacheKey) (f : VertexArrayCacheItem → VertexArrayCacheItem) (n : Int)
    (hf : ∀ i, (f i).reference_count = i.reference_count + n) :
    vaoRefCount (mapModify cache key f) k =
      if k = key ∧ mapFind cache key ≠ none then vaoRefCount cache k + n
      else vaoRefCount cache k := by
  unfold vaoRefCount
  rw [mapFind_mapModify]
  by_cases hk : k = key
  · subst hk
    cases h : mapFind cache k with
    | none => simp
    | some it => simp [hf]
  · simp [hk]

/-- What LookupVAOCache does to the reference counts: the count of the key goes up by
one when a vertex array is returned, and nothing changes when none is -/
theorem OpenGLDevice.LookupVAOCache_counts (key : VertexArrayCacheKey) (vao : Nat)
    (error : Bool) (d : OpenGLDevice) :
    ((d.LookupVAOCache key vao error).1 = 0 →
      (d.LookupVAOCache key vao error).2.m_vao_cache = d.m_vao_cache ∨
      ∃ it, mapFind d.m_vao_cache key = some it ∧ it.vao_id = 0) ∧
    ((d.LookupVAOCache key vao error).1 ≠ 0 →
      (∀ k, k ≠ key → vaoRefCount (d.LookupVAOCache key vao error).2.m_vao_cache k =
        vaoRefCount d.m_vao_cache k) ∧
      vaoRefCount (d.LookupVAOCache key vao error).2.m_vao_cache key =
        vaoRefCount d.m_vao_cache key + 1) := by
  unfold OpenGLDevice.LookupVAOCache OpenGLDevice.CreateVAO
  cases hfind : mapFind d.m_vao_cache key with
  | some item =>
    simp only
    have hm := fun k => vaoRefCount_mapModify d.m_vao_cache key k
      (fun i => { i with reference_count := i.reference_count + 1 }) 1 (fun _ => rfl)
    refine ⟨fun h0 => Or.inr ⟨item, rfl, h0⟩, fun _ => ⟨fun k hk => ?_, ?_⟩⟩
    · show vaoRefCount (mapModify d.m_vao_cache key _) k = _
      rw [hm k, if_neg (fun hh => hk hh.1)]
    · show vaoRefCount (mapModify d.m_vao_cache key _) key = _
      rw [hm key, if_pos ⟨rfl, by simp [hfind]⟩]
  | none =>
    simp only
    by_cases he : error = true
    · simp only [he, if_true]
      exact ⟨fun _ => Or.inl rfl, fun h0 => absurd rfl h0⟩
    · simp only [he, if_false, Bool.false_eq_true]
      by_cases hv : vao = 0
      · simp only [hv, if_true]
        exact ⟨fun _ => Or.inl rfl, fun h0 => absurd rfl h0⟩
      · simp only [hv, if_false]
        refine ⟨fun h0 => False.elim h0, fun _ => ⟨fun k hk => ?_, ?_⟩⟩
        · show vaoRefCount (mapEmplace d.m_vao_cache key _) k = _
          unfold vaoRefCount
          rw [mapFind_mapEmplace _ _ _ _ hfind, if_neg hk]
        · show vaoRefCount (mapEmplace d.m_vao_cache key _) key = _
          unfold vaoRefCount
          rw [mapFind_mapEmplace _ _ _ _ hfind, if_pos rfl, hfind]
          rfl

theorem OpenGLDevice.UnrefVAO_counts (key : VertexArrayCacheKey) (d d2 : OpenGLDevice)
    (h : d.UnrefVAO key = some d2) (hv : MapInv VertexArrayCacheItem.Good d.m_vao_cache) :
    (∀ k, k ≠ key → vaoRefCount d2.m_vao_cache k = vaoRefCount d.m_vao_cache k) ∧
    vaoRefCount d2.m_vao_cache key = vaoRefCount d.m_vao_cache key - 1 ∧
    (vaoRefCount d.m_vao_cache key = 1 → mapFind d2.m_vao_cache key = none) := by
  unfold OpenGLDevice.UnrefVAO at h
  split at h
  · simp at h
  · rename_i item hfind
    have hne : mapFind d.m_vao_cache key ≠ none := by simp [hfind]
    split at h
    · rename_i hpos
      split at h
      · rename_i hpos2
        simp only [Option.some.injEq] at h
        rw [← h]
        have hm := fun k => vaoRefCount_mapModify d.m_vao_cache key k
          (fun i => { i with reference_count := i.reference_count - 1 }) (-1) (fun _ => rfl)
        refine ⟨fun k hk => ?_, ?_, fun h1 => ?_⟩
        · show vaoRefCount (mapModify d.m_vao_cache key _) k = _
          rw [hm k, if_neg (fun hh => hk hh.1)]
        · show vaoRefCount (mapModify d.m_vao_cache key _) key = _
          rw [hm key, if_pos ⟨rfl, hne⟩]
          rfl
        · rw [vaoRefCount_of_some _ _ _ hfind] at h1
          omega
      · rename_i hpos2
        simp only [Option.some.injEq] at h
        rw [← h]
        have hcache : ((if d.m_last_vao = item.vao_id then
            { d with m_last_vao := 0 }.record (Call.glBindVertexArray 0) else d).record
              (Call.glDeleteVertexArrays item.vao_id)).m_vao_cache = d.m_vao_cache := by
          simp only [OpenGLDevice.record_vao_cache]
          split <;> rfl
        have hnone : mapFind (mapErase d.m_vao_cache key) key = none :=
          mapFind_mapErase_self _ _ hv.1
        refine ⟨fun k hk => ?_, ?_, fun _ => ?_⟩
        · show vaoRefCount (mapErase _ key) k = _
          rw [hcache]
          unfold vaoRefCount
          rw [mapFind_mapErase_ne _ _ _ hk]
        · show vaoRefCount (mapErase _ key) key = _
          rw [hcache, vaoRefCount_of_none _ _ hnone, vaoRefCount_of_some _ _ _ hfind]
          omega
        · show mapFind (mapErase _ key) key = none
          rw [hcache]
          exact hnone
    · simp at h

theorem OpenGLDevice.UnrefVAO_isSome (key : VertexArrayCacheKey) (d : OpenGLDevice)
    (it : VertexArrayCacheItem) (hfind : mapFind d.m_vao_cache key = some it)
    (hcount : 0 < it.reference_count) : ∃ d2, d.UnrefVAO key = some d2 := by
  unfold OpenGLDevice.UnrefVAO
  simp only [hfind]
  rw [if_pos hcount]
  split <;> exact ⟨_, rfl⟩

/-- The three ways in which CreatePipeline returns: no program; a program but no
vertex array, the program being released again; a pipeline -/
theorem OpenGLDevice.CreatePipeline_cases (env : Environment) (config : GraphicsConfig)
    (o : CreateOutcome) (d d2 : OpenGLDevice) (r : Option OpenGLPipeline)
    (h : d.CreatePipeline env config o = some (r, d2)) :
    ∃ pkey prog dl, GetProgramCacheKey config = some pkey ∧
      d.LookupProgramCache env pkey o.lookup = some (prog, dl) ∧
      ((prog = 0 ∧ r = none ∧ d2 = dl) ∨
       (prog ≠ 0 ∧ (dl.LookupVAOCache pkey.va_key o.vao o.vao_error).1 = 0 ∧ r = none ∧
          (dl.LookupVAOCache pkey.va_key o.vao o.vao_error).2.UnrefProgram pkey = some d2) ∨
       (prog ≠ 0 ∧ (dl.LookupVAOCache pkey.va_key o.vao o.vao_error).1 ≠ 0 ∧
          r = some { addr := o.addr, m_key := pkey, m_program := prog,
                     m_vao := (dl.LookupVAOCache pkey.va_key o.vao o.vao_error).1 } ∧
          d2 = (dl.LookupVAOCache pkey.va_key o.vao o.vao_error).2)) := by
  unfold OpenGLDevice.CreatePipeline at h
  cases hkey : GetProgramCacheKey config with
  | none => rw [hkey] at h; simp at h
  | some pkey =>
    rw [hkey] at h
    simp only at h
    cases hlookup : d.LookupProgramCache env pkey o.lookup with
    | none => rw [hlookup] at h; simp at h
    | some p =>
      obtain ⟨prog, dl⟩ := p
      rw [hlookup] at h
      refine ⟨pkey, prog, dl, rfl, hlookup, ?_⟩
      simp only at h
      by_cases hp : prog = 0
      · simp only [hp, if_true, Option.some.injEq, Prod.mk.injEq] at h
        exact Or.inl ⟨hp, h.1.symm, h.2.symm⟩
      · simp only [hp, if_false] at h
        generalize dl.LookupVAOCache pkey.va_key o.vao o.vao_error = res at h
        obtain ⟨v, dv⟩ := res
        simp only at h
        by_cases hv0 : v = 0
        · simp only [hv0, if_true] at h
          cases hunref : dv.UnrefProgram pkey with
          | none => rw [hunref] at h; simp at h
          | some d3 =>
            rw [hunref] at h
            simp only [Option.some.injEq, Prod.mk.injEq] at h
            exact Or.inr (Or.inl ⟨hp, hv0, h.1.symm, by rw [← h.2]⟩)
        · simp only [hv0, if_false, Option.some.injEq, Prod.mk.injEq] at h
          exact Or.inr (Or.inr ⟨hp, hv0, h.1.symm, h.2.symm⟩)

/-- C22: in every reachable state, a CreatePipeline that returns a pipeline adds one
to the reference count of its program key and one to that of its vertex-array key and
changes no other count; destroying the pipeline right away returns and restores
every reference count of both caches, the vertex-array entry being erased again when
the key had none before. A CreatePipeline that found a program and returns no
pipeline, the vertex array failing, leaves every program reference count as it was
and the vertex-array cache unchanged. A key without an entry counts as 0. -/
theorem C22_references_in_lock_step (env : Environment) (s : Session)
    (config : GraphicsConfig) (o : CreateOutcome) (r : Option OpenGLPipeline)
    (d1 : OpenGLDevice) (hreach : Session.Reachable env s)
    (h : s.device.CreatePipeline env config o = some (r, d1)) :
    ∃ pkey prog dl, GetProgramCacheKey config = some pkey ∧
      s.device.LookupProgramCache env pkey o.lookup = some (prog, dl) ∧
      (∀ pl, r = some pl →
        pl.m_key = pkey ∧
        programRefCount d1.m_program_cache pkey =
          programRefCount s.device.m_program_cache pkey + 1 ∧
        vaoRefCount d1.m_vao_cache pkey.va_key =
          vaoRefCount s.device.m_vao_cache pkey.va_key + 1 ∧
        (∀ k, k ≠ pkey →
          programRefCount d1.m_program_cache k = programRefCount s.device.m_program_cache k) ∧
        (∀ v, v ≠ pkey.va_key →
          vaoRefCount d1.m_vao_cache v = vaoRefCount s.device.m_vao_cache v) ∧
        ∃ d2, d1.DestroyPipeline pl = some d2 ∧
          (∀ k, programRefCount d2.m_program_cache k =
            programRefCount s.device.m_program_cache k) ∧
          (∀ v, vaoRefCount d2.m_vao_cache v = vaoRefCount s.device.m_vao_cache v) ∧
          (vaoRefCount s.device.m_vao_cache pkey.va_key = 0 →
            mapFind d2.m_vao_cache pkey.va_key = none)) ∧
      (r = none → prog ≠ 0 →
        (∀ k, programRefCount d1.m_program_cache k =
          programRefCount s.device.m_program_cache k) ∧
        d1.m_vao_cache = s.device.m_vao_cache) := by
  obtain ⟨hp, hv⟩ := Session.Reachable.mapInv env s hreach
  obtain ⟨pkey, prog, dl, hkey, hlookup, hcases⟩ :=
    OpenGLDevice.CreatePipeline_cases env config o s.device d1 r h
  obtain ⟨l1, l2, l3⟩ := OpenGLDevice.LookupProgramCache_counts env pkey o.lookup s.device dl
    prog hlookup hp
  obtain ⟨hpl, _⟩ := OpenGLDevice.LookupProgramCache_inv env pkey o.lookup s.device dl prog
    hlookup hp
  have hvl : MapInv VertexArrayCacheItem.Good dl.m_vao_cache := by rw [l3]; exact hv
  obtain ⟨hvv, hcv⟩ := OpenGLDevice.LookupVAOCache_inv pkey.va_key o.vao o.vao_error dl hvl
  obtain ⟨c0, c1⟩ := OpenGLDevice.LookupVAOCache_counts pkey.va_key o.vao o.vao_error dl
  have h0 := programRefCount_nonneg s.device.m_program_cache pkey hp
  refine ⟨pkey, prog, dl, hkey, hlookup, ?_, ?_⟩
  · intro pl hpl2
    rcases hcases with ⟨_, hr, _⟩ | ⟨_, _, hr, _⟩ | ⟨hprog, hvao, hr, hd⟩
    · rw [hr] at hpl2
      cases hpl2
    · rw [hr] at hpl2
      cases hpl2
    · rw [hr] at hpl2
      simp only [Option.some.injEq] at hpl2
      have hkeyeq : pl.m_key = pkey := by rw [← hpl2]
      obtain ⟨cv1, cv2⟩ := c1 hvao
      rw [if_neg hprog] at l2
      have hprog1 : programRefCount d1.m_program_cache pkey =
          programRefCount s.device.m_program_cache pkey + 1 := by
        rw [hd, hcv, l2]
      have hvao1 : vaoRefCount d1.m_vao_cache pkey.va_key =
          vaoRefCount s.device.m_vao_cache pkey.va_key + 1 := by
        rw [hd, cv2, l3]
      have hpo : ∀ k, k ≠ pkey → programRefCount d1.m_program_cache k =
          programRefCount s.device.m_program_cache k := by
        intro k hk
        rw [hd, hcv, l1 k hk]
      have hvo : ∀ v, v ≠ pkey.va_key → vaoRefCount d1.m_vao_cache v =
          vaoRefCount s.device.m_vao_cache v := by
        intro v hvk
        rw [hd, cv1 v hvk, l3]
      refine ⟨hkeyeq, hprog1, hvao1, hpo, hvo, ?_⟩
      have hp1 : MapInv ProgramCacheItem.Good d1.m_program_cache := by
        rw [hd, hcv]
        exact hpl
      have hv1 : MapInv VertexArrayCacheItem.Good d1.m_vao_cache := by
        rw [hd]
        exact hvv
      have hpos : 0 < programRefCount d1.m_program_cache pkey := by omega
      obtain ⟨it, hfind, hitprog⟩ := (liveKey_iff _ _ hp1).mpr hpos
      rw [programRefCount_of_some _ _ _ hfind] at hpos
      obtain ⟨du, hunref⟩ := OpenGLDevice.UnrefProgram_isSome pl.m_key (d1.UnbindPipeline pl) it
        (by rw [OpenGLDevice.UnbindPipeline_program_cache, hkeyeq]; exact hfind) hitprog hpos
      obtain ⟨u1, u2, u3⟩ := OpenGLDevice.UnrefProgram_counts pl.m_key _ du hunref
      rw [OpenGLDevice.UnbindPipeline_program_cache, hkeyeq] at u1 u2
      rw [OpenGLDevice.UnbindPipeline_vao_cache] at u3
      have hvu : MapInv VertexArrayCacheItem.Good du.m_vao_cache := by rw [u3]; exact hv1
      have hvnn : 0 ≤ vaoRefCount s.device.m_vao_cache pkey.va_key := by
        unfold vaoRefCount
        split
        · rename_i itv hfv
          have hg : VertexArrayCacheItem.Good itv := hv.2 _ (mapFind_mem _ _ _ hfv)
          exact hg.1
        · exact le_refl _
      have hvpos : 0 < vaoRefCount du.m_vao_cache pkey.va_key := by
        rw [u3, hvao1]
        omega
      have hvfind : ∃ itv, mapFind du.m_vao_cache pkey.va_key = some itv ∧
          0 < itv.reference_count := by
        unfold vaoRefCount at hvpos
        split at hvpos
        · rename_i itv hfv
          exact ⟨itv, hfv, hvpos⟩
        · exact absurd hvpos (lt_irrefl _)
      obtain ⟨itv, hfv, hcv2⟩ := hvfind
      obtain ⟨d2, hunvao⟩ := OpenGLDevice.UnrefVAO_isSome pkey.va_key du itv hfv hcv2
      obtain ⟨w1, w2, w3⟩ := OpenGLDevice.UnrefVAO_counts pkey.va_key du d2 hunvao hvu
      have hpc : d2.m_program_cache = du.m_program_cache :=
        OpenGLDevice.UnrefVAO_cache _ du d2 hunvao
      refine ⟨d2, ?_, ?_, ?_, ?_⟩
      · unfold OpenGLDevice.DestroyPipeline
        rw [hunref]
        simp only [hkeyeq]
        exact hunvao
      · intro k
        rw [hpc]
        by_cases hk : k = pkey
        · rw [hk, u2, hprog1]
          omega
        · rw [u1 k hk, hpo k hk]
      · intro v
        by_cases hvk : v = pkey.va_key
        · rw [hvk, w2, u3, hvao1]
          omega
        · rw [w1 v hvk, u3, hvo v hvk]
      · intro hz
        apply w3
        rw [u3, hvao1, hz]
        rfl
  · intro hnone hprog
    rcases hcases with ⟨hp0, _, _⟩ | ⟨_, hvao, _, hunref⟩ | ⟨_, _, hr, _⟩
    · exact absurd hp0 hprog
    · have hsame : (dl.LookupVAOCache pkey.va_key o.vao o.vao_error).2.m_vao_cache =
          dl.m_vao_cache := by
        rcases c0 hvao with hsame | ⟨itv, hfv, hzero⟩
        · exact hsame
        · have hg : VertexArrayCacheItem.Good itv := hvl.2 _ (mapFind_mem _ _ _ hfv)
          exact absurd hzero hg.2.1
      obtain ⟨u1, u2, u3⟩ := OpenGLDevice.UnrefProgram_counts pkey _ d1 hunref
      rw [hcv] at u1 u2
      rw [if_neg hprog] at l2
      refine ⟨fun k => ?_, by rw [u3, hsame, l3]⟩
      by_cases hk : k = pkey
      · rw [hk, u2, l2]
        omega
      · rw [u1 k hk, l1 k hk]
    · rw [hr] at hnone
      cases hnone

/-- C22 at the sample session, which holds program 7 once: a pipeline is created for
its key -/
theorem C22_references_in_lock_step_witness :
    ∃ pkey prog dl, GetProgramCacheKey (sampleConfig 1 [] 0) = some pkey ∧
      sampleSession.device.LookupProgramCache sampleEnvironment pkey
        (samplePipelineOutcome 1).lookup = some (prog, dl) ∧
      (∀ pl, sampleCreated.1 = some pl →
        pl.m_key = pkey ∧
        programRefCount sampleCreated.2.m_program_cache pkey =
          programRefCount sampleSession.device.m_program_cache pkey + 1 ∧
        vaoRefCount sampleCreated.2.m_vao_cache pkey.va_key =
          vaoRefCount sampleSession.device.m_vao_cache pkey.va_key + 1 ∧
        (∀ k, k ≠ pkey →
          programRefCount sampleCreated.2.m_program_cache k =
            programRefCount sampleSession.device.m_program_cache k) ∧
        (∀ v, v ≠ pkey.va_key →
          vaoRefCount sampleCreated.2.m_vao_cache v =
            vaoRefCount sampleSession.device.m_vao_cache v) ∧
        ∃ d2, sampleCreated.2.DestroyPipeline pl = some d2 ∧
          (∀ k, programRefCount d2.m_program_cache k =
            programRefCount sampleSession.device.m_program_cache k) ∧
          (∀ v, vaoRefCount d2.m_vao_cache v =
            vaoRefCount sampleSession.device.m_vao_cache v) ∧
          (vaoRefCount sampleSession.device.m_vao_cache pkey.va_key = 0 →
            mapFind d2.m_vao_cache pkey.va_key = none)) ∧
      (sampleCreated.1 = none → prog ≠ 0 →
        (∀ k, programRefCount sampleCreated.2.m_program_cache k =
          programRefCount sampleSession.device.m_program_cache k) ∧
        sampleCreated.2.m_vao_cache = sampleSession.device.m_vao_cache) :=
  C22_references_in_lock_step sampleEnvironment sampleSession (sampleConfig 1 [] 0)
    (samplePipelineOutcome 1) sampleCreated.1 sampleCreated.2 sampleSession_reachable rfl

/-! ## Two programs that share a vertex layout -/

theorem GetProgramCacheKey_shaders (c : GraphicsConfig) (k : ProgramCacheKey)
    (h : GetProgramCacheKey c = some k) :
    k.vs_key = c.vertex_shader ∧ k.fs_key = c.fragment_shader := by
  unfold GetProgramCacheKey at h
  split at h
  · simp only [Option.some.injEq] at h
    rw [← h]
    exact ⟨rfl, rfl⟩
  · cases h

theorem GetProgramCacheKey_same_layout (c1 c2 : GraphicsConfig) (k1 k2 : ProgramCacheKey)
    (hattrs : c1.vertex_attributes = c2.vertex_attributes)
    (hstride : c1.vertex_stride = c2.vertex_stride)
    (h1 : GetProgramCacheKey c1 = some k1) (h2 : GetProgramCacheKey c2 = some k2) :
    k1.va_key = k2.va_key := by
  unfold GetProgramCacheKey at h1 h2
  rw [← hattrs, ← hstride] at h2
  split at h1
  · rename_i hle
    rw [if_pos hle] at h2
    simp only [Option.some.injEq] at h1 h2
    rw [← h1, ← h2]
  · cases h1

theorem OpenGLDevice.LookupProgramCache_of_none (env : Environment) (key : ProgramCacheKey)
    (o : LookupOutcome) (d : OpenGLDevice) (h : mapFind d.m_program_cache key = none) :
    d.LookupProgramCache env key o = d.LookupProgramCacheMiss env key o := by
  unfold OpenGLDevice.LookupProgramCache
  simp only [h]

/-- The vertex-array cache after a LookupVAOCache that returned a vertex array: a new
entry with one reference, or one more reference on the entry of the key -/
theorem OpenGLDevice.LookupVAOCache_entry (key : VertexArrayCacheKey) (vao : Nat)
    (error : Bool) (d : OpenGLDevice)
    (h : (d.LookupVAOCache key vao error).1 ≠ 0) :
    (mapFind d.m_vao_cache key = none →
      (d.LookupVAOCache key vao error).2.m_vao_cache =
        d.m_vao_cache ++ [(key, { vao_id := (d.LookupVAOCache key vao error).1,
                                  reference_count := 1 })]) ∧
    (∀ it, mapFind d.m_vao_cache key = some it →
      (d.LookupVAOCache key vao error).2.m_vao_cache =
        mapModify d.m_vao_cache key
          (fun i => { i with reference_count := i.reference_count + 1 })) := by
  unfold OpenGLDevice.LookupVAOCache OpenGLDevice.CreateVAO at h ⊢
  cases hfind : mapFind d.m_vao_cache key with
  | some item =>
    constructor
    · intro hh
      cases hh
    · intro it _
      rfl
  | none =>
    simp only [hfind] at h
    simp only
    by_cases he : error = true
    · simp [he] at h
    · simp only [he, if_false, Bool.false_eq_true] at h ⊢
      by_cases hv : vao = 0
      · simp [hv] at h
      · simp only [hv, if_false]
        refine ⟨fun _ => ?_, fun _ hh => by cases hh⟩
        show mapEmplace d.m_vao_cache key _ = _
        rw [mapEmplace_of_none _ _ _ hfind]

/-- C21: from empty caches, two CreatePipeline calls that return pipelines, for
configurations with the same vertex attributes, stride and vertex shader and with
different fragment shaders, leave one entry in the vertex-array cache, with reference
count 2, and two entries in the program cache, under different keys, each with a
program and reference count 1. -/
theorem C21_shared_vertex_layout (env : Environment) (c1 c2 : GraphicsConfig)
    (o1 o2 : CreateOutcome) (d d1 d2 : OpenGLDevice) (p1 p2 : OpenGLPipeline)
    (hprog : d.m_program_cache = []) (hvao : d.m_vao_cache = [])
    (hattrs : c1.vertex_attributes = c2.vertex_attributes)
    (hstride : c1.vertex_stride = c2.vertex_stride)
    (hvs : c1.vertex_shader = c2.vertex_shader)
    (hfs : c1.fragment_shader ≠ c2.fragment_shader)
    (h1 : d.CreatePipeline env c1 o1 = some (some p1, d1))
    (h2 : d1.CreatePipeline env c2 o2 = some (some p2, d2)) :
    ∃ k1 k2 it1 it2 vao,
      GetProgramCacheKey c1 = some k1 ∧ GetProgramCacheKey c2 = some k2 ∧ k1 ≠ k2 ∧
      k1.vs_key = k2.vs_key ∧ k1.va_key = k2.va_key ∧
      p1.m_key = k1 ∧ p2.m_key = k2 ∧ p1.m_vao = vao ∧ p2.m_vao = vao ∧
      d2.m_vao_cache = [(k1.va_key, { vao_id := vao, reference_count := 2 })] ∧
      d2.m_program_cache = [(k1, it1), (k2, it2)] ∧
      it1.program_id = p1.m_program ∧ it1.program_id ≠ 0 ∧ it1.reference_count = 1 ∧
      it2.program_id = p2.m_program ∧ it2.program_id ≠ 0 ∧ it2.reference_count = 1 := by
  obtain ⟨k1, prog1, dl1, hkey1, hlookup1, hc1⟩ :=
    OpenGLDevice.CreatePipeline_cases env c1 o1 d d1 (some p1) h1
  obtain ⟨k2, prog2, dl2, hkey2, hlookup2, hc2⟩ :=
    OpenGLDevice.CreatePipeline_cases env c2 o2 d1 d2 (some p2) h2
  have hne : k1 ≠ k2 := by
    intro he
    apply hfs
    rw [← (GetProgramCacheKey_shaders c1 k1 hkey1).2, ← (GetProgramCacheKey_shaders c2 k2 hkey2).2,
      he]
  have hvseq : k1.vs_key = k2.vs_key := by
    rw [(GetProgramCacheKey_shaders c1 k1 hkey1).1, (GetProgramCacheKey_shaders c2 k2 hkey2).1,
      hvs]
  have hva := GetProgramCacheKey_same_layout c1 c2 k1 k2 hattrs hstride hkey1 hkey2
  rcases hc1 with ⟨_, hr, _⟩ | ⟨_, _, hr, _⟩ | ⟨hprog1, hvao1, hr1, hd1⟩
  · cases hr
  · cases hr
  rcases hc2 with ⟨_, hr, _⟩ | ⟨_, _, hr, _⟩ | ⟨hprog2, hvao2, hr2, hd2⟩
  · cases hr
  · cases hr
  simp only [Option.some.injEq] at hr1 hr2
  have hfind1 : mapFind d.m_program_cache k1 = none := by rw [hprog]; rfl
  rw [OpenGLDevice.LookupProgramCache_of_none env k1 o1.lookup d hfind1] at hlookup1
  obtain ⟨it1, hcache1, hit1, hcount1, hv1⟩ :=
    OpenGLDevice.LookupProgramCacheMiss_entry env k1 o1.lookup d dl1 prog1 hlookup1 hfind1
  rw [hprog, List.nil_append] at hcache1
  rw [hvao] at hv1
  rw [if_neg hprog1] at hcount1
  have hvfind1 : mapFind dl1.m_vao_cache k1.va_key = none := by rw [hv1]; rfl
  have hvc1 := (OpenGLDevice.LookupVAOCache_entry k1.va_key o1.vao o1.vao_error dl1 hvao1).1
    hvfind1
  rw [hv1, List.nil_append] at hvc1
  have hpc1 := OpenGLDevice.LookupVAOCache_cache k1.va_key o1.vao o1.vao_error dl1
  have hd1p : d1.m_program_cache = [(k1, it1)] := by rw [hd1, hpc1, hcache1]
  have hd1v : d1.m_vao_cache = [(k1.va_key,
      { vao_id := (dl1.LookupVAOCache k1.va_key o1.vao o1.vao_error).1,
        reference_count := 1 })] := by rw [hd1, hvc1]
  have hfind2 : mapFind d1.m_program_cache k2 = none := by
    rw [hd1p]
    simp [mapFind, hne]
  rw [OpenGLDevice.LookupProgramCache_of_none env k2 o2.lookup d1 hfind2] at hlookup2
  obtain ⟨it2, hcache2, hit2, hcount2, hv2⟩ :=
    OpenGLDevice.LookupProgramCacheMiss_entry env k2 o2.lookup d1 dl2 prog2 hlookup2 hfind2
  rw [hd1p] at hcache2
  rw [hd1v] at hv2
  rw [if_neg hprog2] at hcount2
  have hvfind2 : mapFind dl2.m_vao_cache k2.va_key =
      some { vao_id := (dl1.LookupVAOCache k1.va_key o1.vao o1.vao_error).1,
             reference_count := 1 } := by
    rw [hv2, ← hva]
    simp [mapFind]
  have hvc2 := (OpenGLDevice.LookupVAOCache_entry k2.va_key o2.vao o2.vao_error dl2 hvao2).2
    _ hvfind2
  have hpc2 := OpenGLDevice.LookupVAOCache_cache k2.va_key o2.vao o2.vao_error dl2
  have hvid2 : (dl2.LookupVAOCache k2.va_key o2.vao o2.vao_error).1 =
      (dl1.LookupVAOCache k1.va_key o1.vao o1.vao_error).1 := by
    unfold OpenGLDevice.LookupVAOCache
    rw [hvfind2]
    rfl
  refine ⟨k1, k2, it1, it2, (dl1.LookupVAOCache k1.va_key o1.vao o1.vao_error).1,
    hkey1, hkey2, hne, hvseq, hva, by rw [hr1], by rw [hr2], by rw [hr1], ?_, ?_, ?_,
    ?_, ?_, hcount1, ?_, ?_, hcount2⟩
  · rw [hr2]
    exact hvid2
  · rw [hd2, hvc2, hv2, ← hva]
    simp [mapModify]
  · rw [hd2, hpc2, hcache2]
    rfl
  · rw [hit1, hr1]
  · rw [hit1]
    exact hprog1
  · rw [hit2, hr2]
  · rw [hit2]
    exact hprog2

/-- C21 at the open, empty sample device: programs 7 and 8 share vertex array 5 -/
theorem C21_shared_vertex_layout_witness :
    ∃ k1 k2 it1 it2 vao,
      GetProgramCacheKey (sampleConfig 1 [] 0) = some k1 ∧
      GetProgramCacheKey (sampleConfig 2 [] 0) = some k2 ∧ k1 ≠ k2 ∧
      k1.vs_key = k2.vs_key ∧ k1.va_key = k2.va_key ∧
      sampleFirstPipeline.m_key = k1 ∧ sampleSecondPipeline.m_key = k2 ∧
      sampleFirstPipeline.m_vao = vao ∧ sampleSecondPipeline.m_vao = vao ∧
      samplePairSecond.m_vao_cache = [(k1.va_key, { vao_id := vao, reference_count := 2 })] ∧
      samplePairSecond.m_program_cache = [(k1, it1), (k2, it2)] ∧
      it1.program_id = sampleFirstPipeline.m_program ∧ it1.program_id ≠ 0 ∧
      it1.reference_count = 1 ∧
      it2.program_id = sampleSecondPipeline.m_program ∧ it2.program_id ≠ 0 ∧
      it2.reference_count = 1 :=
  C21_shared_vertex_layout sampleEnvironment (sampleConfig 1 [] 0) (sampleConfig 2 [] 0)
    (samplePipelineOutcome 1) sampleSecondOutcome sampleDevice samplePairFirst samplePairSecond
    sampleFirstPipeline sampleSecondPipeline rfl rfl rfl rfl rfl (by decide) rfl rfl

/-! ## The locators of the stored blobs -/

theorem map_locatorOf_mapModify (m : List (ProgramCacheKey × ProgramCacheItem))
    (key : ProgramCacheKey) (f : ProgramCacheItem → ProgramCacheItem)
    (hf : ∀ k i, locatorOf (k, f i) = locatorOf (k, i)) :
    (mapModify m key f).map locatorOf = m.map locatorOf := by
  induction m with
  | nil => rfl
  | cons p rest ih =>
    obtain ⟨k, v⟩ := p
    unfold mapModify
    split
    · simp only [List.map_cons, hf]
    · simp only [List.map_cons, ih]

theorem LocatorsValid.mono {data_end data_end2 : Nat} {locs : List (Nat × Nat × Nat)}
    (h : LocatorsValid data_end locs) (hle : data_end ≤ data_end2) :
    LocatorsValid data_end2 locs :=
  ⟨fun l hl h0 => le_trans (h.1 l hl h0) hle, h.2⟩

theorem LocatorsValid.of_sublist {data_end : Nat} {locs sub : List (Nat × Nat × Nat)}
    (h : LocatorsValid data_end locs) (hs : sub.Sublist locs) : LocatorsValid data_end sub :=
  ⟨fun l hl h0 => h.1 l (hs.subset hl) h0, h.2.sublist hs⟩

theorem LocatorsValid.of_zero (data_end : Nat) (locs : List (Nat × Nat × Nat))
    (h : ∀ l ∈ locs, l.1 = 0) : LocatorsValid data_end locs := by
  refine ⟨fun l hl h0 => absurd (h l hl) h0, ?_⟩
  induction locs with
  | nil => exact List.Pairwise.nil
  | cons a rest ih =>
    refine List.Pairwise.cons (fun b _ ha _ => absurd (h a (List.mem_cons_self _ _)) ha)
      (ih (fun l hl => h l (List.mem_cons_of_mem _ hl)))

theorem LocatorsValid.append_new {data_end : Nat} {locs : List (Nat × Nat × Nat)}
    (h : LocatorsValid data_end locs) (new : Nat × Nat × Nat)
    (hnew : new.1 ≠ 0 → new.2.1 = data_end) :
    LocatorsValid (data_end + new.2.2) (locs ++ [new]) := by
  refine ⟨?_, ?_⟩
  · intro l hl h0
    rcases List.mem_append.mp hl with hl | hl
    · exact le_trans (h.1 l hl h0) (Nat.le_add_right _ _)
    · simp only [List.mem_singleton] at hl
      rw [hl] at h0 ⊢
      rw [hnew h0]
  · rw [List.pairwise_append]
    refine ⟨h.2, List.pairwise_singleton _ _, ?_⟩
    intro a ha b hb ha0 hb0
    simp only [List.mem_singleton] at hb
    rw [hb] at hb0 ⊢
    rw [hnew hb0]
    exact Or.inl (h.1 a ha ha0)

/-- The entry of a key is replaced by one whose blob starts at data_end -/
theorem LocatorsValid.replace (m : List (ProgramCacheKey × ProgramCacheItem))
    (key : ProgramCacheKey) (it2 : ProgramCacheItem) (data_end : Nat)
    (h : LocatorsValid data_end (m.map locatorOf))
    (hoff : it2.file_offset = data_end) :
    LocatorsValid (data_end + it2.file_compressed_size)
      ((mapModify m key (fun _ => it2)).map locatorOf) := by
  induction m with
  | nil => exact ⟨fun l hl => (by cases hl), List.Pairwise.nil⟩
  | cons p rest ih =>
    obtain ⟨k, v⟩ := p
    have hrest : LocatorsValid data_end (rest.map locatorOf) :=
      h.of_sublist (List.sublist_cons_self _ _)
    simp only [List.map_cons] at h
    unfold mapModify
    split
    · simp only [List.map_cons]
      refine ⟨?_, List.Pairwise.cons ?_ hrest.2⟩
      · intro l hl h0
        rcases List.mem_cons.mp hl with hl | hl
        · rw [hl]
          show it2.file_offset + it2.file_compressed_size ≤ _
          rw [hoff]
        · exact le_trans (hrest.1 l hl h0) (Nat.le_add_right _ _)
      · intro b hb _ hb0
        refine Or.inr ?_
        show _ ≤ it2.file_offset
        rw [hoff]
        exact hrest.1 b hb hb0
    · simp only [List.map_cons]
      obtain ⟨ih1, ih2⟩ := ih hrest
      refine ⟨?_, List.Pairwise.cons ?_ ih2⟩
      · intro l hl h0
        rcases List.mem_cons.mp hl with hl | hl
        · rw [hl]
          exact le_trans (h.1 _ (List.mem_cons_self _ _) (by rw [← hl]; exact h0))
            (Nat.le_add_right _ _)
        · exact ih1 l hl h0
      · intro b hb ha0 hb0
        simp only [List.mem_map] at hb
        obtain ⟨q, hq, hqb⟩ := hb
        rcases mem_mapModify _ _ _ _ hq with hq | ⟨w, _, hq⟩
        · have := (List.pairwise_cons.mp h.2).1 b (by rw [← hqb]; exact List.mem_map_of_mem _ hq)
          exact this ha0 hb0
        · refine Or.inl ?_
          rw [← hqb, hq]
          show _ ≤ it2.file_offset
          rw [hoff]
          exact h.1 _ (List.mem_cons_self _ _) ha0

theorem mapModify_self {K V : Type} [DecidableEq K] (m : List (K × V)) (key : K) (v : V)
    (h : mapFind m key = some v) : mapModify m key (fun _ => v) = m := by
  induction m with
  | nil => rfl
  | cons p rest ih =>
    obtain ⟨k, w⟩ := p
    unfold mapModify
    unfold mapFind at h
    split
    · rename_i hk
      rw [if_pos hk] at h
      simp only [Option.some.injEq] at h
      rw [h]
    · rename_i hk
      rw [if_neg hk] at h
      rw [ih h]

theorem LocatorsValid.of_mapEmplace (m : List (ProgramCacheKey × ProgramCacheItem))
    (key : ProgramCacheKey) (it : ProgramCacheItem) (data_end : Nat)
    (h : LocatorsValid data_end (m.map locatorOf))
    (hnew : it.file_uncompressed_size ≠ 0 → it.file_offset = data_end) :
    LocatorsValid (data_end + it.file_compressed_size)
      ((mapEmplace m key it).map locatorOf) := by
  unfold mapEmplace
  split
  · exact h.mono (Nat.le_add_right _ _)
  · rw [List.map_append]
    exact h.append_new (locatorOf (key, it)) hnew

/-- What AddToPipelineCache does to the item and to data_end when the blob ends below
2^32: nothing, or the item gets the locator of a blob at the old data_end -/
theorem OpenGLDevice.AddToPipelineCache_locator (env : Environment)
    (it it2 : ProgramCacheItem) (o : LookupOutcome) (d d2 : OpenGLDevice)
    (h : d.AddToPipelineCache env it o = some (it2, d2))
    (hfit : d.m_pipeline_disk_cache_data_end + (blobOf env o).length < 2 ^ 32) :
    d2.m_program_cache = d.m_program_cache ∧
    ((it2 = it ∧ d2.m_pipeline_disk_cache_data_end = d.m_pipeline_disk_cache_data_end) ∨
     (it2.file_offset = d.m_pipeline_disk_cache_data_end ∧
      d2.m_pipeline_disk_cache_data_end =
        d.m_pipeline_disk_cache_data_end + it2.file_compressed_size)) := by
  refine ⟨(OpenGLDevice.AddToPipelineCache_caches env it it2 o d d2 h).1, ?_⟩
  unfold OpenGLDevice.AddToPipelineCache at h
  split at h
  · simp only [Option.some.injEq, Prod.mk.injEq] at h
    exact Or.inl ⟨h.1.symm, by rw [← h.2]⟩
  · split at h
    · simp only [Option.some.injEq, Prod.mk.injEq] at h
      exact Or.inl ⟨h.1.symm, by rw [← h.2]⟩
    · split at h
      · simp only [Option.some.injEq, Prod.mk.injEq] at h
        exact Or.inl ⟨h.1.symm, by rw [← h.2]⟩
      · rename_i c hc
        have hb : blobOf env o = c := blobOf_eq env o c hc
        rw [hb] at hfit
        split at h
        · simp at h
        · simp only [Option.some.injEq, Prod.mk.injEq] at h
          refine Or.inr ?_
          rw [← h.1, ← h.2]
          refine ⟨rfl, ?_⟩
          show (d.m_pipeline_disk_cache_data_end + c.length % 2 ^ 32) % 2 ^ 32 =
            d.m_pipeline_disk_cache_data_end + c.length % 2 ^ 32
          omega

theorem OpenGLDevice.LookupProgramCacheMiss_locators (env : Environment)
    (key : ProgramCacheKey) (o : LookupOutcome) (d d2 : OpenGLDevice) (r : Nat)
    (h : d.LookupProgramCacheMiss env key o = some (r, d2))
    (hfit : d.m_pipeline_disk_cache_data_end + (blobOf env o).length < 2 ^ 32)
    (hi : d.LocatorInvariant) : d2.LocatorInvariant := by
  unfold OpenGLDevice.LookupProgramCacheMiss at h
  simp only [OpenGLDevice.CompileProgram_fst] at h
  split at h
  · split at h
    · simp at h
    · rename_i it2 d3 hadd
      obtain ⟨hcache, hloc⟩ := OpenGLDevice.AddToPipelineCache_locator env _ it2 o _ d3 hadd
        (by rw [OpenGLDevice.CompileProgram_data_end]; exact hfit)
      rw [OpenGLDevice.CompileProgram_program_cache] at hcache
      rw [OpenGLDevice.CompileProgram_data_end] at hloc
      simp only [Option.some.injEq, Prod.mk.injEq] at h
      rw [← h.2]
      unfold OpenGLDevice.LocatorInvariant at hi ⊢
      show LocatorsValid d3.m_pipeline_disk_cache_data_end
        ((mapEmplace d3.m_program_cache key
          { it2 with reference_count := it2.reference_count + 1 }).map locatorOf)
      rw [hcache]
      rcases hloc with ⟨h1, h2⟩ | ⟨h1, h2⟩
      · rw [h2, h1]
        exact LocatorsValid.of_mapEmplace _ key _ _ hi (fun h0 => absurd rfl h0)
      · rw [h2]
        exact LocatorsValid.of_mapEmplace _ key
          { it2 with reference_count := it2.reference_count + 1 } _ hi (fun _ => h1)
  · simp only [Option.some.injEq, Prod.mk.injEq] at h
    rw [← h.2]
    unfold OpenGLDevice.LocatorInvariant at hi ⊢
    show LocatorsValid (d.CompileProgram env o).2.m_pipeline_disk_cache_data_end
      ((mapEmplace (d.CompileProgram env o).2.m_program_cache key _).map locatorOf)
    rw [OpenGLDevice.CompileProgram_data_end, OpenGLDevice.CompileProgram_program_cache]
    exact LocatorsValid.of_mapEmplace _ key _ _ hi (fun h0 => absurd rfl h0)

theorem OpenGLDevice.LookupProgramCacheHit_locators (key : ProgramCacheKey)
    (d d2 : OpenGLDevice) (r : Nat) (h : d.LookupProgramCacheHit key = some (r, d2))
    (hi : d.LocatorInvariant) : d2.LocatorInvariant := by
  unfold OpenGLDevice.LookupProgramCacheHit at h
  split at h
  · simp at h
  · split at h
    · simp only [Option.some.injEq, Prod.mk.injEq] at h
      rw [← h.2]
      unfold OpenGLDevice.LocatorInvariant at hi ⊢
      show LocatorsValid _ ((mapModify d.m_program_cache key _).map locatorOf)
      rw [map_locatorOf_mapModify]
      · exact hi
      · intro _ _
        rfl
    · simp only [Option.some.injEq, Prod.mk.injEq] at h
      rw [← h.2]
      exact hi

theorem OpenGLDevice.DiscardPipelineCache_locators (b : Bool) (d : OpenGLDevice) :
    (d.DiscardPipelineCache b).2.LocatorInvariant := by
  unfold OpenGLDevice.LocatorInvariant
  rw [OpenGLDevice.DiscardPipelineCache_program_cache]
  apply LocatorsValid.of_zero
  intro l hl
  simp only [List.mem_map, List.mem_filterMap] at hl
  obtain ⟨q, ⟨p, _, hpq⟩, hql⟩ := hl
  unfold discardEntry at hpq
  split at hpq
  · simp only [Option.some.injEq] at hpq
    rw [← hql, ← hpq]
    rfl
  · cases hpq

theorem OpenGLDevice.LookupProgramCache_locators (env : Environment) (key : ProgramCacheKey)
    (o : LookupOutcome) (d d2 : OpenGLDevice) (r : Nat)
    (h : d.LookupProgramCache env key o = some (r, d2))
    (hfit : d.m_pipeline_disk_cache_data_end + (blobOf env o).length < 2 ^ 32)
    (hi : d.LocatorInvariant) : d2.LocatorInvariant := by
  unfold OpenGLDevice.LookupProgramCache at h
  split at h
  · split at h
    · split at h
      · simp at h
      · rename_i item hfind hcond _ prog d1 hcreate
        have hc := (OpenGLDevice.CreateProgramFromPipelineCache_caches env item o d d1 prog
          hcreate).1
        have hs := OpenGLDevice.CreateProgramFromPipelineCache_store env item o d d1 prog hcreate
        split at h
        · refine OpenGLDevice.LookupProgramCacheMiss_locators env key o _ d2 r h ?_
            (OpenGLDevice.DiscardPipelineCache_locators _ _)
          rw [OpenGLDevice.DiscardPipelineCache_cursor]
          omega
        · refine OpenGLDevice.LookupProgramCacheHit_locators key _ d2 r h ?_
          unfold OpenGLDevice.LocatorInvariant at hi ⊢
          show LocatorsValid d1.m_pipeline_disk_cache_data_end
            ((mapModify d1.m_program_cache key _).map locatorOf)
          rw [map_locatorOf_mapModify]
          · rw [hc, hs.2.1]
            exact hi
          · intro _ _
            rfl
    · exact OpenGLDevice.LookupProgramCacheHit_locators key d d2 r h hi
  · exact OpenGLDevice.LookupProgramCacheMiss_locators env key o d d2 r h hfit hi

theorem OpenGLDevice.UnrefProgram_locators (key : ProgramCacheKey) (d d2 : OpenGLDevice)
    (h : d.UnrefProgram key = some d2) (hi : d.LocatorInvariant) : d2.LocatorInvariant := by
  have hde := (OpenGLDevice.UnrefProgram_store key d d2 h).2.1
  unfold OpenGLDevice.LocatorInvariant at hi ⊢
  rw [hde]
  unfold OpenGLDevice.UnrefProgram at h
  split at h
  · simp at h
  · split at h
    · split at h
      · simp only [Option.some.injEq] at h
        rw [← h]
        show LocatorsValid _ ((mapModify d.m_program_cache key _).map locatorOf)
        rw [map_locatorOf_mapModify]
        · exact hi
        · intro _ _
          rfl
      · simp only [Option.some.injEq] at h
        rw [← h]
        show LocatorsValid _ ((mapModify _ key _).map locatorOf)
        rw [map_locatorOf_mapModify]
        · simp only [OpenGLDevice.record_program_cache]
          split <;> exact hi
        · intro _ _
          rfl
    · simp at h

/-- Every call on the program cache or the store keeps the invariant of the locators -/
theorem OpenGLDevice.StoreStep.locators (env : Environment) (d d2 : OpenGLDevice)
    (h : OpenGLDevice.StoreStep env d d2) (hi : d.LocatorInvariant) : d2.LocatorInvariant := by
  cases h with
  | LookupProgramCache key o r _ hfit hl =>
    exact OpenGLDevice.LookupProgramCache_locators env key o d d2 r hl hfit hi
  | UnrefProgram key _ hu => exact OpenGLDevice.UnrefProgram_locators key d d2 hu hi
  | AddToPipelineCache key o it it2 d3 hfit hfind _ _ hadd =>
    obtain ⟨hcache, hloc⟩ := OpenGLDevice.AddToPipelineCache_locator env it it2 o d d3 hadd hfit
    unfold OpenGLDevice.LocatorInvariant at hi ⊢
    show LocatorsValid d3.m_pipeline_disk_cache_data_end
      ((mapModify d3.m_program_cache key (fun _ => it2)).map locatorOf)
    rw [hcache]
    rcases hloc with ⟨h1, h2⟩ | ⟨h1, h2⟩
    · rw [h1, mapModify_self _ _ _ hfind, h2]
      exact hi
    · rw [h2]
      exact LocatorsValid.replace _ key it2 _ hi h1
  | DiscardPipelineCache reopen_ok => exact OpenGLDevice.DiscardPipelineCache_locators _ _

/-- A write at `pos`, inside the file, leaves every range that ends at or before `pos`
as it reads -/
theorem fread_fwrite_below (file data : List Byte) (pos off n : Nat)
    (hpos : pos ≤ file.length) (hle : off + n ≤ pos) :
    fread (fwrite file pos data) off n = fread file off n := by
  have htake : (fwrite file pos data).take (off + n) = file.take (off + n) := by
    rw [fwrite_eq, Nat.sub_eq_zero_of_le hpos, List.replicate_zero, List.append_nil,
      List.take_append_of_le_length (by rw [List.length_take]; omega), List.take_take]
    congr 1
    omega
  have hlen := length_fwrite file data pos
  unfold fread
  have hcond : (0 < n ∧ off + n ≤ (fwrite file pos data).length) ↔
      (0 < n ∧ off + n ≤ file.length) := by
    rw [hlen]
    constructor
    · rintro ⟨h1, _⟩
      exact ⟨h1, by omega⟩
    · rintro ⟨h1, _⟩
      exact ⟨h1, by omega⟩
  by_cases hc : 0 < n ∧ off + n ≤ file.length
  · rw [if_pos hc, if_pos (hcond.mpr hc)]
    congr 1
    have h1 : ∀ l : List Byte, (l.drop off).take n = (l.take (off + n)).drop off := by
      intro l
      rw [List.drop_take]
      congr 1
      omega
    rw [h1, h1, htake]
  · rw [if_neg hc, if_neg (fun hh => hc (hcond.mp hh))]

/-- C26: in every state reached from an empty or a discarded store by calls of
LookupProgramCache, UnrefProgram, AddToPipelineCache (on the entry of a program
without a blob) and DiscardPipelineCache, in which every blob appended ends below
2^32, every program cache entry with a non-zero locator has
file_offset + file_compressed_size <= data_end, and the byte ranges of two entries
with non-zero locators do not overlap. A blob written at data_end, inside the file,
therefore leaves the bytes of every stored blob as they read. -/
theorem C26_blobs_inside_and_apart (env : Environment) (d0 d : OpenGLDevice)
    (hstart : d0 = OpenGLDevice.empty ∨
      ∃ d1 b, d0 = (OpenGLDevice.DiscardPipelineCache b d1).2)
    (hrun : Relation.ReflTransGen (OpenGLDevice.StoreStep env) d0 d) :
    (∀ p ∈ d.m_program_cache, p.2.file_uncompressed_size ≠ 0 →
      p.2.file_offset + p.2.file_compressed_size ≤ d.m_pipeline_disk_cache_data_end) ∧
    d.m_program_cache.Pairwise (fun p q =>
      p.2.file_uncompressed_size ≠ 0 → q.2.file_uncompressed_size ≠ 0 →
        p.2.file_offset + p.2.file_compressed_size ≤ q.2.file_offset ∨
        q.2.file_offset + q.2.file_compressed_size ≤ p.2.file_offset) ∧
    (∀ file blob, d.m_pipeline_disk_cache_data_end ≤ file.length →
      ∀ p ∈ d.m_program_cache, p.2.file_uncompressed_size ≠ 0 →
        fread (fwrite file d.m_pipeline_disk_cache_data_end blob) p.2.file_offset
          p.2.file_compressed_size = fread file p.2.file_offset p.2.file_compressed_size) := by
  have hi0 : d0.LocatorInvariant := by
    rcases hstart with h | ⟨d1, b, h⟩
    · rw [h]
      exact ⟨fun l hl => (by cases hl), List.Pairwise.nil⟩
    · rw [h]
      exact OpenGLDevice.DiscardPipelineCache_locators b d1
  have hi : d.LocatorInvariant := by
    induction hrun with
    | refl => exact hi0
    | tail _ hstep ih => exact OpenGLDevice.StoreStep.locators env _ _ hstep ih
  have hinside : ∀ p ∈ d.m_program_cache, p.2.file_uncompressed_size ≠ 0 →
      p.2.file_offset + p.2.file_compressed_size ≤ d.m_pipeline_disk_cache_data_end :=
    fun p hp h0 => hi.1 (locatorOf p) (List.mem_map_of_mem _ hp) h0
  refine ⟨hinside, ?_, ?_⟩
  · exact (List.pairwise_map.mp hi.2)
  · intro file blob hpos p hp h0
    exact fread_fwrite_below file blob _ _ _ hpos (hinside p hp h0)

theorem sampleTwoBlobs_reachable :
    Relation.ReflTransGen (OpenGLDevice.StoreStep sampleEnvironment) sampleDevice
      sampleTwoBlobs :=
  Relation.ReflTransGen.tail
    (Relation.ReflTransGen.single
      (OpenGLDevice.StoreStep.LookupProgramCache sampleDevice (sampleKey 1)
        (sampleLookup 7 [1, 2]) 7 sampleAppendedDevice (by decide) rfl))
    (OpenGLDevice.StoreStep.LookupProgramCache sampleAppendedDevice (sampleKey 2)
      sampleSecondLookup 8 sampleTwoBlobs (by decide) rfl)

/-- C26 at the store into which the blobs of two programs were appended, of three and
of two bytes -/
theorem C26_blobs_inside_and_apart_witness :
    sampleTwoBlobs.m_program_cache.map locatorOf = [(2, 0, 3), (1, 3, 2)] ∧
    sampleTwoBlobs.m_pipeline_disk_cache_data_end = 5 ∧
    (∀ p ∈ sampleTwoBlobs.m_program_cache, p.2.file_uncompressed_size ≠ 0 →
      p.2.file_offset + p.2.file_compressed_size ≤
        sampleTwoBlobs.m_pipeline_disk_cache_data_end) ∧
    sampleTwoBlobs.m_program_cache.Pairwise (fun p q =>
      p.2.file_uncompressed_size ≠ 0 → q.2.file_uncompressed_size ≠ 0 →
        p.2.file_offset + p.2.file_compressed_size ≤ q.2.file_offset ∨
        q.2.file_offset + q.2.file_compressed_size ≤ p.2.file_offset) ∧
    (∀ file blob, sampleTwoBlobs.m_pipeline_disk_cache_data_end ≤ file.length →
      ∀ p ∈ sampleTwoBlobs.m_program_cache, p.2.file_uncompressed_size ≠ 0 →
        fread (fwrite file sampleTwoBlobs.m_pipeline_disk_cache_data_end blob) p.2.file_offset
          p.2.file_compressed_size = fread file p.2.file_offset p.2.file_compressed_size) :=
  ⟨rfl, rfl, C26_blobs_inside_and_apart sampleEnvironment sampleDevice sampleTwoBlobs
    (Or.inr ⟨OpenGLDevice.empty, true, rfl⟩) sampleTwoBlobs_reachable⟩
